import Mathlib

/-!
# BioCro canopy / soil core: a shallow embedding

The C++ sources compute with `double`.  Here a `double` is a value of `Dbl`:
an exact rational, one of the two infinities, or NaN.  Arithmetic follows
IEEE 754 on the special values (`x / 0`, `inf - inf`, `0 * inf`, comparisons
with NaN are false) and is exact on finite values: rounding, overflow and the
sign of zero are not modelled there.  Two results that rounding or underflow
decide are evaluated with them written out: `cos_zenith_angle_rn` rounds every
operation with `rn`, and `Ref.dpoisFlush` is a Poisson density that underflows
to 0.  The functions of the C math library and of R
that the sources call (`exp`, `pow`, `sqrt`, `acos`, `tan`, `dpois`, ...) are
parameters collected in `Libm`; the repository's `ball_berry` and `c4photoC`,
whose sources are not among the embedded files, are parameters of `c3photoC`
and of `EvapoTrans`.  A loop of the source is a recursive function over its
iteration count, and the variables that live across iterations are the fields
of a state record.  A call of R's `error`, which does not return, is the error
case of `Except`.
-/

namespace BioCro

/-! ## Numbers -/

/-- A `double` without rounding. -/
inductive Dbl where
  | fin (q : ℚ)
  | pinf
  | ninf
  | nan
deriving DecidableEq

namespace Dbl

/-- Unary minus. -/
def neg : Dbl → Dbl
  | fin q => fin (-q)
  | pinf => ninf
  | ninf => pinf
  | nan => nan

/-- Addition: opposite infinities give NaN. -/
def add : Dbl → Dbl → Dbl
  | fin a, fin b => fin (a + b)
  | fin _, pinf => pinf
  | fin _, ninf => ninf
  | pinf, fin _ => pinf
  | pinf, pinf => pinf
  | ninf, fin _ => ninf
  | ninf, ninf => ninf
  | _, _ => nan

/-- The infinity with the sign of `q`, NaN for `q = 0`. -/
def signedInf (q : ℚ) : Dbl :=
  if 0 < q then pinf else if q < 0 then ninf else nan

/-- Multiplication: `0 * inf` is NaN. -/
def mul : Dbl → Dbl → Dbl
  | fin a, fin b => fin (a * b)
  | fin a, pinf => signedInf a
  | fin a, ninf => signedInf (-a)
  | pinf, fin b => signedInf b
  | ninf, fin b => signedInf (-b)
  | pinf, pinf => pinf
  | ninf, ninf => pinf
  | pinf, ninf => ninf
  | ninf, pinf => ninf
  | _, _ => nan

/-- Division: a finite non-zero value over zero is an infinity with the sign of
the numerator (the zero is taken as `+0.0`), `0 / 0` and `inf / inf` are NaN,
a finite value over an infinity is zero. -/
def div : Dbl → Dbl → Dbl
  | fin a, fin b => if b = 0 then signedInf a else fin (a / b)
  | fin _, pinf => fin 0
  | fin _, ninf => fin 0
  | pinf, fin b => if 0 ≤ b then pinf else ninf
  | ninf, fin b => if 0 ≤ b then ninf else pinf
  | _, _ => nan

/-- The C comparison `x < y`; false as soon as one side is NaN. -/
def lt : Dbl → Dbl → Prop
  | fin a, fin b => a < b
  | fin _, pinf => True
  | ninf, fin _ => True
  | ninf, pinf => True
  | _, _ => False

/-- The C comparison `x <= y`; false as soon as one side is NaN. -/
def le : Dbl → Dbl → Prop
  | fin a, fin b => a ≤ b
  | fin _, pinf => True
  | ninf, fin _ => True
  | ninf, pinf => True
  | pinf, pinf => True
  | ninf, ninf => True
  | _, _ => False

instance : Neg Dbl := ⟨neg⟩
instance : Add Dbl := ⟨add⟩
instance : Sub Dbl := ⟨fun x y => add x (neg y)⟩
instance : Mul Dbl := ⟨mul⟩
instance : Div Dbl := ⟨div⟩
instance : LT Dbl := ⟨lt⟩
instance : LE Dbl := ⟨le⟩
instance (n : ℕ) : OfNat Dbl n := ⟨fin n⟩
instance : OfScientific Dbl := ⟨fun m s e => fin (OfScientific.ofScientific m s e)⟩
instance : Inhabited Dbl := ⟨fin 0⟩

instance decLt (x y : Dbl) : Decidable (x < y) := by
  cases x <;> cases y <;> simp only [LT.lt, lt] <;> infer_instance

instance decLe (x y : Dbl) : Decidable (x ≤ y) := by
  cases x <;> cases y <;> simp only [LE.le, le] <;> infer_instance

/-- The conversion of a C `int` to `double`. -/
def ofInt (n : ℤ) : Dbl := fin n

/-- The C function `fabs` (`abs` on a `double`). -/
def abs : Dbl → Dbl
  | fin q => fin |q|
  | pinf => pinf
  | ninf => pinf
  | nan => nan

/-- The C function `fmax`: when one argument is NaN the other is returned. -/
def fmax : Dbl → Dbl → Dbl
  | nan, y => y
  | x, nan => x
  | x, y => if x < y then y else x

/-- The C function `fmin`: when one argument is NaN the other is returned. -/
def fmin : Dbl → Dbl → Dbl
  | nan, y => y
  | x, nan => x
  | x, y => if y < x then y else x

/-- A value is finite when it is neither an infinity nor NaN. -/
def Finite : Dbl → Prop
  | fin _ => True
  | _ => False

instance decFinite (x : Dbl) : Decidable (Finite x) := by
  cases x <;> simp only [Finite] <;> infer_instance

end Dbl

open Dbl

/-- An array of `double` behind a C pointer: the value at each index. -/
abbrev Arr := ℕ → Dbl

/-- The array after the assignment `a[i] = v`. -/
def Arr.set (a : Arr) (i : ℕ) (v : Dbl) : Arr := fun j => if j = i then v else a j

/-- The functions the sources call but do not define: the C math library and
R's `dpois(x, lambda, 0)`. -/
structure Libm where
  exp : Dbl → Dbl
  log : Dbl → Dbl
  pow : Dbl → Dbl → Dbl
  sqrt : Dbl → Dbl
  sin : Dbl → Dbl
  cos : Dbl → Dbl
  tan : Dbl → Dbl
  acos : Dbl → Dbl
  dpois : Dbl → Dbl → Dbl

/-! ## Thermodynamic property functions (`AuxBioCro.cpp`) -/

/-- Function `TempToDdryA`. -/
def TempToDdryA (Temp : Dbl) : Dbl := 1.295163636 + -0.004258182 * Temp

/-- Function `TempToLHV`. -/
def TempToLHV (Temp : Dbl) : Dbl := 2.501 + -0.002372727 * Temp

/-- Function `TempToSFS`. -/
def TempToSFS (m : Libm) (Temp : Dbl) : Dbl :=
  0.338376068 + 0.011435897 * Temp + 0.001111111 * m.pow Temp 2

/-- Function `TempToSWVC`, the Arden Buck equation (hectopascal). -/
def TempToSWVC (m : Libm) (Temp : Dbl) : Dbl :=
  let a := (18.678 - Temp / 234.5) * Temp
  let b := 257.14 + Temp
  6.1121 * m.exp (a / b)

/-! ## Soil evaporation -/

/-- Function `SoilEvapo`; `method` is the local constant 1 (Penman-Monteith). -/
def SoilEvapo (m : Libm) (LAI k AirTemp IRad awc fieldc wiltp winds RelH rsec : Dbl) : Dbl :=
  let method : ℤ := 1
  let SoilClodSize : Dbl := 0.04
  let SoilReflectance : Dbl := 0.2
  let SoilTransmission : Dbl := 0.01
  let SpecificHeat : Dbl := 1010
  let StefanBoltzman : Dbl := 5.67e-8
  let cf2 : Dbl := 3600 * 1e-3 * 18 * 1e-6 * 10000
  let SoilArea := m.exp (-k * LAI)
  let SoilTemp := AirTemp
  let rawc := (awc - wiltp) / (fieldc - wiltp)
  let Up := 1 - m.pow (1 + 1.3 * rawc) (-5)
  let IRad := IRad * rsec
  let TotalRadiation := IRad * 0.235
  let DdryA := TempToDdryA AirTemp
  let LHV := TempToLHV AirTemp * 1e6
  let SlopeFS := TempToSFS m AirTemp * 1e-3
  let SWVC := TempToSWVC m AirTemp * 1e-3
  let PsycParam := (DdryA * SpecificHeat) / LHV
  let DeltaPVa := SWVC * (1 - RelH / 100)
  let BoundaryLayerThickness := 4e-3 * m.sqrt (SoilClodSize / winds)
  let DiffCoef := 2.126e-5 * 1.48e-7 * SoilTemp
  let SoilBoundaryLayer := DiffCoef / BoundaryLayerThickness
  let Ja := 2 * TotalRadiation * ((1 - SoilReflectance - SoilTransmission) / (1 - SoilTransmission))
  let rlc := 4 * StefanBoltzman * m.pow (273 + SoilTemp) 3 * 0.005
  let PhiN := Ja - rlc
  let PhiN := if PhiN < 0 then 1e-7 else PhiN
  let Evaporation :=
    if method = 0 then 1.26 * (SlopeFS * PhiN) / (LHV * (SlopeFS + PsycParam))
    else (SlopeFS * PhiN + LHV * PsycParam * SoilBoundaryLayer * DeltaPVa)
      / (LHV * (SlopeFS + PsycParam))
  let Evaporation := Evaporation * (1e6 / 18)
  let Evaporation := Evaporation * (SoilArea * Up * cf2)
  if Evaporation < 0 then 1e-6 else Evaporation

/-! ## Root distribution -/

/-- First loop of `rootDist`: the pair `(CumLayerDepth, CumRootDist)` after the
iterations `i = 0 .. n-1`. -/
def rootDistCum (rootDepth : Dbl) (depthsp : Arr) : ℕ → Dbl × Dbl
  | 0 => (0.0, 1.0)
  | n + 1 =>
    let st := rootDistCum rootDepth depthsp n
    let layerDepth := if n = 0 then depthsp 1 else depthsp n - depthsp (n - 1)
    let CumLayerDepth := st.1 + layerDepth
    (CumLayerDepth, if CumLayerDepth < rootDepth then st.2 + 1 else st.2)

/-- Second loop of `rootDist`, the entry written to the local `rootDist[j]`. -/
def rootDistRaw (m : Libm) (CumRootDist rfl : Dbl) (j : ℕ) : Dbl :=
  if ofInt j < CumRootDist then m.dpois (ofInt (j + 1)) (CumRootDist * rfl) else 0

/-- Second loop of `rootDist`, the accumulator `ca` after `j = 0 .. n-1`. -/
def rootDistCa (m : Libm) (CumRootDist rfl : Dbl) : ℕ → Dbl
  | 0 => 0.0
  | n + 1 =>
    let ca := rootDistCa m CumRootDist rfl n
    if ofInt n < CumRootDist then ca + m.dpois (ofInt (n + 1)) (CumRootDist * rfl) else ca

/-- Function `rootDist`: the field `rootDist` of the returned `rd_str`.  Entries at
`k ≥ layer` are not written by the source and are left at 0 here. -/
def rootDist (m : Libm) (layer : ℤ) (rootDepth : Dbl) (depthsp : Arr) (rfl : Dbl) : Arr :=
  let CumRootDist := (rootDistCum rootDepth depthsp layer.toNat).2
  let ca := rootDistCa m CumRootDist rfl layer.toNat
  fun k => if k < layer.toNat then rootDistRaw m CumRootDist rfl k / ca else 0

/-- The thickness `layerDepth` that the first loop of `rootDist` adds to
`CumLayerDepth` in iteration `i`. -/
def rootDist_layerDepth (depthsp : Arr) (i : ℕ) : Dbl :=
  if i = 0 then depthsp 1 else depthsp i - depthsp (i - 1)

/-! ## Multi-layer soil water (`soilML`) -/

/-- The `soilText_str` record of `AuxBioCro.h`. -/
structure soilText_str where
  silt : Dbl
  clay : Dbl
  sand : Dbl
  air_entry : Dbl
  b : Dbl
  Ks : Dbl
  satur : Dbl
  fieldc : Dbl
  wiltp : Dbl
  bulkd : Dbl

/-- The enumeration `SoilType` of `AuxBioCro.h`. -/
inductive SoilType where
  | sand | loamy_sand | sandy_loam | loam | silt_loam | sandy_clay_loam | clay_loam
  | silty_clay_loam | sandy_clay | silty_clay | clay
deriving DecidableEq

/-- The table `soil_parameters` of `AuxBioCro.h`. -/
def soil_parameters : SoilType → soilText_str
  | .sand => ⟨0.05, 0.03, 0.92, -0.7, 1.7, 5.8e-3, 0.87, 0.09, 0.03, 0.01⟩
  | .loamy_sand => ⟨0.12, 0.07, 0.81, -0.9, 2.1, 1.7e-3, 0.72, 0.13, 0.06, 1.55⟩
  | .sandy_loam => ⟨0.25, 0.10, 0.65, -1.5, 3.1, 7.2e-4, 0.57, 0.21, 0.10, 1.50⟩
  | .loam => ⟨0.40, 0.18, 0.42, -1.1, 4.5, 3.7e-4, 0.57, 0.27, 0.12, 1.43⟩
  | .silt_loam => ⟨0.65, 0.15, 0.20, -2.1, 4.7, 1.9e-4, 0.59, 0.33, 0.13, 1.36⟩
  | .sandy_clay_loam => ⟨0.13, 0.27, 0.60, -2.8, 4.0, 1.2e-4, 0.48, 0.26, 0.15, 1.39⟩
  | .clay_loam => ⟨0.34, 0.34, 0.32, -2.6, 5.2, 6.4e-5, 0.52, 0.32, 0.20, 1.35⟩
  | .silty_clay_loam => ⟨0.58, 0.33, 0.09, -3.3, 6.6, 4.2e-5, 0.52, 0.37, 0.21, 1.24⟩
  | .sandy_clay => ⟨0.07, 0.40, 0.53, -2.9, 6.0, 3.3e-5, 0.51, 0.34, 0.24, 1.30⟩
  | .silty_clay => ⟨0.45, 0.45, 0.10, -3.4, 7.9, 2.5e-5, 0.52, 0.39, 0.25, 1.28⟩
  | .clay => ⟨0.20, 0.60, 0.20, -3.7, 7.6, 1.7e-5, 0.53, 0.40, 0.27, 1.19⟩

/-- Function `soilTchoose(int soiltype)`, the lookup kept for backward
compatibility: every field is 0 for an index outside `0 .. 10`. -/
def soilTchoose (soiltype : ℤ) : soilText_str :=
  if soiltype = 0 then ⟨0.05, 0.03, 0.92, -0.7, 1.7, 5.8e-3, 0.87, 0.09, 0.03, 0.01⟩
  else if soiltype = 1 then ⟨0.12, 0.07, 0.81, -0.9, 2.1, 1.7e-3, 0.72, 0.13, 0.06, 1.55⟩
  else if soiltype = 2 then ⟨0.25, 0.10, 0.65, -1.5, 3.1, 7.2e-4, 0.57, 0.21, 0.10, 1.50⟩
  else if soiltype = 3 then ⟨0.40, 0.18, 0.52, -1.1, 4.5, 3.7e-4, 0.57, 0.27, 0.12, 1.43⟩
  else if soiltype = 4 then ⟨0.65, 0.15, 0.20, -2.1, 4.7, 1.9e-4, 0.59, 0.33, 0.13, 1.36⟩
  else if soiltype = 5 then ⟨0.13, 0.27, 0.60, -2.8, 4, 1.2e-4, 0.48, 0.26, 0.15, 1.39⟩
  else if soiltype = 6 then ⟨0.34, 0.34, 0.32, -2.6, 5.2, 6.4e-5, 0.52, 0.32, 0.20, 1.35⟩
  else if soiltype = 7 then ⟨0.58, 0.33, 0.09, -3.3, 6.6, 4.2e-5, 0.52, 0.37, 0.21, 1.24⟩
  else if soiltype = 8 then ⟨0.07, 0.40, 0.53, -2.9, 6, 3.3e-5, 0.51, 0.34, 0.24, 1.30⟩
  else if soiltype = 9 then ⟨0.45, 0.45, 0.10, -3.4, 7.9, 2.5e-5, 0.52, 0.39, 0.25, 1.28⟩
  else if soiltype = 10 then ⟨0.20, 0.60, 0.20, -3.7, 7.6, 1.7e-5, 0.53, 0.4, 0.27, 1.19⟩
  else ⟨0, 0, 0, 0, 0, 0, 0, 0, 0, 0.0⟩

/-- The fields of `soilML_str` that `soilML` assigns. -/
structure soilML_str where
  rcoefPhoto : Dbl
  rcoefSpleaf : Dbl
  cws : Arr
  drainage : Dbl
  Nleach : Dbl
  SoilEvapo : Dbl
  rootDist : Arr
  hourlyWflux : Arr

/-- The variables of `soilML` that live across iterations of its layer loop:
the caller's array `cws`, the carried locals, and the arrays of `tmp`. -/
structure SoilState where
  cws : Arr
  oldWaterIn : Dbl
  oldEvapoTra : Dbl
  drainage : Dbl
  J_w : Dbl
  Sevap : Dbl
  wsPhoto : Dbl
  wsSpleaf : Dbl
  wsPhotoCol : Dbl
  wsSpleafCol : Dbl
  tmp_cws : Arr
  tmp_rootDist : Arr
  tmp_hourlyWflux : Arr

/-- The state of `soilML` on entry to its layer loop. -/
def soilInit (cws : Arr) : SoilState where
  cws := cws
  oldWaterIn := 0.0
  oldEvapoTra := 0.0
  drainage := 0.0
  J_w := 0.0
  Sevap := 0.0
  wsPhoto := 0.0
  wsSpleaf := 0.0
  wsPhotoCol := 0.0
  wsSpleafCol := 0.0
  tmp_cws := fun _ => 0
  tmp_rootDist := fun _ => 0
  tmp_hourlyWflux := fun _ => 0

/-- One iteration of the layer loop of `soilML`, at layer index `i`.  `fieldc`
and `wiltp` are the values after the defaults of the soil type were applied,
`waterIn` is `precipit * 1e-3`, `root_distribution` the result of `rootDist`. -/
def soilStep (m : Libm) (transp : Dbl) (depths : Arr) (fieldc wiltp phi1 phi2 : Dbl)
    (soTexS : soilText_str) (wsFun layers : ℤ) (rootDB LAI k AirTemp IRad winds RelH : Dbl)
    (hydrDist : ℤ) (rsec : Dbl) (waterIn : Dbl) (root_distribution : Arr)
    (i : ℕ) (s : SoilState) : SoilState :=
  let g : Dbl := 9.8
  let theta_s := soTexS.satur
  let layerDepth := depths (i + 1) - depths i
  -- hydraulic redistribution
  let s1 : SoilState :=
    if 0 < hydrDist then
      let psim1 := soTexS.air_entry * m.pow (s.cws i / theta_s) (-soTexS.b)
      let dPsim :=
        if 0 < i then
          let psim2 := soTexS.air_entry * m.pow (s.cws (i - 1) / theta_s) (-soTexS.b)
          psim1 - psim2
        else 0
      let K_psim := soTexS.Ks * m.pow (soTexS.air_entry / psim1) (2 + 3 / soTexS.b)
      let J_w := K_psim * (dPsim / layerDepth) - g * K_psim
      let J_w := J_w * (3600 * 0.9882 * 1e-3)
      if (i : ℤ) = layers - 1 ∧ J_w < 0 then
        { s with J_w := J_w, drainage := s.drainage + J_w }
      else if 0 < i then
        let cws1 := s.cws.set i (s.cws i - J_w / layerDepth)
        let cws2 := cws1.set (i - 1) (cws1 (i - 1) + J_w / layerDepth)
        { s with J_w := J_w, cws := cws2 }
      else
        { s with J_w := J_w, cws := s.cws.set i (s.cws i - J_w / layerDepth) }
    else s
  let cws := if theta_s < s1.cws i then s1.cws.set i theta_s else s1.cws
  let cws := if cws i < wiltp then cws.set i wiltp else cws
  let aw := cws i * layerDepth
  -- infiltration
  let awIn := aw + (waterIn / ofInt layers + s1.oldWaterIn)
  let diffw := fieldc * layerDepth - awIn
  let aw := if 0 < waterIn then (if diffw < 0 then fieldc * layerDepth else awIn) else aw
  let oldWaterIn := if 0 < waterIn then (if diffw < 0 then -diffw else 0.0) else s1.oldWaterIn
  let rootATdepth := rootDB * root_distribution i
  let pawha := (aw - wiltp * layerDepth) * 1e4
  let pawha := if pawha < 0 then 0 else pawha
  -- demand
  let Sevap :=
    if i = 0 then SoilEvapo m LAI k AirTemp IRad (aw / layerDepth) fieldc wiltp winds RelH rsec
    else s1.Sevap
  let Ctransp := transp * root_distribution i
  let Newpawha :=
    if i = 0 then pawha - (Ctransp + Sevap) / 0.9982
    else pawha - (Ctransp + s1.oldEvapoTra)
  -- the source also assigns `aw = wiltp * layerDepth` here; `aw` is not read again
  let oldEvapoTra := if Newpawha < 0 then -Newpawha else s1.oldEvapoTra
  let awc := Newpawha / 1e4 / layerDepth + wiltp
  -- water stress
  let wsPhoto :=
    if wsFun = 0 then
      let slp := 1 / (fieldc - wiltp)
      let intcpt := 1 - fieldc * slp
      slp * awc + intcpt
    else if wsFun = 1 then
      let phi10 := (fieldc + wiltp) / 2
      1 / (1 + m.exp ((phi10 - awc) / phi1))
    else if wsFun = 2 then
      let slp := (1 - wiltp) / (fieldc - wiltp)
      let intcpt := 1 - fieldc * slp
      let theta := slp * awc + intcpt
      (1 - m.exp (-2.5 * (theta - wiltp) / (1 - wiltp))) / (1 - m.exp (-2.5))
    else if wsFun = 3 then 1
    else s1.wsPhoto
  let wsPhoto := if wsPhoto ≤ 0 then 1e-10 else wsPhoto
  let wsSpleaf := m.pow awc phi2 * 1 / m.pow fieldc phi2
  let wsSpleaf := if wsFun = 3 then 1 else wsSpleaf
  { cws := cws
    oldWaterIn := oldWaterIn
    oldEvapoTra := oldEvapoTra
    drainage := s1.drainage
    J_w := s1.J_w
    Sevap := Sevap
    wsPhoto := wsPhoto
    wsSpleaf := wsSpleaf
    wsPhotoCol := s1.wsPhotoCol + wsPhoto
    wsSpleafCol := s1.wsSpleafCol + wsSpleaf
    tmp_cws := s1.tmp_cws.set i awc
    tmp_rootDist := s1.tmp_rootDist.set i rootATdepth
    tmp_hourlyWflux := s1.tmp_hourlyWflux.set i s1.J_w }

/-- The layer loop of `soilML`, `for (i = n - 1; i >= 0; --i)`. -/
def soilLoop (step : ℕ → SoilState → SoilState) : ℕ → SoilState → SoilState
  | 0, s => s
  | n + 1, s => soilLoop step n (step n s)

/-- The state of `soilML` when its layer loop has finished. -/
def soilML_final (m : Libm) (precipit transp : Dbl) (cws : Arr) (soildepth : Dbl) (depths : Arr)
    (fieldc wiltp phi1 phi2 : Dbl) (soTexS : soilText_str) (wsFun layers : ℤ)
    (rootDB LAI k AirTemp IRad winds RelH : Dbl) (hydrDist : ℤ) (rfl rsec rsdf : Dbl) :
    SoilState :=
  let rootDepth := rootDB * rsdf
  let rootDepth := if soildepth < rootDepth then soildepth else rootDepth
  let root_distribution := rootDist m layers rootDepth depths rfl
  let fieldc := if fieldc < 0 then soTexS.fieldc else fieldc
  let wiltp := if wiltp < 0 then soTexS.wiltp else wiltp
  let waterIn := precipit * 1e-3
  soilLoop
    (soilStep m transp depths fieldc wiltp phi1 phi2 soTexS wsFun layers rootDB LAI k AirTemp
      IRad winds RelH hydrDist rsec waterIn root_distribution)
    layers.toNat (soilInit cws)

/-- Function `soilML`: the returned `soilML_str`. -/
def soilML (m : Libm) (precipit transp : Dbl) (cws : Arr) (soildepth : Dbl) (depths : Arr)
    (fieldc wiltp phi1 phi2 : Dbl) (soTexS : soilText_str) (wsFun layers : ℤ)
    (rootDB LAI k AirTemp IRad winds RelH : Dbl) (hydrDist : ℤ) (rfl rsec rsdf : Dbl) :
    soilML_str :=
  let s := soilML_final m precipit transp cws soildepth depths fieldc wiltp phi1 phi2 soTexS
    wsFun layers rootDB LAI k AirTemp IRad winds RelH hydrDist rfl rsec rsdf
  let waterIn := precipit * 1e-3
  let drainage := if 0 < waterIn then waterIn else s.drainage
  let Nleach : Dbl :=
    if 0 < waterIn then
      drainage * 0.1 * ofInt (1 / 24 * 30) / (18 * (0.2 + 0.7 * soTexS.sand))
    else 0.0
  -- the source caps the locals `wsPhoto` and `wsSpleaf` at 1 here; they are not read again
  { rcoefPhoto := s.wsPhotoCol / ofInt layers
    rcoefSpleaf := s.wsSpleafCol / ofInt layers
    cws := s.tmp_cws
    drainage := drainage
    Nleach := Nleach
    SoilEvapo := s.Sevap
    rootDist := s.tmp_rootDist
    hourlyWflux := s.tmp_hourlyWflux }

/-- Function `soilML`: the caller's array `cws` after the call (it is updated in place). -/
def soilML_cws (m : Libm) (precipit transp : Dbl) (cws : Arr) (soildepth : Dbl) (depths : Arr)
    (fieldc wiltp phi1 phi2 : Dbl) (soTexS : soilText_str) (wsFun layers : ℤ)
    (rootDB LAI k AirTemp IRad winds RelH : Dbl) (hydrDist : ℤ) (rfl rsec rsdf : Dbl) : Arr :=
  (soilML_final m precipit transp cws soildepth depths fieldc wiltp phi1 phi2 soTexS
    wsFun layers rootDB LAI k AirTemp IRad winds RelH hydrDist rfl rsec rsdf).cws

/-- The thickness `layerDepth` of layer `i` in the layer loop of `soilML`. -/
def soilML_layerDepth (depths : Arr) (i : ℕ) : Dbl := depths (i + 1) - depths i

/-! ## Dry biomass partitioning (`sel_dbp_coef`) -/

/-- The record `dbp_str` of `AuxBioCro.h`. -/
structure dbp_str where
  kLeaf : Dbl
  kStem : Dbl
  kRoot : Dbl
  kRhiz : Dbl
  kGrain : Dbl

/-- Function `sel_dbp_coef`.  Every field is first set to 0; a branch assigns
`kStem`, `kLeaf`, `kRoot`, `kRhiz`, and the last one `kGrain` as well. -/
def sel_dbp_coef (coefs TherPrds : Arr) (TherTime : Dbl) : dbp_str :=
  if TherTime < TherPrds 0 then
    { kStem := coefs 0, kLeaf := coefs 1, kRoot := coefs 2, kRhiz := coefs 3, kGrain := 0.0 }
  else if TherTime < TherPrds 1 then
    { kStem := coefs 4, kLeaf := coefs 5, kRoot := coefs 6, kRhiz := coefs 7, kGrain := 0.0 }
  else if TherTime < TherPrds 2 then
    { kStem := coefs 8, kLeaf := coefs 9, kRoot := coefs 10, kRhiz := coefs 11, kGrain := 0.0 }
  else if TherTime < TherPrds 3 then
    { kStem := coefs 12, kLeaf := coefs 13, kRoot := coefs 14, kRhiz := coefs 15, kGrain := 0.0 }
  else if TherTime < TherPrds 4 then
    { kStem := coefs 16, kLeaf := coefs 17, kRoot := coefs 18, kRhiz := coefs 19, kGrain := 0.0 }
  else
    { kStem := coefs 20, kLeaf := coefs 21, kRoot := coefs 22, kRhiz := coefs 23,
      kGrain := coefs 24 }

/-! ## Single-layer soil water (`watstr`) -/

/-- Structure `ws_str`. -/
structure ws_str where
  rcoefPhoto : Dbl
  rcoefSpleaf : Dbl
  awc : Dbl
  psim : Dbl
  runoff : Dbl
  Nleach : Dbl

/-- The local variables of `watstr` that later statements or the result read,
each with the value it has when `watstr` returns, except `awc_demand`: the
value of `awc` after the demand step, before the drainage step changes it. -/
structure WatstrLocals where
  fieldc : Dbl
  wiltp : Dbl
  theta_s : Dbl
  aw : Dbl
  runoff : Dbl
  Nleach : Dbl
  awc_demand : Dbl
  psim : Dbl
  drainage : Dbl
  awc : Dbl
  wsPhoto : Dbl
  wsSpleaf : Dbl

/-- The body of `watstr`. -/
def watstr_locals (m : Libm) (precipit evapo cws soildepth fieldc wiltp phi1 phi2 : Dbl)
    (soiltype wsFun : ℤ) : WatstrLocals :=
  let g : Dbl := 9.8
  let drainage : Dbl := 0.0
  let runoff : Dbl := 0.0
  let wsPhoto : Dbl := 0.0
  let Nleach : Dbl := 0.0
  let soTexS := soilTchoose soiltype
  let fieldc := if fieldc < 0 then soTexS.fieldc else fieldc
  let wiltp := if wiltp < 0 then soTexS.wiltp else wiltp
  let theta_s := soTexS.satur
  let precipM := precipit * 1e-3
  let aw := precipM + cws * soildepth
  let aw := aw / soildepth
  let runoff := if theta_s < aw then (aw - theta_s) * soildepth else runoff
  let Nleach := if theta_s < aw then runoff / 18 * (0.2 + 0.7 * soTexS.sand) else Nleach
  let aw := if theta_s < aw then theta_s else aw
  let pawha := (aw - wiltp) * soildepth * 1e4
  let Newpawha := pawha - evapo / 0.9982
  let npaw := Newpawha * 1e-4 / soildepth
  let npaw := if npaw < 0 then 0.0 else npaw
  let awc := npaw + wiltp
  let awc_demand := awc
  let psim := (-m.exp (m.log 0.033 + ((m.log fieldc - m.log awc) / (m.log fieldc - m.log wiltp)
    * (m.log 1.5 - m.log 0.033)))) * 1e3
  let K_psim := soTexS.Ks * m.pow (soTexS.air_entry / psim) (2 + 3 / soTexS.b)
  let J_w := (-K_psim) * ((-psim) / (soildepth * 0.5)) - g * K_psim
  let drainage := if fieldc < awc then J_w * 3600 * 0.9982 * 1e-3 else drainage
  let awc := if fieldc < awc then awc + drainage / soildepth else awc
  let wsPhoto :=
    if wsFun = 0 then
      let slp := 1 / (fieldc - wiltp)
      let intcpt := 1 - fieldc * slp
      slp * awc + intcpt
    else if wsFun = 1 then
      let phi10 := (fieldc + wiltp) / 2
      1 / (1 + m.exp ((phi10 - awc) / phi1))
    else if wsFun = 2 then
      let slp := (1 - wiltp) / (fieldc - wiltp)
      let intcpt := 1 - fieldc * slp
      let theta := slp * awc + intcpt
      (1 - m.exp (-2.5 * (theta - wiltp) / (1 - wiltp))) / (1 - m.exp (-2.5))
    else if wsFun = 3 then 1
    else wsPhoto
  let wsPhoto := if wsPhoto ≤ 0 then 1e-10 else wsPhoto
  let wsSpleaf := m.pow awc phi2 * 1 / m.pow fieldc phi2
  let wsSpleaf := if wsFun = 3 then 1 else wsSpleaf
  let wsPhoto := if 1 < wsPhoto then 1 else wsPhoto
  let wsSpleaf := if 1 < wsSpleaf then 1 else wsSpleaf
  { fieldc := fieldc
    wiltp := wiltp
    theta_s := theta_s
    aw := aw
    runoff := runoff
    Nleach := Nleach
    awc_demand := awc_demand
    psim := psim
    drainage := drainage
    awc := awc
    wsPhoto := wsPhoto
    wsSpleaf := wsSpleaf }

/-- Function `watstr`: the returned `ws_str`. -/
def watstr (m : Libm) (precipit evapo cws soildepth fieldc wiltp phi1 phi2 : Dbl)
    (soiltype wsFun : ℤ) : ws_str :=
  let l := watstr_locals m precipit evapo cws soildepth fieldc wiltp phi1 phi2 soiltype wsFun
  { rcoefPhoto := l.wsPhoto
    rcoefSpleaf := l.wsSpleaf
    awc := l.awc
    psim := l.psim
    runoff := l.runoff
    Nleach := l.Nleach }

/-! ## Solar position and light macro environment (`cos_zenith_angle`, `lightME`) -/

/-- The constant `M_PI` of `math.h`. -/
def M_PI : Dbl := 3.14159265358979323846

/-- Function `cos_zenith_angle`. -/
def cos_zenith_angle (m : Libm) (latitude : Dbl) (day_of_year hour_of_day : ℤ) : Dbl :=
  let RADIANS_PER_DEGREE := M_PI / 180
  let SOLAR_NOON : ℤ := 12
  let RADIANS_ROTATION_PER_HOUR := 15 * RADIANS_PER_DEGREE
  let AXIAL_TILT := 23.5 * RADIANS_PER_DEGREE
  let phi := latitude * RADIANS_PER_DEGREE
  let NDS : ℤ := day_of_year + 10
  let omega := 360.0 * (ofInt NDS / 365.0) * RADIANS_PER_DEGREE
  let delta := (-AXIAL_TILT) * m.cos omega
  let tau := ofInt (hour_of_day - SOLAR_NOON) * RADIANS_ROTATION_PER_HOUR
  m.sin delta * m.sin phi + m.cos delta * m.cos phi * m.cos tau

/-- Structure `Light_model`. -/
structure Light_model where
  direct_irradiance_fraction : Dbl
  diffuse_irradiance_fraction : Dbl
  cosine_zenith_angle : Dbl

/-- Function `lightME`. -/
def lightME (m : Libm) (latitude : Dbl) (day_of_year hour_of_day : ℤ) : Light_model :=
  let cosine_zenith_angle := cos_zenith_angle m latitude day_of_year hour_of_day
  let atmospheric_transmittance : Dbl := 0.85
  let atmospheric_pressure_at_sea_level : Dbl := 1e5
  let local_atmospheric_pressure : Dbl := 1e5
  let pressure_ratio := local_atmospheric_pressure / atmospheric_pressure_at_sea_level
  let proportion_of_irradiance_scattered : Dbl := 0.3
  let direct_irradiance_transmittance :=
    if cosine_zenith_angle ≤ 0 then 0
    else m.pow atmospheric_transmittance (pressure_ratio / cosine_zenith_angle)
  let diffuse_irradiance_transmittance :=
    if cosine_zenith_angle ≤ 0 then 1
    else proportion_of_irradiance_scattered * (1 - direct_irradiance_transmittance)
      * cosine_zenith_angle
  { direct_irradiance_fraction := direct_irradiance_transmittance
      / (direct_irradiance_transmittance + diffuse_irradiance_transmittance)
    diffuse_irradiance_fraction := diffuse_irradiance_transmittance
      / (direct_irradiance_transmittance + diffuse_irradiance_transmittance)
    cosine_zenith_angle := cosine_zenith_angle }

/-! ## Relative humidity profile (`RHprof`) -/

/-- The loop of `RHprof`: the array `relative_humidity_profile` after the
iterations `i = 0 .. n-1`. -/
def RHprofLoop (m : Libm) (RH : Dbl) (nlayers : ℤ) : ℕ → Arr → Arr
  | 0, relative_humidity_profile => relative_humidity_profile
  | n + 1, relative_humidity_profile =>
    let kh := 1 - RH
    let i := n
    let j := ofInt (i + 1)
    let temp_rh := RH * m.exp (kh * (j / ofInt nlayers))
    (RHprofLoop m RH nlayers n relative_humidity_profile).set i temp_rh

/-- Function `RHprof`: the array `relative_humidity_profile` after the call. -/
def RHprof (m : Libm) (RH : Dbl) (nlayers : ℤ) (relative_humidity_profile : Arr) : Arr :=
  RHprofLoop m RH nlayers nlayers.toNat relative_humidity_profile

/-! ## Canopy light profile (`sunML`) -/

/-- The compile-time constant `MAXLAY` of `AuxBioCro.h`. -/
def MAXLAY : ℤ := 200

/-- The record `Light_profile` of `AuxBioCro.h`. -/
structure Light_profile where
  direct_irradiance : Arr
  diffuse_irradiance : Arr
  total_irradiance : Arr
  sunlit_fraction : Arr
  shaded_fraction : Arr
  height : Arr

/-- The extinction coefficient `k` that `sunML` computes before its loop. -/
def sunML_k (m : Libm) (cosTheta chil : Dbl) : Dbl :=
  let theta := m.acos cosTheta
  let k0 := m.sqrt (m.pow chil 2 + m.pow (m.tan theta) 2)
  let k1 := chil + 1.744 * m.pow (chil + 1.183) (-0.733)
  if 0 < k1 then k0 / k1 else -k0 / k1

/-- The six values the body of the loop of `sunML` computes for one layer. -/
structure LayerLight where
  direct_irradiance : Dbl
  diffuse_irradiance : Dbl
  total_irradiance : Dbl
  sunlit_fraction : Dbl
  shaded_fraction : Dbl
  height : Dbl

/-- The body of the loop of `sunML` at layer `i`, up to the six assignments. -/
def sunMLLayer (m : Libm) (Idir Idiff LAI : Dbl) (nlayers : ℤ) (cosTheta kd heightf k : Dbl)
    (i : ℕ) : LayerLight :=
  let alphascatter : Dbl := 0.8
  let LAIi := LAI / ofInt nlayers
  let CumLAI := LAIi * (ofInt i + 0.5)
  let Ibeam := Idir * cosTheta
  let Iscat := Ibeam * m.exp (-k * m.sqrt alphascatter * CumLAI) - Ibeam * m.exp (-k * CumLAI)
  let Isolar := Ibeam * k
  let Idiffuse := Idiff * m.exp (-kd * CumLAI) + Iscat
  let Ls := (1 - m.exp (-k * LAIi)) * m.exp (-k * CumLAI) / k
  let Ld := LAIi - Ls
  let Fsun := Ls / (Ls + Ld)
  let Fshade := Ld / (Ls + Ld)
  let Iaverage := (Fsun * (Isolar + Idiffuse) + Fshade * Idiffuse) * (1 - m.exp (-k * LAIi)) / k
  { direct_irradiance := Isolar + Idiffuse
    diffuse_irradiance := Idiffuse
    total_irradiance := Iaverage
    sunlit_fraction := Fsun
    shaded_fraction := Fshade
    height := (LAI - CumLAI) / heightf }

/-- The body of the loop of `sunML` at layer `i`: the profile after the six
assignments to index `i`. -/
def sunMLStep (m : Libm) (Idir Idiff LAI : Dbl) (nlayers : ℤ) (cosTheta kd heightf k : Dbl)
    (i : ℕ) (light_profile : Light_profile) : Light_profile :=
  let v := sunMLLayer m Idir Idiff LAI nlayers cosTheta kd heightf k i
  { direct_irradiance := light_profile.direct_irradiance.set i v.direct_irradiance
    diffuse_irradiance := light_profile.diffuse_irradiance.set i v.diffuse_irradiance
    total_irradiance := light_profile.total_irradiance.set i v.total_irradiance
    sunlit_fraction := light_profile.sunlit_fraction.set i v.sunlit_fraction
    shaded_fraction := light_profile.shaded_fraction.set i v.shaded_fraction
    height := light_profile.height.set i v.height }

/-- The loop `for (i = 0; i < n; i++)` of `sunML`. -/
def sunMLLoop (step : ℕ → Light_profile → Light_profile) : ℕ → Light_profile → Light_profile
  | 0, p => p
  | n + 1, p => step n (sunMLLoop step n p)

/-- A `Light_profile` before any entry is written (entries read as 0). -/
def Light_profile.blank : Light_profile where
  direct_irradiance := fun _ => 0
  diffuse_irradiance := fun _ => 0
  total_irradiance := fun _ => 0
  sunlit_fraction := fun _ => 0
  shaded_fraction := fun _ => 0
  height := fun _ => 0

/-- The C++ exceptions the embedded functions throw, with their message. -/
inductive Exception where
  | out_of_range (what : String)
deriving DecidableEq

/-- Function `sunML`.  A `throw` is `Except.error`. -/
def sunML (m : Libm) (Idir Idiff LAI : Dbl) (nlayers : ℤ) (cosTheta kd chil heightf : Dbl) :
    Except Exception Light_profile :=
  if nlayers < 1 ∨ MAXLAY < nlayers then
    Except.error (Exception.out_of_range "nlayers must be at least 1 but no more than 200")
  else if 1 < cosTheta ∨ cosTheta ≤ 0 then
    Except.error (Exception.out_of_range "cosTheta must be positive but no more than 1.")
  else
    let k := sunML_k m cosTheta chil
    Except.ok (sunMLLoop (sunMLStep m Idir Idiff LAI nlayers cosTheta kd heightf k)
      nlayers.toNat Light_profile.blank)

/-! ## C3 photosynthesis (`c3photo.cpp`) -/

/-- Function `arrhenius_exponent`. -/
def arrhenius_exponent (m : Libm) (c activation_energy temperature : Dbl) : Dbl :=
  let R : Dbl := 8.314472
  m.exp (c - activation_energy / (R * temperature))

/-- Function `solo`. -/
def solo (m : Libm) (LeafT : Dbl) : Dbl :=
  if 24 < LeafT ∧ LeafT < 26 then 1
  else (0.047 - 0.0013087 * LeafT + 2.5603e-05 * m.pow LeafT 2 - 2.1441e-07 * m.pow LeafT 3)
    / 0.026934

/-- The record `c3_str` returned by `c3photoC`. -/
structure c3_str where
  Assim : Dbl
  Gs : Dbl
  Ci : Dbl
  GrossAssim : Dbl

/-- The quantities `c3photoC` fixes before its loop. -/
structure C3Env where
  Vcmax : Dbl
  Rd : Dbl
  Kc : Dbl
  Ko : Dbl
  Gstar : Dbl
  J : Dbl
  Oi : Dbl
  Ca : Dbl
  Ca_pa : Dbl
  RH : Dbl
  bb0 : Dbl
  bb1 : Dbl
  StomWS : Dbl
  water_stress_approach : ℤ
  electrons_per_carboxylation : Dbl
  electrons_per_oxygenation : Dbl

/-- The variables of `c3photoC` that live across iterations of its loop.  A
default-constructed `quantity` holds 0. -/
structure C3State where
  Ci_pa : Dbl
  Vc : Dbl
  Gs : Dbl
  co2_assimilation_rate : Dbl
  Ci : Dbl
  iterCounter : ℕ

/-- Constant `atmospheric_pressure` in `c3photoC` (Pa). -/
def atmospheric_pressure : Dbl := 101325

/-- Constant `maximum_tpu_rate` in `c3photoC`. -/
def maximum_tpu_rate : Dbl := 23 * 1e-6

/-- Constant `Tol` in `c3photoC`. -/
def Tol : Dbl := 0.01 * 1e-6

/-- The `if / else if / else if` chain of `c3photoC` that assigns `Vc`. -/
def selectVc (Vc Ac Aj Ap : Dbl) : Dbl :=
  if Ac < Aj ∧ Ac < Ap then Ac
  else if Aj < Ac ∧ Aj < Ap then Aj
  else if Ap < Ac ∧ Ap < Aj then (if Ap < 0 then 0 else Ap)
  else Vc

/-- The statements of `c3photoC` that turn the value of `ball_berry` (times
`1e-3`) into `Gs`. -/
def adjustGs (water_stress_approach : ℤ) (StomWS Gs : Dbl) : Dbl :=
  let Gs := if water_stress_approach = 1 then Gs * StomWS else Gs
  let Gs := if Gs ≤ 0 then 1e-5 * 1e-3 else Gs
  if 800 * 1e-3 < Gs then 800 * 1e-3 else Gs

/-- The Rubisco-limited rate `Ac` of an iteration of `c3photoC`. -/
def c3Ac (e : C3Env) (Ci : Dbl) : Dbl :=
  let Ac1 := e.Vcmax * (Ci - e.Gstar)
  let Ac2 := Ci + e.Kc * (1 + e.Oi / e.Ko)
  Ac1 / Ac2

/-- The light-limited rate `Aj` of an iteration of `c3photoC`, after its floor
at 0. -/
def c3Aj (e : C3Env) (Ci : Dbl) : Dbl :=
  let Aj1 := e.J * (Ci - e.Gstar)
  let Aj2 := e.electrons_per_carboxylation * Ci + 2 * e.electrons_per_oxygenation * e.Gstar
  let Aj := Aj1 / Aj2
  if Aj < 0.0 then 0.0 else Aj

/-- The TPU-limited rate `Ap` of an iteration of `c3photoC`, as first assigned. -/
def c3Ap (e : C3Env) (Ci : Dbl) : Dbl :=
  3.0 * maximum_tpu_rate / (1 - e.Gstar / Ci)

/-- The value of `Ci_pa` at the end of an iteration, from the value `x` of the
diffusion relation `Ca_pa - co2_assimilation_rate * 1.6 * atmospheric_pressure / Gs`. -/
def floorCi_pa (x : Dbl) : Dbl := if x < 0 then 1e-5 else x

/-- The body of the loop of `c3photoC` up to the convergence test. -/
def c3Step (ball_berry : Dbl → Dbl → Dbl → Dbl → Dbl → Dbl) (e : C3Env) (s : C3State) :
    C3State :=
  let Ci := s.Ci_pa / atmospheric_pressure
  let Ac := c3Ac e Ci
  let Aj := c3Aj e Ci
  let Ap := c3Ap e Ci
  let Vc := selectVc s.Vc Ac Aj Ap
  let co2_assimilation_rate := Vc - e.Rd
  let co2_assimilation_rate :=
    if e.water_stress_approach = 0 then co2_assimilation_rate * e.StomWS
    else co2_assimilation_rate
  let Gs := ball_berry co2_assimilation_rate (e.Ca * 1e-6) e.RH e.bb0 e.bb1 * 1e-3
  let Gs := adjustGs e.water_stress_approach e.StomWS Gs
  let Ci_pa := floorCi_pa (e.Ca_pa - co2_assimilation_rate * 1.6 * atmospheric_pressure / Gs)
  { Ci_pa := Ci_pa
    Vc := Vc
    Gs := Gs
    co2_assimilation_rate := co2_assimilation_rate
    Ci := Ci
    iterCounter := s.iterCounter }

/-- The loop `while (iterCounter < 50)` of `c3photoC`; the first argument is
the number of iterations left before `iterCounter` reaches 50. -/
def c3Loop (ball_berry : Dbl → Dbl → Dbl → Dbl → Dbl → Dbl) (e : C3Env) :
    ℕ → C3State → C3State
  | 0, s => s
  | n + 1, s =>
    let OldAssim := s.co2_assimilation_rate
    let s1 := c3Step ball_berry e s
    if Dbl.abs (OldAssim - s1.co2_assimilation_rate) < Tol then s1
    else c3Loop ball_berry e n { s1 with iterCounter := s1.iterCounter + 1 }

/-- The part of `c3photoC` before its loop. -/
def c3Env (m : Libm) (_Qp _Tleaf RH _Vcmax0 _Jmax _Rd0 bb0 bb1 Ca _O2 thet StomWS : Dbl)
    (water_stress_approach : ℤ)
    (electrons_per_carboxylation electrons_per_oxygenation : Dbl) : C3Env :=
  let Rd0 := _Rd0 * 1e-6
  let Vcmax0 := _Vcmax0 * 1e-6
  let atmospheric_oxygen_mole_fraction := _O2 * 1e-3
  let Jmax := _Jmax * 1e-6
  let leaf_temperature := _Tleaf + 273.15
  let Qp := _Qp * 1e-6
  let leaf_reflectance : Dbl := 0.2
  let Kc := 1e-6 * arrhenius_exponent m 38.05 79.43e3 leaf_temperature
  let Ko := 1e-3 * arrhenius_exponent m 20.30 36.38e3 leaf_temperature
  let Gstar := 1e-6 * arrhenius_exponent m 19.02 37.83e3 leaf_temperature
  let Vcmax := Vcmax0 * arrhenius_exponent m 26.35 65.33e3 leaf_temperature
  let Rd := Rd0 * arrhenius_exponent m 18.72 46.39e3 leaf_temperature
  let leaf_temperature_celsius := leaf_temperature - 273.15
  let theta := thet + 0.018 * leaf_temperature_celsius
    - 3.7e-4 * m.pow leaf_temperature_celsius 2
  let FEII := 0.352 + 0.022 * leaf_temperature_celsius
    - 3.4 * m.pow leaf_temperature_celsius 2 / 10000
  let I2 := Qp * FEII * (1.0 - leaf_reflectance) / 2.0
  let J := (Jmax + I2 - m.sqrt ((Jmax + I2) * (Jmax + I2) - 4.0 * theta * I2 * Jmax))
    / (2.0 * theta)
  let Oi := atmospheric_oxygen_mole_fraction * solo m leaf_temperature_celsius
  let Ca := if Ca ≤ 0 then 1e-4 else Ca
  let Ca_pa := Ca * 1e-6 * atmospheric_pressure
  { Vcmax := Vcmax
    Rd := Rd
    Kc := Kc
    Ko := Ko
    Gstar := Gstar
    J := J
    Oi := Oi
    Ca := Ca
    Ca_pa := Ca_pa
    RH := RH
    bb0 := bb0
    bb1 := bb1
    StomWS := StomWS
    water_stress_approach := water_stress_approach
    electrons_per_carboxylation := electrons_per_carboxylation
    electrons_per_oxygenation := electrons_per_oxygenation }

/-- The state of `c3photoC` on entry to its loop. -/
def c3Init : C3State where
  Ci_pa := 0.0
  Vc := 0
  Gs := 0
  co2_assimilation_rate := 0
  Ci := 0
  iterCounter := 0

/-- The state of `c3photoC` when its loop has finished. -/
def c3Final (m : Libm) (ball_berry : Dbl → Dbl → Dbl → Dbl → Dbl → Dbl)
    (_Qp _Tleaf RH _Vcmax0 _Jmax _Rd0 bb0 bb1 Ca _O2 thet StomWS : Dbl)
    (water_stress_approach : ℤ)
    (electrons_per_carboxylation electrons_per_oxygenation : Dbl) : C3State :=
  c3Loop ball_berry
    (c3Env m _Qp _Tleaf RH _Vcmax0 _Jmax _Rd0 bb0 bb1 Ca _O2 thet StomWS water_stress_approach
      electrons_per_carboxylation electrons_per_oxygenation)
    50 c3Init

/-- Function `c3photoC`.  `ball_berry` (declared in `ball_berry.h`) is a parameter. -/
def c3photoC (m : Libm) (ball_berry : Dbl → Dbl → Dbl → Dbl → Dbl → Dbl)
    (_Qp _Tleaf RH _Vcmax0 _Jmax _Rd0 bb0 bb1 Ca _O2 thet StomWS : Dbl)
    (water_stress_approach : ℤ)
    (electrons_per_carboxylation electrons_per_oxygenation : Dbl) : c3_str :=
  let e := c3Env m _Qp _Tleaf RH _Vcmax0 _Jmax _Rd0 bb0 bb1 Ca _O2 thet StomWS
    water_stress_approach electrons_per_carboxylation electrons_per_oxygenation
  let s := c3Loop ball_berry e 50 c3Init
  { Assim := s.co2_assimilation_rate * 1e6
    Gs := s.Gs * 1e3
    Ci := s.Ci * 1e6
    GrossAssim := (s.co2_assimilation_rate + e.Rd) * 1e6 }

/-- The state of `c3photoC` at the top of its loop when `k` iterations have
run and none of them has left through `break`. -/
def c3After (ball_berry : Dbl → Dbl → Dbl → Dbl → Dbl → Dbl) (e : C3Env) : ℕ → C3State
  | 0 => c3Init
  | k + 1 =>
    let s1 := c3Step ball_berry e (c3After ball_berry e k)
    { s1 with iterCounter := s1.iterCounter + 1 }

/-- The test `abs(OldAssim - co2_assimilation_rate) < Tol` of `c3photoC` in the
iteration that follows `k` iterations without `break`. -/
def c3Converged (ball_berry : Dbl → Dbl → Dbl → Dbl → Dbl → Dbl) (e : C3Env) (k : ℕ) : Prop :=
  Dbl.abs ((c3After ball_berry e k).co2_assimilation_rate
    - (c3Step ball_berry e (c3After ball_berry e k)).co2_assimilation_rate) < Tol

instance (ball_berry : Dbl → Dbl → Dbl → Dbl → Dbl → Dbl) (e : C3Env) (k : ℕ) :
    Decidable (c3Converged ball_berry e k) := by
  unfold c3Converged; infer_instance

/-! ## Leaf energy balance (`EvapoTrans`, `EvapoTrans2`, `leafboundarylayer`) -/

/-- R's `error(...)`: the call does not return to the function that makes it. -/
inductive RError where
  | error (message : String)
deriving DecidableEq

/-- Structure `ET_Str`. -/
structure ET_Str where
  TransR : Dbl
  EPenman : Dbl
  EPriestly : Dbl
  Deltat : Dbl
  LayerCond : Dbl

/-- A loop `while (cond) body` (or `for (; cond; ) body` with the increment
at the end of `body`); the first argument bounds the number of iterations. -/
def whileLoop {σ : Type} (cond : σ → Bool) (body : σ → σ) : ℕ → σ → σ
  | 0, s => s
  | n + 1, s => if cond s then whileLoop cond body n (body s) else s

/-- The aerodynamic conductance `ga` of `EvapoTrans`, from the wind speed and
the canopy height after their floors. -/
def EvapoTrans_ga (m : Libm) (WindSpeed CanopyHeight : Dbl) : Dbl :=
  let kappa : Dbl := 0.41
  let WindSpeedHeight : Dbl := 5
  let dCoef : Dbl := 0.77
  let ZetaCoef : Dbl := 0.026
  let ZetaMCoef : Dbl := 0.13
  let LayerWindSpeed := WindSpeed
  let Zeta := ZetaCoef * CanopyHeight
  let Zetam := ZetaMCoef * CanopyHeight
  let d := dCoef * CanopyHeight
  let ga0 := m.pow kappa 2 * LayerWindSpeed
  let ga1 := m.log ((WindSpeedHeight + Zeta - d) / Zeta)
  let ga2 := m.log ((WindSpeedHeight + Zetam - d) / Zetam)
  ga0 / (ga1 * ga2)

/-- The quantities `EvapoTrans` computes before its loop and reads afterwards. -/
structure ETEnv where
  airTemp : Dbl
  LHV : Dbl
  SlopeFS : Dbl
  LayerRelativeHumidity : Dbl
  SWVC : Dbl
  LayerConductance_in_m_per_s : Dbl
  DeltaPVa : Dbl
  PsycParam : Dbl
  Ja : Dbl
  ga : Dbl

/-- The part of `EvapoTrans` before its loop, without the three `error` checks.
`c4photoC_Gs` stands for the field `Gs` of the value of `c4photoC` (declared in
`c4photo.h`, whose source is not among the embedded files). -/
def EvapoTrans_env (m : Libm)
    (c4photoC_Gs : Dbl → Dbl → Dbl → Dbl → Dbl → Dbl → Dbl → Dbl → Dbl → Dbl → Dbl → Dbl → Dbl →
      ℤ → Dbl → Dbl → Dbl)
    (Rad Itot airTemp RH WindSpeed LeafAreaIndex CanopyHeight StomataWS : Dbl) (ws : ℤ)
    (vmax2 alpha2 kparm theta beta Rd2 b02 b12 upperT lowerT Catm : Dbl) : ETEnv :=
  let _unused := (Rad, LeafAreaIndex)
  let tau : Dbl := 0.2
  let LeafReflectance : Dbl := 0.2
  let SpecificHeat : Dbl := 1010
  let CanopyHeight := fmax 0.1 CanopyHeight
  let WindSpeed := fmax 0.5 WindSpeed
  let DdryA := TempToDdryA airTemp
  let LHV := TempToLHV airTemp * 1e6
  let SlopeFS := TempToSFS m airTemp * 1e-3
  let LayerRelativeHumidity := RH * 100
  let SWVC := TempToSWVC m airTemp * 1e-3
  let totalradiation := Itot * 0.235
  let LayerConductance := c4photoC_Gs Itot airTemp RH vmax2 alpha2 kparm theta beta Rd2 b02 b12
    StomataWS Catm ws upperT lowerT
  let LayerConductance_in_m_per_s := LayerConductance * 1e-6 * 24.39
  let LayerConductance_in_m_per_s :=
    if LayerConductance_in_m_per_s ≤ 0 then 0.01 else LayerConductance_in_m_per_s
  let DeltaPVa := SWVC * (1 - LayerRelativeHumidity / 100)
  let PsycParam := (DdryA * SpecificHeat) / LHV
  let Ja := 2 * totalradiation * ((1 - LeafReflectance - tau) / (1 - tau))
  let ga := EvapoTrans_ga m WindSpeed CanopyHeight
  { airTemp := airTemp
    LHV := LHV
    SlopeFS := SlopeFS
    LayerRelativeHumidity := LayerRelativeHumidity
    SWVC := SWVC
    LayerConductance_in_m_per_s := LayerConductance_in_m_per_s
    DeltaPVa := DeltaPVa
    PsycParam := PsycParam
    Ja := Ja
    ga := ga }

/-- The variables of the loop of `EvapoTrans`.  `PhiN` and `rlc` are declared
without a value; they hold 0 here until the body assigns them. -/
structure ETState where
  Deltat : Dbl
  PhiN : Dbl
  rlc : Dbl
  ChangeInLeafTemp : Dbl
  Counter : ℕ

/-- The state of `EvapoTrans` on entry to its loop. -/
def EvapoTrans_init : ETState where
  Deltat := 0.01
  PhiN := 0
  rlc := 0
  ChangeInLeafTemp := 10.0
  Counter := 0

/-- The condition `(ChangeInLeafTemp > 0.5) && (Counter <= 10)` of the loop of `EvapoTrans`. -/
def EvapoTrans_cond (s : ETState) : Bool := decide (0.5 < s.ChangeInLeafTemp ∧ s.Counter ≤ 10)

/-- The body of the loop of `EvapoTrans`, followed by its `++Counter`. -/
def EvapoTrans_body (m : Libm) (e : ETEnv) (s : ETState) : ETState :=
  let BottomValue := e.LHV * (e.SlopeFS + e.PsycParam * (1 + e.ga / e.LayerConductance_in_m_per_s))
  let OldDeltaT := s.Deltat
  let rlc := 4 * (5.67 * 1e-8) * m.pow (273 + e.airTemp) 3 * s.Deltat
  let PhiN := e.Ja - rlc
  let TopValue := PhiN * (1 / e.ga + 1 / e.LayerConductance_in_m_per_s) - e.LHV * e.DeltaPVa
  let Deltat := fmin (fmax (TopValue / BottomValue) (-5)) 5
  let ChangeInLeafTemp := Dbl.abs (OldDeltaT - Deltat)
  { Deltat := Deltat
    PhiN := PhiN
    rlc := rlc
    ChangeInLeafTemp := ChangeInLeafTemp
    Counter := s.Counter + 1 }

/-- The state of `EvapoTrans` when its loop has finished.  `Counter` only grows,
so the condition fails after at most 11 iterations. -/
def EvapoTrans_loop (m : Libm) (e : ETEnv) : ETState :=
  whileLoop EvapoTrans_cond (EvapoTrans_body m e) 11 EvapoTrans_init

/-- The part of `EvapoTrans` after its loop. -/
def EvapoTrans_result (e : ETEnv) (s : ETState) : ET_Str :=
  let PhiN := fmax s.PhiN 0
  let TransR := (e.SlopeFS * PhiN + (e.LHV * e.PsycParam * e.ga * e.DeltaPVa))
    / (e.LHV * (e.SlopeFS + e.PsycParam * (1 + e.ga / e.LayerConductance_in_m_per_s)))
  let EPries := 1.26 * ((e.SlopeFS * PhiN) / (e.LHV * (e.SlopeFS + e.PsycParam)))
  let EPen := ((e.SlopeFS * PhiN) + e.LHV * e.PsycParam * e.ga * e.DeltaPVa)
    / (e.LHV * (e.SlopeFS + e.PsycParam))
  { TransR := TransR * 1e6 / 18
    EPenman := EPen * 1e6 / 18
    EPriestly := EPries * 1e6 / 18
    Deltat := s.Deltat
    LayerCond := e.LayerConductance_in_m_per_s * 1e6 * (1 / 24.39) }

/-- Function `EvapoTrans`.  The three `error` calls are tested in the order of
the source; what the source computes between them has no effect of its own. -/
def EvapoTrans (m : Libm)
    (c4photoC_Gs : Dbl → Dbl → Dbl → Dbl → Dbl → Dbl → Dbl → Dbl → Dbl → Dbl → Dbl → Dbl → Dbl →
      ℤ → Dbl → Dbl → Dbl)
    (Rad Itot airTemp RH WindSpeed LeafAreaIndex CanopyHeight StomataWS : Dbl) (ws : ℤ)
    (vmax2 alpha2 kparm theta beta Rd2 b02 b12 upperT lowerT Catm : Dbl) :
    Except RError ET_Str :=
  let e := EvapoTrans_env m c4photoC_Gs Rad Itot airTemp RH WindSpeed LeafAreaIndex CanopyHeight
    StomataWS ws vmax2 alpha2 kparm theta beta Rd2 b02 b12 upperT lowerT Catm
  if 100 < e.LayerRelativeHumidity then .error (.error "LayerRelativehumidity > 100")
  else if e.SWVC < 0 then .error (.error "SWVC < 0")
  else if e.ga < 0 then .error (.error "ga is less than zero")
  else .ok (EvapoTrans_result e (EvapoTrans_loop m e))

/-- The forced-convection estimate `gbv_forced` of `leafboundarylayer`. -/
def leafboundarylayer_forced (m : Libm) (windspeed leafwidth AirTemp : Dbl) : Dbl :=
  let Pa : Dbl := 101325
  let cf : Dbl := 1.6361e-3
  let Tak := AirTemp + 273.15
  let ws := windspeed
  let lw := leafwidth
  cf * m.pow Tak 0.56 * m.pow ((Tak + 120) * ((ws / lw) / Pa)) 0.5

/-- The free-convection estimate of `leafboundarylayer`: the last value of `gbv_free`. -/
def leafboundarylayer_free (m : Libm) (windspeed leafwidth AirTemp deltat stomcond vappress : Dbl) :
    Dbl :=
  let Pa : Dbl := 101325
  let cf : Dbl := 1.6361e-3
  let leaftemp := AirTemp + deltat
  let gsv := stomcond
  let Tak := AirTemp + 273.15
  let Tlk := leaftemp + 273.15
  let ea := vappress * 1e2
  let lw := leafwidth
  let esTl := TempToSWVC m leaftemp * 100
  let gbv_forced := leafboundarylayer_forced m windspeed leafwidth AirTemp
  let gbv_free := gbv_forced
  let eb := (gsv * esTl + gbv_free * ea) / (gsv + gbv_free)
  let Tvdiff := (Tlk / (1 - 0.378 * eb / Pa)) - (Tak / (1 - 0.378 * ea / Pa))
  let Tvdiff := if Tvdiff < 0 then -Tvdiff else Tvdiff
  cf * m.pow Tlk 0.56 * m.pow ((Tlk + 120) / Pa) 0.5 * m.pow (Tvdiff / lw) 0.25

/-- Function `leafboundarylayer`. -/
def leafboundarylayer (m : Libm) (windspeed leafwidth AirTemp deltat stomcond vappress : Dbl) :
    Dbl :=
  let gbv_forced := leafboundarylayer_forced m windspeed leafwidth AirTemp
  let gbv_free := leafboundarylayer_free m windspeed leafwidth AirTemp deltat stomcond vappress
  if gbv_free < gbv_forced then gbv_forced else gbv_free

/-- The quantities `EvapoTrans2` computes before its loop and reads afterwards. -/
structure ET2Env where
  Airtemperature : Dbl
  LHV : Dbl
  SlopeFS : Dbl
  PsycParam : Dbl
  DeltaPVa : Dbl
  ActualVaporPressure : Dbl
  totalradiation : Dbl
  Ja : Dbl
  Ja2 : Dbl
  LayerWindSpeed : Dbl
  leafw : Dbl
  gvs : Dbl

/-- The part of `EvapoTrans2` before its loop, without its `error` check.  The
floored `CanopyHeight` is only read by the assignment to `WindSpeedHeight`,
which nothing reads afterwards. -/
def EvapoTrans2_env (m : Libm)
    (Rad Iave Airtemperature RH WindSpeed LeafAreaIndex CanopyHeight stomatacond leafw : Dbl) :
    ET2Env :=
  let WindSpeedHeight : Dbl := 2
  let tau : Dbl := 0.2
  let LeafReflectance : Dbl := 0.2
  let SpecificHeat : Dbl := 1010
  let Tair := Airtemperature
  let CanopyHeight := if CanopyHeight < 0.1 then 0.1 else CanopyHeight
  let WindSpeedHeight :=
    if WindSpeedHeight < CanopyHeight + 1 then CanopyHeight + WindSpeedHeight else WindSpeedHeight
  let _unused := (LeafAreaIndex, WindSpeedHeight)
  let DdryA := TempToDdryA Tair
  let LHV := TempToLHV Tair
  let LHV := LHV * 1e6
  let SlopeFS := TempToSFS m Tair * 1e-3
  let SWVP := TempToSWVC m Tair
  let SWVC := (DdryA * 0.622 * SWVP) / 1013.25
  let PsycParam := (DdryA * SpecificHeat) / LHV
  let DeltaPVa := SWVC * (1 - RH)
  let ActualVaporPressure := RH * SWVP
  let totalradiation := Rad * 0.235
  let Ja := 2 * totalradiation * ((1 - LeafReflectance - tau) / (1 - tau))
  let Ja2 := 2 * Iave * 0.235 * ((1 - LeafReflectance - tau) / (1 - tau))
  let WindSpeed := if WindSpeed < 0.5 then 0.5 else WindSpeed
  let LayerWindSpeed := WindSpeed
  let gvs := stomatacond
  let gvs := gvs * (1.0 / 41000.0)
  let gvs := if gvs ≤ 0.001 then 0.001 else gvs
  { Airtemperature := Airtemperature
    LHV := LHV
    SlopeFS := SlopeFS
    PsycParam := PsycParam
    DeltaPVa := DeltaPVa
    ActualVaporPressure := ActualVaporPressure
    totalradiation := totalradiation
    Ja := Ja
    Ja2 := Ja2
    LayerWindSpeed := LayerWindSpeed
    leafw := leafw
    gvs := gvs }

/-- The variables of the loop of `EvapoTrans2`.  `rlc` and `ga` are declared
without a value; they hold 0 here until the body assigns them. -/
structure ET2State where
  Deltat : Dbl
  rlc : Dbl
  ga : Dbl
  ChangeInLeafTemp : Dbl
  Counter : ℕ

/-- The state of `EvapoTrans2` on entry to its loop. -/
def EvapoTrans2_init : ET2State where
  Deltat := 0.01
  rlc := 0
  ga := 0
  ChangeInLeafTemp := 10
  Counter := 0

/-- The condition `(ChangeInLeafTemp > 0.5) && (Counter <= 10)` of the loop of `EvapoTrans2`. -/
def EvapoTrans2_cond (s : ET2State) : Bool := decide (0.5 < s.ChangeInLeafTemp ∧ s.Counter ≤ 10)

/-- The body of the loop of `EvapoTrans2`. -/
def EvapoTrans2_body (m : Libm) (e : ET2Env) (s : ET2State) : ET2State :=
  let StefanBoltzmann : Dbl := 5.67037e-8
  let Tair := e.Airtemperature
  let OldDeltaT := s.Deltat
  let rlc := 4 * StefanBoltzmann * m.pow (273 + Tair) 3 * s.Deltat
  let ga := leafboundarylayer m e.LayerWindSpeed e.leafw e.Airtemperature s.Deltat e.gvs
    e.ActualVaporPressure
  let PhiN2 := e.Ja2 - rlc
  let TopValue := PhiN2 * (1 / ga + 1 / e.gvs) - e.LHV * e.DeltaPVa
  let BottomValue := e.LHV * (e.SlopeFS + e.PsycParam * (1 + ga / e.gvs))
  let Deltat := TopValue / BottomValue
  let Deltat := if 10 < Deltat then 10 else Deltat
  let Deltat := if Deltat < -10 then -10 else Deltat
  let ChangeInLeafTemp := OldDeltaT - Deltat
  let ChangeInLeafTemp := if ChangeInLeafTemp < 0 then -ChangeInLeafTemp else ChangeInLeafTemp
  { Deltat := Deltat
    rlc := rlc
    ga := ga
    ChangeInLeafTemp := ChangeInLeafTemp
    Counter := s.Counter + 1 }

/-- The state of `EvapoTrans2` when its loop has finished.  `Counter` only grows,
so the condition fails after at most 11 iterations. -/
def EvapoTrans2_loop (m : Libm) (e : ET2Env) : ET2State :=
  whileLoop EvapoTrans2_cond (EvapoTrans2_body m e) 11 EvapoTrans2_init

/-- The net radiation `PhiN` of `EvapoTrans2` after its loop and its floor at 0. -/
def EvapoTrans2_PhiN (e : ET2Env) (s : ET2State) : Dbl :=
  let PhiN := e.Ja - s.rlc
  if PhiN < 0 then 0 else PhiN

/-- The part of `EvapoTrans2` after its loop. -/
def EvapoTrans2_result (e : ET2Env) (s : ET2State) (eteq : ℤ) : ET_Str :=
  let PhiN := EvapoTrans2_PhiN e s
  let ga := s.ga
  let TransR := (e.SlopeFS * PhiN + (e.LHV * e.PsycParam * ga * e.DeltaPVa))
    / (e.LHV * (e.SlopeFS + e.PsycParam * (1 + ga / e.gvs)))
  let EPen := ((e.SlopeFS * PhiN) + e.LHV * e.PsycParam * ga * e.DeltaPVa)
    / (e.LHV * (e.SlopeFS + e.PsycParam))
  let EPries := 1.26 * ((e.SlopeFS * PhiN) / (e.LHV * (e.SlopeFS + e.PsycParam)))
  let TransR := if eteq = 1 then EPen else TransR
  let TransR := if eteq = 2 then EPries else TransR
  { TransR := TransR * 1e6 / 18
    EPenman := EPen * 1e6 / 18
    EPriestly := EPries * 1e6 / 18
    Deltat := s.Deltat
    LayerCond := e.gvs * 41000 }

/-- Function `EvapoTrans2`. -/
def EvapoTrans2 (m : Libm)
    (Rad Iave Airtemperature RH WindSpeed LeafAreaIndex CanopyHeight stomatacond leafw : Dbl)
    (eteq : ℤ) : Except RError ET_Str :=
  let e := EvapoTrans2_env m Rad Iave Airtemperature RH WindSpeed LeafAreaIndex CanopyHeight
    stomatacond leafw
  if 650 < e.totalradiation then .error (.error "total radiation too high")
  else .ok (EvapoTrans2_result e (EvapoTrans2_loop m e) eteq)

/-! ## Formulas of the specification

The definitions of this section follow the wording of the specification, not
the source; the theorems compare them with the embedding of the source. -/

/-- The specification's clamp of a conductance `x` to the floor `lo` and the
ceiling `hi`. -/
def specClamp (x lo hi : Dbl) : Dbl := if x < lo then lo else if hi < x then hi else x

/-- The specification's conductance of an iteration for `water_stress_approach = 1`
(mmol m^-2 s^-1): the value `bb` of `ball_berry` is clamped to `[1e-5, 800]` and
the result is multiplied by `StomWS`. -/
def specGsClampThenScale (StomWS bb : Dbl) : Dbl := StomWS * specClamp bb 1e-5 800

/-- The order of the source for `water_stress_approach = 1` (mmol m^-2 s^-1):
the value `bb` of `ball_berry` is multiplied by `StomWS`, a product that is
not positive is replaced by `1e-5`, and a result above 800 by 800. -/
def gsScaleThenClamp (StomWS bb : Dbl) : Dbl :=
  let g := bb * StomWS
  let g := if g ≤ 0 then 1e-5 else g
  if 800 < g then 800 else g

/-- The specification's carboxylation rate: the minimum of the three rates,
taken from the first of `Ac`, `Aj`, `Ap` that attains it. -/
def specMinRate (Ac Aj Ap : Dbl) : Dbl :=
  if Ac ≤ Aj ∧ Ac ≤ Ap then Ac else if Aj ≤ Ap then Aj else Ap

/-- The specification's `max(a, b)`. -/
def specMax (a b : Dbl) : Dbl := if a < b then b else a

/-- The specification's `min(a, b)`. -/
def specMin (a b : Dbl) : Dbl := if b < a then b else a

/-- The specification's extinction coefficient of the direct beam:
`|sqrt(chil^2 + tan^2(acos(cosTheta))) / (chil + 1.744*(chil + 1.183)^(-0.733))|`. -/
def specK (m : Libm) (cosTheta chil : Dbl) : Dbl :=
  Dbl.abs (m.sqrt (m.pow chil 2 + m.pow (m.tan (m.acos cosTheta)) 2)
    / (chil + 1.744 * m.pow (chil + 1.183) (-0.733)))

/-- The sum `a[0] + ... + a[n-1]` of the first `n` entries of an array. -/
def sumFirst (a : Arr) : ℕ → Dbl
  | 0 => 0
  | n + 1 => sumFirst a n + a n

/-- The enumerator of `SoilType` with the index `k` (0 is `sand`, 10 is `clay`). -/
def specSoilType (k : ℤ) : SoilType :=
  if k = 0 then .sand else if k = 1 then .loamy_sand else if k = 2 then .sandy_loam
  else if k = 3 then .loam else if k = 4 then .silt_loam else if k = 5 then .sandy_clay_loam
  else if k = 6 then .clay_loam else if k = 7 then .silty_clay_loam
  else if k = 8 then .sandy_clay else if k = 9 then .silty_clay else .clay

/-- The coefficient block of thermal period `p`: `coefs[4p .. 4p+3]` in the
fields `kStem`, `kLeaf`, `kRoot`, `kRhiz`, with the given `kGrain`. -/
def specDbpBlock (coefs : Arr) (p : ℕ) (kGrain : Dbl) : dbp_str :=
  { kStem := coefs (4 * p), kLeaf := coefs (4 * p + 1), kRoot := coefs (4 * p + 2),
    kRhiz := coefs (4 * p + 3), kGrain := kGrain }

/-! ## Rounding to `double`

The arithmetic of `Dbl` is exact.  Where the rounding of the source decides a
result, the rounding is written out with `rn`. -/

/-- The integer nearest to `x`; the even one when `x` lies half-way between two
integers. -/
def roundEven (x : ℚ) : ℤ :=
  if x - ⌊x⌋ < 1 / 2 then ⌊x⌋
  else if 1 / 2 < x - ⌊x⌋ then ⌊x⌋ + 1
  else if ⌊x⌋ % 2 = 0 then ⌊x⌋ else ⌊x⌋ + 1

/-- The value `n * 2 ^ e`; a normal `double` is such a value with
`2 ^ 52 ≤ |n| < 2 ^ 53`. -/
def dbl (n e : ℤ) : ℚ := n * 2 ^ e

/-- Rounding of a positive `q` to 53 significant bits, to nearest and ties to
even. -/
def rnPos (q : ℚ) : ℚ := dbl (roundEven (q / 2 ^ (Int.log 2 q - 52))) (Int.log 2 q - 52)

/-- The `double` nearest to `q`, ties to even: the rounding IEEE 754 applies to
the exact result of `+`, `-`, `*`, `/` and to a decimal literal.  Overflow and
subnormal results are not modelled. -/
def rn (q : ℚ) : ℚ := if q = 0 then 0 else if 0 < q then rnPos q else -rnPos (-q)

/-! ## A rational reference for the library functions

`refLibm` instantiates `Libm` with computable rational approximations.  It is
used to run the embedding on concrete inputs; the general theorems do not
depend on it. -/

namespace Ref

/-- Degree-4 Taylor polynomial of the exponential; positive for every `x`. -/
def taylor4 (x : ℚ) : ℚ := 1 + x + x ^ 2 / 2 + x ^ 3 / 6 + x ^ 4 / 24

/-- The exponential, as `taylor4 (x / 8) ^ 8`. -/
def expQ (x : ℚ) : ℚ := taylor4 (x / 8) ^ 8

/-- The natural logarithm of `x > 0`, by the series of `2 * artanh ((x - 1) / (x + 1))`. -/
def logQ (x : ℚ) : ℚ :=
  let z := (x - 1) / (x + 1)
  2 * (z + z ^ 3 / 3 + z ^ 5 / 5 + z ^ 7 / 7)

/-- The square root of `x ≥ 0`, rounded down to a multiple of `1e-12 / x.den`;
exact when `x` is the square of a rational. -/
def sqrtQ (x : ℚ) : ℚ :=
  (Nat.sqrt (x.num.natAbs * x.den * 10 ^ 24) : ℚ) / (x.den * 10 ^ 12)

/-- The value `x / 2 ^ k` for the least `k` that brings `x` down to at most 2,
with `k`; the first argument bounds `k`. -/
def halve : ℕ → ℚ → ℚ × ℕ
  | 0, x => (x, 0)
  | n + 1, x => if 2 < x then ((halve n (x / 2)).1, (halve n (x / 2)).2 + 1) else (x, 0)

/-- The natural logarithm of `x > 0` over a wide range: `k * logQ 2 + logQ y`
for `x = 2 ^ k * y` with `1 ≤ y ≤ 2`, where the series of `logQ` is accurate;
through `1 / x` for `x < 1`. -/
def lnQ (x : ℚ) : ℚ :=
  if 1 ≤ x then (halve 64 x).2 * logQ 2 + logQ (halve 64 x).1
  else -((halve 64 (1 / x)).2 * logQ 2 + logQ (halve 64 (1 / x)).1)

/-- Function `exp`. -/
def exp : Dbl → Dbl
  | fin q => fin (expQ q)
  | pinf => pinf
  | ninf => fin 0
  | nan => nan

/-- Function `log`. -/
def log : Dbl → Dbl
  | fin q => if q < 0 then nan else if q = 0 then ninf else fin (lnQ q)
  | pinf => pinf
  | _ => nan

/-- Function `sqrt`. -/
def sqrt : Dbl → Dbl
  | fin q => if q < 0 then nan else fin (sqrtQ q)
  | pinf => pinf
  | _ => nan

/-- Function `pow` for finite arguments: exact for an integer exponent, through `expQ`
and `logQ` otherwise. -/
def pow : Dbl → Dbl → Dbl
  | fin x, fin y =>
    if y.den = 1 then (if x = 0 ∧ y < 0 then pinf else fin (x ^ y.num))
    else if x < 0 then nan
    else if x = 0 then fin 0
    else fin (expQ (y * logQ x))
  | _, _ => nan

/-- Function `sin`, by its Taylor polynomial of degree 7. -/
def sin : Dbl → Dbl
  | fin x => fin (x - x ^ 3 / 6 + x ^ 5 / 120 - x ^ 7 / 5040)
  | _ => nan

/-- Function `cos`, by its Taylor polynomial of degree 6. -/
def cos : Dbl → Dbl
  | fin x => fin (1 - x ^ 2 / 2 + x ^ 4 / 24 - x ^ 6 / 720)
  | _ => nan

/-- Function `tan`, as `sin / cos`. -/
def tan (x : Dbl) : Dbl := sin x / cos x

/-- Function `acos` on `[-1, 1]`, by `sqrt (2 (1 - x))` and the first terms of its series at 1. -/
def acos : Dbl → Dbl
  | fin x =>
    if x < -1 ∨ 1 < x then nan
    else
      let u := 1 - x
      sqrt (fin (2 * u)) * fin (1 + u / 12 + 3 * u ^ 2 / 160)
  | _ => nan

/-- Function `dpois(x, lambda, 0)` of R for a count `x`: `lambda ^ x * exp (-lambda) / x!`. -/
def dpois : Dbl → Dbl → Dbl
  | fin x, fin l =>
    if l < 0 then nan
    else if x < 0 ∨ x.den ≠ 1 then fin 0
    else fin (l ^ x.num.toNat * expQ (-l) / (x.num.toNat.factorial : ℚ))
  | _, _ => nan

/-- Function `cos` with the argument reduced by π above 2: the Taylor polynomial
of `Ref.cos` at `x - π`, negated.  Accurate between -1 and 4. -/
def cosPi : Dbl → Dbl
  | fin x => if 2 < x then -cos (fin (x - 3.14159265358979323846)) else cos (fin x)
  | _ => nan

/-- The exponential through `1 / expQ (-x)` for a negative `x`: at most 1 there. -/
def expSym (x : ℚ) : ℚ := if x < 0 then 1 / expQ (-x) else expQ x

/-- Function `pow` for a positive base, as the exponential of `y * lnQ x`. -/
def powLn : Dbl → Dbl → Dbl
  | fin x, fin y => if 0 < x then fin (expSym (y * lnQ x)) else nan
  | _, _ => nan

/-- A sine on the unit circle: `2 t / (1 + t ^ 2)` at `t = x / 2`. -/
def sinCircle : Dbl → Dbl
  | fin x => fin (x / (1 + x ^ 2 / 4))
  | _ => nan

/-- The cosine that goes with `sinCircle`: `(1 - t ^ 2) / (1 + t ^ 2)` at `t = x / 2`. -/
def cosCircle : Dbl → Dbl
  | fin x => fin ((1 - x ^ 2 / 4) / (1 + x ^ 2 / 4))
  | _ => nan

/-- The exponential of `x ≤ 0`, as `1 / taylor4 (-x / 1024) ^ 1024`. -/
def expFine (x : ℚ) : ℚ := 1 / taylor4 (-x / 1024) ^ 1024

/-- Underflow of a positive `double`: a value below `2 ^ (-1075)`, half the
least positive `double`, is rounded to 0. -/
def flush (q : ℚ) : ℚ := if q < 1 / 2 ^ 1075 then 0 else q

/-- Function `dpois(x, lambda, 0)` of R for a count `x`, with the underflow of
its `double` result: `lambda ^ x * exp (-lambda) / x!`, or 0 when that is below
`2 ^ (-1075)`. -/
def dpoisFlush : Dbl → Dbl → Dbl
  | fin x, fin l =>
    if l < 0 then nan
    else if x < 0 ∨ x.den ≠ 1 then fin 0
    else fin (flush (l ^ x.num.toNat * expFine (-l) / (x.num.toNat.factorial : ℚ)))
  | _, _ => nan

/-- The Taylor polynomial of `cos` in `y = x ^ 2`, in Horner form: `n` factors
`1 - y / ((2k+1)(2k+2)) * ...` from index `k` on. -/
def cosHorner (y : ℚ) : ℕ → ℕ → ℚ
  | 0, _ => 1
  | n + 1, k => 1 - y / ((2 * k + 1) * (2 * k + 2)) * cosHorner y n (k + 1)

/-- The Taylor polynomial of `sin x / x` in `y = x ^ 2`, in Horner form. -/
def sinHorner (y : ℚ) : ℕ → ℕ → ℚ
  | 0, _ => 1
  | n + 1, k => 1 - y / ((2 * k + 2) * (2 * k + 3)) * sinHorner y n (k + 1)

/-- Function `cos` on a `double`: the `double` nearest to the Taylor polynomial
of degree 48 (for `|x| ≤ 5` this is the `double` nearest to the cosine). -/
def cosCR (x : ℚ) : ℚ := rn (cosHorner (x ^ 2) 24 0)

/-- Function `sin` on a `double`: the `double` nearest to the Taylor polynomial
of degree 49. -/
def sinCR (x : ℚ) : ℚ := rn (x * sinHorner (x ^ 2) 24 0)

end Ref

/-- The reference instance of `Libm`. -/
def refLibm : Libm where
  exp := Ref.exp
  log := Ref.log
  pow := Ref.pow
  sqrt := Ref.sqrt
  sin := Ref.sin
  cos := Ref.cos
  tan := Ref.tan
  acos := Ref.acos
  dpois := Ref.dpois

/-- The reference instance with the cosine `Ref.cosPi`, for the angles of the
solar position. -/
def solarLibm : Libm :=
  { refLibm with
    cos := Ref.cosPi
    tan := fun x => Ref.sin x / Ref.cosPi x }

/-- The reference instance with a sine and a cosine whose squares sum to 1 at
every rational angle, and a `pow` that stays in `(0, 1]` for a base below 1 and
a positive exponent. -/
def circleLibm : Libm :=
  { refLibm with
    pow := Ref.powLn
    sin := Ref.sinCircle
    cos := Ref.cosCircle
    tan := fun x => Ref.sinCircle x / Ref.cosCircle x }

/-- The reference instance with a `dpois` that underflows to 0 as a `double`
does. -/
def underflowLibm : Libm :=
  { refLibm with dpois := Ref.dpoisFlush }

/-! ## `cos_zenith_angle` in `double` arithmetic -/

/-- Function `cos_zenith_angle` in `double` arithmetic: every constant, product,
quotient and sum is rounded by `rn`, in the order of the source; `sin` and `cos`
are the library functions on `double`s. -/
def cos_zenith_angle_rn (sin cos : ℚ → ℚ) (latitude : ℚ) (day_of_year hour_of_day : ℤ) : ℚ :=
  let M_PI := rn 3.14159265358979323846
  let RADIANS_PER_DEGREE := rn (M_PI / 180)
  let SOLAR_NOON : ℤ := 12
  let RADIANS_ROTATION_PER_HOUR := rn (15 * RADIANS_PER_DEGREE)
  let AXIAL_TILT := rn (23.5 * RADIANS_PER_DEGREE)
  let phi := rn (latitude * RADIANS_PER_DEGREE)
  let NDS : ℤ := day_of_year + 10
  let omega := rn (rn (360.0 * rn (NDS / 365.0)) * RADIANS_PER_DEGREE)
  let delta := rn (-AXIAL_TILT * cos omega)
  let tau := rn ((hour_of_day - SOLAR_NOON : ℤ) * RADIANS_ROTATION_PER_HOUR)
  rn (rn (sin delta * sin phi) + rn (rn (cos delta * cos phi) * cos tau))

/-! ## A concrete call of `c3photoC` -/

/-- The environment of the call `c3photoC(Qp = 0, Tleaf = 25, RH = 0.7,
Vcmax0 = 100, Jmax = 180, Rd0 = 1, bb0 = 0.08, bb1 = 5, Ca = 10, O2 = 210,
thet = 0.7, StomWS = 1, water_stress_approach = 0, 4.5, 5.25)`: a leaf in the
dark at low CO2, with the reference library functions. -/
def darkLeafEnv : C3Env := c3Env refLibm 0 25 0.7 100 180 1 0.08 5 10 210 0.7 1 0 4.5 5.25

/-- A `ball_berry` that returns 800 mmol m^-2 s^-1 for every argument. -/
def openStomata : Dbl → Dbl → Dbl → Dbl → Dbl → Dbl := fun _ _ _ _ _ => 800

/-! ## Concrete inputs of the last theorems -/

/-- The depths 0, 0.2 and 1.0 of two layers of unequal thickness. -/
def unevenDepths : Arr := fun i => if i = 0 then 0 else if i = 1 then 0.2 else 1.0

/-- The thermal periods 100, 0, 0, 0, 0, 0: not in increasing order. -/
def unorderedPrds : Arr := fun i => if i = 0 then 100 else 0

/-- The thermal periods 100, 200, 300, 400, 500, 600. -/
def orderedPrds : Arr := fun i => ofInt (100 * (i + 1))

/-- The coefficients `coefs[i] = i`. -/
def indexCoefs : Arr := fun i => ofInt i

/-! ## Arithmetic of `Dbl` -/

namespace Dbl

@[simp] theorem ofScientific_eq (m : ℕ) (s : Bool) (e : ℕ) :
    (OfScientific.ofScientific m s e : Dbl) = fin (OfScientific.ofScientific m s e) := rfl

@[simp] theorem ofNat_eq (n : ℕ) [n.AtLeastTwo] :
    ((no_index (OfNat.ofNat n)) : Dbl) = fin (OfNat.ofNat n) := rfl

@[simp] theorem zero_eq : (0 : Dbl) = fin 0 := by
  show fin ((0 : ℕ) : ℚ) = fin 0
  simp

@[simp] theorem one_eq : (1 : Dbl) = fin 1 := by
  show fin ((1 : ℕ) : ℚ) = fin 1
  simp

@[simp] theorem ofInt_eq (n : ℤ) : ofInt n = fin n := rfl

@[simp] theorem fin_add (a b : ℚ) : fin a + fin b = fin (a + b) := rfl

@[simp] theorem fin_sub (a b : ℚ) : fin a - fin b = fin (a - b) := by
  show fin (a + -b) = fin (a - b)
  rw [sub_eq_add_neg]

@[simp] theorem fin_mul (a b : ℚ) : fin a * fin b = fin (a * b) := rfl

@[simp] theorem fin_neg (a : ℚ) : -fin a = fin (-a) := rfl

theorem fin_div (a b : ℚ) : fin a / fin b = if b = 0 then signedInf a else fin (a / b) := rfl

@[simp] theorem fin_div_of_ne (a b : ℚ) (h : b ≠ 0) : fin a / fin b = fin (a / b) := by
  rw [fin_div, if_neg h]

@[simp] theorem fin_lt (a b : ℚ) : fin a < fin b ↔ a < b := Iff.rfl

@[simp] theorem fin_le (a b : ℚ) : fin a ≤ fin b ↔ a ≤ b := Iff.rfl

@[simp] theorem nan_add (x : Dbl) : nan + x = nan := by cases x <;> rfl

@[simp] theorem add_nan (x : Dbl) : x + nan = nan := by cases x <;> rfl

@[simp] theorem nan_sub (x : Dbl) : nan - x = nan := by cases x <;> rfl

@[simp] theorem sub_nan (x : Dbl) : x - nan = nan := by cases x <;> rfl

@[simp] theorem nan_mul (x : Dbl) : nan * x = nan := by cases x <;> rfl

@[simp] theorem mul_nan (x : Dbl) : x * nan = nan := by cases x <;> rfl

@[simp] theorem nan_div (x : Dbl) : nan / x = nan := by cases x <;> rfl

@[simp] theorem div_nan (x : Dbl) : x / nan = nan := by cases x <;> rfl

@[simp] theorem not_nan_lt (x : Dbl) : ¬ nan < x := by cases x <;> exact id

@[simp] theorem not_lt_nan (x : Dbl) : ¬ x < nan := by cases x <;> exact id

@[simp] theorem not_nan_le (x : Dbl) : ¬ nan ≤ x := by cases x <;> exact id

@[simp] theorem not_le_nan (x : Dbl) : ¬ x ≤ nan := by cases x <;> exact id

@[simp] theorem fin_add_pinf (a : ℚ) : fin a + pinf = pinf := rfl

@[simp] theorem fin_add_ninf (a : ℚ) : fin a + ninf = ninf := rfl

@[simp] theorem pinf_add_fin (a : ℚ) : pinf + fin a = pinf := rfl

@[simp] theorem ninf_add_fin (a : ℚ) : ninf + fin a = ninf := rfl

@[simp] theorem fin_sub_pinf (a : ℚ) : fin a - pinf = ninf := rfl

@[simp] theorem fin_sub_ninf (a : ℚ) : fin a - ninf = pinf := rfl

@[simp] theorem pinf_sub_fin (a : ℚ) : pinf - fin a = pinf := rfl

@[simp] theorem ninf_sub_fin (a : ℚ) : ninf - fin a = ninf := rfl

@[simp] theorem fin_div_pinf (a : ℚ) : fin a / pinf = fin 0 := rfl

@[simp] theorem fin_div_ninf (a : ℚ) : fin a / ninf = fin 0 := rfl

theorem pinf_div_fin (b : ℚ) : pinf / fin b = if 0 ≤ b then pinf else ninf := rfl

theorem ninf_div_fin (b : ℚ) : ninf / fin b = if 0 ≤ b then ninf else pinf := rfl

theorem pinf_div_of_nonneg (b : ℚ) (h : 0 ≤ b) : pinf / fin b = pinf := by
  rw [pinf_div_fin, if_pos h]

theorem ninf_div_of_nonneg (b : ℚ) (h : 0 ≤ b) : ninf / fin b = ninf := by
  rw [ninf_div_fin, if_pos h]

theorem fin_mul_pinf (a : ℚ) : fin a * pinf = signedInf a := rfl

theorem fin_mul_ninf (a : ℚ) : fin a * ninf = signedInf (-a) := rfl

theorem pinf_mul_fin (a : ℚ) : pinf * fin a = signedInf a := rfl

theorem ninf_mul_fin (a : ℚ) : ninf * fin a = signedInf (-a) := rfl

@[simp] theorem fin_lt_pinf (a : ℚ) : fin a < pinf := trivial

@[simp] theorem ninf_lt_fin (a : ℚ) : ninf < fin a := trivial

@[simp] theorem not_pinf_lt (x : Dbl) : ¬ pinf < x := by cases x <;> exact id

@[simp] theorem not_lt_ninf (x : Dbl) : ¬ x < ninf := by cases x <;> exact id

@[simp] theorem fin_le_pinf (a : ℚ) : fin a ≤ pinf := trivial

@[simp] theorem ninf_le_fin (a : ℚ) : ninf ≤ fin a := trivial

@[simp] theorem not_pinf_le_fin (a : ℚ) : ¬ pinf ≤ fin a := id

@[simp] theorem not_fin_le_ninf (a : ℚ) : ¬ fin a ≤ ninf := id

end Dbl
open Dbl

/-- The final statement of `SoilEvapo` returns NaN, `+inf`, or a finite value that is not
negative. -/
theorem floor_neg_cases (X : Dbl) :
    (if X < 0 then (1e-6 : Dbl) else X) = nan ∨ (if X < 0 then (1e-6 : Dbl) else X) = pinf ∨
      ∃ e : ℚ, 0 ≤ e ∧ (if X < 0 then (1e-6 : Dbl) else X) = fin e := by
  cases X with
  | fin q =>
    right; right
    by_cases h : q < 0
    · exact ⟨1e-6, by norm_num, by simp [h]⟩
    · exact ⟨q, not_lt.mp h, by simp [h]⟩
  | pinf => right; left; simp
  | ninf => right; right; exact ⟨1e-6, by norm_num, by simp⟩
  | nan => left; simp

theorem SoilEvapo_cases (m : Libm) (LAI k AirTemp IRad awc fieldc wiltp winds RelH rsec : Dbl) :
    SoilEvapo m LAI k AirTemp IRad awc fieldc wiltp winds RelH rsec = nan ∨
    SoilEvapo m LAI k AirTemp IRad awc fieldc wiltp winds RelH rsec = pinf ∨
      ∃ e : ℚ, 0 ≤ e ∧ SoilEvapo m LAI k AirTemp IRad awc fieldc wiltp winds RelH rsec = fin e :=
  floor_neg_cases _

theorem self_div_cases (a : Dbl) : a / (0.0 + a) = nan ∨ a / (0.0 + a) = fin 1 := by
  cases a with
  | fin q =>
    by_cases h : q = 0
    · left
      subst h
      simp only [ofScientific_eq, fin_add, fin_div, signedInf]
      norm_num
    · right
      simp only [ofScientific_eq, fin_add]
      norm_num [h]
  | pinf => left; rfl
  | ninf => left; rfl
  | nan => left; rfl


theorem demand_exceeds (E rd : Dbl) (P t d w : ℚ)
    (hE : E = nan ∨ E = pinf ∨ ∃ e : ℚ, 0 ≤ e ∧ E = fin e) (hrd : rd = nan ∨ rd = fin 1)
    (hd : 0 < d) (ht : P * 0.9982 < t) :
    ¬ fin w ≤ (fin P - (fin t * rd + E) / 0.9982) / 1e4 / fin d + fin w := by
  rcases hrd with rfl | rfl
  · simp
  · rcases hE with rfl | rfl | ⟨e, he, rfl⟩
    · simp
    · have h1 : (0 : ℚ) ≤ 0.9982 := by norm_num
      have h2 : (0 : ℚ) ≤ 1e4 := by norm_num
      simp only [ofScientific_eq, fin_mul, fin_add_pinf, pinf_div_of_nonneg _ h1, fin_sub_pinf,
        ninf_div_of_nonneg _ h2, ninf_div_of_nonneg _ hd.le, ninf_add_fin, not_fin_le_ninf,
        not_false_eq_true]
    · have h1 : (0.9982 : ℚ) ≠ 0 := by norm_num
      have h2 : (1e4 : ℚ) ≠ 0 := by norm_num
      simp only [ofScientific_eq, fin_mul, fin_add, fin_div_of_ne _ _ h1, fin_sub,
        fin_div_of_ne _ _ h2, fin_div_of_ne _ _ hd.ne.symm, fin_le, mul_one]
      have h3 : P - (t + e) / 0.9982 < 0 := by
        rw [sub_neg, lt_div_iff₀ (by norm_num)]
        linarith
      have h4 : (P - (t + e) / 0.9982) / 1e4 / d < 0 :=
        div_neg_of_neg_of_pos (div_neg_of_neg_of_pos h3 (by norm_num)) hd
      linarith

theorem rootDist_single_cases (m : Libm) (rootDepth : Dbl) (depthsp : Arr) (rfl : Dbl) :
    rootDist m 1 rootDepth depthsp rfl 0 = nan ∨ rootDist m 1 rootDepth depthsp rfl 0 = fin 1 := by
  have hc : ∀ x : Dbl, (if x < rootDepth then ((1.0 : Dbl) + 1) else 1.0) = fin 2
      ∨ (if x < rootDepth then ((1.0 : Dbl) + 1) else 1.0) = fin 1 := by
    intro x
    by_cases h : x < rootDepth
    · left
      simp only [h, if_true, ofScientific_eq, one_eq, fin_add]
      norm_num
    · right
      simp only [h, if_false, ofScientific_eq]
      norm_num
  have h0 : ∀ c : Dbl, (c = fin 2 ∨ c = fin 1) → ofInt ((0 : ℕ) : ℤ) < c := by
    rintro c (rfl | rfl) <;> simp
  simp only [rootDist, Int.toNat_one, rootDistCum, rootDistCa, rootDistRaw, if_true,
    Nat.lt_one_iff, if_pos]
  simp only [if_pos (h0 _ (hc _))]
  exact self_div_cases _

theorem soilML_single_layer_aux (m : Libm) (transp : Dbl) (cws : Arr) (soildepth : Dbl) (depths : Arr)
    (fieldc wiltp phi1 phi2 : Dbl) (soTexS : soilText_str) (wsFun : ℤ)
    (rootDB LAI k AirTemp IRad winds RelH : Dbl) (hydrDist : ℤ) (rfl rsec rsdf : Dbl)
    (c s w d0 d1 t : ℚ)
    (hcws : cws 0 = fin c) (hs : soTexS.satur = fin s) (hw : wiltp = fin w)
    (hd0 : depths 0 = fin d0) (hd1 : depths 1 = fin d1) (ht : transp = fin t)
    (hh : hydrDist ≤ 0) (hw0 : 0 < w) (hwc : w ≤ c) (hcs : c ≤ s) (hd : d0 < d1)
    (hdem : (c - w) * (d1 - d0) * 1e4 * 0.9982 < t) :
    ¬ wiltp ≤ (soilML m 0 transp cws soildepth depths fieldc wiltp phi1 phi2 soTexS wsFun 1
      rootDB LAI k AirTemp IRad winds RelH hydrDist rfl rsec rsdf).cws 0 := by
  subst hw ht
  have hh1 : ¬ (0 < hydrDist) := not_lt.mpr hh
  have hw1 : ¬ (fin w < 0) := by simp; exact hw0.le
  have hwi : ¬ ((0 : Dbl) < 0 * 1e-3) := by
    simp only [zero_eq, ofScientific_eq, fin_mul, fin_lt]
    norm_num
  simp only [soilML, soilML_final, Int.toNat_one, soilLoop, soilStep, soilInit, hh1, if_false, hw1,
    hcws, hs, hd0, hd1, Arr.set, fin_lt, not_lt.mpr hcs, not_lt.mpr hwc, if_true, hwi,
    fin_sub, fin_mul]
  have hX : 0 ≤ (c * (d1 - d0) - w * (d1 - d0)) * 1e4 := by
    have h1 : 0 ≤ (c - w) * (d1 - d0) := mul_nonneg (sub_nonneg.2 hwc) (sub_pos.2 hd).le
    have h2 : (c * (d1 - d0) - w * (d1 - d0)) * 1e4 = (c - w) * (d1 - d0) * 1e4 := by ring
    rw [h2]
    exact mul_nonneg h1 (by norm_num)
  have hP : (if fin (c * (d1 - d0) - w * (d1 - d0)) * 1e4 < 0 then (0 : Dbl)
      else fin (c * (d1 - d0) - w * (d1 - d0)) * 1e4)
      = fin ((c * (d1 - d0) - w * (d1 - d0)) * 1e4) := by
    simp only [ofScientific_eq, zero_eq, fin_mul, fin_lt]
    rw [if_neg (not_lt.mpr hX)]
  rw [hP]
  refine demand_exceeds _ _ _ t (d1 - d0) w (SoilEvapo_cases _ _ _ _ _ _ _ _ _ _ _)
    (rootDist_single_cases _ _ _ _) (sub_pos.2 hd) ?_
  have h2 : (c * (d1 - d0) - w * (d1 - d0)) * 1e4 = (c - w) * (d1 - d0) * 1e4 := by ring
  rw [h2]
  exact hdem


/-- C1 (code defect): for a single layer whose initial water content lies in
`[wiltp, saturation]`, with no precipitation, redistribution off and a
transpiration demand above the plant-available water of the layer, the water
content `soilML` returns in `cws[0]` is not at or above the wilting point (it
is below it, or NaN), so it is outside `[wiltp, saturation]`. -/
theorem soilML_single_layer_below_wiltp (m : Libm) (transp : Dbl) (cws : Arr) (soildepth : Dbl)
    (depths : Arr) (fieldc wiltp phi1 phi2 : Dbl) (soTexS : soilText_str) (wsFun : ℤ)
    (rootDB LAI k AirTemp IRad winds RelH : Dbl) (hydrDist : ℤ) (rfl rsec rsdf : Dbl)
    (c s w d0 d1 t : ℚ)
    (hcws : cws 0 = fin c) (hs : soTexS.satur = fin s) (hw : wiltp = fin w)
    (hd0 : depths 0 = fin d0) (hd1 : depths 1 = fin d1) (ht : transp = fin t)
    (hh : hydrDist ≤ 0) (hw0 : 0 < w) (hwc : w ≤ c) (hcs : c ≤ s) (hd : d0 < d1)
    (hdem : (c - w) * (d1 - d0) * 1e4 * 0.9982 < t) :
    ¬ (wiltp ≤ (soilML m 0 transp cws soildepth depths fieldc wiltp phi1 phi2 soTexS wsFun 1
        rootDB LAI k AirTemp IRad winds RelH hydrDist rfl rsec rsdf).cws 0
      ∧ (soilML m 0 transp cws soildepth depths fieldc wiltp phi1 phi2 soTexS wsFun 1
        rootDB LAI k AirTemp IRad winds RelH hydrDist rfl rsec rsdf).cws 0 ≤ soTexS.satur) :=
  fun h => soilML_single_layer_aux m transp cws soildepth depths fieldc wiltp phi1 phi2 soTexS
    wsFun rootDB LAI k AirTemp IRad winds RelH hydrDist rfl rsec rsdf c s w d0 d1 t hcws hs hw
    hd0 hd1 ht hh hw0 hwc hcs hd hdem h.1

/-- C1, at a concrete input: a sandy loam layer of 0.5 m at water content 0.15
with a demand of 300 Mg/ha. -/
theorem soilML_single_layer_below_wiltp_witness :
    ¬ ((0.10 : Dbl) ≤ (soilML refLibm 0 300 (fun _ => 0.15) 0.5 (fun i => fin (i / 2)) 0.21 0.10
        0.01 10 (soil_parameters SoilType.sandy_loam) 0 1 1 3 0.68 20 1000 2 70 0 0.2 0.2
        0.44).cws 0
      ∧ (soilML refLibm 0 300 (fun _ => 0.15) 0.5 (fun i => fin (i / 2)) 0.21 0.10
        0.01 10 (soil_parameters SoilType.sandy_loam) 0 1 1 3 0.68 20 1000 2 70 0 0.2 0.2
        0.44).cws 0 ≤ (soil_parameters SoilType.sandy_loam).satur) :=
  soilML_single_layer_below_wiltp refLibm 300 (fun _ => 0.15) 0.5 (fun i => fin (i / 2)) 0.21
    0.10 0.01 10 (soil_parameters SoilType.sandy_loam) 0 1 3 0.68 20 1000 2 70 0 0.2 0.2 0.44
    0.15 0.57 0.10 0 (1 / 2) 300 rfl rfl rfl (by norm_num) (by norm_num) rfl
    (le_refl 0) (by norm_num) (by norm_num) (by norm_num) (by norm_num) (by norm_num)

/-- C2 (code defect): in the scenario of the specification (one loam layer of
1 m, field capacity 0.27, wilting point 0.12, initial water content 0.20, no
precipitation, redistribution off) with a demand of 1000 Mg/ha, above the
800 m3/ha of plant-available water, the returned `cws[0]` is not the wilting
point 0.12 and not above it, whatever the library functions and the other
arguments are. -/
theorem soilML_drought_scenario_not_wiltp (m : Libm) (soildepth phi1 phi2 : Dbl) (wsFun : ℤ)
    (rootDB LAI k AirTemp IRad winds RelH rfl rsec rsdf : Dbl) :
    ¬ ((0.12 : Dbl) ≤ (soilML m 0 1000 (fun _ => 0.20) soildepth (fun i => ofInt i) 0.27 0.12
        phi1 phi2 (soil_parameters SoilType.loam) wsFun 1 rootDB LAI k AirTemp IRad winds RelH 0
        rfl rsec rsdf).cws 0) :=
  soilML_single_layer_aux m 1000 (fun _ => 0.20) soildepth (fun i => ofInt i) 0.27 0.12 phi1 phi2
    (soil_parameters SoilType.loam) wsFun rootDB LAI k AirTemp IRad winds RelH 0 rfl rsec rsdf
    0.20 0.57 0.12 0 1 1000 (Eq.refl _) (Eq.refl _) (Eq.refl _) (by simp) (by simp) (Eq.refl _)
    (le_refl 0) (by norm_num) (by norm_num) (by norm_num) (by norm_num) (by norm_num)

/-! ## Canopy light profile: theorems -/

theorem sunMLLoop_sunlit (m : Libm) (Idir Idiff LAI : Dbl) (nlayers : ℤ)
    (cosTheta kd heightf k : Dbl) (n : ℕ) (p : Light_profile) (i : ℕ) (hi : i < n) :
    (sunMLLoop (sunMLStep m Idir Idiff LAI nlayers cosTheta kd heightf k) n p).sunlit_fraction i
      = (sunMLLayer m Idir Idiff LAI nlayers cosTheta kd heightf k i).sunlit_fraction := by
  induction n with
  | zero => exact absurd hi (Nat.not_lt_zero i)
  | succ n ih =>
    by_cases h : i = n
    · subst h
      simp [sunMLLoop, sunMLStep, Arr.set]
    · have hlt : i < n := lt_of_le_of_ne (Nat.lt_succ_iff.mp hi) h
      simp only [sunMLLoop, sunMLStep, Arr.set, if_neg h]
      exact ih hlt

theorem sunMLLoop_shaded (m : Libm) (Idir Idiff LAI : Dbl) (nlayers : ℤ)
    (cosTheta kd heightf k : Dbl) (n : ℕ) (p : Light_profile) (i : ℕ) (hi : i < n) :
    (sunMLLoop (sunMLStep m Idir Idiff LAI nlayers cosTheta kd heightf k) n p).shaded_fraction i
      = (sunMLLayer m Idir Idiff LAI nlayers cosTheta kd heightf k i).shaded_fraction := by
  induction n with
  | zero => exact absurd hi (Nat.not_lt_zero i)
  | succ n ih =>
    by_cases h : i = n
    · subst h
      simp [sunMLLoop, sunMLStep, Arr.set]
    · have hlt : i < n := lt_of_le_of_ne (Nat.lt_succ_iff.mp hi) h
      simp only [sunMLLoop, sunMLStep, Arr.set, if_neg h]
      exact ih hlt

theorem sunMLLoop_total (m : Libm) (Idir Idiff LAI : Dbl) (nlayers : ℤ)
    (cosTheta kd heightf k : Dbl) (n : ℕ) (p : Light_profile) (i : ℕ) (hi : i < n) :
    (sunMLLoop (sunMLStep m Idir Idiff LAI nlayers cosTheta kd heightf k) n p).total_irradiance i
      = (sunMLLayer m Idir Idiff LAI nlayers cosTheta kd heightf k i).total_irradiance := by
  induction n with
  | zero => exact absurd hi (Nat.not_lt_zero i)
  | succ n ih =>
    by_cases h : i = n
    · subst h
      simp [sunMLLoop, sunMLStep, Arr.set]
    · have hlt : i < n := lt_of_le_of_ne (Nat.lt_succ_iff.mp hi) h
      simp only [sunMLLoop, sunMLStep, Arr.set, if_neg h]
      exact ih hlt

/-- The two guards of `sunML`, as one condition. -/
theorem sunML_eq_ok (m : Libm) (Idir Idiff LAI : Dbl) (nlayers : ℤ)
    (cosTheta kd chil heightf : Dbl)
    (h1 : 1 ≤ nlayers) (h2 : nlayers ≤ 200) (h3 : 0 < cosTheta) (h4 : cosTheta ≤ 1) :
    sunML m Idir Idiff LAI nlayers cosTheta kd chil heightf
      = Except.ok (sunMLLoop (sunMLStep m Idir Idiff LAI nlayers cosTheta kd heightf
          (sunML_k m cosTheta chil)) nlayers.toNat Light_profile.blank) := by
  have hn : ¬ (nlayers < 1 ∨ MAXLAY < nlayers) := by
    simp only [MAXLAY, not_or, not_lt]
    exact ⟨h1, h2⟩
  have hc : ¬ (1 < cosTheta ∨ cosTheta ≤ 0) := by
    cases cosTheta with
    | fin q =>
      simp only [one_eq, zero_eq, fin_lt, fin_le, not_or, not_lt, not_le] at h3 h4 ⊢
      exact ⟨h4, h3⟩
    | pinf => exact absurd h4 (by simp)
    | ninf => exact absurd h3 (by simp)
    | nan => exact absurd h3 (by simp)
  simp only [sunML, if_neg hn, if_neg hc]

theorem signedInf_add_neg (l : ℚ) : signedInf l + signedInf (-l) = nan := by
  rcases lt_trichotomy l 0 with h | h | h
  · have h1 : ¬ (0 < l) := not_lt.mpr h.le
    have h2 : 0 < -l := neg_pos.mpr h
    simp only [signedInf, if_neg h1, if_pos h, if_pos h2]
    rfl
  · subst h
    simp [signedInf]
  · have h1 : ¬ (0 < -l) := by simp [h.le]
    have h2 : -l < 0 := by simpa using h
    simp only [signedInf, if_pos h, if_neg h1, if_pos h2]
    rfl

/-- With a leaf area of zero in the layer, the two fractions of `sunML` add up to NaN. -/
theorem zero_lai_fractions (L : Dbl) :
    L / (L + (fin 0 - L)) + (fin 0 - L) / (L + (fin 0 - L)) = nan := by
  cases L with
  | fin l =>
    simp only [fin_sub, fin_add, zero_sub, add_neg_cancel, fin_div, if_true]
    exact signedInf_add_neg l
  | pinf => rfl
  | ninf => rfl
  | nan => rfl


theorem sunMLLayer_zero_lai (m : Libm) (Idir Idiff : Dbl) (nlayers : ℤ)
    (cosTheta kd heightf k : Dbl) (i : ℕ) (hn : 1 ≤ nlayers) :
    (sunMLLayer m Idir Idiff 0 nlayers cosTheta kd heightf k i).sunlit_fraction
      + (sunMLLayer m Idir Idiff 0 nlayers cosTheta kd heightf k i).shaded_fraction = nan := by
  have hq : (nlayers : ℚ) ≠ 0 := by
    have : (0 : ℤ) < nlayers := by omega
    exact_mod_cast this.ne.symm
  have h0 : (0 : Dbl) / ofInt nlayers = fin 0 := by
    simp only [zero_eq, ofInt_eq, fin_div_of_ne _ _ hq, zero_div]
  simp only [sunMLLayer, h0]
  exact zero_lai_fractions _

theorem finite_iff (x : Dbl) : x.Finite ↔ ∃ q : ℚ, x = fin q := by
  cases x with
  | fin q => exact ⟨fun _ => ⟨q, rfl⟩, fun _ => trivial⟩
  | pinf => exact ⟨fun h => h.elim, fun ⟨q, h⟩ => by cases h⟩
  | ninf => exact ⟨fun h => h.elim, fun ⟨q, h⟩ => by cases h⟩
  | nan => exact ⟨fun h => h.elim, fun ⟨q, h⟩ => by cases h⟩

theorem zero_lt_fin (q : ℚ) : (0 : Dbl) < fin q ↔ 0 < q := by
  rw [zero_eq, fin_lt]

theorem fin_le_one (q : ℚ) : fin q ≤ (1 : Dbl) ↔ q ≤ 1 := by
  rw [one_eq, fin_le]

theorem zero_div_zero_add (X Y Z W : Dbl) :
    ((fin 0 / fin 0) * X + Y) * Z / W = nan := by
  have h : fin 0 / fin 0 = nan := by
    simp [fin_div, signedInf]
  rw [h]
  simp

theorem sunMLLayer_zero_lai_total (m : Libm) (Idir Idiff : Dbl) (nlayers : ℤ)
    (cosTheta kd heightf : Dbl) (κ : ℚ) (i : ℕ) (hn : 1 ≤ nlayers)
    (hexp : m.exp (fin 0) = fin 1) :
    (sunMLLayer m Idir Idiff 0 nlayers cosTheta kd heightf (fin κ) i).total_irradiance = nan := by
  have hq : (nlayers : ℚ) ≠ 0 := by
    have : (0 : ℤ) < nlayers := by omega
    exact_mod_cast this.ne.symm
  have h0 : (0 : Dbl) / ofInt nlayers = fin 0 := by
    simp only [zero_eq, ofInt_eq, fin_div_of_ne _ _ hq, zero_div]
  have hLs : (1 - m.exp (-fin κ * fin 0)) * m.exp (-fin κ * (fin 0 * (ofInt i + 0.5))) / fin κ
      = fin 0 ∨
      (1 - m.exp (-fin κ * fin 0)) * m.exp (-fin κ * (fin 0 * (ofInt i + 0.5))) / fin κ
      = nan := by
    simp only [fin_neg, fin_mul, ofInt_eq, ofScientific_eq, fin_add, zero_mul, mul_zero, hexp,
      one_eq, fin_sub, sub_self, fin_div]
    by_cases hκ : κ = 0
    · right
      simp [hκ, signedInf]
    · left
      simp [hκ]
  simp only [sunMLLayer, h0]
  rcases hLs with h | h
  · rw [h]
    simp only [fin_sub, fin_add, sub_self, add_zero]
    exact zero_div_zero_add _ _ _ _
  · rw [h]
    simp

theorem refLibm_exp_zero : refLibm.exp (fin 0) = fin 1 := by
  simp only [refLibm, Ref.exp, Ref.expQ, Ref.taylor4]
  norm_num

theorem expQ_pos (x : ℚ) : 0 < Ref.expQ x := by
  have h : ∀ y : ℚ, 0 < Ref.taylor4 y := by
    intro y
    have e : Ref.taylor4 y = ((y ^ 2 + 2 * y + 2) ^ 2 + 4 * (y + 2) ^ 2 + 4) / 24 := by
      simp only [Ref.taylor4]
      ring
    rw [e]
    positivity
  exact pow_pos (h _) 8

theorem sunML_k_ref_finite : (sunML_k refLibm 1 1).Finite := by
  have hE := expQ_pos (-(733 / 1000 * Ref.logQ (2183 / 1000)))
  have hp : (0 : ℚ) < 1 + 218 / 125 * Ref.expQ (-(733 / 1000 * Ref.logQ (2183 / 1000))) := by
    positivity
  simp only [sunML_k, refLibm, Ref.acos, Ref.tan, Ref.sin, Ref.cos, Ref.sqrt, Ref.pow, one_eq,
    ofNat_eq, ofScientific_eq, fin_add, fin_mul, fin_neg]
  norm_num [Ref.sqrtQ]
  rw [if_pos ((zero_lt_fin _).2 hp), fin_div_of_ne _ _ hp.ne.symm]
  trivial

/-- C3 (code defect): for a leaf area index of 0, which the documented
preconditions of `sunML` allow, every layer `i < nlayers` of the returned
profile has `sunlit_fraction[i] + shaded_fraction[i]` equal to NaN (both
fractions divide by `Ls + Ld = 0`), not to 1. -/
theorem sunML_zero_lai_fractions (m : Libm) (Idir Idiff : Dbl) (nlayers : ℤ)
    (cosTheta kd chil heightf : Dbl) (i : ℕ)
    (h1 : 1 ≤ nlayers) (h2 : nlayers ≤ 200) (h3 : 0 < cosTheta) (h4 : cosTheta ≤ 1)
    (hi : (i : ℤ) < nlayers) :
    ∃ p, sunML m Idir Idiff 0 nlayers cosTheta kd chil heightf = Except.ok p
      ∧ p.sunlit_fraction i + p.shaded_fraction i = nan
      ∧ p.sunlit_fraction i + p.shaded_fraction i ≠ 1 := by
  have hin : i < nlayers.toNat := by omega
  refine ⟨_, sunML_eq_ok m Idir Idiff 0 nlayers cosTheta kd chil heightf h1 h2 h3 h4, ?_⟩
  rw [sunMLLoop_sunlit _ _ _ _ _ _ _ _ _ _ _ _ hin, sunMLLoop_shaded _ _ _ _ _ _ _ _ _ _ _ _ hin,
    sunMLLayer_zero_lai m Idir Idiff nlayers cosTheta kd heightf _ i h1]
  exact ⟨Eq.refl _, by simp⟩

/-- C3, at a concrete input: direct light 1000, diffuse light 200, LAI 0, ten
layers, sun at 60 degrees from the zenith, layer 3. -/
theorem sunML_zero_lai_fractions_witness :
    ∃ p, sunML refLibm 1000 200 0 10 0.5 0.7 1 1 = Except.ok p
      ∧ p.sunlit_fraction 3 + p.shaded_fraction 3 = nan
      ∧ p.sunlit_fraction 3 + p.shaded_fraction 3 ≠ 1 :=
  sunML_zero_lai_fractions refLibm 1000 200 10 0.5 0.7 1 1 3 (by norm_num) (by norm_num)
    ((zero_lt_fin _).2 (by norm_num)) ((fin_le_one _).2 (by norm_num)) (by norm_num)

/-- For a finite leaf area index other than 0, a finite extinction coefficient other than 0
and an `exp` that is finite on finite arguments, the two fractions of every layer add up
to 1: the defect of C3 is confined to the divisions by zero. -/
theorem sunML_fractions_sum_one (m : Libm) (Idir Idiff : Dbl) (L : ℚ) (nlayers : ℤ)
    (cosTheta kd chil heightf : Dbl) (κ : ℚ) (i : ℕ)
    (h1 : 1 ≤ nlayers) (h2 : nlayers ≤ 200) (h3 : 0 < cosTheta) (h4 : cosTheta ≤ 1)
    (hi : (i : ℤ) < nlayers) (hL : L ≠ 0) (hk : sunML_k m cosTheta chil = fin κ) (hκ : κ ≠ 0)
    (hexp : ∀ x : ℚ, (m.exp (fin x)).Finite) :
    ∃ p, sunML m Idir Idiff (fin L) nlayers cosTheta kd chil heightf = Except.ok p
      ∧ p.sunlit_fraction i + p.shaded_fraction i = 1 := by
  have hin : i < nlayers.toNat := by omega
  have hq : (nlayers : ℚ) ≠ 0 := by
    have : (0 : ℤ) < nlayers := by omega
    exact_mod_cast this.ne.symm
  refine ⟨_, sunML_eq_ok m Idir Idiff (fin L) nlayers cosTheta kd chil heightf h1 h2 h3 h4, ?_⟩
  rw [sunMLLoop_sunlit _ _ _ _ _ _ _ _ _ _ _ _ hin, sunMLLoop_shaded _ _ _ _ _ _ _ _ _ _ _ _ hin,
    hk]
  simp only [sunMLLayer, ofInt_eq, ofScientific_eq, fin_div_of_ne _ _ hq, fin_add, fin_mul,
    fin_neg, one_eq]
  obtain ⟨e1, he1⟩ := (finite_iff _).1 (hexp (-κ * (L / nlayers)))
  obtain ⟨e2, he2⟩ := (finite_iff _).1
    (hexp (-κ * (L / nlayers * ((i : ℤ) + OfScientific.ofScientific 5 true 1))))
  rw [he1, he2]
  simp only [fin_sub, fin_mul, fin_div_of_ne _ _ hκ, fin_add, add_sub_cancel]
  have ha : L / (nlayers : ℚ) ≠ 0 := div_ne_zero hL hq
  rw [fin_div_of_ne _ _ ha, fin_div_of_ne _ _ ha, fin_add]
  congr 1
  field_simp
  ring

/-- C4 (code defect): for a leaf area index of 0, a finite extinction
coefficient `k` and `exp(0) = 1`, every layer `i < nlayers` of the returned
profile has `total_irradiance[i]` equal to NaN (the sunlit fraction is `0 / 0`),
so `total_irradiance[i] >= 0` is false. -/
theorem sunML_zero_lai_total_irradiance (m : Libm) (Idir Idiff : Dbl) (nlayers : ℤ)
    (cosTheta kd chil heightf : Dbl) (i : ℕ)
    (h1 : 1 ≤ nlayers) (h2 : nlayers ≤ 200) (h3 : 0 < cosTheta) (h4 : cosTheta ≤ 1)
    (hi : (i : ℤ) < nlayers) (hexp : m.exp (fin 0) = fin 1)
    (hk : (sunML_k m cosTheta chil).Finite) :
    ∃ p, sunML m Idir Idiff 0 nlayers cosTheta kd chil heightf = Except.ok p
      ∧ p.total_irradiance i = nan ∧ ¬ (0 ≤ p.total_irradiance i) := by
  have hin : i < nlayers.toNat := by omega
  obtain ⟨κ, hκ⟩ := (finite_iff _).1 hk
  refine ⟨_, sunML_eq_ok m Idir Idiff 0 nlayers cosTheta kd chil heightf h1 h2 h3 h4, ?_⟩
  rw [sunMLLoop_total _ _ _ _ _ _ _ _ _ _ _ _ hin, hκ,
    sunMLLayer_zero_lai_total m Idir Idiff nlayers cosTheta kd heightf κ i h1 hexp]
  exact ⟨Eq.refl _, by simp⟩

/-- C4, at a concrete input: direct light 1500, diffuse light 300, LAI 0, five
layers, sun at the zenith, `chil = 1`, top layer. -/
theorem sunML_zero_lai_total_irradiance_witness :
    ∃ p, sunML refLibm 1500 300 0 5 1 0.7 1 1 = Except.ok p
      ∧ p.total_irradiance 0 = nan ∧ ¬ (0 ≤ p.total_irradiance 0) :=
  sunML_zero_lai_total_irradiance refLibm 1500 300 5 1 0.7 1 1 0 (by norm_num) (by norm_num)
    ((zero_lt_fin _).2 (by norm_num)) ((fin_le_one _).2 (by norm_num)) (by norm_num)
    refLibm_exp_zero sunML_k_ref_finite

/-- For positive finite light and leaf area, a positive finite extinction coefficient and an
`exp` that is positive, monotone and above its tangent at 0, the total irradiance of every
layer is not negative: the defect of C4 is confined to the divisions by zero. -/
theorem sunML_total_irradiance_nonneg (m : Libm) (E : ℚ → ℚ) (I1 I2 L : ℚ) (nlayers : ℤ)
    (ct d : ℚ) (chil heightf : Dbl) (κ r : ℚ) (i : ℕ)
    (h1 : 1 ≤ nlayers) (h2 : nlayers ≤ 200) (h3 : 0 < ct) (h4 : ct ≤ 1)
    (hi : (i : ℤ) < nlayers) (hI1 : 0 < I1) (hI2 : 0 < I2) (hL : 0 < L)
    (hk : sunML_k m (fin ct) chil = fin κ) (hκ : 0 < κ)
    (hr : m.sqrt 0.8 = fin r) (hr1 : r ≤ 1)
    (hE : ∀ x : ℚ, m.exp (fin x) = fin (E x)) (hpos : ∀ x, 0 < E x)
    (hmono : ∀ x y, x ≤ y → E x ≤ E y) (hzero : E 0 = 1) (htan : ∀ x, 1 + x ≤ E x) :
    ∃ p, sunML m (fin I1) (fin I2) (fin L) nlayers (fin ct) (fin d) chil heightf = Except.ok p
      ∧ 0 ≤ p.total_irradiance i := by
  have hin : i < nlayers.toNat := by omega
  have hn : (0 : ℚ) < nlayers := by
    have : (0 : ℤ) < nlayers := by omega
    exact_mod_cast this
  have hq : (nlayers : ℚ) ≠ 0 := hn.ne.symm
  refine ⟨_, sunML_eq_ok m (fin I1) (fin I2) (fin L) nlayers (fin ct) (fin d) chil heightf h1 h2
    ((zero_lt_fin _).2 h3) ((fin_le_one _).2 h4), ?_⟩
  rw [sunMLLoop_total _ _ _ _ _ _ _ _ _ _ _ _ hin, hk]
  have hr' : m.sqrt (fin (OfScientific.ofScientific 8 true 1)) = fin r := hr
  simp only [sunMLLayer, ofInt_eq, ofScientific_eq, fin_div_of_ne _ _ hq, fin_add, fin_mul,
    fin_neg, one_eq, hr', hE, fin_sub, fin_div_of_ne _ _ hκ.ne.symm, add_sub_cancel]
  have ha : 0 < L / (nlayers : ℚ) := div_pos hL hn
  rw [fin_div_of_ne _ _ ha.ne.symm, fin_div_of_ne _ _ ha.ne.symm]
  simp only [fin_mul, fin_add, fin_div_of_ne _ _ hκ.ne.symm, zero_eq, fin_le]
  -- the rational inequality
  have hc : 0 ≤ L / (nlayers : ℚ) * ((i : ℤ) + OfScientific.ofScientific 5 true 1) := by
    have : (0 : ℚ) ≤ ((i : ℤ) : ℚ) := by exact_mod_cast Nat.zero_le i
    have h5 : (0 : ℚ) ≤ OfScientific.ofScientific 5 true 1 := by norm_num
    exact mul_nonneg ha.le (add_nonneg this h5)
  generalize hcdef : L / (nlayers : ℚ) * ((i : ℤ) + OfScientific.ofScientific 5 true 1) = c
    at hc ⊢
  generalize hadef : L / (nlayers : ℚ) = a at ha ⊢
  have e1le : E (-κ * a) ≤ 1 := by
    rw [← hzero]
    exact hmono _ _ (by nlinarith)
  have e2le : E (-κ * c) ≤ 1 := by
    rw [← hzero]
    exact hmono _ _ (by nlinarith)
  have e1tan : 1 - κ * a ≤ E (-κ * a) := by
    have := htan (-κ * a)
    linarith
  have hscat : E (-κ * c) ≤ E (-κ * r * c) := by
    apply hmono
    have : κ * r * c ≤ κ * c := by
      have : r * c ≤ 1 * c := mul_le_mul_of_nonneg_right hr1 hc
      nlinarith
    linarith
  have hLs : 0 ≤ (1 - E (-κ * a)) * E (-κ * c) / κ :=
    div_nonneg (mul_nonneg (by linarith) (hpos _).le) hκ.le
  have hLd : 0 ≤ a - (1 - E (-κ * a)) * E (-κ * c) / κ := by
    rw [sub_nonneg, div_le_iff₀ hκ]
    have h6 : (1 - E (-κ * a)) * E (-κ * c) ≤ (1 - E (-κ * a)) * 1 :=
      mul_le_mul_of_nonneg_left e2le (by linarith)
    nlinarith
  have hb : 0 < I1 * ct := mul_pos hI1 h3
  have hdiff : 0 ≤ I2 * E (-d * c) + (I1 * ct * E (-κ * r * c) - I1 * ct * E (-κ * c)) := by
    have h7 : 0 ≤ I2 * E (-d * c) := mul_nonneg hI2.le (hpos _).le
    have h8 : 0 ≤ I1 * ct * (E (-κ * r * c) - E (-κ * c)) :=
      mul_nonneg hb.le (by linarith)
    nlinarith
  have hsol : 0 ≤ I1 * ct * κ := mul_nonneg hb.le hκ.le
  apply div_nonneg _ hκ.le
  apply mul_nonneg _ (by linarith)
  apply add_nonneg
  · exact mul_nonneg (div_nonneg hLs ha.le) (add_nonneg hsol hdiff)
  · exact mul_nonneg (div_nonneg hLd ha.le) hdiff

/-- C5: `sunML` throws `std::out_of_range` exactly when `nlayers < 1`,
`nlayers > 200`, `cosTheta <= 0` or `cosTheta > 1`, and returns a light
profile exactly when none of the four holds. -/
theorem sunML_out_of_range_iff (m : Libm) (Idir Idiff LAI : Dbl) (nlayers : ℤ)
    (cosTheta kd chil heightf : Dbl) :
    ((∃ what, sunML m Idir Idiff LAI nlayers cosTheta kd chil heightf
        = Except.error (Exception.out_of_range what))
      ↔ (nlayers < 1 ∨ 200 < nlayers ∨ cosTheta ≤ 0 ∨ 1 < cosTheta))
    ∧ ((∃ p, sunML m Idir Idiff LAI nlayers cosTheta kd chil heightf = Except.ok p)
      ↔ ¬ (nlayers < 1 ∨ 200 < nlayers ∨ cosTheta ≤ 0 ∨ 1 < cosTheta)) := by
  by_cases hn : nlayers < 1 ∨ MAXLAY < nlayers
  · have hc : nlayers < 1 ∨ 200 < nlayers ∨ cosTheta ≤ 0 ∨ 1 < cosTheta := by
      rcases hn with h | h
      · exact Or.inl h
      · exact Or.inr (Or.inl h)
    have hs : sunML m Idir Idiff LAI nlayers cosTheta kd chil heightf = Except.error
        (Exception.out_of_range "nlayers must be at least 1 but no more than 200") := by
      simp only [sunML, if_pos hn]
    rw [hs]
    exact ⟨⟨fun _ => hc, fun _ => ⟨_, Eq.refl _⟩⟩,
      ⟨fun ⟨p, hp⟩ => (by cases hp), fun h => absurd hc h⟩⟩
  · by_cases hc : 1 < cosTheta ∨ cosTheta ≤ 0
    · have hc2 : nlayers < 1 ∨ 200 < nlayers ∨ cosTheta ≤ 0 ∨ 1 < cosTheta := by
        rcases hc with h | h
        · exact Or.inr (Or.inr (Or.inr h))
        · exact Or.inr (Or.inr (Or.inl h))
      have hs : sunML m Idir Idiff LAI nlayers cosTheta kd chil heightf = Except.error
          (Exception.out_of_range "cosTheta must be positive but no more than 1.") := by
        simp only [sunML, if_neg hn, if_pos hc]
      rw [hs]
      exact ⟨⟨fun _ => hc2, fun _ => ⟨_, Eq.refl _⟩⟩,
        ⟨fun ⟨p, hp⟩ => (by cases hp), fun h => absurd hc2 h⟩⟩
    · have hc2 : ¬ (nlayers < 1 ∨ 200 < nlayers ∨ cosTheta ≤ 0 ∨ 1 < cosTheta) := by
        rintro (h | h | h | h)
        · exact hn (Or.inl h)
        · exact hn (Or.inr h)
        · exact hc (Or.inr h)
        · exact hc (Or.inl h)
      have hs : sunML m Idir Idiff LAI nlayers cosTheta kd chil heightf
          = Except.ok (sunMLLoop (sunMLStep m Idir Idiff LAI nlayers cosTheta kd heightf
            (sunML_k m cosTheta chil)) nlayers.toNat Light_profile.blank) := by
        simp only [sunML, if_neg hn, if_neg hc]
      rw [hs]
      exact ⟨⟨fun ⟨w, hw⟩ => (by cases hw), fun h => absurd h hc2⟩,
        ⟨fun _ => hc2, fun _ => ⟨_, Eq.refl _⟩⟩⟩

/-- C6 (counterexample): a call with `Idir = -100`, `Idiff = -50` and
`LAI = -3`, ten layers and `cosTheta = 0.5` returns a profile; no error is
raised for the non-positive irradiances or the negative leaf area index. -/
theorem sunML_negative_inputs_accepted :
    ∃ p, sunML refLibm (-100) (-50) (-3) 10 0.5 0.7 1 1 = Except.ok p :=
  ⟨_, sunML_eq_ok refLibm (-100) (-50) (-3) 10 0.5 0.7 1 1 (by norm_num) (by norm_num)
    ((zero_lt_fin _).2 (by norm_num)) ((fin_le_one _).2 (by norm_num))⟩

/-- C6 (amended): `sunML` checks only the layer count and `cosTheta`: for
`1 <= nlayers <= 200` and `0 < cosTheta <= 1` it returns a profile for every
`Idir`, `Idiff` and `LAI`, also when `Idir <= 0`, `Idiff <= 0` or `LAI < 0`. -/
theorem sunML_irradiance_lai_unchecked (m : Libm) (Idir Idiff LAI : Dbl) (nlayers : ℤ)
    (cosTheta kd chil heightf : Dbl)
    (h1 : 1 ≤ nlayers) (h2 : nlayers ≤ 200) (h3 : 0 < cosTheta) (h4 : cosTheta ≤ 1) :
    ∃ p, sunML m Idir Idiff LAI nlayers cosTheta kd chil heightf = Except.ok p :=
  ⟨_, sunML_eq_ok m Idir Idiff LAI nlayers cosTheta kd chil heightf h1 h2 h3 h4⟩

/-- C6 (amended), at a concrete input: no light at all and a negative leaf
area index. -/
theorem sunML_irradiance_lai_unchecked_witness :
    ∃ p, sunML refLibm 0 0 (-1) 200 1 0.7 1 1 = Except.ok p :=
  sunML_irradiance_lai_unchecked refLibm 0 0 (-1) 200 1 0.7 1 1 (by norm_num) (by norm_num)
    ((zero_lt_fin _).2 (by norm_num)) ((fin_le_one _).2 (by norm_num))

/-! ## C3 photosynthesis: theorems -/

/-- A property that every iteration of the loop of `c3photoC` preserves holds when the loop
ends. -/
theorem c3Loop_invariant (bb : Dbl → Dbl → Dbl → Dbl → Dbl → Dbl) (e : C3Env)
    (P : C3State → Prop) (hstep : ∀ s, P s → P (c3Step bb e s))
    (hcnt : ∀ s k, P s → P { s with iterCounter := k }) :
    ∀ n s, P s → P (c3Loop bb e n s) := by
  intro n
  induction n with
  | zero => intro s hs; exact hs
  | succ n ih =>
    intro s hs
    simp only [c3Loop]
    split
    · exact hstep s hs
    · exact ih _ (hcnt _ _ (hstep s hs))

/-- A property that every iteration establishes holds when the loop ends, as the body runs at
least once. -/
theorem c3Loop_of_step (bb : Dbl → Dbl → Dbl → Dbl → Dbl → Dbl) (e : C3Env)
    (P : C3State → Prop) (hstep : ∀ s, P (c3Step bb e s))
    (hcnt : ∀ s k, P s → P { s with iterCounter := k }) :
    ∀ n s, P (c3Loop bb e (n + 1) s) := by
  intro n s
  simp only [c3Loop]
  split
  · exact hstep s
  · exact c3Loop_invariant bb e P (fun s _ => hstep s) hcnt n _ (hcnt _ _ (hstep s))

theorem adjustGs_bounds (wsa : ℤ) (w g : ℚ) :
    ∃ x : ℚ, adjustGs wsa (fin w) (fin g) = fin x ∧ 0 < x ∧ x ≤ 0.8 := by
  have key : ∀ y : ℚ, ∃ x : ℚ,
      (if (800 : Dbl) * 1e-3 < (if fin y ≤ 0 then (1e-5 : Dbl) * 1e-3 else fin y)
        then (800 : Dbl) * 1e-3 else (if fin y ≤ 0 then (1e-5 : Dbl) * 1e-3 else fin y)) = fin x
      ∧ 0 < x ∧ x ≤ 0.8 := by
    intro y
    simp only [ofNat_eq, ofScientific_eq, zero_eq, fin_mul, fin_le]
    by_cases h1 : y ≤ 0
    · simp only [if_pos h1, fin_lt]
      refine ⟨1e-5 * 1e-3, ?_, by norm_num, by norm_num⟩
      rw [if_neg (by norm_num)]
    · simp only [if_neg h1, fin_lt]
      by_cases h2 : (800 : ℚ) * 1e-3 < y
      · exact ⟨800 * 1e-3, by rw [if_pos h2], by norm_num, by norm_num⟩
      · refine ⟨y, by rw [if_neg h2], not_le.mp h1, ?_⟩
        have := not_lt.mp h2
        norm_num at this ⊢
        exact this
  by_cases h : wsa = 1
  · simp only [adjustGs, if_pos h, fin_mul]
    exact key _
  · simp only [adjustGs, if_neg h]
    exact key _

theorem c3Step_Gs (bb : Dbl → Dbl → Dbl → Dbl → Dbl → Dbl) (e : C3Env) (s : C3State) :
    (c3Step bb e s).Gs = adjustGs e.water_stress_approach e.StomWS
      (bb (c3Step bb e s).co2_assimilation_rate (e.Ca * 1e-6) e.RH e.bb0 e.bb1 * 1e-3) := by
  simp only [c3Step]

theorem c3Env_StomWS (m : Libm) (Qp Tleaf RH Vcmax0 Jmax Rd0 bb0 bb1 Ca O2 thet StomWS : Dbl)
    (wsa : ℤ) (epc epo : Dbl) :
    (c3Env m Qp Tleaf RH Vcmax0 Jmax Rd0 bb0 bb1 Ca O2 thet StomWS wsa epc epo).StomWS = StomWS
      ∧ (c3Env m Qp Tleaf RH Vcmax0 Jmax Rd0 bb0 bb1 Ca O2 thet StomWS wsa epc
        epo).water_stress_approach = wsa := by
  simp only [c3Env, and_self]

/-- C7 (counterexample): with `ball_berry` returning 100 mmol m^-2 s^-1, a
stress factor `StomWS = 1e-10` and `water_stress_approach = 1`, the returned
`Gs` is `1e-8`, below `1e-5`: the floor replaces only a conductance that is not
positive. -/
theorem c3photoC_Gs_below_floor :
    (c3photoC refLibm (fun _ _ _ _ _ => 100) 1500 25 0.7 100 180 1.1 0.08 5 400 210 0.7 1e-10 1
        4.5 5.25).Gs = 1e-8
      ∧ ¬ ((1e-5 : Dbl) ≤ (c3photoC refLibm (fun _ _ _ _ _ => 100) 1500 25 0.7 100 180 1.1 0.08
        5 400 210 0.7 1e-10 1 4.5 5.25).Gs) := by
  have h : (c3photoC refLibm (fun _ _ _ _ _ => 100) 1500 25 0.7 100 180 1.1 0.08 5 400 210 0.7
      1e-10 1 4.5 5.25).Gs = 1e-8 := by
    have hG : (c3Loop (fun _ _ _ _ _ => 100)
        (c3Env refLibm 1500 25 0.7 100 180 1.1 0.08 5 400 210 0.7 1e-10 1 4.5 5.25) 50
        c3Init).Gs = fin 1e-11 :=
      c3Loop_of_step (fun _ _ _ _ _ => 100)
        (c3Env refLibm 1500 25 0.7 100 180 1.1 0.08 5 400 210 0.7 1e-10 1 4.5 5.25)
        (fun s => s.Gs = fin 1e-11)
        (fun s => by
          show (c3Step _ _ s).Gs = fin 1e-11
          rw [c3Step_Gs]
          simp only [c3Env, adjustGs, ofNat_eq, ofScientific_eq, zero_eq, fin_mul, fin_le,
            fin_lt]
          norm_num)
        (fun s k hs => hs) 49 c3Init
    simp only [c3photoC]
    rw [hG]
    simp only [ofScientific_eq, fin_mul]
    norm_num
  rw [h]
  simp only [ofScientific_eq, fin_le]
  norm_num

/-- When the loop of `c3photoC` ends, `Gs` is the adjusted value of `ball_berry` at the final
assimilation rate. -/
theorem c3Loop_Gs (bb : Dbl → Dbl → Dbl → Dbl → Dbl → Dbl) (e : C3Env) (n : ℕ) (s : C3State) :
    (c3Loop bb e (n + 1) s).Gs = adjustGs e.water_stress_approach e.StomWS
      (bb (c3Loop bb e (n + 1) s).co2_assimilation_rate (e.Ca * 1e-6) e.RH e.bb0 e.bb1 * 1e-3) :=
  c3Loop_of_step bb e
    (fun s => s.Gs = adjustGs e.water_stress_approach e.StomWS
      (bb s.co2_assimilation_rate (e.Ca * 1e-6) e.RH e.bb0 e.bb1 * 1e-3))
    (fun s => c3Step_Gs bb e s) (fun _ _ hs => hs) n s

/-- C7 (amended): when `StomWS` is finite and the value `ball_berry` returns
at the final assimilation rate is finite, the `Gs` returned by `c3photoC`
satisfies `0 < Gs <= 800`. -/
theorem c3photoC_Gs_bounds (m : Libm) (ball_berry : Dbl → Dbl → Dbl → Dbl → Dbl → Dbl)
    (Qp Tleaf RH Vcmax0 Jmax Rd0 bb0 bb1 Ca O2 thet StomWS : Dbl) (wsa : ℤ) (epc epo : Dbl)
    (hws : StomWS.Finite)
    (hbb : (ball_berry
      (c3Final m ball_berry Qp Tleaf RH Vcmax0 Jmax Rd0 bb0 bb1 Ca O2 thet StomWS wsa epc
        epo).co2_assimilation_rate
      ((c3Env m Qp Tleaf RH Vcmax0 Jmax Rd0 bb0 bb1 Ca O2 thet StomWS wsa epc epo).Ca * 1e-6)
      RH bb0 bb1).Finite) :
    0 < (c3photoC m ball_berry Qp Tleaf RH Vcmax0 Jmax Rd0 bb0 bb1 Ca O2 thet StomWS wsa epc
        epo).Gs
      ∧ (c3photoC m ball_berry Qp Tleaf RH Vcmax0 Jmax Rd0 bb0 bb1 Ca O2 thet StomWS wsa epc
        epo).Gs ≤ 800 := by
  obtain ⟨w, rfl⟩ := (finite_iff _).1 hws
  obtain ⟨b, hb⟩ := (finite_iff _).1 hbb
  have hG := c3Loop_Gs ball_berry
    (c3Env m Qp Tleaf RH Vcmax0 Jmax Rd0 bb0 bb1 Ca O2 thet (fin w) wsa epc epo) 49 c3Init
  have hb2 : ball_berry (c3Loop ball_berry
      (c3Env m Qp Tleaf RH Vcmax0 Jmax Rd0 bb0 bb1 Ca O2 thet (fin w) wsa epc epo) (49 + 1)
      c3Init).co2_assimilation_rate
      ((c3Env m Qp Tleaf RH Vcmax0 Jmax Rd0 bb0 bb1 Ca O2 thet (fin w) wsa epc epo).Ca * 1e-6)
      (c3Env m Qp Tleaf RH Vcmax0 Jmax Rd0 bb0 bb1 Ca O2 thet (fin w) wsa epc epo).RH
      (c3Env m Qp Tleaf RH Vcmax0 Jmax Rd0 bb0 bb1 Ca O2 thet (fin w) wsa epc epo).bb0
      (c3Env m Qp Tleaf RH Vcmax0 Jmax Rd0 bb0 bb1 Ca O2 thet (fin w) wsa epc epo).bb1
      = fin b := hb
  rw [hb2, (c3Env_StomWS _ _ _ _ _ _ _ _ _ _ _ _ _ _ _ _).1, ofScientific_eq, fin_mul] at hG
  obtain ⟨x, hx, hx0, hx1⟩ := adjustGs_bounds
    (c3Env m Qp Tleaf RH Vcmax0 Jmax Rd0 bb0 bb1 Ca O2 thet (fin w) wsa epc
      epo).water_stress_approach w (b * OfScientific.ofScientific 1 true 3)
  rw [hx] at hG
  have hG2 : (c3Loop ball_berry
      (c3Env m Qp Tleaf RH Vcmax0 Jmax Rd0 bb0 bb1 Ca O2 thet (fin w) wsa epc epo) 50
      c3Init).Gs = fin x := hG
  simp only [c3photoC, hG2, ofScientific_eq, ofNat_eq, zero_eq, fin_mul, fin_lt, fin_le]
  constructor
  · exact mul_pos hx0 (by norm_num)
  · calc x * 1e3 ≤ 0.8 * 1e3 := mul_le_mul_of_nonneg_right hx1 (by norm_num)
      _ = 800 := by norm_num

/-- C7 (amended), at a concrete input with a constant `ball_berry`. -/
theorem c3photoC_Gs_bounds_witness :
    0 < (c3photoC refLibm (fun _ _ _ _ _ => 250) 1500 25 0.7 100 180 1.1 0.08 5 400 210 0.7 1 0
        4.5 5.25).Gs
      ∧ (c3photoC refLibm (fun _ _ _ _ _ => 250) 1500 25 0.7 100 180 1.1 0.08 5 400 210 0.7 1 0
        4.5 5.25).Gs ≤ 800 :=
  c3photoC_Gs_bounds refLibm (fun _ _ _ _ _ => 250) 1500 25 0.7 100 180 1.1 0.08 5 400 210 0.7 1
    0 4.5 5.25 trivial trivial

/-- C8 (counterexample): with `ball_berry` returning 1000 mmol m^-2 s^-1,
`StomWS = 0.5` and `water_stress_approach = 1`, `c3photoC` returns `Gs = 500`
(1000 is halved, and 500 is below the ceiling), while clamping first and
scaling afterwards gives `0.5 * 800 = 400`. -/
theorem c3photoC_Gs_not_clamp_then_scale :
    (c3photoC refLibm (fun _ _ _ _ _ => 1000) 1500 25 0.7 100 180 1.1 0.08 5 400 210 0.7 0.5 1
        4.5 5.25).Gs = 500
      ∧ specGsClampThenScale 0.5 1000 = 400
      ∧ (c3photoC refLibm (fun _ _ _ _ _ => 1000) 1500 25 0.7 100 180 1.1 0.08 5 400 210 0.7 0.5
        1 4.5 5.25).Gs ≠ specGsClampThenScale 0.5 1000 := by
  have h : (c3photoC refLibm (fun _ _ _ _ _ => 1000) 1500 25 0.7 100 180 1.1 0.08 5 400 210 0.7
      0.5 1 4.5 5.25).Gs = 500 := by
    have hG : (c3Loop (fun _ _ _ _ _ => 1000)
        (c3Env refLibm 1500 25 0.7 100 180 1.1 0.08 5 400 210 0.7 0.5 1 4.5 5.25) 50
        c3Init).Gs = fin 0.5 :=
      c3Loop_of_step (fun _ _ _ _ _ => 1000)
        (c3Env refLibm 1500 25 0.7 100 180 1.1 0.08 5 400 210 0.7 0.5 1 4.5 5.25)
        (fun s => s.Gs = fin 0.5)
        (fun s => by
          show (c3Step _ _ s).Gs = fin 0.5
          rw [c3Step_Gs]
          simp only [c3Env, adjustGs, ofNat_eq, ofScientific_eq, zero_eq, fin_mul, fin_le,
            fin_lt]
          norm_num)
        (fun s k hs => hs) 49 c3Init
    simp only [c3photoC]
    rw [hG]
    simp only [ofScientific_eq, ofNat_eq, fin_mul]
    norm_num
  have h2 : specGsClampThenScale 0.5 1000 = 400 := by
    simp only [specGsClampThenScale, specClamp, ofNat_eq, ofScientific_eq, fin_lt]
    norm_num
  refine ⟨h, h2, ?_⟩
  rw [h, h2]
  simp only [ofNat_eq]
  intro h3
  injection h3 with h4
  norm_num at h4

/-- C8 (amended): when `water_stress_approach = 1` (and the value of
`ball_berry` and `StomWS` are finite), an iteration of `c3photoC` first
multiplies the `ball_berry` conductance by `StomWS` and only afterwards applies
the floor (a value that is not positive becomes `1e-5`) and the ceiling 800: in
mmol m^-2 s^-1 the conductance of the iteration is
`gsScaleThenClamp StomWS (ball_berry ...)`. -/
theorem c3Step_Gs_scale_then_clamp (ball_berry : Dbl → Dbl → Dbl → Dbl → Dbl → Dbl) (e : C3Env)
    (s : C3State) (hwsa : e.water_stress_approach = 1) (hws : e.StomWS.Finite)
    (hbb : (ball_berry (c3Step ball_berry e s).co2_assimilation_rate (e.Ca * 1e-6) e.RH e.bb0
      e.bb1).Finite) :
    (c3Step ball_berry e s).Gs * 1e3
      = gsScaleThenClamp e.StomWS
          (ball_berry (c3Step ball_berry e s).co2_assimilation_rate (e.Ca * 1e-6) e.RH e.bb0
            e.bb1) := by
  obtain ⟨w, hw⟩ := (finite_iff _).1 hws
  obtain ⟨b, hb⟩ := (finite_iff _).1 hbb
  rw [c3Step_Gs, hb, hw, hwsa]
  simp only [adjustGs, gsScaleThenClamp, if_true, ofNat_eq, ofScientific_eq, zero_eq, fin_mul,
    fin_le, fin_lt]
  have e1 : b * 1e-3 * w ≤ 0 ↔ b * w ≤ 0 := by
    constructor
    · intro h
      nlinarith
    · intro h
      nlinarith
  by_cases h1 : b * w ≤ 0
  · rw [if_pos (e1.2 h1), if_pos h1]
    simp only [fin_lt]
    rw [if_neg (by norm_num), if_neg (by norm_num), fin_mul]
    norm_num
  · rw [if_neg (fun h => h1 (e1.1 h)), if_neg h1]
    simp only [fin_lt]
    by_cases h2 : 800 < b * w
    · have h3 : (800 : ℚ) * 1e-3 < b * 1e-3 * w := by nlinarith
      rw [if_pos h3, if_pos h2, fin_mul]
      norm_num
    · have h3 : ¬ ((800 : ℚ) * 1e-3 < b * 1e-3 * w) := by
        intro h
        apply h2
        nlinarith
      rw [if_neg h3, if_neg h2, fin_mul]
      congr 1
      ring_nf

/-- C8 (amended), at the first iteration of a concrete call. -/
theorem c3Step_Gs_scale_then_clamp_witness :
    (c3Step (fun _ _ _ _ _ => 1000)
        (c3Env refLibm 1500 25 0.7 100 180 1.1 0.08 5 400 210 0.7 0.5 1 4.5 5.25) c3Init).Gs * 1e3
      = gsScaleThenClamp 0.5 1000 :=
  c3Step_Gs_scale_then_clamp (fun _ _ _ _ _ => 1000)
    (c3Env refLibm 1500 25 0.7 100 180 1.1 0.08 5 400 210 0.7 0.5 1 4.5 5.25) c3Init
    (Eq.refl _) trivial trivial

theorem zero_lt_zero_false : ¬ ((0 : Dbl) < 0) := by
  simp only [zero_eq, fin_lt, lt_self_iff_false, not_false_eq_true]

theorem floorCi_pa_not_neg (x : Dbl) : ¬ (floorCi_pa x < 0) := by
  cases x with
  | fin q =>
    simp only [floorCi_pa, zero_eq, ofScientific_eq, fin_lt]
    by_cases h : q < 0
    · rw [if_pos h, fin_lt]
      norm_num
    · rw [if_neg h, fin_lt]
      exact h
  | pinf => simp [floorCi_pa]
  | ninf =>
    simp only [floorCi_pa, zero_eq, ofScientific_eq, ninf_lt_fin, if_true, fin_lt]
    norm_num
  | nan => simp [floorCi_pa]

theorem div_pos_not_neg (x : Dbl) (p : ℚ) (hp : 0 < p) (hx : ¬ (x < 0)) : ¬ (x / fin p < 0) := by
  cases x with
  | fin q =>
    simp only [zero_eq, fin_lt, not_lt] at hx
    simp only [fin_div_of_ne _ _ hp.ne.symm, zero_eq, fin_lt, not_lt]
    exact div_nonneg hx hp.le
  | pinf =>
    rw [pinf_div_of_nonneg _ hp.le]
    exact not_pinf_lt _
  | ninf => exact absurd (by simp) hx
  | nan => simp

theorem mul_pos_not_neg (x : Dbl) (p : ℚ) (hp : 0 < p) (hx : ¬ (x < 0)) : ¬ (x * fin p < 0) := by
  cases x with
  | fin q =>
    simp only [zero_eq, fin_lt, not_lt] at hx
    simp only [fin_mul, zero_eq, fin_lt, not_lt]
    exact mul_nonneg hx hp.le
  | pinf =>
    simp only [pinf_mul_fin, signedInf, if_pos hp]
    exact not_pinf_lt _
  | ninf => exact absurd (by simp) hx
  | nan => simp

theorem c3Step_Ci (bb : Dbl → Dbl → Dbl → Dbl → Dbl → Dbl) (e : C3Env) (s : C3State) :
    (c3Step bb e s).Ci = s.Ci_pa / atmospheric_pressure := by
  simp only [c3Step]

theorem c3Step_Ci_pa (bb : Dbl → Dbl → Dbl → Dbl → Dbl → Dbl) (e : C3Env) (s : C3State) :
    (c3Step bb e s).Ci_pa = floorCi_pa (e.Ca_pa
      - (c3Step bb e s).co2_assimilation_rate * 1.6 * atmospheric_pressure
        / (c3Step bb e s).Gs) := by
  simp only [c3Step]

/-- C9 (amended): in every iteration of `c3photoC` whose diffusion relation
`Ca_pa - co2_assimilation_rate * 1.6 * atmospheric_pressure / Gs` is negative
the stored `Ci_pa` is `1e-5` Pa, and for every input the `Ci` that `c3photoC`
returns is not negative. -/
theorem c3photoC_Ci_floor :
    (∀ (ball_berry : Dbl → Dbl → Dbl → Dbl → Dbl → Dbl) (e : C3Env) (s : C3State),
      e.Ca_pa - (c3Step ball_berry e s).co2_assimilation_rate * 1.6 * atmospheric_pressure
          / (c3Step ball_berry e s).Gs < 0 →
        (c3Step ball_berry e s).Ci_pa = 1e-5)
    ∧ (∀ (m : Libm) (ball_berry : Dbl → Dbl → Dbl → Dbl → Dbl → Dbl)
        (Qp Tleaf RH Vcmax0 Jmax Rd0 bb0 bb1 Ca O2 thet StomWS : Dbl) (wsa : ℤ) (epc epo : Dbl),
        ¬ ((c3photoC m ball_berry Qp Tleaf RH Vcmax0 Jmax Rd0 bb0 bb1 Ca O2 thet StomWS wsa epc
          epo).Ci < 0)) := by
  constructor
  · intro bb e s h
    rw [c3Step_Ci_pa, floorCi_pa, if_pos h]
  · intro m bb Qp Tleaf RH Vcmax0 Jmax Rd0 bb0 bb1 Ca O2 thet StomWS wsa epc epo
    have hI := c3Loop_invariant bb
      (c3Env m Qp Tleaf RH Vcmax0 Jmax Rd0 bb0 bb1 Ca O2 thet StomWS wsa epc epo)
      (fun s => ¬ (s.Ci_pa < 0) ∧ ¬ (s.Ci < 0))
      (fun s hs => by
        refine ⟨?_, ?_⟩
        · show ¬ ((c3Step _ _ s).Ci_pa < 0)
          rw [c3Step_Ci_pa]
          exact floorCi_pa_not_neg _
        · show ¬ ((c3Step _ _ s).Ci < 0)
          rw [c3Step_Ci]
          exact div_pos_not_neg _ 101325 (by norm_num) hs.1)
      (fun s k hs => hs) 50 c3Init
      ⟨by
        simp only [c3Init, ofScientific_eq, zero_eq, fin_lt]
        norm_num, zero_lt_zero_false⟩
    simp only [c3photoC]
    exact mul_pos_not_neg _ 1e6 (by norm_num) hI.2

theorem mul_fin_zero_cases (x : Dbl) : x * fin 0 = fin 0 ∨ x * fin 0 = nan := by
  cases x with
  | fin q => left; rw [fin_mul, mul_zero]
  | pinf => right; simp [pinf_mul_fin, signedInf]
  | ninf => right; simp [ninf_mul_fin, signedInf]
  | nan => right; simp

theorem c3Step_Vc (bb : Dbl → Dbl → Dbl → Dbl → Dbl → Dbl) (e : C3Env) (s : C3State) :
    (c3Step bb e s).Vc = selectVc s.Vc (c3Ac e (s.Ci_pa / atmospheric_pressure))
      (c3Aj e (s.Ci_pa / atmospheric_pressure)) (c3Ap e (s.Ci_pa / atmospheric_pressure)) := by
  simp only [c3Step]

theorem c3Step_assim_stress (bb : Dbl → Dbl → Dbl → Dbl → Dbl → Dbl) (e : C3Env) (s : C3State)
    (hwsa : e.water_stress_approach = 0) :
    (c3Step bb e s).co2_assimilation_rate = ((c3Step bb e s).Vc - e.Rd) * e.StomWS := by
  simp only [c3Step, if_pos hwsa]

theorem c3_rates_nan (e : C3Env) :
    c3Ac e nan = nan ∧ c3Aj e nan = nan ∧ c3Ap e nan = nan := by
  refine ⟨?_, ?_, ?_⟩
  · simp [c3Ac]
  · simp [c3Aj]
  · simp [c3Ap]

theorem selectVc_nan (v : Dbl) : selectVc v nan nan nan = v := by
  simp [selectVc]

theorem abs_nan_not_lt (x y : Dbl) : ¬ (Dbl.abs (x - nan) < y) := by
  rw [sub_nan]
  exact not_nan_lt y

/-- With `water_stress_approach = 0` and `StomWS = 0` the `Ci` of the final state of the loop
of `c3photoC` is 0 or NaN, whatever the library functions and `ball_berry` are. -/
theorem c3Loop_zero_stress (bb : Dbl → Dbl → Dbl → Dbl → Dbl → Dbl) (e : C3Env)
    (hws : e.StomWS = fin 0) (hwsa : e.water_stress_approach = 0) (n : ℕ) :
    (c3Loop bb e (n + 1) c3Init).Ci = fin 0 ∨ (c3Loop bb e (n + 1) c3Init).Ci = nan := by
  have hCi1 : (c3Step bb e c3Init).Ci = fin 0 := by
    rw [c3Step_Ci]
    simp only [c3Init, atmospheric_pressure, ofScientific_eq, ofNat_eq]
    rw [fin_div_of_ne _ _ (by norm_num)]
    norm_num
  have hJ : ∀ s : C3State,
      (s.co2_assimilation_rate = nan ∧ s.Ci_pa = nan ∧ (s.Vc - e.Rd) * fin 0 = nan
        ∧ (s.Ci = fin 0 ∨ s.Ci = nan)) →
      ((c3Step bb e s).co2_assimilation_rate = nan ∧ (c3Step bb e s).Ci_pa = nan
        ∧ ((c3Step bb e s).Vc - e.Rd) * fin 0 = nan
        ∧ ((c3Step bb e s).Ci = fin 0 ∨ (c3Step bb e s).Ci = nan)) := by
    intro s hs
    have hV : (c3Step bb e s).Vc = s.Vc := by
      rw [c3Step_Vc, hs.2.1, nan_div, (c3_rates_nan e).1, (c3_rates_nan e).2.1,
        (c3_rates_nan e).2.2, selectVc_nan]
    have hA : (c3Step bb e s).co2_assimilation_rate = nan := by
      rw [c3Step_assim_stress bb e s hwsa, hV, hws, hs.2.2.1]
    refine ⟨hA, ?_, ?_, ?_⟩
    · rw [c3Step_Ci_pa, hA]
      simp [floorCi_pa]
    · rw [hV]
      exact hs.2.2.1
    · right
      rw [c3Step_Ci, hs.2.1, nan_div]
  simp only [c3Loop]
  rcases mul_fin_zero_cases ((c3Step bb e c3Init).Vc - e.Rd) with h0 | h0
  · have hA : (c3Step bb e c3Init).co2_assimilation_rate = fin 0 := by
      rw [c3Step_assim_stress bb e c3Init hwsa, hws, h0]
    have hconv : Dbl.abs (c3Init.co2_assimilation_rate - (c3Step bb e c3Init).co2_assimilation_rate)
        < Tol := by
      rw [hA]
      simp only [c3Init, Tol, zero_eq, ofScientific_eq, fin_sub, fin_mul, Dbl.abs, fin_lt]
      norm_num
    rw [if_pos hconv]
    exact Or.inl hCi1
  · have hA : (c3Step bb e c3Init).co2_assimilation_rate = nan := by
      rw [c3Step_assim_stress bb e c3Init hwsa, hws, h0]
    have hconv : ¬ (Dbl.abs
        (c3Init.co2_assimilation_rate - (c3Step bb e c3Init).co2_assimilation_rate) < Tol) := by
      rw [hA]
      exact abs_nan_not_lt _ _
    rw [if_neg hconv]
    have hI := c3Loop_invariant bb e
      (fun s => s.co2_assimilation_rate = nan ∧ s.Ci_pa = nan ∧ (s.Vc - e.Rd) * fin 0 = nan
        ∧ (s.Ci = fin 0 ∨ s.Ci = nan))
      hJ (fun s k hs => hs) n
      { c3Step bb e c3Init with iterCounter := (c3Step bb e c3Init).iterCounter + 1 }
      ⟨hA, by
        show (c3Step bb e c3Init).Ci_pa = nan
        rw [c3Step_Ci_pa, hA]
        simp [floorCi_pa], h0, Or.inl hCi1⟩
    exact hI.2.2.2

theorem c3Loop_converged_first (bb : Dbl → Dbl → Dbl → Dbl → Dbl → Dbl) (e : C3Env) (n : ℕ)
    (s : C3State)
    (h : Dbl.abs (s.co2_assimilation_rate - (c3Step bb e s).co2_assimilation_rate) < Tol) :
    c3Loop bb e (n + 1) s = c3Step bb e s := by
  simp only [c3Loop, if_pos h]

set_option maxRecDepth 100000 in
set_option maxHeartbeats 4000000 in
theorem fullStress_first_assim :
    (c3Step (fun _ _ _ _ _ => 80)
      (c3Env refLibm 1500 25 0.7 100 180 1.1 0.08 5 400 210 0.7 0 0 4.5 5.25)
      c3Init).co2_assimilation_rate = fin 0 := by
  simp only [c3Step, c3Ac, c3Aj, c3Ap, selectVc, adjustGs, floorCi_pa, c3Init,
    maximum_tpu_rate,
    c3Env, arrhenius_exponent, solo, refLibm, Ref.exp, Ref.pow, Ref.sqrt, atmospheric_pressure,
    ofNat_eq, ofScientific_eq, zero_eq, one_eq, fin_add, fin_mul, fin_sub, fin_lt, fin_le]
  norm_num [Ref.sqrtQ, fin_div, signedInf, Ref.expQ, Ref.taylor4]

/-- C9 (counterexample): with `water_stress_approach = 0` and a stress factor
`StomWS = 0` the assimilation rate of the first iteration is 0, the loop stops
there, and the `Ci` that `c3photoC` returns is the one computed at the start of
that iteration from the initial `Ci_pa = 0`: it is 0, not strictly positive. -/
theorem c3photoC_Ci_not_positive :
    (c3photoC refLibm (fun _ _ _ _ _ => 80) 1500 25 0.7 100 180 1.1 0.08 5 400 210 0.7 0 0
        4.5 5.25).Ci = 0
      ∧ ¬ (0 < (c3photoC refLibm (fun _ _ _ _ _ => 80) 1500 25 0.7 100 180 1.1 0.08 5 400 210
        0.7 0 0 4.5 5.25).Ci) := by
  have h : (c3photoC refLibm (fun _ _ _ _ _ => 80) 1500 25 0.7 100 180 1.1 0.08 5 400 210 0.7
      0 0 4.5 5.25).Ci = 0 := by
    have hconv : Dbl.abs (c3Init.co2_assimilation_rate
        - (c3Step (fun _ _ _ _ _ => 80)
            (c3Env refLibm 1500 25 0.7 100 180 1.1 0.08 5 400 210 0.7 0 0 4.5 5.25)
            c3Init).co2_assimilation_rate) < Tol := by
      rw [fullStress_first_assim]
      simp only [c3Init, Tol, zero_eq, ofScientific_eq, fin_sub, fin_mul, Dbl.abs, fin_lt]
      norm_num
    have hL : c3Loop (fun _ _ _ _ _ => 80)
        (c3Env refLibm 1500 25 0.7 100 180 1.1 0.08 5 400 210 0.7 0 0 4.5 5.25) 50 c3Init
        = c3Step (fun _ _ _ _ _ => 80)
            (c3Env refLibm 1500 25 0.7 100 180 1.1 0.08 5 400 210 0.7 0 0 4.5 5.25) c3Init :=
      c3Loop_converged_first _ _ 49 _ hconv
    simp only [c3photoC]
    rw [hL, c3Step_Ci]
    simp only [c3Init, atmospheric_pressure, ofScientific_eq, ofNat_eq, zero_eq]
    rw [fin_div_of_ne _ _ (by norm_num), fin_mul]
    norm_num
  rw [h]
  exact ⟨Eq.refl _, zero_lt_zero_false⟩

theorem dbl_lt_asymm (a b : Dbl) (h : a < b) : ¬ (b < a) := by
  cases a <;> cases b <;>
    first
    | exact fun h2 => absurd ((fin_lt _ _).1 h2) (not_lt.mpr (le_of_lt ((fin_lt _ _).1 h)))
    | exact id
    | exact absurd h id

theorem dbl_le_of_lt (a b : Dbl) (h : a < b) : a ≤ b := by
  cases a <;> cases b <;>
    first
    | exact (fin_le _ _).2 (le_of_lt ((fin_lt _ _).1 h))
    | exact trivial
    | exact absurd h id

theorem dbl_not_le_of_lt (a b : Dbl) (h : a < b) : ¬ (b ≤ a) := by
  cases a <;> cases b <;>
    first
    | exact fun h2 => absurd ((fin_le _ _).1 h2) (not_le.mpr ((fin_lt _ _).1 h))
    | exact id
    | exact absurd h id

theorem selectVc_strict (v Ac Aj Ap : Dbl) :
    (Ac < Aj ∧ Ac < Ap → selectVc v Ac Aj Ap = specMinRate Ac Aj Ap)
    ∧ (Aj < Ac ∧ Aj < Ap → selectVc v Ac Aj Ap = specMinRate Ac Aj Ap)
    ∧ (Ap < Ac ∧ Ap < Aj →
        selectVc v Ac Aj Ap = if Ap < 0 then 0 else specMinRate Ac Aj Ap) := by
  refine ⟨?_, ?_, ?_⟩
  · intro h
    have h2 : Ac ≤ Aj ∧ Ac ≤ Ap := ⟨dbl_le_of_lt _ _ h.1, dbl_le_of_lt _ _ h.2⟩
    simp only [selectVc, specMinRate, if_pos h, if_pos h2]
  · intro h
    have h1 : ¬ (Ac < Aj ∧ Ac < Ap) := fun h3 => dbl_lt_asymm _ _ h.1 h3.1
    have h2 : ¬ (Ac ≤ Aj ∧ Ac ≤ Ap) := fun h3 => dbl_not_le_of_lt _ _ h.1 h3.1
    simp only [selectVc, specMinRate, if_neg h1, if_pos h, if_neg h2,
      if_pos (dbl_le_of_lt _ _ h.2)]
  · intro h
    have h1 : ¬ (Ac < Aj ∧ Ac < Ap) := fun h3 => dbl_lt_asymm _ _ h.1 h3.2
    have h2 : ¬ (Aj < Ac ∧ Aj < Ap) := fun h3 => dbl_lt_asymm _ _ h.2 h3.2
    have h3 : ¬ (Ac ≤ Aj ∧ Ac ≤ Ap) := fun h3 => dbl_not_le_of_lt _ _ h.1 h3.2
    have h4 : ¬ (Aj ≤ Ap) := dbl_not_le_of_lt _ _ h.2
    simp only [selectVc, specMinRate, if_neg h1, if_neg h2, if_pos h, if_neg h3, if_neg h4]

/-- When none of the three rates is strictly smaller than the other two (a tie for the
minimum, or a NaN), no branch of the chain assigns `Vc`: it keeps the value of the previous
iteration. -/
theorem selectVc_no_strict_minimum (v Ac Aj Ap : Dbl) (h1 : ¬ (Ac < Aj ∧ Ac < Ap))
    (h2 : ¬ (Aj < Ac ∧ Aj < Ap)) (h3 : ¬ (Ap < Ac ∧ Ap < Aj)) :
    selectVc v Ac Aj Ap = v := by
  simp only [selectVc, if_neg h1, if_neg h2, if_neg h3]

theorem abs_zero_sub_not_lt_Tol (q : ℚ) (h : q ≤ -(1 / 100000000)) :
    ¬ (Dbl.abs (0 - fin q) < Tol) := by
  simp only [Tol, Dbl.abs, zero_eq, ofScientific_eq, fin_sub, fin_mul, fin_lt, not_lt, zero_sub,
    abs_neg]
  have h2 : -q ≤ |q| := neg_le_abs q
  have h3 : (0.01 : ℚ) * 1e-6 = 1 / 100000000 := by norm_num
  rw [h3]
  linarith

set_option maxRecDepth 100000 in
set_option maxHeartbeats 4000000 in
theorem darkLeaf_first_assim :
    ∃ q : ℚ, (c3Step openStomata darkLeafEnv c3Init).co2_assimilation_rate = fin q
      ∧ q ≤ -(1 / 100000000) := by
  simp only [c3Step, c3Ac, c3Aj, c3Ap, selectVc, adjustGs, floorCi_pa, c3Init,
    maximum_tpu_rate, darkLeafEnv, openStomata,
    c3Env, arrhenius_exponent, solo, refLibm, Ref.exp, Ref.pow, Ref.sqrt, atmospheric_pressure,
    ofNat_eq, ofScientific_eq, zero_eq, one_eq, fin_add, fin_mul, fin_sub, fin_lt, fin_le]
  norm_num [Ref.sqrtQ, fin_div, signedInf, Ref.expQ, Ref.taylor4]

set_option maxRecDepth 100000 in
set_option maxHeartbeats 4000000 in
theorem darkLeaf_second_Vc :
    (c3Step openStomata darkLeafEnv (c3Step openStomata darkLeafEnv c3Init)).Vc = 0 := by
  simp only [c3Step, c3Ac, c3Aj, c3Ap, selectVc, adjustGs, floorCi_pa, c3Init,
    maximum_tpu_rate, darkLeafEnv, openStomata,
    c3Env, arrhenius_exponent, solo, refLibm, Ref.exp, Ref.pow, Ref.sqrt, atmospheric_pressure,
    ofNat_eq, ofScientific_eq, zero_eq, one_eq, fin_add, fin_mul, fin_sub, fin_lt, fin_le]
  norm_num [Ref.sqrtQ, fin_div, signedInf, Ref.expQ, Ref.taylor4]

set_option maxRecDepth 100000 in
set_option maxHeartbeats 4000000 in
theorem darkLeaf_second_rates :
    specMinRate
        (c3Ac darkLeafEnv ((c3Step openStomata darkLeafEnv c3Init).Ci_pa / atmospheric_pressure))
        (c3Aj darkLeafEnv ((c3Step openStomata darkLeafEnv c3Init).Ci_pa / atmospheric_pressure))
        (c3Ap darkLeafEnv ((c3Step openStomata darkLeafEnv c3Init).Ci_pa / atmospheric_pressure))
      < 0
    ∧ c3Ac darkLeafEnv ((c3Step openStomata darkLeafEnv c3Init).Ci_pa / atmospheric_pressure)
      < 0 := by
  simp only [c3Step, c3Ac, c3Aj, c3Ap, selectVc, specMinRate, adjustGs, floorCi_pa, c3Init,
    maximum_tpu_rate, darkLeafEnv, openStomata,
    c3Env, arrhenius_exponent, solo, refLibm, Ref.exp, Ref.pow, Ref.sqrt, atmospheric_pressure,
    ofNat_eq, ofScientific_eq, zero_eq, one_eq, fin_add, fin_mul, fin_sub, fin_lt, fin_le]
  norm_num [Ref.sqrtQ, fin_div, signedInf, Ref.expQ, Ref.taylor4]

/-- C10 (counterexample): for a leaf in the dark at 25 degrees and 10 umol/mol
of CO2 (`darkLeafEnv`, with `ball_berry` at 800) the first iteration does not
converge, and in the second iteration `Ci` lies below `Gstar`: the TPU-limited
rate `Ap` is negative and strictly the smallest of the three rates, the branch
of `Ap` replaces it by 0, and `Vc = 0` is used although the minimum of `Ac`,
`Aj` (floored at 0) and `Ap` is negative (and so is `Ac`). -/
theorem c3photoC_Vc_not_minimum :
    ¬ (Dbl.abs (c3Init.co2_assimilation_rate
        - (c3Step openStomata darkLeafEnv c3Init).co2_assimilation_rate) < Tol)
    ∧ (c3Step openStomata darkLeafEnv (c3Step openStomata darkLeafEnv c3Init)).Vc = 0
    ∧ specMinRate
        (c3Ac darkLeafEnv ((c3Step openStomata darkLeafEnv c3Init).Ci_pa / atmospheric_pressure))
        (c3Aj darkLeafEnv ((c3Step openStomata darkLeafEnv c3Init).Ci_pa / atmospheric_pressure))
        (c3Ap darkLeafEnv ((c3Step openStomata darkLeafEnv c3Init).Ci_pa / atmospheric_pressure))
      < 0
    ∧ c3Ac darkLeafEnv ((c3Step openStomata darkLeafEnv c3Init).Ci_pa / atmospheric_pressure)
      < 0 := by
  refine ⟨?_, darkLeaf_second_Vc, darkLeaf_second_rates.1, darkLeaf_second_rates.2⟩
  obtain ⟨q, hq, hq2⟩ := darkLeaf_first_assim
  rw [hq]
  exact abs_zero_sub_not_lt_Tol q hq2

/-- C10 (amended): in every iteration of `c3photoC` in which one of the three
rates `Ac`, `Aj` (floored at 0), `Ap` is strictly smaller than the other two,
the `Vc` used for net assimilation is that minimum, except that a negative
TPU-limited minimum is replaced by 0. -/
theorem c3Step_Vc_strict_minimum (ball_berry : Dbl → Dbl → Dbl → Dbl → Dbl → Dbl) (e : C3Env)
    (s : C3State) :
    ((c3Ac e (s.Ci_pa / atmospheric_pressure) < c3Aj e (s.Ci_pa / atmospheric_pressure)
        ∧ c3Ac e (s.Ci_pa / atmospheric_pressure) < c3Ap e (s.Ci_pa / atmospheric_pressure)) →
      (c3Step ball_berry e s).Vc
        = specMinRate (c3Ac e (s.Ci_pa / atmospheric_pressure))
            (c3Aj e (s.Ci_pa / atmospheric_pressure)) (c3Ap e (s.Ci_pa / atmospheric_pressure)))
    ∧ ((c3Aj e (s.Ci_pa / atmospheric_pressure) < c3Ac e (s.Ci_pa / atmospheric_pressure)
        ∧ c3Aj e (s.Ci_pa / atmospheric_pressure) < c3Ap e (s.Ci_pa / atmospheric_pressure)) →
      (c3Step ball_berry e s).Vc
        = specMinRate (c3Ac e (s.Ci_pa / atmospheric_pressure))
            (c3Aj e (s.Ci_pa / atmospheric_pressure)) (c3Ap e (s.Ci_pa / atmospheric_pressure)))
    ∧ ((c3Ap e (s.Ci_pa / atmospheric_pressure) < c3Ac e (s.Ci_pa / atmospheric_pressure)
        ∧ c3Ap e (s.Ci_pa / atmospheric_pressure) < c3Aj e (s.Ci_pa / atmospheric_pressure)) →
      (c3Step ball_berry e s).Vc
        = if c3Ap e (s.Ci_pa / atmospheric_pressure) < 0 then 0
          else specMinRate (c3Ac e (s.Ci_pa / atmospheric_pressure))
            (c3Aj e (s.Ci_pa / atmospheric_pressure))
            (c3Ap e (s.Ci_pa / atmospheric_pressure))) := by
  rw [c3Step_Vc]
  exact selectVc_strict _ _ _ _

set_option maxRecDepth 100000 in
set_option maxHeartbeats 4000000 in
theorem darkLeaf_first_rates :
    c3Ac darkLeafEnv (c3Init.Ci_pa / atmospheric_pressure)
        < c3Aj darkLeafEnv (c3Init.Ci_pa / atmospheric_pressure)
      ∧ c3Ac darkLeafEnv (c3Init.Ci_pa / atmospheric_pressure)
        < c3Ap darkLeafEnv (c3Init.Ci_pa / atmospheric_pressure) := by
  simp only [c3Ac, c3Aj, c3Ap, c3Init, maximum_tpu_rate, darkLeafEnv,
    c3Env, arrhenius_exponent, solo, refLibm, Ref.exp, Ref.pow, Ref.sqrt, atmospheric_pressure,
    ofNat_eq, ofScientific_eq, zero_eq, one_eq, fin_add, fin_mul, fin_sub, fin_lt, fin_le]
  norm_num [Ref.sqrtQ, fin_div, signedInf, Ref.expQ, Ref.taylor4]

/-- C10 (amended), at the first iteration of the dark leaf: `Ci = 0`, the
Rubisco-limited rate is negative and strictly the smallest, and it is the `Vc`
of the iteration. -/
theorem c3Step_Vc_strict_minimum_witness :
    (c3Step openStomata darkLeafEnv c3Init).Vc
      = specMinRate (c3Ac darkLeafEnv (c3Init.Ci_pa / atmospheric_pressure))
          (c3Aj darkLeafEnv (c3Init.Ci_pa / atmospheric_pressure))
          (c3Ap darkLeafEnv (c3Init.Ci_pa / atmospheric_pressure)) :=
  (c3Step_Vc_strict_minimum openStomata darkLeafEnv c3Init).1 darkLeaf_first_rates

/-! ## C3 photosynthesis: termination and the floor of `Ca` -/

theorem c3After_iterCounter (bb : Dbl → Dbl → Dbl → Dbl → Dbl → Dbl) (e : C3Env) (k : ℕ) :
    (c3After bb e k).iterCounter = k := by
  induction k with
  | zero => rfl
  | succ k ih => simp only [c3After, c3Step, ih]

theorem c3Loop_trace (bb : Dbl → Dbl → Dbl → Dbl → Dbl → Dbl) (e : C3Env) (n : ℕ) :
    ∀ k : ℕ, (∀ j, j < k → ¬ c3Converged bb e j) →
      (∃ i, i < k + n ∧ (∀ j, j < i → ¬ c3Converged bb e j) ∧ c3Converged bb e i
          ∧ c3Loop bb e n (c3After bb e k) = c3Step bb e (c3After bb e i))
        ∨ ((∀ j, j < k + n → ¬ c3Converged bb e j)
          ∧ c3Loop bb e n (c3After bb e k) = c3After bb e (k + n)) := by
  induction n with
  | zero =>
    intro k hk
    exact Or.inr ⟨hk, Eq.refl _⟩
  | succ n ih =>
    intro k hk
    by_cases hc : c3Converged bb e k
    · refine Or.inl ⟨k, by omega, hk, hc, ?_⟩
      exact c3Loop_converged_first bb e n _ hc
    · have hk1 : ∀ j, j < k + 1 → ¬ c3Converged bb e j := by
        intro j hj
        rcases Nat.lt_succ_iff_lt_or_eq.mp hj with h | h
        · exact hk j h
        · rw [h]; exact hc
      have hstep : c3Loop bb e (n + 1) (c3After bb e k) = c3Loop bb e n (c3After bb e (k + 1)) := by
        have hc2 : ¬ Dbl.abs ((c3After bb e k).co2_assimilation_rate
            - (c3Step bb e (c3After bb e k)).co2_assimilation_rate) < Tol := hc
        simp only [c3Loop, if_neg hc2, c3After]
      rw [hstep]
      rcases ih (k + 1) hk1 with ⟨i, hi, h1, h2, h3⟩ | ⟨h1, h2⟩
      · exact Or.inl ⟨i, by omega, h1, h2, h3⟩
      · refine Or.inr ⟨?_, ?_⟩
        · intro j hj; exact h1 j (by omega)
        · rw [h2]; congr 1; omega

theorem Tol_eq : Tol = fin (1 / 100000000) := by
  simp only [Tol, ofScientific_eq, fin_mul]
  norm_num

/-- C11: `c3photoC` is a total function, so it returns a `c3_str` for every
input and signals nothing.  Its tolerance `Tol` is `1e-8`.  Its loop ends in
one of two ways.  Either there is a first iteration, number `i + 1` with
`i < 50`, whose assimilation estimate differs from the previous one by less
than `Tol`: the loop leaves through `break` in that iteration, after `i + 1`
executions of its body, with `iterCounter = i`.  Or no iteration passes the
test: the body runs 50 times, `iterCounter` reaches 50 and the last estimate
is returned. -/
theorem c3photoC_terminates (m : Libm) (ball_berry : Dbl → Dbl → Dbl → Dbl → Dbl → Dbl)
    (_Qp _Tleaf RH _Vcmax0 _Jmax _Rd0 bb0 bb1 Ca _O2 thet StomWS : Dbl)
    (water_stress_approach : ℤ)
    (electrons_per_carboxylation electrons_per_oxygenation : Dbl) :
    Tol = fin (1 / 100000000)
      ∧ (c3photoC m ball_berry _Qp _Tleaf RH _Vcmax0 _Jmax _Rd0 bb0 bb1 Ca _O2 thet StomWS
          water_stress_approach electrons_per_carboxylation electrons_per_oxygenation).Assim
        = (c3Final m ball_berry _Qp _Tleaf RH _Vcmax0 _Jmax _Rd0 bb0 bb1 Ca _O2 thet StomWS
          water_stress_approach electrons_per_carboxylation
          electrons_per_oxygenation).co2_assimilation_rate * 1e6
      ∧ ((∃ i, i < 50
            ∧ (∀ j, j < i → ¬ c3Converged ball_berry
                (c3Env m _Qp _Tleaf RH _Vcmax0 _Jmax _Rd0 bb0 bb1 Ca _O2 thet StomWS
                  water_stress_approach electrons_per_carboxylation electrons_per_oxygenation) j)
            ∧ c3Converged ball_berry
                (c3Env m _Qp _Tleaf RH _Vcmax0 _Jmax _Rd0 bb0 bb1 Ca _O2 thet StomWS
                  water_stress_approach electrons_per_carboxylation electrons_per_oxygenation) i
            ∧ c3Final m ball_berry _Qp _Tleaf RH _Vcmax0 _Jmax _Rd0 bb0 bb1 Ca _O2 thet StomWS
                water_stress_approach electrons_per_carboxylation electrons_per_oxygenation
              = c3Step ball_berry
                (c3Env m _Qp _Tleaf RH _Vcmax0 _Jmax _Rd0 bb0 bb1 Ca _O2 thet StomWS
                  water_stress_approach electrons_per_carboxylation electrons_per_oxygenation)
                (c3After ball_berry
                  (c3Env m _Qp _Tleaf RH _Vcmax0 _Jmax _Rd0 bb0 bb1 Ca _O2 thet StomWS
                    water_stress_approach electrons_per_carboxylation electrons_per_oxygenation) i)
            ∧ (c3Final m ball_berry _Qp _Tleaf RH _Vcmax0 _Jmax _Rd0 bb0 bb1 Ca _O2 thet StomWS
                water_stress_approach electrons_per_carboxylation
                electrons_per_oxygenation).iterCounter = i)
        ∨ ((∀ j, j < 50 → ¬ c3Converged ball_berry
                (c3Env m _Qp _Tleaf RH _Vcmax0 _Jmax _Rd0 bb0 bb1 Ca _O2 thet StomWS
                  water_stress_approach electrons_per_carboxylation electrons_per_oxygenation) j)
            ∧ c3Final m ball_berry _Qp _Tleaf RH _Vcmax0 _Jmax _Rd0 bb0 bb1 Ca _O2 thet StomWS
                water_stress_approach electrons_per_carboxylation electrons_per_oxygenation
              = c3After ball_berry
                (c3Env m _Qp _Tleaf RH _Vcmax0 _Jmax _Rd0 bb0 bb1 Ca _O2 thet StomWS
                  water_stress_approach electrons_per_carboxylation electrons_per_oxygenation) 50
            ∧ (c3Final m ball_berry _Qp _Tleaf RH _Vcmax0 _Jmax _Rd0 bb0 bb1 Ca _O2 thet StomWS
                water_stress_approach electrons_per_carboxylation
                electrons_per_oxygenation).iterCounter = 50)) := by
  refine ⟨Tol_eq, Eq.refl _, ?_⟩
  have h := c3Loop_trace ball_berry
    (c3Env m _Qp _Tleaf RH _Vcmax0 _Jmax _Rd0 bb0 bb1 Ca _O2 thet StomWS
      water_stress_approach electrons_per_carboxylation electrons_per_oxygenation) 50 0
    (fun j hj => absurd hj (Nat.not_lt_zero j))
  simp only [Nat.zero_add] at h
  rcases h with ⟨i, hi, h1, h2, h3⟩ | ⟨h1, h2⟩
  · refine Or.inl ⟨i, hi, h1, h2, h3, ?_⟩
    have h4 : (c3Final m ball_berry _Qp _Tleaf RH _Vcmax0 _Jmax _Rd0 bb0 bb1 Ca _O2 thet StomWS
      water_stress_approach electrons_per_carboxylation electrons_per_oxygenation) = _ := h3
    rw [h4]
    simp only [c3Step, c3After_iterCounter]
  · refine Or.inr ⟨h1, h2, ?_⟩
    have h4 : (c3Final m ball_berry _Qp _Tleaf RH _Vcmax0 _Jmax _Rd0 bb0 bb1 Ca _O2 thet StomWS
      water_stress_approach electrons_per_carboxylation electrons_per_oxygenation) = _ := h2
    rw [h4, c3After_iterCounter]

theorem c3Env_Ca_floor (m : Libm) (_Qp _Tleaf RH _Vcmax0 _Jmax _Rd0 bb0 bb1 Ca _O2 thet StomWS : Dbl)
    (water_stress_approach : ℤ)
    (electrons_per_carboxylation electrons_per_oxygenation : Dbl) (h : Ca ≤ 0) :
    c3Env m _Qp _Tleaf RH _Vcmax0 _Jmax _Rd0 bb0 bb1 Ca _O2 thet StomWS
        water_stress_approach electrons_per_carboxylation electrons_per_oxygenation
      = c3Env m _Qp _Tleaf RH _Vcmax0 _Jmax _Rd0 bb0 bb1 1e-4 _O2 thet StomWS
        water_stress_approach electrons_per_carboxylation electrons_per_oxygenation := by
  have h2 : ¬ ((1e-4 : Dbl) ≤ 0) := by
    simp only [ofScientific_eq, zero_eq, fin_le]; norm_num
  simp only [c3Env, if_pos h, if_neg h2]

/-- C12: for every `Ca ≤ 0`, `c3photoC` returns exactly what it returns for
`Ca = 1e-4`, all other arguments being equal. -/
theorem c3photoC_Ca_floor (m : Libm) (ball_berry : Dbl → Dbl → Dbl → Dbl → Dbl → Dbl)
    (_Qp _Tleaf RH _Vcmax0 _Jmax _Rd0 bb0 bb1 Ca _O2 thet StomWS : Dbl)
    (water_stress_approach : ℤ)
    (electrons_per_carboxylation electrons_per_oxygenation : Dbl) (h : Ca ≤ 0) :
    c3photoC m ball_berry _Qp _Tleaf RH _Vcmax0 _Jmax _Rd0 bb0 bb1 Ca _O2 thet StomWS
        water_stress_approach electrons_per_carboxylation electrons_per_oxygenation
      = c3photoC m ball_berry _Qp _Tleaf RH _Vcmax0 _Jmax _Rd0 bb0 bb1 1e-4 _O2 thet StomWS
        water_stress_approach electrons_per_carboxylation electrons_per_oxygenation := by
  simp only [c3photoC, c3Env_Ca_floor m _Qp _Tleaf RH _Vcmax0 _Jmax _Rd0 bb0 bb1 Ca _O2 thet
    StomWS water_stress_approach electrons_per_carboxylation electrons_per_oxygenation h]

/-- C12 at `Ca = -370`. -/
theorem c3photoC_Ca_floor_witness :
    ((-370 : Dbl) ≤ 0)
      ∧ c3photoC refLibm openStomata 1500 25 0.7 100 180 1.1 0.08 5 (-370) 210 0.7 1 0 4.5 5.25
        = c3photoC refLibm openStomata 1500 25 0.7 100 180 1.1 0.08 5 1e-4 210 0.7 1 0 4.5 5.25 :=
  ⟨by decide, c3photoC_Ca_floor refLibm openStomata 1500 25 0.7 100 180 1.1 0.08 5 (-370) 210 0.7
    1 0 4.5 5.25 (by decide)⟩

/-! ## Root distribution: the fractions sum to 1 -/

theorem rootDistCum_count (rootDepth : Dbl) (depthsp : Arr) (n : ℕ) :
    ∃ c : ℚ, 1 ≤ c ∧ (rootDistCum rootDepth depthsp n).2 = fin c := by
  induction n with
  | zero => exact ⟨1, le_refl _, by simp only [rootDistCum, ofScientific_eq]; norm_num⟩
  | succ n ih =>
    obtain ⟨c, hc, h⟩ := ih
    simp only [rootDistCum, h, one_eq, fin_add]
    generalize (rootDistCum rootDepth depthsp n).1
      + (if n = 0 then depthsp 1 else depthsp n - depthsp (n - 1)) = x
    by_cases hx : x < rootDepth
    · exact ⟨c + 1, by linarith, by rw [if_pos hx]⟩
    · exact ⟨c, hc, by rw [if_neg hx]⟩

theorem rootDistCa_succ (m : Libm) (C rfl : Dbl) (n : ℕ) (S a : ℚ)
    (hS : rootDistCa m C rfl n = fin S) (ha : rootDistRaw m C rfl n = fin a) :
    rootDistCa m C rfl (n + 1) = fin (S + a) := by
  simp only [rootDistRaw] at ha
  simp only [rootDistCa]
  by_cases h : ofInt (n : ℤ) < C
  · rw [if_pos h] at ha ⊢
    rw [hS, ha, fin_add]
  · rw [if_neg h] at ha ⊢
    rw [zero_eq] at ha
    have : a = 0 := by injection ha with h'; exact h'.symm
    rw [hS, this, add_zero]

/-! ## Soil water stress coefficients of `soilML` -/

theorem wet_layer_stress (rd : Dbl) (c w f d t e : ℚ)
    (hrd : rd = nan ∨ rd = fin 1) (hd : 0 < d) (hwf : w < f) (hfc : f < c)
    (hroom : (t + e) / 0.9982 < (c - f) * d * 1e4) :
    ¬ ((0.0 +
        if
            1 / fin (f - w) *
                  (((if fin (c * d - w * d) * 1e4 < 0 then 0
                          else fin (c * d - w * d) * 1e4) -
                          (fin t * rd + fin e) / 0.9982) / 1e4 / fin d + fin w) +
                (1 - fin f * (1 / fin (f - w))) ≤ 0 then
          1e-10
        else
          1 / fin (f - w) *
              (((if fin (c * d - w * d) * 1e4 < 0 then 0
                      else fin (c * d - w * d) * 1e4) -
                      (fin t * rd + fin e) / 0.9982) / 1e4 / fin d + fin w) +
            (1 - fin f * (1 / fin (f - w)))) / ofInt 1 ≤ (1 : Dbl)) := by
  have hfw : f - w ≠ 0 := by linarith
  have hfw0 : 0 < f - w := by linarith
  have hX : 0 ≤ (c * d - w * d) * 1e4 := by
    have h1 : 0 ≤ (c - w) * d := mul_nonneg (by linarith) hd.le
    have h2 : (c * d - w * d) * 1e4 = (c - w) * d * 1e4 := by ring
    rw [h2]
    exact mul_nonneg h1 (by norm_num)
  have hP : (if fin (c * d - w * d) * 1e4 < 0 then (0 : Dbl) else fin (c * d - w * d) * 1e4)
      = fin ((c * d - w * d) * 1e4) := by
    simp only [ofScientific_eq, zero_eq, fin_mul, fin_lt]
    rw [if_neg (not_lt.mpr hX)]
  rw [hP]
  rcases hrd with rfl | rfl
  · simp
  · have h1 : (0.9982 : ℚ) ≠ 0 := by norm_num
    have h2 : (1e4 : ℚ) ≠ 0 := by norm_num
    have h3 : (((1 : ℤ) : ℚ)) ≠ 0 := by norm_num
    have hV : 1 < 1 / (f - w) * (((c * d - w * d) * 1e4 - (t * 1 + e) / 0.9982) / 1e4 / d + w)
        + (1 - f * (1 / (f - w))) := by
      have h5 : ((c * d - w * d) * 1e4 - (t * 1 + e) / 0.9982) / 1e4 / d + w > f := by
        have h6 : (c * d - w * d) * 1e4 - (t * 1 + e) / 0.9982 > (f - w) * d * 1e4 := by
          rw [mul_one]
          nlinarith
        have h7 : ((c * d - w * d) * 1e4 - (t * 1 + e) / 0.9982) / 1e4 / d > f - w := by
          rw [gt_iff_lt, lt_div_iff₀ hd, lt_div_iff₀ (by norm_num)]
          linarith
        linarith
      have h8 : 1 / (f - w) * (((c * d - w * d) * 1e4 - (t * 1 + e) / 0.9982) / 1e4 / d + w)
          + (1 - f * (1 / (f - w)))
          = 1 + (((c * d - w * d) * 1e4 - (t * 1 + e) / 0.9982) / 1e4 / d + w - f) / (f - w) := by
        field_simp
        ring
      rw [h8]
      have : 0 < (((c * d - w * d) * 1e4 - (t * 1 + e) / 0.9982) / 1e4 / d + w - f) / (f - w) :=
        div_pos (by linarith) hfw0
      linarith
    simp only [ofScientific_eq, zero_eq, one_eq, ofInt, fin_mul, fin_add, fin_div_of_ne _ _ h1, fin_sub,
      fin_div_of_ne _ _ h2, fin_div_of_ne _ _ hd.ne.symm, fin_div_of_ne _ _ hfw,
      fin_div_of_ne _ _ h3, fin_le]
    generalize 1 / (f - w) * (((c * d - w * d) * 1e4 - (t * 1 + e) / 0.9982) / 1e4 / d + w)
        + (1 - f * (1 / (f - w))) = V at hV ⊢
    rw [if_neg (by linarith)]
    norm_num
    exact hV


/-- C20 (code defect): one layer above field capacity.  For a single layer with
`0 < wiltp < fieldc < cws[0] ≤ saturation`, no precipitation, redistribution
off and the linear stress function (`wsFun = 0`), when the demand (the
transpiration `t` and the soil evaporation `e`, in Mg/ha) leaves the layer
above field capacity, the `rcoefPhoto` that `soilML` returns is not at most 1:
the cap `if(wsPhoto > 1) wsPhoto = 1` stands after the loop, where `wsPhoto`
has already been added to `wsPhotoCol`, the quantity that is returned. -/
theorem soilML_rcoefPhoto_above_one (m : Libm) (transp : Dbl) (cws : Arr) (soildepth : Dbl)
    (depths : Arr) (fieldc wiltp phi1 phi2 : Dbl) (soTexS : soilText_str)
    (rootDB LAI k AirTemp IRad winds RelH : Dbl) (hydrDist : ℤ) (rfl rsec rsdf : Dbl)
    (c s w f d0 d1 t e : ℚ)
    (hcws : cws 0 = fin c) (hs : soTexS.satur = fin s) (hw : wiltp = fin w) (hf : fieldc = fin f)
    (hd0 : depths 0 = fin d0) (hd1 : depths 1 = fin d1) (ht : transp = fin t)
    (hh : hydrDist ≤ 0) (hw0 : 0 < w) (hwf : w < f) (hfc : f < c) (hcs : c ≤ s) (hd : d0 < d1)
    (hE : SoilEvapo m LAI k AirTemp IRad (fin c) (fin f) (fin w) winds RelH rsec = fin e)
    (hroom : (t + e) / 0.9982 < (c - f) * (d1 - d0) * 1e4) :
    ¬ ((soilML m 0 transp cws soildepth depths fieldc wiltp phi1 phi2 soTexS 0 1
      rootDB LAI k AirTemp IRad winds RelH hydrDist rfl rsec rsdf).rcoefPhoto ≤ 1) := by
  subst hw ht hf
  have hwc : w ≤ c := by linarith
  have hh1 : ¬ (0 < hydrDist) := not_lt.mpr hh
  have hw1 : ¬ (fin w < 0) := by
    rw [zero_eq, fin_lt]
    exact not_lt.mpr hw0.le
  have hf1 : ¬ (fin f < 0) := by
    rw [zero_eq, fin_lt]
    exact not_lt.mpr (lt_trans hw0 hwf).le
  have hwi : ¬ ((0 : Dbl) < 0 * 1e-3) := by
    simp only [zero_eq, ofScientific_eq, fin_mul, fin_lt]
    norm_num
  have hdd : d1 - d0 ≠ 0 := (sub_pos.2 hd).ne.symm
  have harg : fin (c * (d1 - d0)) / fin (d1 - d0) = fin c := by
    rw [fin_div_of_ne _ _ hdd, mul_div_cancel_right₀ _ hdd]
  simp only [soilML, soilML_final, Int.toNat_one, soilLoop, soilStep, soilInit, hh1, if_false, hw1,
    hf1, hcws, hs, hd0, hd1, Arr.set, fin_lt, not_lt.mpr hcs, not_lt.mpr hwc, if_true, hwi,
    fin_sub, fin_mul, harg, hE]
  exact wet_layer_stress _ c w f (d1 - d0) t e (rootDist_single_cases _ _ _ _) (sub_pos.2 hd) hwf
    hfc hroom

set_option maxRecDepth 100000 in
set_option maxHeartbeats 4000000 in
theorem SoilEvapo_ref_wet :
    ∃ e : ℚ, SoilEvapo refLibm 3 0.68 20 1000 0.5 0.27 0.12 2 70 0.2 = fin e ∧ 0 ≤ e ∧ e ≤ 1 := by
  refine ⟨?w, ?h1, ?h2⟩
  case h1 =>
    simp only [SoilEvapo, TempToDdryA, TempToLHV, TempToSFS, TempToSWVC,
      refLibm, Ref.exp, Ref.pow, Ref.sqrt,
      ofNat_eq, ofScientific_eq, zero_eq, one_eq, fin_add, fin_mul, fin_sub, fin_lt, fin_le, fin_neg]
    norm_num [Ref.sqrtQ, Ref.expQ, Ref.taylor4, fin_div, signedInf, fin_add, fin_mul, fin_sub,
      fin_lt, fin_le, fin_neg]
    exact Eq.refl _
  case h2 => constructor <;> norm_num

/-- C20 at a concrete input: one loam layer of 1 m (field capacity 0.27,
wilting point 0.12, saturation 0.57) at water content 0.5, no precipitation,
a transpiration of 1 Mg/ha, `wsFun = 0`, with the reference library functions. -/
theorem soilML_rcoefPhoto_above_one_witness :
    ¬ ((soilML refLibm 0 1 (fun _ => 0.5) 1 (fun i => ofInt i) 0.27 0.12 0.01 10
      (soil_parameters SoilType.loam) 0 1 1 3 0.68 20 1000 2 70 0 0.2 0.2 0.44).rcoefPhoto ≤ 1) := by
  obtain ⟨e, hE, _, he⟩ := SoilEvapo_ref_wet
  refine soilML_rcoefPhoto_above_one refLibm 1 (fun _ => 0.5) 1 (fun i => ofInt i) 0.27 0.12 0.01
    10 (soil_parameters SoilType.loam) 1 3 0.68 20 1000 2 70 0 0.2 0.2 0.44
    0.5 0.57 0.12 0.27 0 1 1 e (Eq.refl _) (Eq.refl _) (Eq.refl _) (Eq.refl _) (by simp) (by simp)
    (Eq.refl _) (le_refl 0) (by norm_num) (by norm_num) (by norm_num) (by norm_num) (by norm_num)
    hE ?_
  rw [div_lt_iff₀ (by norm_num)]
  norm_num
  linarith

/-! ## Leaf energy balance: theorems -/

theorem whileLoop_of_cond {σ : Type} (cond : σ → Bool) (body : σ → σ) (n : ℕ) (s : σ)
    (h : cond s = true) :
    whileLoop cond body (n + 1) s = whileLoop cond body n (body s) := by
  simp only [whileLoop, h, if_true]

theorem whileLoop_of_not_cond {σ : Type} (cond : σ → Bool) (body : σ → σ) (n : ℕ) (s : σ)
    (h : cond s = false) :
    whileLoop cond body n s = s := by
  cases n with
  | zero => rfl
  | succ n => simp [whileLoop, h]

theorem whileLoop_invariant {σ : Type} (cond : σ → Bool) (body : σ → σ) (P : σ → Prop)
    (hbody : ∀ s, cond s = true → P (body s)) (n : ℕ) :
    ∀ s, P s → P (whileLoop cond body n s) := by
  induction n with
  | zero => intro s hs; exact hs
  | succ n ih =>
    intro s hs
    by_cases h : cond s = true
    · rw [whileLoop_of_cond cond body n s h]
      exact ih _ (hbody s h)
    · rw [whileLoop_of_not_cond cond body _ s (by simpa using h)]
      exact hs

theorem whileLoop_trace {σ : Type} (cond : σ → Bool) (body : σ → σ) (n : ℕ) :
    ∀ s, ∃ k, k ≤ n ∧ whileLoop cond body n s = body^[k] s
      ∧ (∀ j, j < k → cond (body^[j] s) = true)
      ∧ (k < n → cond (body^[k] s) = false) := by
  induction n with
  | zero =>
    intro s
    exact ⟨0, le_refl _, rfl, fun j hj => absurd hj (Nat.not_lt_zero j),
      fun h => absurd h (lt_irrefl _)⟩
  | succ n ih =>
    intro s
    by_cases h : cond s = true
    · obtain ⟨k, hk, h1, h2, h3⟩ := ih (body s)
      refine ⟨k + 1, by omega, ?_, ?_, ?_⟩
      · rw [whileLoop_of_cond cond body n s h, h1, Function.iterate_succ_apply]
      · intro j hj
        cases j with
        | zero => exact h
        | succ j =>
          rw [Function.iterate_succ_apply]
          exact h2 j (by omega)
      · intro hlt
        rw [Function.iterate_succ_apply]
        exact h3 (by omega)
    · have h' : cond s = false := by simpa using h
      refine ⟨0, by omega, ?_, fun j hj => absurd hj (Nat.not_lt_zero j), fun _ => h'⟩
      rw [whileLoop_of_not_cond cond body _ s h']
      rfl

theorem fmin_fmax_range (x : Dbl) (a b : ℚ) (hab : a ≤ b) :
    fin a ≤ fmin (fmax x (fin a)) (fin b) ∧ fmin (fmax x (fin a)) (fin b) ≤ fin b := by
  cases x with
  | nan =>
    simp only [fmax, fmin, fin_lt, if_neg (not_lt.mpr hab), fin_le, le_refl, hab, and_self]
  | pinf =>
    have h1 : ¬ (pinf < fin a) := fun h => h
    have h2 : fin b < pinf := trivial
    simp only [fmax, fmin, h1, h2, if_false, if_true, fin_le, le_refl, hab, and_self]
  | ninf =>
    have h1 : (ninf < fin a) := trivial
    simp only [fmax, fmin, h1, if_true, fin_lt, if_neg (not_lt.mpr hab), fin_le, le_refl, hab,
      and_self]
  | fin q =>
    by_cases h1 : q < a
    · simp only [fmax, fmin, fin_lt, if_pos h1, if_neg (not_lt.mpr hab), fin_le, le_refl, hab,
        and_self]
    · by_cases h2 : b < q
      · simp only [fmax, fmin, fin_lt, if_neg h1, if_pos h2, fin_le, le_refl, hab, and_self]
      · simp only [fmax, fmin, fin_lt, if_neg h1, if_neg h2, fin_le]
        exact ⟨not_lt.mp h1, not_lt.mp h2⟩

theorem ifclamp_range (x : Dbl) (a b : ℚ) (hab : a ≤ b) :
    (if (if fin b < x then fin b else x) < fin a then fin a else (if fin b < x then fin b else x))
        = nan
      ∨ (fin a ≤ (if (if fin b < x then fin b else x) < fin a then fin a
            else (if fin b < x then fin b else x))
        ∧ (if (if fin b < x then fin b else x) < fin a then fin a
            else (if fin b < x then fin b else x)) ≤ fin b) := by
  cases x with
  | nan => left; rfl
  | pinf =>
    right
    have h2 : fin b < pinf := trivial
    simp only [h2, if_true, fin_lt, if_neg (not_lt.mpr hab), fin_le, le_refl, hab, and_self]
  | ninf =>
    right
    have h1 : ¬ (fin b < ninf) := fun h => h
    have h2 : ninf < fin a := trivial
    simp only [h1, h2, if_false, if_true, fin_le, le_refl, hab, and_self]
  | fin q =>
    right
    by_cases h2 : b < q
    · simp only [fin_lt, if_pos h2, if_neg (not_lt.mpr hab), fin_le, le_refl, hab, and_self]
    · by_cases h1 : q < a
      · simp only [fin_lt, if_neg h2, if_pos h1, fin_le, le_refl, hab, and_self]
      · simp only [fin_lt, if_neg h2, if_neg h1, fin_le]
        exact ⟨not_lt.mp h1, not_lt.mp h2⟩

theorem neg_ofNat_eq (n : ℕ) [n.AtLeastTwo] : (-(OfNat.ofNat n : Dbl)) = fin (-(OfNat.ofNat n : ℚ)) := rfl

theorem EvapoTrans_init_cond : EvapoTrans_cond EvapoTrans_init = true := by
  simp only [EvapoTrans_cond, EvapoTrans_init, ofScientific_eq, fin_lt, decide_eq_true_eq]
  norm_num

theorem EvapoTrans2_init_cond : EvapoTrans2_cond EvapoTrans2_init = true := by
  simp only [EvapoTrans2_cond, EvapoTrans2_init, ofScientific_eq, ofNat_eq, fin_lt, decide_eq_true_eq]
  norm_num

theorem EvapoTrans_body_Deltat (m : Libm) (e : ETEnv) (s : ETState) :
    (-5 : Dbl) ≤ (EvapoTrans_body m e s).Deltat ∧ (EvapoTrans_body m e s).Deltat ≤ 5 := by
  simp only [EvapoTrans_body, neg_ofNat_eq, ofNat_eq]
  exact fmin_fmax_range _ (-5) 5 (by norm_num)

theorem EvapoTrans2_body_Deltat (m : Libm) (e : ET2Env) (s : ET2State) :
    (EvapoTrans2_body m e s).Deltat = nan
      ∨ ((-10 : Dbl) ≤ (EvapoTrans2_body m e s).Deltat ∧ (EvapoTrans2_body m e s).Deltat ≤ 10) := by
  simp only [EvapoTrans2_body, neg_ofNat_eq, ofNat_eq]
  exact ifclamp_range _ (-10) 10 (by norm_num)

theorem EvapoTrans_loop_Deltat (m : Libm) (e : ETEnv) :
    (-5 : Dbl) ≤ (EvapoTrans_loop m e).Deltat ∧ (EvapoTrans_loop m e).Deltat ≤ 5 := by
  rw [EvapoTrans_loop, whileLoop_of_cond _ _ 10 _ EvapoTrans_init_cond]
  exact whileLoop_invariant _ _ (fun s => (-5 : Dbl) ≤ s.Deltat ∧ s.Deltat ≤ 5)
    (fun s _ => EvapoTrans_body_Deltat m e s) 10 _ (EvapoTrans_body_Deltat m e _)

theorem EvapoTrans2_loop_Deltat (m : Libm) (e : ET2Env) :
    (EvapoTrans2_loop m e).Deltat = nan
      ∨ ((-10 : Dbl) ≤ (EvapoTrans2_loop m e).Deltat ∧ (EvapoTrans2_loop m e).Deltat ≤ 10) := by
  rw [EvapoTrans2_loop, whileLoop_of_cond _ _ 10 _ EvapoTrans2_init_cond]
  exact whileLoop_invariant _ _
    (fun s => s.Deltat = nan ∨ ((-10 : Dbl) ≤ s.Deltat ∧ s.Deltat ≤ 10))
    (fun s _ => EvapoTrans2_body_Deltat m e s) 10 _ (EvapoTrans2_body_Deltat m e _)

theorem EvapoTrans_ok (m : Libm)
    (c4photoC_Gs : Dbl → Dbl → Dbl → Dbl → Dbl → Dbl → Dbl → Dbl → Dbl → Dbl → Dbl → Dbl → Dbl →
      ℤ → Dbl → Dbl → Dbl)
    (Rad Itot airTemp RH WindSpeed LeafAreaIndex CanopyHeight StomataWS : Dbl) (ws : ℤ)
    (vmax2 alpha2 kparm theta beta Rd2 b02 b12 upperT lowerT Catm : Dbl) (r : ET_Str)
    (h : EvapoTrans m c4photoC_Gs Rad Itot airTemp RH WindSpeed LeafAreaIndex CanopyHeight
      StomataWS ws vmax2 alpha2 kparm theta beta Rd2 b02 b12 upperT lowerT Catm = .ok r) :
    r = EvapoTrans_result
      (EvapoTrans_env m c4photoC_Gs Rad Itot airTemp RH WindSpeed LeafAreaIndex CanopyHeight
        StomataWS ws vmax2 alpha2 kparm theta beta Rd2 b02 b12 upperT lowerT Catm)
      (EvapoTrans_loop m
        (EvapoTrans_env m c4photoC_Gs Rad Itot airTemp RH WindSpeed LeafAreaIndex CanopyHeight
          StomataWS ws vmax2 alpha2 kparm theta beta Rd2 b02 b12 upperT lowerT Catm)) := by
  simp only [EvapoTrans] at h
  split at h
  · cases h
  · split at h
    · cases h
    · split at h
      · cases h
      · injection h with h
        exact h.symm

theorem EvapoTrans2_ok (m : Libm)
    (Rad Iave Airtemperature RH WindSpeed LeafAreaIndex CanopyHeight stomatacond leafw : Dbl)
    (eteq : ℤ) (r : ET_Str)
    (h : EvapoTrans2 m Rad Iave Airtemperature RH WindSpeed LeafAreaIndex CanopyHeight
      stomatacond leafw eteq = .ok r) :
    r = EvapoTrans2_result
      (EvapoTrans2_env m Rad Iave Airtemperature RH WindSpeed LeafAreaIndex CanopyHeight
        stomatacond leafw)
      (EvapoTrans2_loop m
        (EvapoTrans2_env m Rad Iave Airtemperature RH WindSpeed LeafAreaIndex CanopyHeight
          stomatacond leafw)) eteq := by
  simp only [EvapoTrans2] at h
  split at h
  · cases h
  · injection h with h
    exact h.symm

theorem EvapoTrans2_of_radiation (m : Libm)
    (Rad Iave Airtemperature RH WindSpeed LeafAreaIndex CanopyHeight stomatacond leafw : Dbl)
    (eteq : ℤ) (h : ¬ (650 < Rad * 0.235)) :
    EvapoTrans2 m Rad Iave Airtemperature RH WindSpeed LeafAreaIndex CanopyHeight stomatacond
        leafw eteq
      = .ok (EvapoTrans2_result
        (EvapoTrans2_env m Rad Iave Airtemperature RH WindSpeed LeafAreaIndex CanopyHeight
          stomatacond leafw)
        (EvapoTrans2_loop m
          (EvapoTrans2_env m Rad Iave Airtemperature RH WindSpeed LeafAreaIndex CanopyHeight
            stomatacond leafw)) eteq) := by
  have h2 : ¬ (650 < (EvapoTrans2_env m Rad Iave Airtemperature RH WindSpeed LeafAreaIndex
      CanopyHeight stomatacond leafw).totalradiation) := h
  simp only [EvapoTrans2, if_neg h2]

/-- C15: when `EvapoTrans2` returns, the `TransR` it reports is the returned
`EPenman` for `eteq = 1`, the returned `EPriestly` for `eteq = 2`, and for
every other `eteq` the diffusion-resistance estimate
`(SlopeFS*PhiN + LHV*PsycParam*ga*DeltaPVa) / (LHV*(SlopeFS + PsycParam*(1 + ga/gvs)))`
times `1e6 / 18`, with `ga` the value of the last iteration of the loop and
`PhiN` the net radiation after its floor at 0. -/
theorem EvapoTrans2_TransR (m : Libm)
    (Rad Iave Airtemperature RH WindSpeed LeafAreaIndex CanopyHeight stomatacond leafw : Dbl)
    (eteq : ℤ) (r : ET_Str) (e : ET2Env) (s : ET2State)
    (he : e = EvapoTrans2_env m Rad Iave Airtemperature RH WindSpeed LeafAreaIndex CanopyHeight
      stomatacond leafw)
    (hs : s = EvapoTrans2_loop m e)
    (h : EvapoTrans2 m Rad Iave Airtemperature RH WindSpeed LeafAreaIndex CanopyHeight
      stomatacond leafw eteq = .ok r) :
    (eteq = 1 → r.TransR = r.EPenman)
      ∧ (eteq = 2 → r.TransR = r.EPriestly)
      ∧ (eteq ≠ 1 → eteq ≠ 2 →
        r.TransR = (e.SlopeFS * EvapoTrans2_PhiN e s + (e.LHV * e.PsycParam * s.ga * e.DeltaPVa))
          / (e.LHV * (e.SlopeFS + e.PsycParam * (1 + s.ga / e.gvs))) * 1e6 / 18) := by
  have hr := EvapoTrans2_ok m Rad Iave Airtemperature RH WindSpeed LeafAreaIndex CanopyHeight
    stomatacond leafw eteq r h
  rw [← he, ← hs] at hr
  subst hr
  refine ⟨?_, ?_, ?_⟩
  · intro h1
    have h2 : ¬ ((1 : ℤ) = 2) := by decide
    simp only [EvapoTrans2_result, h1, if_true, h2, if_false]
  · intro h2
    simp only [EvapoTrans2_result, h2, if_true]
  · intro h1 h2
    simp only [EvapoTrans2_result, if_neg h1, if_neg h2]

/-- C15 at a concrete input with `eteq = 1`, with the reference library functions. -/
theorem EvapoTrans2_TransR_witness :
    ∃ r : ET_Str, EvapoTrans2 refLibm 1000 500 25 0.7 2 3 1 300 0.04 1 = .ok r
      ∧ r.TransR = r.EPenman :=
  ⟨_, EvapoTrans2_of_radiation refLibm 1000 500 25 0.7 2 3 1 300 0.04 1
      (by simp only [ofNat_eq, ofScientific_eq, fin_mul, fin_lt]; norm_num),
    (EvapoTrans2_TransR refLibm 1000 500 25 0.7 2 3 1 300 0.04 1 _ _ _ (Eq.refl _) (Eq.refl _)
      (EvapoTrans2_of_radiation refLibm 1000 500 25 0.7 2 3 1 300 0.04 1
        (by simp only [ofNat_eq, ofScientific_eq, fin_mul, fin_lt]; norm_num))).1 (Eq.refl _)⟩

theorem fmax_floor (a : ℚ) (x : Dbl) (h : x < fin a) : fmax (fin a) x = fin a := by
  cases x with
  | nan => exact absurd h (fun h => h)
  | pinf => exact absurd h (fun h => h)
  | ninf =>
    have h1 : ¬ (fin a < ninf) := fun h => h
    simp only [fmax, if_neg h1]
  | fin q =>
    have h1 : ¬ (a < q) := not_lt.mpr (le_of_lt h)
    simp only [fmax, fin_lt, if_neg h1]

theorem fmax_self (a : ℚ) : fmax (fin a) (fin a) = fin a := by
  simp only [fmax, fin_lt, lt_irrefl, if_false]

/-- C16: `EvapoTrans` and `EvapoTrans2` return for a wind speed below 0.5
what they return for the wind speed 0.5, and for a canopy height below 0.1
what they return for the canopy height 0.1, all other arguments being equal. -/
theorem energy_balance_floors (m : Libm)
    (c4photoC_Gs : Dbl → Dbl → Dbl → Dbl → Dbl → Dbl → Dbl → Dbl → Dbl → Dbl → Dbl → Dbl → Dbl →
      ℤ → Dbl → Dbl → Dbl)
    (Rad Itot airTemp RH WindSpeed LeafAreaIndex CanopyHeight StomataWS : Dbl) (ws : ℤ)
    (vmax2 alpha2 kparm theta beta Rd2 b02 b12 upperT lowerT Catm : Dbl)
    (Iave stomatacond leafw : Dbl) (eteq : ℤ) :
    (WindSpeed < 0.5 →
        EvapoTrans m c4photoC_Gs Rad Itot airTemp RH WindSpeed LeafAreaIndex CanopyHeight
            StomataWS ws vmax2 alpha2 kparm theta beta Rd2 b02 b12 upperT lowerT Catm
          = EvapoTrans m c4photoC_Gs Rad Itot airTemp RH 0.5 LeafAreaIndex CanopyHeight
            StomataWS ws vmax2 alpha2 kparm theta beta Rd2 b02 b12 upperT lowerT Catm
        ∧ EvapoTrans2 m Rad Iave airTemp RH WindSpeed LeafAreaIndex CanopyHeight stomatacond
            leafw eteq
          = EvapoTrans2 m Rad Iave airTemp RH 0.5 LeafAreaIndex CanopyHeight stomatacond
            leafw eteq)
      ∧ (CanopyHeight < 0.1 →
        EvapoTrans m c4photoC_Gs Rad Itot airTemp RH WindSpeed LeafAreaIndex CanopyHeight
            StomataWS ws vmax2 alpha2 kparm theta beta Rd2 b02 b12 upperT lowerT Catm
          = EvapoTrans m c4photoC_Gs Rad Itot airTemp RH WindSpeed LeafAreaIndex 0.1
            StomataWS ws vmax2 alpha2 kparm theta beta Rd2 b02 b12 upperT lowerT Catm
        ∧ EvapoTrans2 m Rad Iave airTemp RH WindSpeed LeafAreaIndex CanopyHeight stomatacond
            leafw eteq
          = EvapoTrans2 m Rad Iave airTemp RH WindSpeed LeafAreaIndex 0.1 stomatacond
            leafw eteq) := by
  refine ⟨fun hw => ⟨?_, ?_⟩, fun hc => ⟨?_, ?_⟩⟩
  · have hw2 : WindSpeed < fin 0.5 := hw
    have e1 : EvapoTrans_env m c4photoC_Gs Rad Itot airTemp RH WindSpeed LeafAreaIndex
          CanopyHeight StomataWS ws vmax2 alpha2 kparm theta beta Rd2 b02 b12 upperT lowerT Catm
        = EvapoTrans_env m c4photoC_Gs Rad Itot airTemp RH 0.5 LeafAreaIndex
          CanopyHeight StomataWS ws vmax2 alpha2 kparm theta beta Rd2 b02 b12 upperT lowerT
          Catm := by
      simp only [EvapoTrans_env, ofScientific_eq, fmax_floor _ _ hw2, fmax_self]
    simp only [EvapoTrans, e1]
  · have h5 : ¬ ((0.5 : Dbl) < 0.5) := by
      simp only [ofScientific_eq, fin_lt, lt_irrefl, not_false_eq_true]
    have e2 : EvapoTrans2_env m Rad Iave airTemp RH WindSpeed LeafAreaIndex CanopyHeight
          stomatacond leafw
        = EvapoTrans2_env m Rad Iave airTemp RH 0.5 LeafAreaIndex CanopyHeight
          stomatacond leafw := by
      simp only [EvapoTrans2_env, if_pos hw, if_neg h5]
    simp only [EvapoTrans2, e2]
  · have hc2 : CanopyHeight < fin 0.1 := hc
    have e1 : EvapoTrans_env m c4photoC_Gs Rad Itot airTemp RH WindSpeed LeafAreaIndex
          CanopyHeight StomataWS ws vmax2 alpha2 kparm theta beta Rd2 b02 b12 upperT lowerT Catm
        = EvapoTrans_env m c4photoC_Gs Rad Itot airTemp RH WindSpeed LeafAreaIndex
          0.1 StomataWS ws vmax2 alpha2 kparm theta beta Rd2 b02 b12 upperT lowerT
          Catm := by
      simp only [EvapoTrans_env, ofScientific_eq, fmax_floor _ _ hc2, fmax_self]
    simp only [EvapoTrans, e1]
  · have e2 : EvapoTrans2_env m Rad Iave airTemp RH WindSpeed LeafAreaIndex CanopyHeight
          stomatacond leafw
        = EvapoTrans2_env m Rad Iave airTemp RH WindSpeed LeafAreaIndex 0.1
          stomatacond leafw := Eq.refl _
    simp only [EvapoTrans2, e2]

/-- C16 at a wind speed of 0.2 and a canopy height of 0.05, with the reference
library functions and a stomatal conductance of 300 mmol m^-2 s^-1. -/
theorem energy_balance_floors_witness :
    ((0.2 : Dbl) < 0.5 ∧ (0.05 : Dbl) < 0.1)
      ∧ EvapoTrans refLibm (fun _ _ _ _ _ _ _ _ _ _ _ _ _ _ _ _ => 300) 1000 500 25 0.7 0.2 3
            0.05 1 0 39 0.04 0.7 0.83 0.93 0.8 0.08 3 37.5 3 380
          = EvapoTrans refLibm (fun _ _ _ _ _ _ _ _ _ _ _ _ _ _ _ _ => 300) 1000 500 25 0.7 0.5 3
            0.05 1 0 39 0.04 0.7 0.83 0.93 0.8 0.08 3 37.5 3 380
      ∧ EvapoTrans2 refLibm 1000 500 25 0.7 2 3 0.05 300 0.04 0
          = EvapoTrans2 refLibm 1000 500 25 0.7 2 3 0.1 300 0.04 0 :=
  ⟨⟨by simp only [ofScientific_eq, fin_lt]; norm_num,
      by simp only [ofScientific_eq, fin_lt]; norm_num⟩,
    ((energy_balance_floors refLibm (fun _ _ _ _ _ _ _ _ _ _ _ _ _ _ _ _ => 300) 1000 500 25 0.7
      0.2 3 0.05 1 0 39 0.04 0.7 0.83 0.93 0.8 0.08 3 37.5 3 380 500 300 0.04 0).1
      (by simp only [ofScientific_eq, fin_lt]; norm_num)).1,
    ((energy_balance_floors refLibm (fun _ _ _ _ _ _ _ _ _ _ _ _ _ _ _ _ => 300) 1000 500 25 0.7
      2 3 0.05 1 0 39 0.04 0.7 0.83 0.93 0.8 0.08 3 37.5 3 380 500 300 0.04 0).2
      (by simp only [ofScientific_eq, fin_lt]; norm_num)).2⟩

theorem humidity_check_iff (RH : Dbl) : 100 < RH * 100 ↔ 1 < RH := by
  cases RH with
  | fin r =>
    simp only [ofNat_eq, one_eq, fin_mul, fin_lt]
    constructor <;> intro h <;> norm_num at h ⊢ <;> linarith
  | pinf =>
    have h1 : (pinf : Dbl) * 100 = pinf := by
      simp only [ofNat_eq, pinf_mul_fin, signedInf]
      norm_num
    rw [h1]
    exact ⟨fun _ => trivial, fun _ => trivial⟩
  | ninf =>
    have h1 : (ninf : Dbl) * 100 = ninf := by
      simp only [ofNat_eq, ninf_mul_fin, signedInf]
      norm_num
    rw [h1]
    exact ⟨fun h => h, fun h => h⟩
  | nan => exact ⟨fun h => h, fun h => h⟩

/-- C17: `EvapoTrans` ends in `error` exactly when the relative humidity `RH`
exceeds 1, or the saturation vapour pressure `SWVC` is negative, or the
aerodynamic conductance `ga` is negative. -/
theorem EvapoTrans_error_iff (m : Libm)
    (c4photoC_Gs : Dbl → Dbl → Dbl → Dbl → Dbl → Dbl → Dbl → Dbl → Dbl → Dbl → Dbl → Dbl → Dbl →
      ℤ → Dbl → Dbl → Dbl)
    (Rad Itot airTemp RH WindSpeed LeafAreaIndex CanopyHeight StomataWS : Dbl) (ws : ℤ)
    (vmax2 alpha2 kparm theta beta Rd2 b02 b12 upperT lowerT Catm : Dbl) :
    (∃ err, EvapoTrans m c4photoC_Gs Rad Itot airTemp RH WindSpeed LeafAreaIndex CanopyHeight
        StomataWS ws vmax2 alpha2 kparm theta beta Rd2 b02 b12 upperT lowerT Catm = .error err)
      ↔ (1 < RH ∨ TempToSWVC m airTemp * 1e-3 < 0
        ∨ EvapoTrans_ga m (fmax 0.5 WindSpeed) (fmax 0.1 CanopyHeight) < 0) := by
  have h1 : (EvapoTrans_env m c4photoC_Gs Rad Itot airTemp RH WindSpeed LeafAreaIndex
      CanopyHeight StomataWS ws vmax2 alpha2 kparm theta beta Rd2 b02 b12 upperT lowerT
      Catm).LayerRelativeHumidity = RH * 100 := Eq.refl _
  have h2 : (EvapoTrans_env m c4photoC_Gs Rad Itot airTemp RH WindSpeed LeafAreaIndex
      CanopyHeight StomataWS ws vmax2 alpha2 kparm theta beta Rd2 b02 b12 upperT lowerT
      Catm).SWVC = TempToSWVC m airTemp * 1e-3 := Eq.refl _
  have h3 : (EvapoTrans_env m c4photoC_Gs Rad Itot airTemp RH WindSpeed LeafAreaIndex
      CanopyHeight StomataWS ws vmax2 alpha2 kparm theta beta Rd2 b02 b12 upperT lowerT
      Catm).ga = EvapoTrans_ga m (fmax 0.5 WindSpeed) (fmax 0.1 CanopyHeight) := Eq.refl _
  simp only [EvapoTrans, h1, h2, h3, humidity_check_iff]
  by_cases c1 : 1 < RH
  · simp only [c1, if_true, true_or, iff_true]
    exact ⟨_, Eq.refl _⟩
  · by_cases c2 : TempToSWVC m airTemp * 1e-3 < 0
    · simp only [c1, c2, if_false, if_true, true_or, or_true, iff_true]
      exact ⟨_, Eq.refl _⟩
    · by_cases c3 : EvapoTrans_ga m (fmax 0.5 WindSpeed) (fmax 0.1 CanopyHeight) < 0
      · simp only [c1, c2, c3, if_false, if_true, or_true, iff_true]
        exact ⟨_, Eq.refl _⟩
      · simp only [c1, c2, c3, if_false, or_self, iff_false, not_exists]
        intro err h
        cases h

/-- C13: when `EvapoTrans` returns, its `Deltat` lies in `[-5, 5]`: the clamp
`fmin(fmax(x, -5), 5)` also maps a NaN to `-5`.  When `EvapoTrans2` returns,
its `Deltat` lies in `[-10, 10]` or is NaN: its clamp is a pair of
comparisons, which a NaN passes unchanged. -/
theorem leaf_Deltat_range (m : Libm) :
    (∀ (c4photoC_Gs : Dbl → Dbl → Dbl → Dbl → Dbl → Dbl → Dbl → Dbl → Dbl → Dbl → Dbl → Dbl →
          Dbl → ℤ → Dbl → Dbl → Dbl)
        (Rad Itot airTemp RH WindSpeed LeafAreaIndex CanopyHeight StomataWS : Dbl) (ws : ℤ)
        (vmax2 alpha2 kparm theta beta Rd2 b02 b12 upperT lowerT Catm : Dbl) (r : ET_Str),
        EvapoTrans m c4photoC_Gs Rad Itot airTemp RH WindSpeed LeafAreaIndex CanopyHeight
            StomataWS ws vmax2 alpha2 kparm theta beta Rd2 b02 b12 upperT lowerT Catm = .ok r →
          (-5 : Dbl) ≤ r.Deltat ∧ r.Deltat ≤ 5)
      ∧ (∀ (Rad Iave Airtemperature RH WindSpeed LeafAreaIndex CanopyHeight stomatacond
          leafw : Dbl) (eteq : ℤ) (r : ET_Str),
        EvapoTrans2 m Rad Iave Airtemperature RH WindSpeed LeafAreaIndex CanopyHeight
            stomatacond leafw eteq = .ok r →
          r.Deltat = nan ∨ ((-10 : Dbl) ≤ r.Deltat ∧ r.Deltat ≤ 10)) := by
  refine ⟨?_, ?_⟩
  · intro c4photoC_Gs Rad Itot airTemp RH WindSpeed LeafAreaIndex CanopyHeight StomataWS ws
      vmax2 alpha2 kparm theta beta Rd2 b02 b12 upperT lowerT Catm r h
    rw [EvapoTrans_ok m c4photoC_Gs Rad Itot airTemp RH WindSpeed LeafAreaIndex CanopyHeight
      StomataWS ws vmax2 alpha2 kparm theta beta Rd2 b02 b12 upperT lowerT Catm r h]
    exact EvapoTrans_loop_Deltat m _
  · intro Rad Iave Airtemperature RH WindSpeed LeafAreaIndex CanopyHeight stomatacond leafw
      eteq r h
    rw [EvapoTrans2_ok m Rad Iave Airtemperature RH WindSpeed LeafAreaIndex CanopyHeight
      stomatacond leafw eteq r h]
    exact EvapoTrans2_loop_Deltat m _

theorem EvapoTrans2_body_nan_ga (m : Libm) (e : ET2Env) (s : ET2State)
    (h : leafboundarylayer m e.LayerWindSpeed e.leafw e.Airtemperature s.Deltat e.gvs
      e.ActualVaporPressure = nan) :
    (EvapoTrans2_body m e s).Deltat = nan := by
  simp only [EvapoTrans2_body, h, div_nan, nan_add, mul_nan, nan_sub, nan_div]
  rfl

theorem leafboundarylayer_nan_forced (m : Libm)
    (windspeed leafwidth AirTemp deltat stomcond vappress : Dbl)
    (hpow : ∀ y, m.pow nan y = nan)
    (h : leafboundarylayer_forced m windspeed leafwidth AirTemp = nan) :
    leafboundarylayer m windspeed leafwidth AirTemp deltat stomcond vappress = nan := by
  have hfree : leafboundarylayer_free m windspeed leafwidth AirTemp deltat stomcond vappress
      = nan := by
    have h0 : ¬ ((nan : Dbl) < 0) := fun h => h
    simp only [leafboundarylayer_free, h, mul_nan, add_nan, nan_div, div_nan, sub_nan, nan_sub,
      if_neg h0, hpow]
  have h1 : ¬ ((nan : Dbl) < nan) := fun h => h
  simp only [leafboundarylayer, h, hfree, if_neg h1]

theorem EvapoTrans2_loop_nan_ga (m : Libm) (e : ET2Env)
    (h : leafboundarylayer m e.LayerWindSpeed e.leafw e.Airtemperature 0.01 e.gvs
      e.ActualVaporPressure = nan) :
    (EvapoTrans2_loop m e).Deltat = nan := by
  have h1 : leafboundarylayer m e.LayerWindSpeed e.leafw e.Airtemperature
      EvapoTrans2_init.Deltat e.gvs e.ActualVaporPressure = nan := h
  have hD := EvapoTrans2_body_nan_ga m e EvapoTrans2_init h1
  have hC : (EvapoTrans2_body m e EvapoTrans2_init).ChangeInLeafTemp = nan := by
    have hD2 := hD
    simp only [EvapoTrans2_body] at hD2
    simp only [EvapoTrans2_body, hD2, sub_nan]
    rfl
  have hcond : EvapoTrans2_cond (EvapoTrans2_body m e EvapoTrans2_init) = false := by
    have h0 : ¬ ((0.5 : Dbl) < nan) := fun h => h
    simp only [EvapoTrans2_cond, hC, h0, false_and, decide_False]
  rw [EvapoTrans2_loop, whileLoop_of_cond _ _ 10 _ EvapoTrans2_init_cond,
    whileLoop_of_not_cond _ _ 10 _ hcond]
  exact hD

set_option maxRecDepth 100000 in
theorem leafboundarylayer_negative_width :
    leafboundarylayer_forced refLibm 2 (-0.04) 25 = nan := by
  have hx : Ref.pow ((25 + 273.15 + 120 : Dbl) * (((2 : Dbl) / (-0.04)) / 101325)) 0.5 = nan := by
    have hq : (25 + 273.15 + 120 : Dbl) * (((2 : Dbl) / (-0.04)) / 101325)
        = fin (-(8363 / 40530)) := by
      simp only [ofNat_eq, ofScientific_eq, fin_add, fin_neg]
      norm_num [fin_div, fin_mul]
    rw [hq, ofScientific_eq]
    simp only [Ref.pow]
    norm_num
  simp only [leafboundarylayer_forced, refLibm]
  rw [hx, mul_nan]

/-- C13 (counterexample): with a leaf width of -0.04 m the argument of the
square root in the forced-convection estimate is negative, the boundary-layer
conductance is NaN, and `EvapoTrans2` returns a `Deltat` that is NaN: it is
not in `[-10, 10]`. -/
theorem EvapoTrans2_Deltat_not_clamped :
    ∃ r : ET_Str, EvapoTrans2 refLibm 1000 500 25 0.7 2 3 1 300 (-0.04) 0 = .ok r
      ∧ r.Deltat = nan ∧ ¬ ((-10 : Dbl) ≤ r.Deltat ∧ r.Deltat ≤ 10) := by
  have hok := EvapoTrans2_of_radiation refLibm 1000 500 25 0.7 2 3 1 300 (-0.04) 0
    (by simp only [ofNat_eq, ofScientific_eq, fin_mul, fin_lt]; norm_num)
  have hw : ¬ ((2 : Dbl) < 0.5) := by
    simp only [ofNat_eq, ofScientific_eq, fin_lt]; norm_num
  have hl : leafboundarylayer refLibm
      (EvapoTrans2_env refLibm 1000 500 25 0.7 2 3 1 300 (-0.04)).LayerWindSpeed
      (EvapoTrans2_env refLibm 1000 500 25 0.7 2 3 1 300 (-0.04)).leafw
      (EvapoTrans2_env refLibm 1000 500 25 0.7 2 3 1 300 (-0.04)).Airtemperature 0.01
      (EvapoTrans2_env refLibm 1000 500 25 0.7 2 3 1 300 (-0.04)).gvs
      (EvapoTrans2_env refLibm 1000 500 25 0.7 2 3 1 300 (-0.04)).ActualVaporPressure = nan := by
    apply leafboundarylayer_nan_forced
    · intro y; rfl
    · simp only [EvapoTrans2_env, if_neg hw]
      exact leafboundarylayer_negative_width
  have hD := EvapoTrans2_loop_nan_ga refLibm _ hl
  refine ⟨_, hok, hD, ?_⟩
  intro h
  have h1 := h.1
  rw [show (EvapoTrans2_result (EvapoTrans2_env refLibm 1000 500 25 0.7 2 3 1 300 (-0.04))
    (EvapoTrans2_loop refLibm (EvapoTrans2_env refLibm 1000 500 25 0.7 2 3 1 300 (-0.04)))
    0).Deltat = nan from hD] at h1
  exact h1

theorem EvapoTrans_iterate_Counter (m : Libm) (e : ETEnv) (k : ℕ) :
    ((EvapoTrans_body m e)^[k] EvapoTrans_init).Counter = k := by
  induction k with
  | zero => rfl
  | succ k ih =>
    rw [Function.iterate_succ_apply']
    simp only [EvapoTrans_body, ih]

theorem EvapoTrans2_iterate_Counter (m : Libm) (e : ET2Env) (k : ℕ) :
    ((EvapoTrans2_body m e)^[k] EvapoTrans2_init).Counter = k := by
  induction k with
  | zero => rfl
  | succ k ih =>
    rw [Function.iterate_succ_apply']
    simp only [EvapoTrans2_body, ih]

/-- C14: the leaf-temperature loop of `EvapoTrans` and the one of `EvapoTrans2`
end after at most 11 executions of their body: the final state is the initial
state after `n ≤ 11` applications of the body, the condition of the loop holds
before each of them and fails after the last, and `Counter` then holds `n`.
The condition `Counter <= 10` is tested with `Counter` starting at 0, so it
admits the executions number 1 to 11. -/
theorem leaf_temperature_loop_bound (m : Libm) (e : ETEnv) (e2 : ET2Env) :
    (∃ n, n ≤ 11 ∧ EvapoTrans_loop m e = (EvapoTrans_body m e)^[n] EvapoTrans_init
        ∧ (∀ j, j < n → EvapoTrans_cond ((EvapoTrans_body m e)^[j] EvapoTrans_init) = true)
        ∧ EvapoTrans_cond (EvapoTrans_loop m e) = false
        ∧ (EvapoTrans_loop m e).Counter = n)
      ∧ (∃ n, n ≤ 11 ∧ EvapoTrans2_loop m e2 = (EvapoTrans2_body m e2)^[n] EvapoTrans2_init
        ∧ (∀ j, j < n → EvapoTrans2_cond ((EvapoTrans2_body m e2)^[j] EvapoTrans2_init) = true)
        ∧ EvapoTrans2_cond (EvapoTrans2_loop m e2) = false
        ∧ (EvapoTrans2_loop m e2).Counter = n) := by
  refine ⟨?_, ?_⟩
  · obtain ⟨k, hk, h1, h2, h3⟩ :=
      whileLoop_trace EvapoTrans_cond (EvapoTrans_body m e) 11 EvapoTrans_init
    have h1' : EvapoTrans_loop m e = (EvapoTrans_body m e)^[k] EvapoTrans_init := h1
    refine ⟨k, hk, h1', h2, ?_, ?_⟩
    · rw [h1']
      rcases Nat.lt_or_ge k 11 with hlt | hge
      · exact h3 hlt
      · have hk11 : k = 11 := le_antisymm hk hge
        simp only [EvapoTrans_cond, EvapoTrans_iterate_Counter, hk11]
        simp
    · rw [h1', EvapoTrans_iterate_Counter]
  · obtain ⟨k, hk, h1, h2, h3⟩ :=
      whileLoop_trace EvapoTrans2_cond (EvapoTrans2_body m e2) 11 EvapoTrans2_init
    have h1' : EvapoTrans2_loop m e2 = (EvapoTrans2_body m e2)^[k] EvapoTrans2_init := h1
    refine ⟨k, hk, h1', h2, ?_, ?_⟩
    · rw [h1']
      rcases Nat.lt_or_ge k 11 with hlt | hge
      · exact h3 hlt
      · have hk11 : k = 11 := le_antisymm hk hge
        simp only [EvapoTrans2_cond, EvapoTrans2_iterate_Counter, hk11]
        simp
    · rw [h1', EvapoTrans2_iterate_Counter]

theorem EvapoTrans_of_checks (m : Libm)
    (c4photoC_Gs : Dbl → Dbl → Dbl → Dbl → Dbl → Dbl → Dbl → Dbl → Dbl → Dbl → Dbl → Dbl → Dbl →
      ℤ → Dbl → Dbl → Dbl)
    (Rad Itot airTemp RH WindSpeed LeafAreaIndex CanopyHeight StomataWS : Dbl) (ws : ℤ)
    (vmax2 alpha2 kparm theta beta Rd2 b02 b12 upperT lowerT Catm : Dbl)
    (h1 : ¬ (100 < RH * 100)) (h2 : ¬ (TempToSWVC m airTemp * 1e-3 < 0))
    (h3 : ¬ (EvapoTrans_ga m (fmax 0.5 WindSpeed) (fmax 0.1 CanopyHeight) < 0)) :
    EvapoTrans m c4photoC_Gs Rad Itot airTemp RH WindSpeed LeafAreaIndex CanopyHeight
        StomataWS ws vmax2 alpha2 kparm theta beta Rd2 b02 b12 upperT lowerT Catm
      = .ok (EvapoTrans_result
        (EvapoTrans_env m c4photoC_Gs Rad Itot airTemp RH WindSpeed LeafAreaIndex CanopyHeight
          StomataWS ws vmax2 alpha2 kparm theta beta Rd2 b02 b12 upperT lowerT Catm)
        (EvapoTrans_loop m
          (EvapoTrans_env m c4photoC_Gs Rad Itot airTemp RH WindSpeed LeafAreaIndex CanopyHeight
            StomataWS ws vmax2 alpha2 kparm theta beta Rd2 b02 b12 upperT lowerT Catm))) := by
  have g1 : ¬ (100 < (EvapoTrans_env m c4photoC_Gs Rad Itot airTemp RH WindSpeed LeafAreaIndex
      CanopyHeight StomataWS ws vmax2 alpha2 kparm theta beta Rd2 b02 b12 upperT lowerT
      Catm).LayerRelativeHumidity) := h1
  have g2 : ¬ ((EvapoTrans_env m c4photoC_Gs Rad Itot airTemp RH WindSpeed LeafAreaIndex
      CanopyHeight StomataWS ws vmax2 alpha2 kparm theta beta Rd2 b02 b12 upperT lowerT
      Catm).SWVC < 0) := h2
  have g3 : ¬ ((EvapoTrans_env m c4photoC_Gs Rad Itot airTemp RH WindSpeed LeafAreaIndex
      CanopyHeight StomataWS ws vmax2 alpha2 kparm theta beta Rd2 b02 b12 upperT lowerT
      Catm).ga < 0) := h3
  simp only [EvapoTrans, if_neg g1, if_neg g2, if_neg g3]

theorem fin_lt_abs (a q : ℚ) : fin a < Dbl.abs (fin q) ↔ (a < q ∨ a < -q) := by
  simp only [Dbl.abs, fin_lt]
  exact lt_abs

set_option maxRecDepth 100000 in
set_option maxHeartbeats 40000000 in
theorem dusk_checks :
    ¬ ((100 : Dbl) < 1 * 100) ∧ ¬ (TempToSWVC refLibm 25 * 1e-3 < 0)
      ∧ ¬ (EvapoTrans_ga refLibm (fmax 0.5 0.5) (fmax 0.1 0.1) < 0) := by
  refine ⟨?_, ?_, ?_⟩
  · simp only [ofNat_eq, one_eq, fin_mul, fin_lt]
    norm_num
  · simp only [TempToSWVC, refLibm, Ref.exp, ofNat_eq, ofScientific_eq, zero_eq, fin_add, fin_mul,
      fin_sub, fin_lt]
    norm_num [Ref.expQ, Ref.taylor4, fin_div, fin_mul, fin_lt]
  · simp only [EvapoTrans_ga, refLibm, Ref.pow, Ref.log, fmax,
      ofNat_eq, ofScientific_eq, zero_eq, one_eq, fin_add, fin_mul, fin_sub, fin_lt, fin_le, fin_neg]
    norm_num [Ref.lnQ, Ref.halve, Ref.logQ, fmax, fin_div, signedInf, fin_add, fin_mul, fin_sub,
      fin_lt, fin_le, fin_neg]

set_option maxRecDepth 100000 in
set_option maxHeartbeats 40000000 in
theorem dusk_Counter :
    (EvapoTrans_loop refLibm (EvapoTrans_env refLibm (fun _ _ _ _ _ _ _ _ _ _ _ _ _ _ _ _ => 10)
      0 25 25 1 0.5 3 0.1 1 0 39 0.04 0.7 0.83 0.93 0.8 0.08 3 37.5 3 380)).Counter = 11 := by
  simp only [EvapoTrans_loop, whileLoop, EvapoTrans_cond, EvapoTrans_body, EvapoTrans_init,
    EvapoTrans_env, EvapoTrans_ga, TempToDdryA, TempToLHV, TempToSFS, TempToSWVC,
    refLibm, Ref.pow, Ref.log, Ref.exp, fmax, fmin, neg_ofNat_eq,
    ofNat_eq, ofScientific_eq, zero_eq, one_eq, fin_add, fin_mul, fin_sub, fin_lt, fin_le, fin_neg]
  norm_num [Ref.lnQ, Ref.halve, Ref.logQ, Ref.expQ, Ref.taylor4, fmax, fmin, fin_lt_abs,
    fin_div, signedInf, fin_add, fin_mul, fin_sub, fin_lt, fin_le, fin_neg]

/-- C14 (counterexample): a short canopy (0.1 m) in still, saturated air at
dusk (25 umol m^-2 s^-1, 25 degrees C, RH = 1, wind speed 0.5 m/s) with nearly
closed stomata (`c4photoC` yields `Gs = 10` mmol m^-2 s^-1).  `EvapoTrans`
returns, the leaf-temperature estimate jumps between the two ends of its
clamp, and the body of the loop runs 11 times. -/
theorem EvapoTrans_loop_eleven :
    (∃ r : ET_Str,
        EvapoTrans refLibm (fun _ _ _ _ _ _ _ _ _ _ _ _ _ _ _ _ => 10)
          0 25 25 1 0.5 3 0.1 1 0 39 0.04 0.7 0.83 0.93 0.8 0.08 3 37.5 3 380 = .ok r)
      ∧ (EvapoTrans_loop refLibm
          (EvapoTrans_env refLibm (fun _ _ _ _ _ _ _ _ _ _ _ _ _ _ _ _ => 10)
            0 25 25 1 0.5 3 0.1 1 0 39 0.04 0.7 0.83 0.93 0.8 0.08 3 37.5 3 380)).Counter = 11
      ∧ ¬ ((EvapoTrans_loop refLibm
          (EvapoTrans_env refLibm (fun _ _ _ _ _ _ _ _ _ _ _ _ _ _ _ _ => 10)
            0 25 25 1 0.5 3 0.1 1 0 39 0.04 0.7 0.83 0.93 0.8 0.08 3 37.5 3 380)).Counter
        ≤ 10) := by
  refine ⟨⟨_, EvapoTrans_of_checks refLibm _ 0 25 25 1 0.5 3 0.1 1 0 39 0.04 0.7 0.83 0.93 0.8
    0.08 3 37.5 3 380 dusk_checks.1 dusk_checks.2.1 dusk_checks.2.2⟩, dusk_Counter, ?_⟩
  rw [dusk_Counter]
  decide

/-- C13 at two concrete inputs, with the reference library functions: the call
of `EvapoTrans` for a short canopy at dusk, and a call of `EvapoTrans2` at
midday. -/
theorem leaf_Deltat_range_witness :
    (∃ r : ET_Str,
        EvapoTrans refLibm (fun _ _ _ _ _ _ _ _ _ _ _ _ _ _ _ _ => 10)
          0 25 25 1 0.5 3 0.1 1 0 39 0.04 0.7 0.83 0.93 0.8 0.08 3 37.5 3 380 = .ok r
        ∧ (-5 : Dbl) ≤ r.Deltat ∧ r.Deltat ≤ 5)
      ∧ (∃ r : ET_Str, EvapoTrans2 refLibm 1000 500 25 0.7 2 3 1 300 0.04 0 = .ok r
        ∧ (r.Deltat = nan ∨ ((-10 : Dbl) ≤ r.Deltat ∧ r.Deltat ≤ 10))) :=
  ⟨⟨_, EvapoTrans_of_checks refLibm _ 0 25 25 1 0.5 3 0.1 1 0 39 0.04 0.7 0.83 0.93 0.8
      0.08 3 37.5 3 380 dusk_checks.1 dusk_checks.2.1 dusk_checks.2.2,
    (leaf_Deltat_range refLibm).1 _ 0 25 25 1 0.5 3 0.1 1 0 39 0.04 0.7 0.83 0.93 0.8
      0.08 3 37.5 3 380 _
      (EvapoTrans_of_checks refLibm _ 0 25 25 1 0.5 3 0.1 1 0 39 0.04 0.7 0.83 0.93 0.8
        0.08 3 37.5 3 380 dusk_checks.1 dusk_checks.2.1 dusk_checks.2.2)⟩,
   ⟨_, EvapoTrans2_of_radiation refLibm 1000 500 25 0.7 2 3 1 300 0.04 0
      (by simp only [ofNat_eq, ofScientific_eq, fin_mul, fin_lt]; norm_num),
    (leaf_Deltat_range refLibm).2 1000 500 25 0.7 2 3 1 300 0.04 0 _
      (EvapoTrans2_of_radiation refLibm 1000 500 25 0.7 2 3 1 300 0.04 0
        (by simp only [ofNat_eq, ofScientific_eq, fin_mul, fin_lt]; norm_num))⟩⟩

theorem dbl_le_of_not_lt (a b : Dbl) (ha : a ≠ nan) (hb : b ≠ nan) (h : ¬ a < b) : b ≤ a := by
  cases a <;> cases b <;> first
    | exact absurd rfl ha
    | exact absurd rfl hb
    | exact trivial
    | exact absurd trivial h
    | exact (fin_le _ _).mpr (not_lt.mp (fun h2 => h ((fin_lt _ _).mpr h2)))

theorem dbl_le_refl (a : Dbl) (ha : a ≠ nan) : a ≤ a := by
  cases a with
  | fin q => exact le_refl q
  | pinf => exact trivial
  | ninf => exact trivial
  | nan => exact absurd rfl ha

/-- C18: function `leafboundarylayer` compares the forced-convection estimate
`cf * Tak^0.56 * ((Tak + 120) * ((ws / lw) / Pa))^0.5` with the free-convection
estimate; when neither of the two is NaN it returns the larger one, so its
result is one of them and is at least each of them. -/
theorem leafboundarylayer_larger (m : Libm)
    (windspeed leafwidth AirTemp deltat stomcond vappress : Dbl)
    (hforced : leafboundarylayer_forced m windspeed leafwidth AirTemp ≠ nan)
    (hfree : leafboundarylayer_free m windspeed leafwidth AirTemp deltat stomcond vappress
      ≠ nan) :
    leafboundarylayer_forced m windspeed leafwidth AirTemp
        = 1.6361e-3 * m.pow (AirTemp + 273.15) 0.56
          * m.pow ((AirTemp + 273.15 + 120) * ((windspeed / leafwidth) / 101325)) 0.5
      ∧ leafboundarylayer_forced m windspeed leafwidth AirTemp
        ≤ leafboundarylayer m windspeed leafwidth AirTemp deltat stomcond vappress
      ∧ leafboundarylayer_free m windspeed leafwidth AirTemp deltat stomcond vappress
        ≤ leafboundarylayer m windspeed leafwidth AirTemp deltat stomcond vappress
      ∧ (leafboundarylayer m windspeed leafwidth AirTemp deltat stomcond vappress
          = leafboundarylayer_forced m windspeed leafwidth AirTemp
        ∨ leafboundarylayer m windspeed leafwidth AirTemp deltat stomcond vappress
          = leafboundarylayer_free m windspeed leafwidth AirTemp deltat stomcond vappress) := by
  refine ⟨Eq.refl _, ?_⟩
  by_cases h : leafboundarylayer_free m windspeed leafwidth AirTemp deltat stomcond vappress
      < leafboundarylayer_forced m windspeed leafwidth AirTemp
  · have hr : leafboundarylayer m windspeed leafwidth AirTemp deltat stomcond vappress
        = leafboundarylayer_forced m windspeed leafwidth AirTemp := by
      simp only [leafboundarylayer, if_pos h]
    rw [hr]
    exact ⟨dbl_le_refl _ hforced, dbl_le_of_lt _ _ h, Or.inl (Eq.refl _)⟩
  · have hr : leafboundarylayer m windspeed leafwidth AirTemp deltat stomcond vappress
        = leafboundarylayer_free m windspeed leafwidth AirTemp deltat stomcond vappress := by
      simp only [leafboundarylayer, if_neg h]
    rw [hr]
    exact ⟨dbl_le_of_not_lt _ _ hfree hforced h, dbl_le_refl _ hfree, Or.inr (Eq.refl _)⟩

theorem Ref_pow_of_pos (a y : ℚ) (ha : 0 < a) (hy : y.den ≠ 1) :
    Ref.pow (fin a) (fin y) = fin (Ref.expQ (y * Ref.logQ a)) := by
  simp only [Ref.pow, if_neg hy, if_neg (not_lt.mpr ha.le), if_neg ha.ne.symm]

theorem Ref_pow_zero (y : ℚ) (hy : y.den ≠ 1) : Ref.pow (fin 0) (fin y) = fin 0 := by
  simp only [Ref.pow, if_neg hy, lt_irrefl, if_false, if_true]

theorem den_056 : ((0.56 : ℚ)).den ≠ 1 := by
  have h : (0.56 : ℚ) = 14 / 25 := by norm_num
  rw [h]
  norm_num

theorem den_05 : ((0.5 : ℚ)).den ≠ 1 := by
  have h : (0.5 : ℚ) = 1 / 2 := by norm_num
  rw [h]
  norm_num

/-- C18 (counterexample): still air (`windspeed = 0`) over a leaf of width
0.04 m with closed stomata (`stomcond = 0`).  The forced-convection estimate
is 0, the vapour pressure `eb` is `0 / 0`, the free-convection estimate is NaN
and so is the result: it is not at least the forced-convection estimate. -/
theorem leafboundarylayer_still_air :
    (0 : Dbl) < 0.04 ∧ (0 : Dbl) ≤ 0
      ∧ leafboundarylayer_forced refLibm 0 0.04 25 = 0
      ∧ leafboundarylayer refLibm 0 0.04 25 2 0 20 = nan
      ∧ ¬ (leafboundarylayer_forced refLibm 0 0.04 25
        ≤ leafboundarylayer refLibm 0 0.04 25 2 0 20) := by
  have hforced : leafboundarylayer_forced refLibm 0 0.04 25 = 0 := by
    have hx : ((25 + 273.15 + 120 : Dbl) * (((0 : Dbl) / 0.04) / 101325)) = fin 0 := by
      simp only [ofNat_eq, ofScientific_eq, zero_eq, fin_add]
      norm_num [fin_div, fin_mul]
    have hT : (25 + 273.15 : Dbl) = fin (25 + 273.15) := by
      simp only [ofNat_eq, ofScientific_eq, fin_add]
    simp only [leafboundarylayer_forced, refLibm]
    rw [hx, hT, ofScientific_eq 56, ofScientific_eq 5, Ref_pow_zero _ den_05,
      Ref_pow_of_pos _ _ (by norm_num) den_056, ofScientific_eq, fin_mul, fin_mul, mul_zero,
      zero_eq]
  have hfree : leafboundarylayer_free refLibm 0 0.04 25 2 0 20 = nan := by
    have h0 : ¬ ((nan : Dbl) < 0) := fun h => h
    have hE : (0 : Dbl) * (TempToSWVC refLibm (25 + 2) * 100) = fin 0 := by
      simp only [TempToSWVC, refLibm, Ref.exp, ofNat_eq, ofScientific_eq, zero_eq, fin_add,
        fin_sub, fin_mul, zero_mul]
      norm_num [fin_div, fin_mul]
    have hz : (fin 0 + (0 : Dbl) * (20 * 1e2)) / (0 + 0) = nan := by
      simp only [ofNat_eq, ofScientific_eq, zero_eq, fin_mul, fin_add]
      norm_num [fin_div, signedInf]
    have hp : refLibm.pow nan 0.25 = nan := Eq.refl _
    simp only [leafboundarylayer_free, hforced, hE, hz, mul_nan, nan_div, sub_nan, nan_sub,
      div_nan, if_neg h0, hp]
  have hres : leafboundarylayer refLibm 0 0.04 25 2 0 20 = nan := by
    have h1 : ¬ ((nan : Dbl) < 0) := fun h => h
    simp only [leafboundarylayer, hforced, hfree, if_neg h1]
  refine ⟨by simp only [zero_eq, ofScientific_eq, fin_lt]; norm_num, by decide, hforced, hres, ?_⟩
  rw [hres]
  exact fun h => by cases hf : leafboundarylayer_forced refLibm 0 0.04 25 <;> rw [hf] at h <;> exact h

theorem forced_ref_pos : ∃ F : ℚ, 0 < F ∧ leafboundarylayer_forced refLibm 2 0.04 25 = fin F := by
  have hx : ((25 + 273.15 + 120 : Dbl) * (((2 : Dbl) / 0.04) / 101325)) = fin (8363 / 40530) := by
    simp only [ofNat_eq, ofScientific_eq, zero_eq, fin_add]
    norm_num [fin_div, fin_mul]
  have hT : (25 + 273.15 : Dbl) = fin (25 + 273.15) := by
    simp only [ofNat_eq, ofScientific_eq, fin_add]
  refine ⟨1.6361e-3 * Ref.expQ (0.56 * Ref.logQ (25 + 273.15))
    * Ref.expQ (0.5 * Ref.logQ (8363 / 40530)), ?_, ?_⟩
  · have h1 := expQ_pos (0.56 * Ref.logQ (25 + 273.15))
    have h2 := expQ_pos (0.5 * Ref.logQ (8363 / 40530))
    positivity
  · simp only [leafboundarylayer_forced, refLibm]
    rw [hx, hT, ofScientific_eq 56, ofScientific_eq 5, Ref_pow_of_pos _ _ (by norm_num) den_05,
      Ref_pow_of_pos _ _ (by norm_num) den_056, ofScientific_eq, fin_mul, fin_mul]

set_option maxRecDepth 100000 in
theorem free_ref_finite : ∃ q : ℚ, leafboundarylayer_free refLibm 2 0.04 25 2 0 20 = fin q := by
  obtain ⟨F, hF, hforced⟩ := forced_ref_pos
  have hF0 : F ≠ 0 := hF.ne.symm
  have hF1 : 0 + F ≠ 0 := by rw [zero_add]; exact hF0
  simp only [leafboundarylayer_free, hforced]
  simp only [TempToSWVC, refLibm, Ref.exp,
    ofNat_eq, ofScientific_eq, zero_eq, one_eq, fin_add, fin_sub, fin_mul, fin_div_of_ne _ _ hF1,
    zero_mul, zero_add, mul_div_assoc]
  norm_num [Ref.pow, fin_div, fin_mul, fin_sub, fin_add, fin_lt, fin_neg, hF0]

/-- C18 at a concrete input with the reference library functions: a wind
speed of 2 m/s over a leaf of width 0.04 m that is 2 degrees warmer than the
air, with closed stomata. -/
theorem leafboundarylayer_larger_witness :
    leafboundarylayer_forced refLibm 2 0.04 25 ≠ nan
      ∧ leafboundarylayer_free refLibm 2 0.04 25 2 0 20 ≠ nan
      ∧ leafboundarylayer_forced refLibm 2 0.04 25 ≤ leafboundarylayer refLibm 2 0.04 25 2 0 20
      ∧ leafboundarylayer_free refLibm 2 0.04 25 2 0 20
        ≤ leafboundarylayer refLibm 2 0.04 25 2 0 20 := by
  obtain ⟨F, _, hF⟩ := forced_ref_pos
  obtain ⟨q, hq⟩ := free_ref_finite
  have h1 : leafboundarylayer_forced refLibm 2 0.04 25 ≠ nan := by
    rw [hF]
    exact fun h => by cases h
  have h2 : leafboundarylayer_free refLibm 2 0.04 25 2 0 20 ≠ nan := by
    rw [hq]
    exact fun h => by cases h
  have h := leafboundarylayer_larger refLibm 2 0.04 25 2 0 20 h1 h2
  exact ⟨h1, h2, h.2.1, h.2.2.1⟩

/-! ## Single-layer soil water (`watstr`): theorems -/

theorem exists_fin_ite {α : Type} (f : α → Dbl) (c : Prop) [Decidable c] (a b : α)
    (ha : ∃ q : ℚ, f a = fin q) (hb : ∃ q : ℚ, f b = fin q) :
    ∃ q : ℚ, f (if c then a else b) = fin q := by
  by_cases h : c
  · rw [if_pos h]; exact ha
  · rw [if_neg h]; exact hb

theorem soilTchoose_satur_finite (soiltype : ℤ) :
    ∃ q : ℚ, (soilTchoose soiltype).satur = fin q := by
  unfold soilTchoose
  repeat' (first | exact ⟨_, Eq.refl _⟩ | apply exists_fin_ite soilText_str.satur)

/-- C26: for finite `precipit`, `cws` and `soildepth > 0`, the runoff that
`watstr` returns is `max(0, precipit*1e-3 + (cws - saturation)*soildepth)`, and
the water content it carries into the demand step is
`min(cws + precipit*1e-3/soildepth, saturation)`. -/
theorem watstr_runoff (m : Libm) (precipit evapo cws soildepth fieldc wiltp phi1 phi2 : Dbl)
    (soiltype wsFun : ℤ)
    (hp : precipit.Finite) (hc : cws.Finite) (hd : soildepth.Finite) (hpos : 0 < soildepth) :
    (watstr m precipit evapo cws soildepth fieldc wiltp phi1 phi2 soiltype wsFun).runoff
        = specMax 0 (precipit * 1e-3 + (cws - (soilTchoose soiltype).satur) * soildepth)
      ∧ (watstr_locals m precipit evapo cws soildepth fieldc wiltp phi1 phi2 soiltype wsFun).aw
        = specMin (cws + precipit * 1e-3 / soildepth) (soilTchoose soiltype).satur := by
  obtain ⟨p, rfl⟩ := (finite_iff _).mp hp
  obtain ⟨c, rfl⟩ := (finite_iff _).mp hc
  obtain ⟨d, rfl⟩ := (finite_iff _).mp hd
  obtain ⟨t, ht⟩ := soilTchoose_satur_finite soiltype
  have hd0 : 0 < d := (zero_lt_fin d).mp hpos
  have hdn : d ≠ 0 := hd0.ne.symm
  have key : t < (p * 1e-3 + c * d) / d ↔ 0 < p * 1e-3 + (c - t) * d := by
    rw [lt_div_iff₀ hd0]
    constructor <;> intro h <;> nlinarith
  have key2 : t < c + p * 1e-3 / d ↔ 0 < p * 1e-3 + (c - t) * d := by
    rw [← key]
    have : (p * 1e-3 + c * d) / d = c + p * 1e-3 / d := by
      field_simp
      ring
    rw [this]
  simp only [watstr, watstr_locals, specMax, specMin, ht, ofScientific_eq, zero_eq, fin_mul,
    fin_add, fin_sub, fin_div_of_ne _ _ hdn, fin_lt, key, key2]
  by_cases h : 0 < p * 1e-3 + (c - t) * d
  · simp only [if_pos h]
    refine ⟨?_, trivial⟩
    congr 1
    field_simp
    ring
  · simp only [if_neg h]
    refine ⟨by norm_num, ?_⟩
    congr 1
    field_simp
    ring

/-- C26 for 30 mm of rain on a loam of 0.5 m at water content 0.55. -/
theorem watstr_runoff_witness :
    (30 : Dbl).Finite ∧ (0.55 : Dbl).Finite ∧ (0.5 : Dbl).Finite ∧ (0 : Dbl) < 0.5
      ∧ (watstr refLibm 30 1 0.55 0.5 0.27 0.12 0.01 10 3 0).runoff
        = specMax 0 (30 * 1e-3 + (0.55 - (soilTchoose 3).satur) * 0.5)
      ∧ (watstr_locals refLibm 30 1 0.55 0.5 0.27 0.12 0.01 10 3 0).aw
        = specMin (0.55 + 30 * 1e-3 / 0.5) (soilTchoose 3).satur :=
  ⟨trivial, trivial, trivial, by simp only [zero_eq, ofScientific_eq, fin_lt]; norm_num,
    watstr_runoff refLibm 30 1 0.55 0.5 0.27 0.12 0.01 10 3 0 trivial trivial trivial
      (by simp only [zero_eq, ofScientific_eq, fin_lt]; norm_num)⟩

theorem floor_cap_range (X : Dbl) :
    (if 1 < (if X ≤ 0 then (1e-10 : Dbl) else X) then 1 else (if X ≤ 0 then (1e-10 : Dbl) else X))
        = nan
      ∨ ((0 : Dbl) < (if 1 < (if X ≤ 0 then (1e-10 : Dbl) else X) then 1
            else (if X ≤ 0 then (1e-10 : Dbl) else X))
        ∧ (if 1 < (if X ≤ 0 then (1e-10 : Dbl) else X) then 1
            else (if X ≤ 0 then (1e-10 : Dbl) else X)) ≤ 1) := by
  cases X with
  | nan => exact Or.inl (Eq.refl _)
  | pinf => exact Or.inr ⟨by decide, by decide⟩
  | ninf =>
    right
    simp only [zero_eq, one_eq, ofScientific_eq]
    rw [if_pos (show ninf ≤ fin 0 from trivial)]
    simp only [fin_lt, fin_le]
    norm_num
  | fin q =>
    right
    simp only [zero_eq, one_eq, ofScientific_eq, fin_le]
    by_cases h : q ≤ 0
    · simp only [if_pos h, fin_lt, fin_le]
      norm_num
    · simp only [if_neg h, fin_lt]
      by_cases h1 : 1 < q
      · simp only [if_pos h1, fin_lt, fin_le]
        norm_num
      · simp only [if_neg h1, fin_lt, fin_le]
        exact ⟨not_le.mp h, not_lt.mp h1⟩

theorem cap_range (Y : Dbl) (h : Y = nan ∨ 0 ≤ Y) :
    (if 1 < Y then (1 : Dbl) else Y) = nan
      ∨ ((0 : Dbl) ≤ (if 1 < Y then (1 : Dbl) else Y) ∧ (if 1 < Y then (1 : Dbl) else Y) ≤ 1) := by
  rcases h with h | h
  · left
    rw [h]
    exact Eq.refl _
  · right
    cases Y with
    | nan => exact absurd h (not_le_nan _)
    | pinf => exact ⟨by decide, by decide⟩
    | ninf => exact absurd h (by decide)
    | fin q =>
      simp only [zero_eq, one_eq, fin_le, fin_lt] at h ⊢
      by_cases h1 : 1 < q
      · simp only [if_pos h1, fin_le]
        norm_num
      · simp only [if_neg h1, fin_le]
        exact ⟨h, not_lt.mp h1⟩

theorem ratio_nonneg (a b : Dbl) (ha : a = nan ∨ 0 ≤ a) (hb : b = nan ∨ 0 ≤ b) :
    a * 1 / b = nan ∨ 0 ≤ a * 1 / b := by
  rcases ha with ha | ha
  · left; rw [ha]; cases b <;> exact Eq.refl _
  rcases hb with hb | hb
  · left; rw [hb]; cases a <;> exact Eq.refl _
  cases a with
  | nan => exact absurd ha (not_le_nan _)
  | ninf => exact absurd ha (by decide)
  | pinf =>
    cases b with
    | nan => exact absurd hb (not_le_nan _)
    | ninf => exact absurd hb (by decide)
    | pinf => exact Or.inl (Eq.refl _)
    | fin y =>
      right
      have hy : 0 ≤ y := by simpa only [zero_eq, fin_le] using hb
      have e : pinf * 1 / fin y = pinf := by
        show Dbl.div (Dbl.mul pinf (fin ((1 : ℕ) : ℚ))) (fin y) = pinf
        simp only [Dbl.mul, signedInf, Dbl.div]
        norm_num
        intro h
        exact absurd h (not_lt.mpr hy)
      rw [e]
      decide
  | fin x =>
    have hx : 0 ≤ x := by simpa only [zero_eq, fin_le] using ha
    cases b with
    | nan => exact absurd hb (not_le_nan _)
    | ninf => exact absurd hb (by decide)
    | pinf =>
      right
      simp only [zero_eq, one_eq, fin_mul]
      exact (fin_le _ _).mpr le_rfl
    | fin y =>
      have hy : 0 ≤ y := by simpa only [zero_eq, fin_le] using hb
      simp only [zero_eq, one_eq, fin_mul, mul_one, fin_div]
      by_cases hy0 : y = 0
      · simp only [if_pos hy0, signedInf]
        by_cases hx0 : 0 < x
        · right; simp only [if_pos hx0]; trivial
        · left
          simp only [if_neg hx0, if_neg (not_lt.mpr hx)]
      · right
        simp only [if_neg hy0, fin_le]
        exact div_nonneg hx hy

theorem not_lt_zero_of_pos (x : Dbl) (h : 0 < x) : ¬ x < 0 := by
  cases x with
  | fin q =>
    simp only [zero_eq, fin_lt] at h ⊢
    exact not_lt.mpr h.le
  | pinf => exact id
  | ninf => exact absurd h (by decide)
  | nan => exact id

/-- C21: for every input of `watstr` with `0 < fieldc` and a positive returned
water content, over a library whose `pow` is NaN or non-negative on a positive
base: the returned `rcoefPhoto` is NaN or lies in `(0, 1]`, and the returned
`rcoefSpleaf` is NaN or lies in `[0, 1]`. -/
theorem watstr_coefs_range (m : Libm) (precipit evapo cws soildepth fieldc wiltp phi1 phi2 : Dbl)
    (soiltype wsFun : ℤ)
    (hpow : ∀ x y : Dbl, 0 < x → m.pow x y = nan ∨ 0 ≤ m.pow x y)
    (hfc : 0 < fieldc)
    (hawc : 0 < (watstr m precipit evapo cws soildepth fieldc wiltp phi1 phi2 soiltype wsFun).awc) :
    ((watstr m precipit evapo cws soildepth fieldc wiltp phi1 phi2 soiltype wsFun).rcoefPhoto = nan
        ∨ (0 < (watstr m precipit evapo cws soildepth fieldc wiltp phi1 phi2 soiltype wsFun).rcoefPhoto
          ∧ (watstr m precipit evapo cws soildepth fieldc wiltp phi1 phi2 soiltype wsFun).rcoefPhoto
            ≤ 1))
      ∧ ((watstr m precipit evapo cws soildepth fieldc wiltp phi1 phi2 soiltype wsFun).rcoefSpleaf
          = nan
        ∨ (0 ≤ (watstr m precipit evapo cws soildepth fieldc wiltp phi1 phi2 soiltype wsFun).rcoefSpleaf
          ∧ (watstr m precipit evapo cws soildepth fieldc wiltp phi1 phi2 soiltype wsFun).rcoefSpleaf
            ≤ 1)) := by
  constructor
  · exact floor_cap_range _
  · have e : (watstr m precipit evapo cws soildepth fieldc wiltp phi1 phi2 soiltype wsFun).rcoefSpleaf
        = if 1 < (if wsFun = 3 then (1 : Dbl) else
              m.pow (watstr m precipit evapo cws soildepth fieldc wiltp phi1 phi2 soiltype wsFun).awc
                phi2 * 1 / m.pow (if fieldc < 0 then (soilTchoose soiltype).fieldc else fieldc) phi2)
          then 1
          else (if wsFun = 3 then (1 : Dbl) else
              m.pow (watstr m precipit evapo cws soildepth fieldc wiltp phi1 phi2 soiltype wsFun).awc
                phi2 * 1 / m.pow (if fieldc < 0 then (soilTchoose soiltype).fieldc else fieldc) phi2) :=
      Eq.refl _
    rw [e, if_neg (not_lt_zero_of_pos _ hfc)]
    apply cap_range
    by_cases h3 : wsFun = 3
    · rw [if_pos h3]
      exact Or.inr (by decide)
    · rw [if_neg h3]
      exact ratio_nonneg _ _ (hpow _ _ hawc) (hpow _ _ hfc)

theorem soilTchoose_loam : soilTchoose 3
    = ⟨0.40, 0.18, 0.52, -1.1, 4.5, 3.7e-4, 0.57, 0.27, 0.12, 1.43⟩ := Eq.refl _

theorem refLibm_pow_nonneg (x y : Dbl) (h : 0 < x) :
    refLibm.pow x y = nan ∨ 0 ≤ refLibm.pow x y := by
  cases x with
  | nan => exact Or.inl (Eq.refl _)
  | pinf => exact Or.inl (Eq.refl _)
  | ninf => exact Or.inl (Eq.refl _)
  | fin a =>
    have ha : 0 < a := (zero_lt_fin a).mp h
    cases y with
    | nan => exact Or.inl (Eq.refl _)
    | pinf => exact Or.inl (Eq.refl _)
    | ninf => exact Or.inl (Eq.refl _)
    | fin b =>
      right
      show (0 : Dbl) ≤ Ref.pow (fin a) (fin b)
      simp only [Ref.pow]
      by_cases hb : b.den = 1
      · rw [if_pos hb, if_neg (fun h2 => ha.ne.symm h2.1), zero_eq, fin_le]
        exact zpow_nonneg ha.le _
      · rw [if_neg hb, if_neg (not_lt.mpr ha.le), if_neg ha.ne.symm, zero_eq, fin_le]
        exact (expQ_pos _).le

set_option maxRecDepth 100000 in
theorem watstr_dry_loam_awc (phi1 : Dbl) (wsFun : ℤ) :
    (watstr refLibm 0 0 0.25 1 0.375 0.125 phi1 10 3 wsFun).awc = 0.25 := by
  simp only [watstr, watstr_locals, soilTchoose_loam, ofScientific_eq, zero_eq, one_eq, ofNat_eq,
    fin_mul, fin_add, fin_sub, fin_lt, fin_le, fin_neg]
  norm_num [fin_div]

/-- C21 for a loam of 1 m at water content 0.25 with `fieldc = 0.375` and
`wiltp = 0.125`, no rain and no demand, and the linear stress function. -/
theorem watstr_coefs_range_witness :
    (∀ x y : Dbl, 0 < x → refLibm.pow x y = nan ∨ 0 ≤ refLibm.pow x y)
      ∧ (0 : Dbl) < 0.375
      ∧ 0 < (watstr refLibm 0 0 0.25 1 0.375 0.125 0.01 10 3 0).awc
      ∧ (((watstr refLibm 0 0 0.25 1 0.375 0.125 0.01 10 3 0).rcoefPhoto = nan
          ∨ (0 < (watstr refLibm 0 0 0.25 1 0.375 0.125 0.01 10 3 0).rcoefPhoto
            ∧ (watstr refLibm 0 0 0.25 1 0.375 0.125 0.01 10 3 0).rcoefPhoto ≤ 1))
        ∧ ((watstr refLibm 0 0 0.25 1 0.375 0.125 0.01 10 3 0).rcoefSpleaf = nan
          ∨ (0 ≤ (watstr refLibm 0 0 0.25 1 0.375 0.125 0.01 10 3 0).rcoefSpleaf
            ∧ (watstr refLibm 0 0 0.25 1 0.375 0.125 0.01 10 3 0).rcoefSpleaf ≤ 1))) :=
  have h1 : (0 : Dbl) < 0.375 := by
    simp only [zero_eq, ofScientific_eq, fin_lt]; norm_num
  have h2 : 0 < (watstr refLibm 0 0 0.25 1 0.375 0.125 0.01 10 3 0).awc := by
    rw [watstr_dry_loam_awc]
    simp only [zero_eq, ofScientific_eq, fin_lt]; norm_num
  ⟨refLibm_pow_nonneg, h1, h2,
    watstr_coefs_range refLibm 0 0 0.25 1 0.375 0.125 0.01 10 3 0 refLibm_pow_nonneg h1 h2⟩

set_option maxRecDepth 100000 in
/-- C21 (counterexample): `watstr` on a loam of 1 m at water content 0.25 with
`fieldc = 0.375`, `wiltp = 0.125`, no rain, no demand, the logistic stress
function (`wsFun = 1`) and `phi1 = 0`.  The water content stays 0.25, which is
`phi10 = (fieldc + wiltp) / 2`, so `(phi10 - awc) / phi1` is `0 / 0`: the
returned `rcoefPhoto` is NaN and not in `[0, 1]`. -/
theorem watstr_rcoefPhoto_nan :
    (0 : Dbl) < 0.125 ∧ (0.125 : Dbl) < 0.375
      ∧ 0 < (watstr refLibm 0 0 0.25 1 0.375 0.125 0 10 3 1).awc
      ∧ (watstr refLibm 0 0 0.25 1 0.375 0.125 0 10 3 1).awc = 0.25
      ∧ (watstr refLibm 0 0 0.25 1 0.375 0.125 0 10 3 1).rcoefPhoto = nan
      ∧ ¬ (0 ≤ (watstr refLibm 0 0 0.25 1 0.375 0.125 0 10 3 1).rcoefPhoto
        ∧ (watstr refLibm 0 0 0.25 1 0.375 0.125 0 10 3 1).rcoefPhoto ≤ 1) := by
  have e : (watstr refLibm 0 0 0.25 1 0.375 0.125 0 10 3 1).rcoefPhoto = nan := by
    have hn : refLibm.exp nan = nan := Eq.refl _
    simp only [watstr, watstr_locals, soilTchoose_loam, ofScientific_eq, zero_eq, one_eq, ofNat_eq,
      fin_mul, fin_add, fin_sub, fin_lt, fin_le, fin_neg]
    norm_num [fin_div, signedInf, hn]
  refine ⟨?_, ?_, ?_, watstr_dry_loam_awc _ _, e, ?_⟩
  · simp only [zero_eq, ofScientific_eq, fin_lt]; norm_num
  · simp only [ofScientific_eq, fin_lt]; norm_num
  · rw [watstr_dry_loam_awc]
    simp only [zero_eq, ofScientific_eq, fin_lt]; norm_num
  · rw [e]
    exact fun h => not_le_nan _ h.1

theorem Ref_log_of_pos (q : ℚ) (h : 0 < q) : Ref.log (fin q) = fin (Ref.lnQ q) := by
  simp only [Ref.log, if_neg (not_lt.mpr h.le), if_neg h.ne.symm]

theorem cap_of_le (a b : Dbl) (h : a ≤ b) : (if a < b then a else b) = a := by
  cases a with
  | nan => exact absurd h (not_nan_le _)
  | pinf =>
    cases b with
    | pinf => exact if_neg (fun h => h)
    | _ => exact absurd h (fun h => h)
  | ninf =>
    cases b with
    | nan => exact absurd h (fun h => h)
    | ninf => exact if_neg (fun h => h)
    | pinf => exact if_pos trivial
    | fin y => exact if_pos trivial
  | fin x =>
    cases b with
    | nan => exact absurd h (fun h => h)
    | ninf => exact absurd h (fun h => h)
    | pinf => exact if_pos trivial
    | fin y =>
      by_cases hxy : x < y
      · exact if_pos ((fin_lt _ _).mpr hxy)
      · rw [if_neg (fun h2 => hxy ((fin_lt _ _).mp h2))]
        have : x = y := le_antisymm ((fin_le _ _).mp h) (not_lt.mp hxy)
        rw [this]

/-- C25: function `soilML` passes to `rootDist` the rooting depth `rootDB * rsdf`,
replaced by `soildepth` when it is larger; so for `rootDB * rsdf ≥ soildepth`
its layer loop runs with the root fractions `rootDist(layers, soildepth, depths, rfl)`. -/
theorem soilML_rootDepth_cap (m : Libm) (precipit transp : Dbl) (cws : Arr) (soildepth : Dbl)
    (depths : Arr) (fieldc wiltp phi1 phi2 : Dbl) (soTexS : soilText_str) (wsFun layers : ℤ)
    (rootDB LAI k AirTemp IRad winds RelH : Dbl) (hydrDist : ℤ) (rfl rsec rsdf : Dbl)
    (h : soildepth ≤ rootDB * rsdf) :
    soilML_final m precipit transp cws soildepth depths fieldc wiltp phi1 phi2 soTexS wsFun
        layers rootDB LAI k AirTemp IRad winds RelH hydrDist rfl rsec rsdf
      = soilLoop
        (soilStep m transp depths (if fieldc < 0 then soTexS.fieldc else fieldc)
          (if wiltp < 0 then soTexS.wiltp else wiltp) phi1 phi2 soTexS wsFun layers rootDB LAI k
          AirTemp IRad winds RelH hydrDist rsec (precipit * 1e-3)
          (rootDist m layers (specMin (rootDB * rsdf) soildepth) depths rfl))
        layers.toNat (soilInit cws)
      ∧ specMin (rootDB * rsdf) soildepth = soildepth
      ∧ soilML_final m precipit transp cws soildepth depths fieldc wiltp phi1 phi2 soTexS wsFun
        layers rootDB LAI k AirTemp IRad winds RelH hydrDist rfl rsec rsdf
      = soilLoop
        (soilStep m transp depths (if fieldc < 0 then soTexS.fieldc else fieldc)
          (if wiltp < 0 then soTexS.wiltp else wiltp) phi1 phi2 soTexS wsFun layers rootDB LAI k
          AirTemp IRad winds RelH hydrDist rsec (precipit * 1e-3)
          (rootDist m layers soildepth depths rfl))
        layers.toNat (soilInit cws) := by
  have hc : specMin (rootDB * rsdf) soildepth = soildepth := by
    simp only [specMin]
    exact cap_of_le _ _ h
  have h1 : soilML_final m precipit transp cws soildepth depths fieldc wiltp phi1 phi2 soTexS
      wsFun layers rootDB LAI k AirTemp IRad winds RelH hydrDist rfl rsec rsdf
      = soilLoop
        (soilStep m transp depths (if fieldc < 0 then soTexS.fieldc else fieldc)
          (if wiltp < 0 then soTexS.wiltp else wiltp) phi1 phi2 soTexS wsFun layers rootDB LAI k
          AirTemp IRad winds RelH hydrDist rsec (precipit * 1e-3)
          (rootDist m layers (specMin (rootDB * rsdf) soildepth) depths rfl))
        layers.toNat (soilInit cws) := Eq.refl _
  refine ⟨h1, hc, ?_⟩
  rw [h1, hc]

/-- C25 for a root biomass of 20 Mg/ha with `rsdf = 0.44` (8.8 m) over a soil of 1 m. -/
theorem soilML_rootDepth_cap_witness :
    (1 : Dbl) ≤ 20 * 0.44
      ∧ soilML_final refLibm 0 1 (fun _ => 0.2) 1 (fun i => fin (i / 2)) 0.27 0.12 0.01 10
          (soil_parameters SoilType.loam) 0 2 20 3 0.68 20 1000 2 70 0 0.2 0.2 0.44
        = soilLoop
          (soilStep refLibm 1 (fun i => fin (i / 2)) (if (0.27 : Dbl) < 0 then
              (soil_parameters SoilType.loam).fieldc else 0.27)
            (if (0.12 : Dbl) < 0 then (soil_parameters SoilType.loam).wiltp else 0.12) 0.01 10
            (soil_parameters SoilType.loam) 0 2 20 3 0.68 20 1000 2 70 0 0.2 (0 * 1e-3)
            (rootDist refLibm 2 1 (fun i => fin (i / 2)) 0.2))
          (2 : ℤ).toNat (soilInit (fun _ => 0.2)) :=
  ⟨by simp only [one_eq, ofNat_eq, ofScientific_eq, fin_mul, fin_le]; norm_num,
    (soilML_rootDepth_cap refLibm 0 1 (fun _ => 0.2) 1 (fun i => fin (i / 2)) 0.27 0.12 0.01 10
      (soil_parameters SoilType.loam) 0 2 20 3 0.68 20 1000 2 70 0 0.2 0.2 0.44
      (by simp only [one_eq, ofNat_eq, ofScientific_eq, fin_mul, fin_le]; norm_num)).2.2⟩

/-! ## The caller's array `cws` in `soilML` -/

theorem set_same (a : Arr) (i : ℕ) (v : Dbl) : (a.set i v) i = v := by
  show (if i = i then v else a i) = v
  rw [if_pos (Eq.refl i)]

theorem set_other (a : Arr) (i k : ℕ) (v : Dbl) (h : k ≠ i) : (a.set i v) k = a k := by
  show (if k = i then v else a k) = a k
  rw [if_neg h]

theorem clamp_at (c : Arr) (j : ℕ) (t w : Dbl) :
    (if (if t < c j then c.set j t else c) j < w then (if t < c j then c.set j t else c).set j w
        else (if t < c j then c.set j t else c)) j
      = (if (if t < c j then t else c j) < w then w else (if t < c j then t else c j)) := by
  by_cases h1 : t < c j
  · simp only [if_pos h1, set_same]
    by_cases h2 : t < w
    · simp only [if_pos h2, set_same]
    · simp only [if_neg h2, set_same]
  · simp only [if_neg h1]
    by_cases h2 : c j < w
    · simp only [if_pos h2, set_same]
    · simp only [if_neg h2]

theorem clamp_other (c : Arr) (j k : ℕ) (t w : Dbl) (hk : k ≠ j) :
    (if (if t < c j then c.set j t else c) j < w then (if t < c j then c.set j t else c).set j w
        else (if t < c j then c.set j t else c)) k = c k := by
  by_cases h1 : t < c j
  · simp only [if_pos h1, set_same]
    by_cases h2 : t < w
    · simp only [if_pos h2, set_other _ _ _ _ hk]
    · simp only [if_neg h2, set_other _ _ _ _ hk]
  · simp only [if_neg h1]
    by_cases h2 : c j < w
    · simp only [if_pos h2, set_other _ _ _ _ hk]
    · simp only [if_neg h2]

theorem clamp_range (x w t : Dbl) (h : w ≤ t) :
    ((if (if t < x then t else x) < w then w else (if t < x then t else x)) = nan
        ∨ (w ≤ (if (if t < x then t else x) < w then w else (if t < x then t else x))
          ∧ (if (if t < x then t else x) < w then w else (if t < x then t else x)) ≤ t))
      ∧ (x ≠ nan → (w ≤ (if (if t < x then t else x) < w then w else (if t < x then t else x))
          ∧ (if (if t < x then t else x) < w then w else (if t < x then t else x)) ≤ t)) := by
  have hw : w ≤ w := dbl_le_refl _ (fun e => not_nan_le t (e ▸ h))
  have ht : t ≤ t := dbl_le_refl _ (fun e => not_le_nan w (e ▸ h))
  have key : x ≠ nan → (w ≤ (if (if t < x then t else x) < w then w else (if t < x then t else x))
          ∧ (if (if t < x then t else x) < w then w else (if t < x then t else x)) ≤ t) := by
    intro hx
    by_cases h1 : t < x
    · simp only [if_pos h1]
      by_cases h2 : t < w
      · simp only [if_pos h2]
        exact ⟨hw, h⟩
      · simp only [if_neg h2]
        exact ⟨h, ht⟩
    · simp only [if_neg h1]
      by_cases h2 : x < w
      · simp only [if_pos h2]
        exact ⟨hw, h⟩
      · simp only [if_neg h2]
        refine ⟨dbl_le_of_not_lt _ _ hx (fun e => not_nan_le t (e ▸ h)) h2, ?_⟩
        exact dbl_le_of_not_lt _ _ (fun e => not_le_nan w (e ▸ h)) hx h1
  refine ⟨?_, key⟩
  by_cases hx : x = nan
  · left
    rw [hx]
    cases t <;> cases w <;> exact Eq.refl _
  · exact Or.inr (key hx)

theorem soilStep_cws_keep (m : Libm) (transp : Dbl) (depths : Arr) (fieldc wiltp phi1 phi2 : Dbl)
    (soTexS : soilText_str) (wsFun layers : ℤ) (rootDB LAI k AirTemp IRad winds RelH : Dbl)
    (hydrDist : ℤ) (rsec : Dbl) (waterIn : Dbl) (root_distribution : Arr)
    (i : ℕ) (s : SoilState) (j : ℕ) (hj : i < j) :
    (soilStep m transp depths fieldc wiltp phi1 phi2 soTexS wsFun layers rootDB LAI k AirTemp
      IRad winds RelH hydrDist rsec waterIn root_distribution i s).cws j = s.cws j := by
  have h1 : j ≠ i := by omega
  have h2 : j ≠ i - 1 := by omega
  by_cases h : 0 < hydrDist
  · simp only [soilStep, if_pos h]
    split_ifs
    all_goals first
      | exact Eq.refl _
      | simp only [set_other _ _ _ _ h1, set_other _ _ _ _ h2]
  · simp only [soilStep, if_neg h]
    exact clamp_other _ _ _ _ _ h1

theorem soilStep_cws_off (m : Libm) (transp : Dbl) (depths : Arr) (fieldc wiltp phi1 phi2 : Dbl)
    (soTexS : soilText_str) (wsFun layers : ℤ) (rootDB LAI k AirTemp IRad winds RelH : Dbl)
    (hydrDist : ℤ) (rsec : Dbl) (waterIn : Dbl) (root_distribution : Arr)
    (i : ℕ) (s : SoilState) (h : ¬ 0 < hydrDist) :
    (soilStep m transp depths fieldc wiltp phi1 phi2 soTexS wsFun layers rootDB LAI k AirTemp
      IRad winds RelH hydrDist rsec waterIn root_distribution i s).cws
      = (if (if soTexS.satur < s.cws i then s.cws.set i soTexS.satur else s.cws) i < wiltp
          then (if soTexS.satur < s.cws i then s.cws.set i soTexS.satur else s.cws).set i wiltp
          else (if soTexS.satur < s.cws i then s.cws.set i soTexS.satur else s.cws)) := by
  simp only [soilStep, if_neg h]

theorem soilStep_cws_clamped (m : Libm) (transp : Dbl) (depths : Arr) (fieldc wiltp phi1 phi2 : Dbl)
    (soTexS : soilText_str) (wsFun layers : ℤ) (rootDB LAI k AirTemp IRad winds RelH : Dbl)
    (hydrDist : ℤ) (rsec : Dbl) (waterIn : Dbl) (root_distribution : Arr)
    (i : ℕ) (s : SoilState) (hws : wiltp ≤ soTexS.satur) :
    (soilStep m transp depths fieldc wiltp phi1 phi2 soTexS wsFun layers rootDB LAI k AirTemp
        IRad winds RelH hydrDist rsec waterIn root_distribution i s).cws i = nan
      ∨ (wiltp ≤ (soilStep m transp depths fieldc wiltp phi1 phi2 soTexS wsFun layers rootDB LAI k
          AirTemp IRad winds RelH hydrDist rsec waterIn root_distribution i s).cws i
        ∧ (soilStep m transp depths fieldc wiltp phi1 phi2 soTexS wsFun layers rootDB LAI k
          AirTemp IRad winds RelH hydrDist rsec waterIn root_distribution i s).cws i
            ≤ soTexS.satur) := by
  have key : ∀ c : Arr,
      (if (if soTexS.satur < c i then c.set i soTexS.satur else c) i < wiltp
          then (if soTexS.satur < c i then c.set i soTexS.satur else c).set i wiltp
          else (if soTexS.satur < c i then c.set i soTexS.satur else c)) i = nan
      ∨ (wiltp ≤ (if (if soTexS.satur < c i then c.set i soTexS.satur else c) i < wiltp
          then (if soTexS.satur < c i then c.set i soTexS.satur else c).set i wiltp
          else (if soTexS.satur < c i then c.set i soTexS.satur else c)) i
        ∧ (if (if soTexS.satur < c i then c.set i soTexS.satur else c) i < wiltp
          then (if soTexS.satur < c i then c.set i soTexS.satur else c).set i wiltp
          else (if soTexS.satur < c i then c.set i soTexS.satur else c)) i ≤ soTexS.satur) := by
    intro c
    rw [clamp_at]
    exact (clamp_range _ _ _ hws).1
  by_cases h : 0 < hydrDist
  · by_cases hA : 0 < i
    · simp only [soilStep, if_pos h, if_pos hA]
      split
      · exact key _
      · exact key _
    · simp only [soilStep, if_pos h, if_neg hA]
      split
      · exact key _
      · exact key _
  · rw [soilStep_cws_off _ _ _ _ _ _ _ _ _ _ _ _ _ _ _ _ _ _ _ _ _ _ _ h]
    exact key _

theorem soilLoop_cws_ge (step : ℕ → SoilState → SoilState)
    (hkeep : ∀ (j : ℕ) (s : SoilState) (k : ℕ), j < k → (step j s).cws k = s.cws k) :
    ∀ (n : ℕ) (s : SoilState) (k : ℕ), n ≤ k → (soilLoop step n s).cws k = s.cws k := by
  intro n
  induction n with
  | zero => intro s k _; exact Eq.refl _
  | succ n ih =>
    intro s k hk
    show (soilLoop step n (step n s)).cws k = s.cws k
    rw [ih (step n s) k (by omega), hkeep n s k (by omega)]

theorem soilLoop_cws_inv (step : ℕ → SoilState → SoilState) (P : ℕ → Dbl → Prop)
    (hkeep : ∀ (j : ℕ) (s : SoilState) (k : ℕ), j < k → (step j s).cws k = s.cws k)
    (hstep : ∀ (j : ℕ) (s : SoilState), P j ((step j s).cws j)) :
    ∀ (n : ℕ) (s : SoilState) (i : ℕ), i < n → P i ((soilLoop step n s).cws i) := by
  intro n
  induction n with
  | zero => intro s i hi; exact absurd hi (Nat.not_lt_zero i)
  | succ n ih =>
    intro s i hi
    show P i ((soilLoop step n (step n s)).cws i)
    by_cases h : i < n
    · exact ih (step n s) i h
    · have e : i = n := by omega
      rw [e, soilLoop_cws_ge step hkeep n (step n s) n (le_refl n)]
      exact hstep n s

theorem soilLoop_cws_pointwise (step : ℕ → SoilState → SoilState) (f : Dbl → Dbl)
    (hother : ∀ (j : ℕ) (s : SoilState) (k : ℕ), k ≠ j → (step j s).cws k = s.cws k)
    (hstep : ∀ (j : ℕ) (s : SoilState), (step j s).cws j = f (s.cws j)) :
    ∀ (n : ℕ) (s : SoilState) (i : ℕ), i < n → (soilLoop step n s).cws i = f (s.cws i) := by
  intro n
  induction n with
  | zero => intro s i hi; exact absurd hi (Nat.not_lt_zero i)
  | succ n ih =>
    intro s i hi
    show (soilLoop step n (step n s)).cws i = f (s.cws i)
    by_cases h : i < n
    · rw [ih (step n s) i h, hother n s i (by omega)]
    · have e : i = n := by omega
      rw [e, soilLoop_cws_ge step (fun j s k hjk => hother j s k (by omega)) n (step n s) n
        (le_refl n)]
      exact hstep n s

/-- C22: when `soilML` returns, every entry `cws[i]`, `0 ≤ i < layers`, of the
caller's array is NaN or lies between the wilting point in use and the
saturation of the soil (given `wiltp ≤ saturation`), with hydraulic
redistribution on or off; with redistribution off it lies in that range as soon
as the initial `cws[i]` is not NaN.  The array `depths` is an argument that the
layer loop only reads: no state of the loop holds it. -/
theorem soilML_cws_clamped (m : Libm) (precipit transp : Dbl) (cws : Arr) (soildepth : Dbl)
    (depths : Arr) (fieldc wiltp phi1 phi2 : Dbl) (soTexS : soilText_str) (wsFun layers : ℤ)
    (rootDB LAI k AirTemp IRad winds RelH : Dbl) (hydrDist : ℤ) (rfl rsec rsdf : Dbl)
    (hws : (if wiltp < 0 then soTexS.wiltp else wiltp) ≤ soTexS.satur)
    (i : ℕ) (hi : (i : ℤ) < layers) :
    (soilML_cws m precipit transp cws soildepth depths fieldc wiltp phi1 phi2 soTexS wsFun layers
          rootDB LAI k AirTemp IRad winds RelH hydrDist rfl rsec rsdf i = nan
        ∨ ((if wiltp < 0 then soTexS.wiltp else wiltp)
            ≤ soilML_cws m precipit transp cws soildepth depths fieldc wiltp phi1 phi2 soTexS wsFun
              layers rootDB LAI k AirTemp IRad winds RelH hydrDist rfl rsec rsdf i
          ∧ soilML_cws m precipit transp cws soildepth depths fieldc wiltp phi1 phi2 soTexS wsFun
              layers rootDB LAI k AirTemp IRad winds RelH hydrDist rfl rsec rsdf i
            ≤ soTexS.satur))
      ∧ (¬ 0 < hydrDist → cws i ≠ nan →
          ((if wiltp < 0 then soTexS.wiltp else wiltp)
            ≤ soilML_cws m precipit transp cws soildepth depths fieldc wiltp phi1 phi2 soTexS wsFun
              layers rootDB LAI k AirTemp IRad winds RelH hydrDist rfl rsec rsdf i
          ∧ soilML_cws m precipit transp cws soildepth depths fieldc wiltp phi1 phi2 soTexS wsFun
              layers rootDB LAI k AirTemp IRad winds RelH hydrDist rfl rsec rsdf i
            ≤ soTexS.satur)) := by
  have hn : i < layers.toNat := by omega
  constructor
  · exact soilLoop_cws_inv _
      (fun _ v => v = nan ∨ ((if wiltp < 0 then soTexS.wiltp else wiltp) ≤ v ∧ v ≤ soTexS.satur))
      (fun j s k hjk => soilStep_cws_keep _ _ _ _ _ _ _ _ _ _ _ _ _ _ _ _ _ _ _ _ _ j s k hjk)
      (fun j s => soilStep_cws_clamped _ _ _ _ _ _ _ _ _ _ _ _ _ _ _ _ _ _ _ _ _ j s hws)
      layers.toNat (soilInit cws) i hn
  · intro hoff hc
    have e := soilLoop_cws_pointwise
      (soilStep m transp depths (if fieldc < 0 then soTexS.fieldc else fieldc)
        (if wiltp < 0 then soTexS.wiltp else wiltp) phi1 phi2 soTexS wsFun layers rootDB LAI k
        AirTemp IRad winds RelH hydrDist rsec (precipit * 1e-3)
        (rootDist m layers (if soildepth < rootDB * rsdf then soildepth else rootDB * rsdf)
          depths rfl))
      (fun x => if (if soTexS.satur < x then soTexS.satur else x)
            < (if wiltp < 0 then soTexS.wiltp else wiltp)
          then (if wiltp < 0 then soTexS.wiltp else wiltp)
          else (if soTexS.satur < x then soTexS.satur else x))
      (fun j s k hk => by
        rw [soilStep_cws_off _ _ _ _ _ _ _ _ _ _ _ _ _ _ _ _ _ _ _ _ _ _ _ hoff]
        exact clamp_other _ _ _ _ _ hk)
      (fun j s => by
        rw [soilStep_cws_off _ _ _ _ _ _ _ _ _ _ _ _ _ _ _ _ _ _ _ _ _ _ _ hoff]
        exact clamp_at _ _ _ _)
      layers.toNat (soilInit cws) i hn
    have e2 : soilML_cws m precipit transp cws soildepth depths fieldc wiltp phi1 phi2 soTexS wsFun
        layers rootDB LAI k AirTemp IRad winds RelH hydrDist rfl rsec rsdf i
        = (if (if soTexS.satur < cws i then soTexS.satur else cws i)
            < (if wiltp < 0 then soTexS.wiltp else wiltp)
          then (if wiltp < 0 then soTexS.wiltp else wiltp)
          else (if soTexS.satur < cws i then soTexS.satur else cws i)) := e
    rw [e2]
    exact (clamp_range _ _ _ hws).2 hc

/-- C22 for two loam layers of 0.5 m at water content 0.2, without hydraulic
redistribution, at the deeper layer. -/
theorem soilML_cws_clamped_witness :
    (if (0.12 : Dbl) < 0 then (soil_parameters SoilType.loam).wiltp else 0.12)
        ≤ (soil_parameters SoilType.loam).satur
      ∧ ((1 : ℕ) : ℤ) < 2
      ∧ (if (0.12 : Dbl) < 0 then (soil_parameters SoilType.loam).wiltp else 0.12)
        ≤ soilML_cws refLibm 0 1 (fun _ => 0.2) 1 (fun i => fin (i / 2)) 0.27 0.12 0.01 10
            (soil_parameters SoilType.loam) 0 2 20 3 0.68 20 1000 2 70 0 0.2 0.2 0.44 1
      ∧ soilML_cws refLibm 0 1 (fun _ => 0.2) 1 (fun i => fin (i / 2)) 0.27 0.12 0.01 10
            (soil_parameters SoilType.loam) 0 2 20 3 0.68 20 1000 2 70 0 0.2 0.2 0.44 1
        ≤ (soil_parameters SoilType.loam).satur :=
  have hws : (if (0.12 : Dbl) < 0 then (soil_parameters SoilType.loam).wiltp else 0.12)
      ≤ (soil_parameters SoilType.loam).satur := by
    simp only [soil_parameters, ofScientific_eq, zero_eq, fin_lt, fin_le]
    norm_num
  have hi : ((1 : ℕ) : ℤ) < 2 := by decide
  ⟨hws, hi,
    (soilML_cws_clamped refLibm 0 1 (fun _ => 0.2) 1 (fun i => fin (i / 2)) 0.27 0.12 0.01 10
      (soil_parameters SoilType.loam) 0 2 20 3 0.68 20 1000 2 70 0 0.2 0.2 0.44 hws 1 hi).2
      (by decide) (fun h => Dbl.noConfusion h)⟩

set_option maxRecDepth 100000 in
/-- C22 (counterexample): one loam layer of 1 m with hydraulic redistribution on
and the initial content `cws[0] = -0.1`.  The matric potential
`air_entry * pow(cws[0] / theta_s, -b)` is a power of a negative base with the
exponent -4.5, NaN; so is the flux `J_w`, and `cws[0] - J_w / layerDepth` is
NaN, which neither clamp replaces: the entry is not in `[wiltp, saturation]`. -/
theorem soilML_cws_nan :
    (0.12 : Dbl) ≤ (soil_parameters SoilType.loam).satur
      ∧ soilML_cws refLibm 0 1 (fun _ => -0.1) 1 (fun i => ofInt i) 0.27 0.12 0.01 10
          (soil_parameters SoilType.loam) 0 1 20 3 0.68 20 1000 2 70 1 0.2 0.2 0.44 0 = nan
      ∧ ¬ ((0.12 : Dbl) ≤ soilML_cws refLibm 0 1 (fun _ => -0.1) 1 (fun i => ofInt i) 0.27 0.12 0.01
            10 (soil_parameters SoilType.loam) 0 1 20 3 0.68 20 1000 2 70 1 0.2 0.2 0.44 0
          ∧ soilML_cws refLibm 0 1 (fun _ => -0.1) 1 (fun i => ofInt i) 0.27 0.12 0.01 10
              (soil_parameters SoilType.loam) 0 1 20 3 0.68 20 1000 2 70 1 0.2 0.2 0.44 0
            ≤ (soil_parameters SoilType.loam).satur) := by
  have e : soilML_cws refLibm 0 1 (fun _ => -0.1) 1 (fun i => ofInt i) 0.27 0.12 0.01 10
      (soil_parameters SoilType.loam) 0 1 20 3 0.68 20 1000 2 70 1 0.2 0.2 0.44 0 = nan := by
    show (soilStep refLibm 1 (fun i => ofInt i) (if (0.27 : Dbl) < 0 then _ else 0.27)
      (if (0.12 : Dbl) < 0 then _ else 0.12) 0.01 10 (soil_parameters SoilType.loam) 0 1 20 3 0.68
      20 1000 2 70 1 0.2 ((0 : Dbl) * 1e-3) _ 0 (soilInit (fun _ => -0.1))).cws 0 = nan
    have hp : ∀ y : Dbl, refLibm.pow nan y = nan := fun y => Eq.refl _
    have hq : refLibm.pow (fin (-(10 / 57))) (fin (-(9 / 2))) = nan := by
      show Ref.pow (fin (-(10 / 57))) (fin (-(9 / 2))) = nan
      have hd : ((-(9 / 2) : ℚ)).den ≠ 1 := by
        have h : (-(9 / 2) : ℚ) = -9 / 2 := by norm_num
        rw [h]
        norm_num
      simp only [Ref.pow, if_neg hd]
      norm_num
    simp only [soilStep, soilInit, soil_parameters, ofScientific_eq, zero_eq, one_eq, ofNat_eq,
      neg_ofNat_eq, ofInt_eq, fin_mul, fin_add, fin_sub, fin_lt, fin_le, fin_neg]
    norm_num [fin_div, signedInf, hp, hq, set_same]
  refine ⟨by simp only [soil_parameters, ofScientific_eq, fin_le]; norm_num, e, ?_⟩
  rw [e]
  exact fun h => not_le_nan _ h.1

/-! ## Demand carried between the layers of `soilML` -/

theorem soilStep_deeper_agree (m : Libm) (transp : Dbl) (depths : Arr)
    (fieldc wiltp phi1 phi2 : Dbl) (soTexS : soilText_str) (wsFun layers : ℤ)
    (rootDB LAI k AirTemp IRad winds RelH LAI2 k2 AirTemp2 IRad2 winds2 RelH2 : Dbl)
    (hydrDist : ℤ) (rsec rsec2 : Dbl) (waterIn : Dbl) (root_distribution : Arr)
    (j : ℕ) (hj : 1 ≤ j) (hoff : ¬ 0 < hydrDist) (s t : SoilState)
    (hc : ∀ n : ℕ, 1 ≤ n → s.cws n = t.cws n) (hW : s.oldWaterIn = t.oldWaterIn)
    (hE : s.oldEvapoTra = t.oldEvapoTra) (hT : ∀ n : ℕ, 1 ≤ n → s.tmp_cws n = t.tmp_cws n) :
    (∀ n : ℕ, 1 ≤ n →
        (soilStep m transp depths fieldc wiltp phi1 phi2 soTexS wsFun layers rootDB LAI k AirTemp
          IRad winds RelH hydrDist rsec waterIn root_distribution j s).cws n
        = (soilStep m transp depths fieldc wiltp phi1 phi2 soTexS wsFun layers rootDB LAI2 k2
          AirTemp2 IRad2 winds2 RelH2 hydrDist rsec2 waterIn root_distribution j t).cws n)
      ∧ (soilStep m transp depths fieldc wiltp phi1 phi2 soTexS wsFun layers rootDB LAI k AirTemp
          IRad winds RelH hydrDist rsec waterIn root_distribution j s).oldWaterIn
        = (soilStep m transp depths fieldc wiltp phi1 phi2 soTexS wsFun layers rootDB LAI2 k2
          AirTemp2 IRad2 winds2 RelH2 hydrDist rsec2 waterIn root_distribution j t).oldWaterIn
      ∧ (soilStep m transp depths fieldc wiltp phi1 phi2 soTexS wsFun layers rootDB LAI k AirTemp
          IRad winds RelH hydrDist rsec waterIn root_distribution j s).oldEvapoTra
        = (soilStep m transp depths fieldc wiltp phi1 phi2 soTexS wsFun layers rootDB LAI2 k2
          AirTemp2 IRad2 winds2 RelH2 hydrDist rsec2 waterIn root_distribution j t).oldEvapoTra
      ∧ (∀ n : ℕ, 1 ≤ n →
        (soilStep m transp depths fieldc wiltp phi1 phi2 soTexS wsFun layers rootDB LAI k AirTemp
          IRad winds RelH hydrDist rsec waterIn root_distribution j s).tmp_cws n
        = (soilStep m transp depths fieldc wiltp phi1 phi2 soTexS wsFun layers rootDB LAI2 k2
          AirTemp2 IRad2 winds2 RelH2 hydrDist rsec2 waterIn root_distribution j t).tmp_cws n) := by
  have hj0 : j ≠ 0 := by omega
  have hcj := hc j hj
  refine ⟨?_, ?_, ?_, ?_⟩
  · intro n hn
    rw [soilStep_cws_off _ _ _ _ _ _ _ _ _ _ _ _ _ _ _ _ _ _ _ _ _ _ _ hoff,
      soilStep_cws_off _ _ _ _ _ _ _ _ _ _ _ _ _ _ _ _ _ _ _ _ _ _ _ hoff]
    by_cases e : n = j
    · rw [e, clamp_at, clamp_at, hcj]
    · rw [clamp_other _ _ _ _ _ e, clamp_other _ _ _ _ _ e]
      exact hc n hn
  · simp only [soilStep, if_neg hoff, clamp_at]
    rw [hcj, hW]
  · simp only [soilStep, if_neg hoff, if_neg hj0, clamp_at]
    rw [hcj, hW, hE]
  · intro n hn
    simp only [soilStep, if_neg hoff, if_neg hj0, clamp_at]
    rw [hcj, hW, hE]
    by_cases e : n = j
    · rw [e, set_same, set_same]
    · rw [set_other _ _ _ _ e, set_other _ _ _ _ e]
      exact hT n hn

theorem soilStep_top_tmp_cws (m : Libm) (transp : Dbl) (depths : Arr)
    (fieldc wiltp phi1 phi2 : Dbl) (soTexS : soilText_str) (wsFun layers : ℤ)
    (rootDB LAI k AirTemp IRad winds RelH : Dbl)
    (hydrDist : ℤ) (rsec : Dbl) (waterIn : Dbl) (root_distribution : Arr)
    (hoff : ¬ 0 < hydrDist) (s : SoilState) (n : ℕ) (hn : 1 ≤ n) :
    (soilStep m transp depths fieldc wiltp phi1 phi2 soTexS wsFun layers rootDB LAI k AirTemp
      IRad winds RelH hydrDist rsec waterIn root_distribution 0 s).tmp_cws n = s.tmp_cws n := by
  have e : n ≠ 0 := by omega
  simp only [soilStep, if_neg hoff]
  exact set_other _ _ _ _ e

theorem soilLoop_deeper_agree (step step2 : ℕ → SoilState → SoilState)
    (R T : SoilState → SoilState → Prop)
    (hRT : ∀ s t : SoilState, R s t → T s t)
    (hR : ∀ (j : ℕ) (s t : SoilState), 1 ≤ j → R s t → R (step j s) (step2 j t))
    (h0 : ∀ s t : SoilState, R s t → T (step 0 s) (step2 0 t)) :
    ∀ (n : ℕ) (s t : SoilState), R s t → T (soilLoop step n s) (soilLoop step2 n t) := by
  intro n
  induction n with
  | zero => intro s t h; exact hRT s t h
  | succ n ih =>
    intro s t h
    show T (soilLoop step n (step n s)) (soilLoop step2 n (step2 n t))
    cases n with
    | zero => exact h0 s t h
    | succ n => exact ih _ _ (hR (n + 1) s t (by omega) h)

theorem soilML_final_deeper_agree (m : Libm) (precipit transp : Dbl) (cws cws2 : Arr)
    (soildepth : Dbl) (depths : Arr) (fieldc wiltp phi1 phi2 : Dbl) (soTexS : soilText_str)
    (wsFun layers : ℤ) (rootDB LAI k AirTemp IRad winds RelH LAI2 k2 AirTemp2 IRad2 winds2
      RelH2 : Dbl) (hydrDist : ℤ) (rfl rsec rsec2 rsdf : Dbl)
    (hoff : ¬ 0 < hydrDist) (hc : ∀ n : ℕ, 1 ≤ n → cws n = cws2 n) (i : ℕ) (hi : 1 ≤ i) :
    (soilML_final m precipit transp cws soildepth depths fieldc wiltp phi1 phi2 soTexS wsFun
        layers rootDB LAI k AirTemp IRad winds RelH hydrDist rfl rsec rsdf).tmp_cws i
      = (soilML_final m precipit transp cws2 soildepth depths fieldc wiltp phi1 phi2 soTexS wsFun
        layers rootDB LAI2 k2 AirTemp2 IRad2 winds2 RelH2 hydrDist rfl rsec2 rsdf).tmp_cws i := by
  have key := soilLoop_deeper_agree
    (soilStep m transp depths (if fieldc < 0 then soTexS.fieldc else fieldc)
      (if wiltp < 0 then soTexS.wiltp else wiltp) phi1 phi2 soTexS wsFun layers rootDB LAI k
      AirTemp IRad winds RelH hydrDist rsec (precipit * 1e-3)
      (rootDist m layers (if soildepth < rootDB * rsdf then soildepth else rootDB * rsdf)
        depths rfl))
    (soilStep m transp depths (if fieldc < 0 then soTexS.fieldc else fieldc)
      (if wiltp < 0 then soTexS.wiltp else wiltp) phi1 phi2 soTexS wsFun layers rootDB LAI2 k2
      AirTemp2 IRad2 winds2 RelH2 hydrDist rsec2 (precipit * 1e-3)
      (rootDist m layers (if soildepth < rootDB * rsdf then soildepth else rootDB * rsdf)
        depths rfl))
    (fun s t => (∀ n : ℕ, 1 ≤ n → s.cws n = t.cws n) ∧ s.oldWaterIn = t.oldWaterIn
      ∧ s.oldEvapoTra = t.oldEvapoTra ∧ (∀ n : ℕ, 1 ≤ n → s.tmp_cws n = t.tmp_cws n))
    (fun s t => ∀ n : ℕ, 1 ≤ n → s.tmp_cws n = t.tmp_cws n)
    (fun s t h => h.2.2.2)
    (fun j s t hj h => soilStep_deeper_agree m transp depths _ _ phi1 phi2 soTexS wsFun layers
      rootDB LAI k AirTemp IRad winds RelH LAI2 k2 AirTemp2 IRad2 winds2 RelH2 hydrDist rsec rsec2
      _ _ j hj hoff s t h.1 h.2.1 h.2.2.1 h.2.2.2)
    (fun s t h n hn => by
      rw [soilStep_top_tmp_cws _ _ _ _ _ _ _ _ _ _ _ _ _ _ _ _ _ _ _ _ _ hoff s n hn,
        soilStep_top_tmp_cws _ _ _ _ _ _ _ _ _ _ _ _ _ _ _ _ _ _ _ _ _ hoff t n hn]
      exact h.2.2.2 n hn)
    layers.toNat (soilInit cws) (soilInit cws2)
    ⟨hc, Eq.refl _, Eq.refl _, fun _ _ => Eq.refl _⟩
  exact key i hi

/-- C23: without hydraulic redistribution, the water content that `soilML`
returns for a layer below the top one (index `i ≥ 1`) is the same for two calls
that differ only in the content of the top layer and in the arguments of the
soil evaporation (`LAI`, `k`, `AirTemp`, `IRad`, `winds`, `RelH`, `rsec`): the
loop runs from the deepest layer to the top one, which comes last, so no
demand that the top layer leaves unmet reaches a deeper layer. -/
theorem soilML_deeper_layers_ignore_top (m : Libm) (precipit transp : Dbl) (cws cws2 : Arr)
    (soildepth : Dbl) (depths : Arr) (fieldc wiltp phi1 phi2 : Dbl) (soTexS : soilText_str)
    (wsFun layers : ℤ) (rootDB LAI k AirTemp IRad winds RelH LAI2 k2 AirTemp2 IRad2 winds2
      RelH2 : Dbl) (hydrDist : ℤ) (rfl rsec rsec2 rsdf : Dbl)
    (hoff : ¬ 0 < hydrDist) (hc : ∀ n : ℕ, 1 ≤ n → cws n = cws2 n) (i : ℕ) (hi : 1 ≤ i) :
    (soilML m precipit transp cws soildepth depths fieldc wiltp phi1 phi2 soTexS wsFun layers
        rootDB LAI k AirTemp IRad winds RelH hydrDist rfl rsec rsdf).cws i
      = (soilML m precipit transp cws2 soildepth depths fieldc wiltp phi1 phi2 soTexS wsFun layers
        rootDB LAI2 k2 AirTemp2 IRad2 winds2 RelH2 hydrDist rfl rsec2 rsdf).cws i :=
  soilML_final_deeper_agree m precipit transp cws cws2 soildepth depths fieldc wiltp phi1 phi2
    soTexS wsFun layers rootDB LAI k AirTemp IRad winds RelH LAI2 k2 AirTemp2 IRad2 winds2 RelH2
    hydrDist rfl rsec rsec2 rsdf hoff hc i hi

/-- C23 for two loam layers of 0.5 m, the deeper one at water content 0.2: with
the top layer at the wilting point 0.12, where it meets no demand, and with the
top layer at 0.5, the returned content of the deeper layer is the same. -/
theorem soilML_deeper_layers_ignore_top_witness :
    ¬ (0 : ℤ) < 0
      ∧ (∀ n : ℕ, 1 ≤ n →
        (fun i : ℕ => if i = 0 then (0.12 : Dbl) else 0.2) n
          = (fun i : ℕ => if i = 0 then (0.5 : Dbl) else 0.2) n)
      ∧ 1 ≤ 1
      ∧ (soilML refLibm 0 1 (fun i : ℕ => if i = 0 then (0.12 : Dbl) else 0.2) 1
          (fun i => fin (i / 2)) 0.27 0.12 0.01 10 (soil_parameters SoilType.loam) 0 2 20 3 0.68
          20 1000 2 70 0 0.2 0.2 0.44).cws 1
        = (soilML refLibm 0 1 (fun i : ℕ => if i = 0 then (0.5 : Dbl) else 0.2) 1
          (fun i => fin (i / 2)) 0.27 0.12 0.01 10 (soil_parameters SoilType.loam) 0 2 20 3 0.68
          20 1000 2 70 0 0.2 0.2 0.44).cws 1 :=
  have hc : ∀ n : ℕ, 1 ≤ n →
      (fun i : ℕ => if i = 0 then (0.12 : Dbl) else 0.2) n
        = (fun i : ℕ => if i = 0 then (0.5 : Dbl) else 0.2) n := by
    intro n hn
    have e : n ≠ 0 := by omega
    show (if n = 0 then (0.12 : Dbl) else 0.2) = (if n = 0 then (0.5 : Dbl) else 0.2)
    rw [if_neg e, if_neg e]
  ⟨by decide, hc, le_refl 1,
    soilML_deeper_layers_ignore_top refLibm 0 1 _ _ 1 (fun i => fin (i / 2)) 0.27 0.12 0.01 10
      (soil_parameters SoilType.loam) 0 2 20 3 0.68 20 1000 2 70 3 0.68 20 1000 2 70 0 0.2 0.2 0.2
      0.44 (by decide) hc 1 (le_refl 1)⟩

set_option maxRecDepth 100000 in
set_option maxHeartbeats 4000000 in
theorem rootDist_two_layers :
    rootDist refLibm 2 1 (fun i => fin (i / 2)) 0.2 0 = fin (5 / 6) := by
  simp only [rootDist, rootDistCum, rootDistCa, rootDistRaw, refLibm, Ref.dpois, ofInt_eq,
    ofScientific_eq, ofNat_eq, zero_eq, one_eq, fin_add, fin_sub, fin_mul, fin_lt]
  have h2 : Int.toNat 2 = 2 := Eq.refl _
  norm_num [Ref.expQ, Ref.taylor4, fin_div, fin_add, fin_lt, fin_mul, h2, Nat.factorial]

set_option maxRecDepth 100000 in
set_option maxHeartbeats 4000000 in
theorem SoilEvapo_ref_dry :
    SoilEvapo refLibm 3 0.68 20 1000 0.12 0.27 0.12 2 70 0.2 = fin 0 := by
  simp only [SoilEvapo, TempToDdryA, TempToLHV, TempToSFS, TempToSWVC,
    refLibm, Ref.exp, Ref.pow, Ref.sqrt,
    ofNat_eq, ofScientific_eq, zero_eq, one_eq, fin_add, fin_mul, fin_sub, fin_lt, fin_le, fin_neg]
  norm_num [Ref.sqrtQ, Ref.expQ, Ref.taylor4, fin_div, signedInf, fin_add, fin_mul, fin_sub,
    fin_lt, fin_le, fin_neg]

theorem soilStep_top_awc (m : Libm) (transp : Dbl) (depths : Arr)
    (fieldc wiltp phi1 phi2 : Dbl) (soTexS : soilText_str) (wsFun layers : ℤ)
    (rootDB LAI k AirTemp IRad winds RelH : Dbl)
    (hydrDist : ℤ) (rsec : Dbl) (waterIn : Dbl) (root_distribution : Arr)
    (hoff : ¬ 0 < hydrDist) (hdry : ¬ 0 < waterIn) (s : SoilState) :
    (soilStep m transp depths fieldc wiltp phi1 phi2 soTexS wsFun layers rootDB LAI k AirTemp
      IRad winds RelH hydrDist rsec waterIn root_distribution 0 s).tmp_cws 0
      = ((if ((if (if soTexS.satur < s.cws 0 then soTexS.satur else s.cws 0) < wiltp then wiltp
                else (if soTexS.satur < s.cws 0 then soTexS.satur else s.cws 0))
              * (depths (0 + 1) - depths 0) - wiltp * (depths (0 + 1) - depths 0)) * 1e4 < 0
          then 0
          else ((if (if soTexS.satur < s.cws 0 then soTexS.satur else s.cws 0) < wiltp then wiltp
                else (if soTexS.satur < s.cws 0 then soTexS.satur else s.cws 0))
              * (depths (0 + 1) - depths 0) - wiltp * (depths (0 + 1) - depths 0)) * 1e4)
          - (transp * root_distribution 0
            + SoilEvapo m LAI k AirTemp IRad
              ((if (if soTexS.satur < s.cws 0 then soTexS.satur else s.cws 0) < wiltp then wiltp
                else (if soTexS.satur < s.cws 0 then soTexS.satur else s.cws 0))
                * (depths (0 + 1) - depths 0) / (depths (0 + 1) - depths 0))
              fieldc wiltp winds RelH rsec) / 0.9982) / 1e4 / (depths (0 + 1) - depths 0)
        + wiltp := by
  simp only [soilStep, if_neg hoff, if_neg hdry, clamp_at, set_same, if_true]

theorem soilML_final_two_layers (m : Libm) (precipit transp : Dbl) (cws : Arr) (soildepth : Dbl)
    (depths : Arr) (fieldc wiltp phi1 phi2 : Dbl) (soTexS : soilText_str) (wsFun : ℤ)
    (rootDB LAI k AirTemp IRad winds RelH : Dbl) (hydrDist : ℤ) (rfl rsec rsdf : Dbl) :
    soilML_final m precipit transp cws soildepth depths fieldc wiltp phi1 phi2 soTexS wsFun 2
        rootDB LAI k AirTemp IRad winds RelH hydrDist rfl rsec rsdf
      = soilStep m transp depths (if fieldc < 0 then soTexS.fieldc else fieldc)
          (if wiltp < 0 then soTexS.wiltp else wiltp) phi1 phi2 soTexS wsFun 2 rootDB LAI k
          AirTemp IRad winds RelH hydrDist rsec (precipit * 1e-3)
          (rootDist m 2 (if soildepth < rootDB * rsdf then soildepth else rootDB * rsdf)
            depths rfl) 0
          (soilStep m transp depths (if fieldc < 0 then soTexS.fieldc else fieldc)
            (if wiltp < 0 then soTexS.wiltp else wiltp) phi1 phi2 soTexS wsFun 2 rootDB LAI k
            AirTemp IRad winds RelH hydrDist rsec (precipit * 1e-3)
            (rootDist m 2 (if soildepth < rootDB * rsdf then soildepth else rootDB * rsdf)
              depths rfl) 1 (soilInit cws)) := by
  have h2 : (2 : ℤ).toNat = 2 := Eq.refl _
  simp only [soilML_final, h2, soilLoop]

theorem soilML_two_layers_top (m : Libm) (precipit transp : Dbl) (cws : Arr) (soildepth : Dbl)
    (depths : Arr) (fieldc wiltp phi1 phi2 : Dbl) (soTexS : soilText_str) (wsFun : ℤ)
    (rootDB LAI k AirTemp IRad winds RelH : Dbl) (hydrDist : ℤ) (rfl rsec rsdf : Dbl)
    (hoff : ¬ 0 < hydrDist) (hdry : ¬ 0 < precipit * 1e-3) (C L W F R : Dbl)
    (hW : (if wiltp < 0 then soTexS.wiltp else wiltp) = W)
    (hF : (if fieldc < 0 then soTexS.fieldc else fieldc) = F)
    (hC : (if (if soTexS.satur < cws 0 then soTexS.satur else cws 0) < W then W
      else (if soTexS.satur < cws 0 then soTexS.satur else cws 0)) = C)
    (hL : depths (0 + 1) - depths 0 = L)
    (hR : rootDist m 2 (if soildepth < rootDB * rsdf then soildepth else rootDB * rsdf)
      depths rfl 0 = R) :
    (soilML m precipit transp cws soildepth depths fieldc wiltp phi1 phi2 soTexS wsFun 2
        rootDB LAI k AirTemp IRad winds RelH hydrDist rfl rsec rsdf).cws 0
      = ((if (C * L - W * L) * 1e4 < 0 then 0 else (C * L - W * L) * 1e4)
          - (transp * R + SoilEvapo m LAI k AirTemp IRad (C * L / L) F W winds RelH rsec)
            / 0.9982) / 1e4 / L + W := by
  have e : (soilML m precipit transp cws soildepth depths fieldc wiltp phi1 phi2 soTexS wsFun 2
        rootDB LAI k AirTemp IRad winds RelH hydrDist rfl rsec rsdf).cws 0
      = (soilML_final m precipit transp cws soildepth depths fieldc wiltp phi1 phi2 soTexS wsFun 2
        rootDB LAI k AirTemp IRad winds RelH hydrDist rfl rsec rsdf).tmp_cws 0 := Eq.refl _
  have inner : (soilStep m transp depths (if fieldc < 0 then soTexS.fieldc else fieldc)
      (if wiltp < 0 then soTexS.wiltp else wiltp) phi1 phi2 soTexS wsFun 2 rootDB LAI k
      AirTemp IRad winds RelH hydrDist rsec (precipit * 1e-3)
      (rootDist m 2 (if soildepth < rootDB * rsdf then soildepth else rootDB * rsdf)
        depths rfl) 1 (soilInit cws)).cws 0 = cws 0 := by
    rw [soilStep_cws_off _ _ _ _ _ _ _ _ _ _ _ _ _ _ _ _ _ _ _ _ _ _ _ hoff,
      clamp_other _ _ _ _ _ (show (0 : ℕ) ≠ 1 by decide)]
    exact Eq.refl _
  rw [e, soilML_final_two_layers,
    soilStep_top_awc _ _ _ _ _ _ _ _ _ _ _ _ _ _ _ _ _ _ _ _ _ hoff hdry, inner, hW, hF, hC, hL,
    hR]

theorem dbl_lt_irrefl (x : Dbl) : ¬ x < x := by
  cases x with
  | fin q => exact lt_irrefl q
  | pinf => exact id
  | ninf => exact id
  | nan => exact id

set_option maxRecDepth 100000 in
theorem two_loam_layers_top (c0 : ℚ) (hc : 0.12 ≤ c0) (hc2 : c0 ≤ 0.57) :
    (soilML refLibm 0 1 (fun i : ℕ => if i = 0 then fin c0 else 0.2) 1
        (fun i => fin (i / 2)) 0.27 0.12 0.01 10 (soil_parameters SoilType.loam) 0 2 20 3 0.68
        20 1000 2 70 0 0.2 0.2 0.44).cws 0
      = (fin ((c0 * (1 / 2) - 0.12 * (1 / 2)) * 1e4)
          - (1 * fin (5 / 6) + SoilEvapo refLibm 3 0.68 20 1000 (fin c0) 0.27 0.12 2 70 0.2)
            / 0.9982) / 1e4 / fin (1 / 2) + 0.12 := by
  have hoff : ¬ (0 : ℤ) < 0 := by decide
  have hdry : ¬ (0 : Dbl) < (0 : Dbl) * 1e-3 := by
    simp only [zero_eq, ofScientific_eq, fin_mul, fin_lt]; norm_num
  have hR : rootDist refLibm 2 (if (1 : Dbl) < 20 * 0.44 then (1 : Dbl) else 20 * 0.44)
      (fun i => fin (i / 2)) 0.2 0 = fin (5 / 6) := by
    have hroot : (if (1 : Dbl) < 20 * 0.44 then (1 : Dbl) else 20 * 0.44) = 1 := by
      simp only [one_eq, ofNat_eq, ofScientific_eq, fin_mul, fin_lt]; norm_num
    rw [hroot]
    exact rootDist_two_layers
  have hW : (if (0.12 : Dbl) < 0 then (soil_parameters SoilType.loam).wiltp else 0.12)
      = fin 0.12 := by
    simp only [ofScientific_eq, zero_eq, fin_lt]; norm_num
  have hF : (if (0.27 : Dbl) < 0 then (soil_parameters SoilType.loam).fieldc else 0.27)
      = fin 0.27 := by
    simp only [ofScientific_eq, zero_eq, fin_lt]; norm_num
  have hC : (if (if (soil_parameters SoilType.loam).satur
        < (fun i : ℕ => if i = 0 then fin c0 else (0.2 : Dbl)) 0
        then (soil_parameters SoilType.loam).satur
        else (fun i : ℕ => if i = 0 then fin c0 else (0.2 : Dbl)) 0) < fin 0.12 then fin 0.12
      else (if (soil_parameters SoilType.loam).satur
        < (fun i : ℕ => if i = 0 then fin c0 else (0.2 : Dbl)) 0
        then (soil_parameters SoilType.loam).satur
        else (fun i : ℕ => if i = 0 then fin c0 else (0.2 : Dbl)) 0)) = fin c0 := by
    have h1 : ¬ (0.57 : ℚ) < c0 := not_lt.mpr hc2
    have h2 : ¬ c0 < (0.12 : ℚ) := not_lt.mpr hc
    simp only [soil_parameters, ofScientific_eq, if_true, fin_lt, if_neg h1, if_neg h2]
  have hL : (fun i : ℕ => fin ((i : ℚ) / 2)) (0 + 1) - (fun i : ℕ => fin ((i : ℚ) / 2)) 0
      = fin (1 / 2) := by
    simp only [fin_sub]
    norm_num
  have key := soilML_two_layers_top refLibm 0 1 (fun i : ℕ => if i = 0 then fin c0 else 0.2) 1
    (fun i => fin (i / 2)) 0.27 0.12 0.01 10 (soil_parameters SoilType.loam) 0 20 3 0.68
    20 1000 2 70 0 0.2 0.2 0.44 hoff hdry (fin c0) (fin (1 / 2)) (fin 0.12) (fin 0.27)
    (fin (5 / 6)) hW hF hC hL hR
  rw [key]
  have e1 : fin c0 * fin (1 / 2) / fin (1 / 2) = fin c0 := by
    rw [fin_mul, fin_div_of_ne _ _ (by norm_num)]
    congr 1
    field_simp
  have e2 : (if (fin c0 * fin (1 / 2) - fin 0.12 * fin (1 / 2)) * 1e4 < 0 then (0 : Dbl)
      else (fin c0 * fin (1 / 2) - fin 0.12 * fin (1 / 2)) * 1e4)
      = fin ((c0 * (1 / 2) - 0.12 * (1 / 2)) * 1e4) := by
    simp only [ofScientific_eq, zero_eq, fin_mul, fin_sub, fin_lt]
    rw [if_neg]
    have : 0 ≤ (c0 * (1 / 2) - 0.12 * (1 / 2)) * 1e4 := by
      have : (c0 * (1 / 2) - 0.12 * (1 / 2)) * 1e4 = (c0 - 0.12) * 5000 := by
        norm_num
        ring
      rw [this]
      exact mul_nonneg (sub_nonneg.mpr hc) (by norm_num)
    exact not_lt.mpr this
  rw [e1, e2]
  exact Eq.refl _

set_option maxRecDepth 100000 in
/-- C23 (counterexample): two loam layers of 0.5 m, the deeper one at water
content 0.2, no rain, a transpiration of 1 Mg/ha, no hydraulic redistribution.
With the top layer at the wilting point 0.12 it holds no available water and
cannot meet its demand (its returned content is below 0.12); with the top layer
at 0.5 it meets its demand (its returned content is at least 0.12).  The
returned content of the deeper layer is the same in both calls, not lower in
the first. -/
theorem soilML_top_demand_not_carried :
    (soilML refLibm 0 1 (fun i : ℕ => if i = 0 then fin 0.12 else 0.2) 1
        (fun i => fin (i / 2)) 0.27 0.12 0.01 10 (soil_parameters SoilType.loam) 0 2 20 3 0.68
        20 1000 2 70 0 0.2 0.2 0.44).cws 0 < 0.12
      ∧ (0.12 : Dbl) ≤ (soilML refLibm 0 1 (fun i : ℕ => if i = 0 then fin 0.5 else 0.2) 1
        (fun i => fin (i / 2)) 0.27 0.12 0.01 10 (soil_parameters SoilType.loam) 0 2 20 3 0.68
        20 1000 2 70 0 0.2 0.2 0.44).cws 0
      ∧ (soilML refLibm 0 1 (fun i : ℕ => if i = 0 then fin 0.12 else 0.2) 1
          (fun i => fin (i / 2)) 0.27 0.12 0.01 10 (soil_parameters SoilType.loam) 0 2 20 3 0.68
          20 1000 2 70 0 0.2 0.2 0.44).cws 1
        = (soilML refLibm 0 1 (fun i : ℕ => if i = 0 then fin 0.5 else 0.2) 1
          (fun i => fin (i / 2)) 0.27 0.12 0.01 10 (soil_parameters SoilType.loam) 0 2 20 3 0.68
          20 1000 2 70 0 0.2 0.2 0.44).cws 1
      ∧ ¬ ((soilML refLibm 0 1 (fun i : ℕ => if i = 0 then fin 0.12 else 0.2) 1
          (fun i => fin (i / 2)) 0.27 0.12 0.01 10 (soil_parameters SoilType.loam) 0 2 20 3 0.68
          20 1000 2 70 0 0.2 0.2 0.44).cws 1
        < (soilML refLibm 0 1 (fun i : ℕ => if i = 0 then fin 0.5 else 0.2) 1
          (fun i => fin (i / 2)) 0.27 0.12 0.01 10 (soil_parameters SoilType.loam) 0 2 20 3 0.68
          20 1000 2 70 0 0.2 0.2 0.44).cws 1) := by
  have hE1 : SoilEvapo refLibm 3 0.68 20 1000 (fin 0.12) 0.27 0.12 2 70 0.2 = fin 0 :=
    SoilEvapo_ref_dry
  obtain ⟨e, hE2, he0, he1⟩ := SoilEvapo_ref_wet
  have hE2b : SoilEvapo refLibm 3 0.68 20 1000 (fin 0.5) 0.27 0.12 2 70 0.2 = fin e := hE2
  have hsame : (soilML refLibm 0 1 (fun i : ℕ => if i = 0 then fin 0.12 else 0.2) 1
      (fun i => fin (i / 2)) 0.27 0.12 0.01 10 (soil_parameters SoilType.loam) 0 2 20 3 0.68
      20 1000 2 70 0 0.2 0.2 0.44).cws 1
      = (soilML refLibm 0 1 (fun i : ℕ => if i = 0 then fin 0.5 else 0.2) 1
      (fun i => fin (i / 2)) 0.27 0.12 0.01 10 (soil_parameters SoilType.loam) 0 2 20 3 0.68
      20 1000 2 70 0 0.2 0.2 0.44).cws 1 := soilML_final_deeper_agree refLibm 0 1
    (fun i : ℕ => if i = 0 then fin 0.12 else 0.2) (fun i : ℕ => if i = 0 then fin 0.5 else 0.2)
    1 (fun i => fin (i / 2)) 0.27 0.12 0.01 10 (soil_parameters SoilType.loam) 0 2 20 3 0.68 20
    1000 2 70 3 0.68 20 1000 2 70 0 0.2 0.2 0.2 0.44 (by decide)
    (fun n hn => by
      have h : n ≠ 0 := by omega
      show (if n = 0 then fin 0.12 else (0.2 : Dbl)) = (if n = 0 then fin 0.5 else (0.2 : Dbl))
      rw [if_neg h, if_neg h])
    1 (le_refl 1)
  refine ⟨?_, ?_, hsame, ?_⟩
  · rw [two_loam_layers_top 0.12 (le_refl _) (by norm_num), hE1]
    simp only [ofScientific_eq, one_eq, fin_mul, fin_add, fin_sub]
    norm_num [fin_div]
  · rw [two_loam_layers_top 0.5 (by norm_num) (by norm_num), hE2b]
    simp only [ofScientific_eq, one_eq, fin_mul, fin_add, fin_sub]
    norm_num [fin_div]
    clear hE2 hE2b hE1 hsame
    have h1 : (5 / 6 + e) / (4991 / 5000) ≤ 1900 := by
      rw [div_le_iff₀ (by norm_num)]
      linarith
    have h2 : 0 ≤ 1900 - (5 / 6 + e) / (4991 / 5000) := sub_nonneg.mpr h1
    positivity
  · rw [hsame]
    exact dbl_lt_irrefl _

/-! ## Drainage of `soilML` -/

theorem soilStep_drainage_off (m : Libm) (transp : Dbl) (depths : Arr)
    (fieldc wiltp phi1 phi2 : Dbl) (soTexS : soilText_str) (wsFun layers : ℤ)
    (rootDB LAI k AirTemp IRad winds RelH : Dbl)
    (hydrDist : ℤ) (rsec : Dbl) (waterIn : Dbl) (root_distribution : Arr)
    (hoff : ¬ 0 < hydrDist) (i : ℕ) (s : SoilState) :
    (soilStep m transp depths fieldc wiltp phi1 phi2 soTexS wsFun layers rootDB LAI k AirTemp
      IRad winds RelH hydrDist rsec waterIn root_distribution i s).drainage = s.drainage := by
  simp only [soilStep, if_neg hoff]

theorem soilLoop_drainage (step : ℕ → SoilState → SoilState)
    (h : ∀ (j : ℕ) (s : SoilState), (step j s).drainage = s.drainage) :
    ∀ (n : ℕ) (s : SoilState), (soilLoop step n s).drainage = s.drainage := by
  intro n
  induction n with
  | zero => intro s; exact Eq.refl _
  | succ n ih =>
    intro s
    show (soilLoop step n (step n s)).drainage = s.drainage
    rw [ih, h]

/-- C24: with hydraulic redistribution off, the drainage that `soilML` reports
is the whole precipitation `precipit * 1e-3` whenever that is positive,
whatever the layers can hold, and 0 otherwise: the statement
`drainage = waterIn` after the layer loop does not read the leftover
`oldWaterIn` of the loop. -/
theorem soilML_drainage_whole_precipitation (m : Libm) (precipit transp : Dbl) (cws : Arr)
    (soildepth : Dbl) (depths : Arr) (fieldc wiltp phi1 phi2 : Dbl) (soTexS : soilText_str)
    (wsFun layers : ℤ) (rootDB LAI k AirTemp IRad winds RelH : Dbl) (hydrDist : ℤ)
    (rfl rsec rsdf : Dbl) (hoff : ¬ 0 < hydrDist) :
    (soilML m precipit transp cws soildepth depths fieldc wiltp phi1 phi2 soTexS wsFun layers
      rootDB LAI k AirTemp IRad winds RelH hydrDist rfl rsec rsdf).drainage
      = if 0 < precipit * 1e-3 then precipit * 1e-3 else 0.0 := by
  have e : (soilML_final m precipit transp cws soildepth depths fieldc wiltp phi1 phi2 soTexS
      wsFun layers rootDB LAI k AirTemp IRad winds RelH hydrDist rfl rsec rsdf).drainage = 0.0 :=
    soilLoop_drainage _
      (fun j s => soilStep_drainage_off _ _ _ _ _ _ _ _ _ _ _ _ _ _ _ _ _ _ _ _ _ hoff j s)
      layers.toNat (soilInit cws)
  simp only [soilML, e]

/-- C24 for 1 mm of rain on one loam layer of 1 m at water content 0.15,
without hydraulic redistribution. -/
theorem soilML_drainage_whole_precipitation_witness :
    ¬ (0 : ℤ) < 0
      ∧ (soilML refLibm 1 1 (fun _ => 0.15) 1 (fun i => ofInt i) 0.27 0.12 0.01 10
          (soil_parameters SoilType.loam) 0 1 1 3 0.68 20 1000 2 70 0 0.2 0.2 0.44).drainage
        = if (0 : Dbl) < 1 * 1e-3 then 1 * 1e-3 else 0.0 :=
  ⟨by decide,
    soilML_drainage_whole_precipitation refLibm 1 1 (fun _ => 0.15) 1 (fun i => ofInt i) 0.27 0.12
      0.01 10 (soil_parameters SoilType.loam) 0 1 1 3 0.68 20 1000 2 70 0 0.2 0.2 0.44
      (by decide)⟩

set_option maxRecDepth 100000 in
theorem soilML_dry_loam_leftover :
    (soilML_final refLibm 1 1 (fun _ => 0.15) 1 (fun i => ofInt i) 0.27 0.12 0.01 10
      (soil_parameters SoilType.loam) 0 1 1 3 0.68 20 1000 2 70 0 0.2 0.2 0.44).oldWaterIn = 0 := by
  show (soilStep refLibm 1 (fun i => ofInt i) (if (0.27 : Dbl) < 0 then _ else 0.27)
    (if (0.12 : Dbl) < 0 then _ else 0.12) 0.01 10 (soil_parameters SoilType.loam) 0 1 1 3 0.68
    20 1000 2 70 0 0.2 ((1 : Dbl) * 1e-3) _ 0 (soilInit (fun _ => 0.15))).oldWaterIn = 0
  simp only [soilStep, soilInit, soil_parameters, ofScientific_eq, zero_eq, one_eq, ofNat_eq,
    neg_ofNat_eq, ofInt_eq, fin_mul, fin_add, fin_sub, fin_lt, fin_le, fin_neg]
  norm_num [fin_div, signedInf, set_same]

/-- C24 (counterexample): 1 mm of rain on one loam layer of 1 m at water
content 0.15 (field capacity 0.27), without hydraulic redistribution.  The
layer holds the whole rain (`0.15 + 0.001 < 0.27`), the leftover `oldWaterIn`
of the loop is 0, and the reported drainage is 0.001 m, not 0. -/
theorem soilML_drainage_not_leftover :
    (soilML_final refLibm 1 1 (fun _ => 0.15) 1 (fun i => ofInt i) 0.27 0.12 0.01 10
        (soil_parameters SoilType.loam) 0 1 1 3 0.68 20 1000 2 70 0 0.2 0.2 0.44).oldWaterIn = 0
      ∧ (soilML refLibm 1 1 (fun _ => 0.15) 1 (fun i => ofInt i) 0.27 0.12 0.01 10
          (soil_parameters SoilType.loam) 0 1 1 3 0.68 20 1000 2 70 0 0.2 0.2 0.44).drainage
        = fin (1 / 1000)
      ∧ (soilML refLibm 1 1 (fun _ => 0.15) 1 (fun i => ofInt i) 0.27 0.12 0.01 10
          (soil_parameters SoilType.loam) 0 1 1 3 0.68 20 1000 2 70 0 0.2 0.2 0.44).drainage
        ≠ 0 := by
  have h : (0 : Dbl) < 1 * 1e-3 := by
    simp only [zero_eq, one_eq, ofScientific_eq, fin_mul, fin_lt]; norm_num
  have e : (soilML refLibm 1 1 (fun _ => 0.15) 1 (fun i => ofInt i) 0.27 0.12 0.01 10
      (soil_parameters SoilType.loam) 0 1 1 3 0.68 20 1000 2 70 0 0.2 0.2 0.44).drainage
      = fin (1 / 1000) := by
    simp only [soilML, if_pos h]
    simp only [one_eq, ofScientific_eq, fin_mul]
    norm_num
  refine ⟨soilML_dry_loam_leftover, e, ?_⟩
  rw [e, zero_eq]
  intro h2
  have h3 : (1 / 1000 : ℚ) = 0 := Dbl.fin.inj h2
  norm_num at h3

/-! ## Solar position: the summer solstice at noon -/

theorem zenith_bounds (sd cd sp cp : ℚ)
    (hsd : 0.398 ≤ sd ∧ sd ≤ 0.399) (hcd : 0.916 ≤ cd ∧ cd ≤ 0.918)
    (hsp : 0.642 ≤ sp ∧ sp ≤ 0.643) (hcp : 0.766 ≤ cp ∧ cp ≤ 0.767) :
    0.957 ≤ sd * sp + cd * cp * 1 ∧ sd * sp + cd * cp * 1 ≤ 0.961 := by
  obtain ⟨a1, a2⟩ := hsd
  obtain ⟨b1, b2⟩ := hcd
  obtain ⟨c1, c2⟩ := hsp
  obtain ⟨d1, d2⟩ := hcp
  have h1 : 0.398 * 0.642 ≤ sd * sp := mul_le_mul a1 c1 (by norm_num) (by linarith)
  have h2 : sd * sp ≤ 0.399 * 0.643 := mul_le_mul a2 c2 (by linarith) (by norm_num)
  have h3 : 0.916 * 0.766 ≤ cd * cp := mul_le_mul b1 d1 (by norm_num) (by linarith)
  have h4 : cd * cp ≤ 0.918 * 0.767 := mul_le_mul b2 d2 (by linarith) (by norm_num)
  constructor
  · norm_num at h1 h3 ⊢
    linarith
  · norm_num at h2 h4 ⊢
    linarith

theorem noon_hour_angle : ofInt (12 - 12) * (15 * (M_PI / 180)) = fin 0 := by
  simp only [M_PI, ofInt_eq, ofScientific_eq, ofNat_eq, fin_mul]
  norm_num [fin_div]

/-- C28: for latitude 40 degrees, day of year 172 and hour 12, over a library
whose sine and cosine at the declination and at the latitude are within 1e-3 of
the true values (`sin δ` in `[0.398, 0.399]`, `cos δ` in `[0.916, 0.918]`,
`sin 40°` in `[0.642, 0.643]`, `cos 40°` in `[0.766, 0.767]`) and whose `cos 0`
is 1: the cosine of the zenith angle that `cos_zenith_angle` computes, and that
`lightME` returns, lies between 0.957 and 0.961. -/
theorem cos_zenith_angle_solstice (m : Libm) (sd cd sp cp : ℚ)
    (hsd : m.sin ((-(23.5 * (M_PI / 180)))
      * m.cos (360.0 * (ofInt (172 + 10) / 365.0) * (M_PI / 180))) = fin sd)
    (hcd : m.cos ((-(23.5 * (M_PI / 180)))
      * m.cos (360.0 * (ofInt (172 + 10) / 365.0) * (M_PI / 180))) = fin cd)
    (hsp : m.sin (40 * (M_PI / 180)) = fin sp) (hcp : m.cos (40 * (M_PI / 180)) = fin cp)
    (h0 : m.cos (fin 0) = fin 1)
    (bsd : 0.398 ≤ sd ∧ sd ≤ 0.399) (bcd : 0.916 ≤ cd ∧ cd ≤ 0.918)
    (bsp : 0.642 ≤ sp ∧ sp ≤ 0.643) (bcp : 0.766 ≤ cp ∧ cp ≤ 0.767) :
    ∃ v : ℚ, cos_zenith_angle m 40 172 12 = fin v
      ∧ (lightME m 40 172 12).cosine_zenith_angle = fin v
      ∧ 0.957 ≤ v ∧ v ≤ 0.961 := by
  have e : cos_zenith_angle m 40 172 12 = fin (sd * sp + cd * cp * 1) := by
    simp only [cos_zenith_angle, hsd, hcd, hsp, hcp, noon_hour_angle, h0, fin_mul, fin_add]
  exact ⟨_, e, e, zenith_bounds sd cd sp cp bsd bcd bsp bcp⟩

set_option maxRecDepth 100000 in
set_option maxHeartbeats 4000000 in
theorem solar_values :
    ∃ sd cd sp cp : ℚ,
      solarLibm.sin ((-(23.5 * (M_PI / 180)))
          * solarLibm.cos (360.0 * (ofInt (172 + 10) / 365.0) * (M_PI / 180))) = fin sd
        ∧ solarLibm.cos ((-(23.5 * (M_PI / 180)))
          * solarLibm.cos (360.0 * (ofInt (172 + 10) / 365.0) * (M_PI / 180))) = fin cd
        ∧ solarLibm.sin (40 * (M_PI / 180)) = fin sp
        ∧ solarLibm.cos (40 * (M_PI / 180)) = fin cp
        ∧ (0.398 ≤ sd ∧ sd ≤ 0.399) ∧ (0.916 ≤ cd ∧ cd ≤ 0.918)
        ∧ (0.642 ≤ sp ∧ sp ≤ 0.643) ∧ (0.766 ≤ cp ∧ cp ≤ 0.767) := by
  refine ⟨?sd, ?cd, ?sp, ?cp, ?h1, ?h2, ?h3, ?h4, ?b1, ?b2, ?b3, ?b4⟩
  case h1 =>
    simp only [solarLibm, refLibm, Ref.sin, Ref.cosPi, Ref.cos, M_PI, ofInt_eq, ofScientific_eq,
      ofNat_eq, fin_mul, fin_neg]
    norm_num [fin_div, Ref.sin, Ref.cos]
    exact Eq.refl _
  case h2 =>
    simp only [solarLibm, refLibm, Ref.sin, Ref.cosPi, Ref.cos, M_PI, ofInt_eq, ofScientific_eq,
      ofNat_eq, fin_mul, fin_neg]
    norm_num [fin_div, Ref.sin, Ref.cos]
    exact Eq.refl _
  case h3 =>
    simp only [solarLibm, refLibm, Ref.sin, Ref.cosPi, Ref.cos, M_PI, ofInt_eq, ofScientific_eq,
      ofNat_eq, fin_mul, fin_neg]
    norm_num [fin_div, Ref.sin, Ref.cos]
    exact Eq.refl _
  case h4 =>
    simp only [solarLibm, refLibm, Ref.sin, Ref.cosPi, Ref.cos, M_PI, ofInt_eq, ofScientific_eq,
      ofNat_eq, fin_mul, fin_neg]
    norm_num [fin_div, Ref.sin, Ref.cos]
    exact Eq.refl _
  case b1 => constructor <;> norm_num
  case b2 => constructor <;> norm_num
  case b3 => constructor <;> norm_num
  case b4 => constructor <;> norm_num

theorem solarLibm_cos_zero : solarLibm.cos (fin 0) = fin 1 := by
  show Ref.cosPi (fin 0) = fin 1
  simp only [Ref.cosPi, Ref.cos]
  norm_num

/-- C28 with the reference library `solarLibm`. -/
theorem cos_zenith_angle_solstice_witness :
    solarLibm.cos (fin 0) = fin 1
      ∧ ∃ v : ℚ, cos_zenith_angle solarLibm 40 172 12 = fin v
        ∧ (lightME solarLibm 40 172 12).cosine_zenith_angle = fin v
        ∧ 0.957 ≤ v ∧ v ≤ 0.961 :=
  match solar_values with
  | ⟨sd, cd, sp, cp, h1, h2, h3, h4, b1, b2, b3, b4⟩ =>
    ⟨solarLibm_cos_zero,
      cos_zenith_angle_solstice solarLibm sd cd sp cp h1 h2 h3 h4 solarLibm_cos_zero b1 b2 b3 b4⟩

/-- C28 (counterexample): at latitude 40 degrees, day of year 172 and hour 12,
with the reference library `solarLibm`, the cosine of the zenith angle that
`cos_zenith_angle` computes and `lightME` returns is below 0.98 (the
declination is 23.5 degrees times 0.99996, 16.5 degrees from the latitude, and
`cos 16.5°` is 0.9588): it does not lie between 0.98 and 1.0. -/
theorem solstice_noon_cosine :
    cos_zenith_angle solarLibm 40 172 12 < 0.98
      ∧ (lightME solarLibm 40 172 12).cosine_zenith_angle < 0.98
      ∧ ¬ (0.98 ≤ cos_zenith_angle solarLibm 40 172 12
        ∧ cos_zenith_angle solarLibm 40 172 12 ≤ 1.0) := by
  obtain ⟨sd, cd, sp, cp, h1, h2, h3, h4, b1, b2, b3, b4⟩ := solar_values
  have hb := zenith_bounds sd cd sp cp b1 b2 b3 b4
  have e : cos_zenith_angle solarLibm 40 172 12 = fin (sd * sp + cd * cp * 1) := by
    simp only [cos_zenith_angle, h1, h2, h3, h4, noon_hour_angle, solarLibm_cos_zero, fin_mul,
      fin_add]
  have e2 : (lightME solarLibm 40 172 12).cosine_zenith_angle
      = cos_zenith_angle solarLibm 40 172 12 := Eq.refl _
  have hlt : fin (sd * sp + cd * cp * 1) < (0.98 : Dbl) := by
    rw [ofScientific_eq, fin_lt]
    have := hb.2
    norm_num at this ⊢
    linarith
  refine ⟨?_, ?_, ?_⟩
  · rw [e]; exact hlt
  · rw [e2, e]; exact hlt
  · rw [e]
    intro h
    have h1 := h.1
    rw [ofScientific_eq, fin_le] at h1
    have := hb.2
    norm_num at this h1
    linarith

/-! ## Extinction coefficient of the direct beam -/

theorem abs_ratio_nonneg (a : Dbl) (b : ℚ) (ha : 0 ≤ a) (hb : 0 < b) :
    Dbl.abs (a / fin b) = a / fin b ∧ 0 ≤ a / fin b := by
  cases a with
  | nan => exact absurd ha (not_le_nan _)
  | ninf => exact absurd ha (by decide)
  | pinf =>
    have e : pinf / fin b = pinf := by
      show (if 0 ≤ b then pinf else ninf) = pinf
      rw [if_pos hb.le]
    rw [e]
    exact ⟨Eq.refl _, by decide⟩
  | fin x =>
    have hx : 0 ≤ x := by simpa only [zero_eq, fin_le] using ha
    rw [fin_div_of_ne _ _ hb.ne.symm]
    have h : 0 ≤ x / b := div_nonneg hx hb.le
    refine ⟨?_, ?_⟩
    · show fin |x / b| = fin (x / b)
      rw [abs_of_nonneg h]
    · rw [zero_eq, fin_le]
      exact h

/-- C29: for `chil ≥ 0` and a `cosTheta` at which the library returns a finite
`tan(acos(cosTheta))` (as the C library does for `0 < cosTheta ≤ 1`), over a
library that returns a non-negative square, a non-negative square root of a
non-negative number and a positive power of a positive base: the extinction
coefficient `k` of `sunML` is
`|sqrt(chil^2 + tan^2(acos(cosTheta))) / (chil + 1.744*(chil + 1.183)^(-0.733))|`
and is non-negative; and when the library is exact at `acos 1`, `tan 0`, `1^2`,
`0^2` and `sqrt 1`, at `cosTheta = 1` and `chil = 1` it is
`1 / (1 + 1.744 * 2.183^(-0.733))`. -/
theorem sunML_k_formula (m : Libm) (cosTheta : Dbl) (c : ℚ) (hc : 0 ≤ c)
    (htan : (m.tan (m.acos cosTheta)).Finite)
    (hsq : ∀ x : ℚ, ∃ y : ℚ, 0 ≤ y ∧ m.pow (fin x) 2 = fin y)
    (hsqrt : ∀ x : ℚ, 0 ≤ x → ∃ y : ℚ, 0 ≤ y ∧ m.sqrt (fin x) = fin y)
    (hpow : ∀ x : ℚ, 0 < x → ∃ p : ℚ, 0 < p ∧ m.pow (fin x) (-0.733) = fin p) :
    sunML_k m cosTheta (fin c) = specK m cosTheta (fin c)
      ∧ 0 ≤ sunML_k m cosTheta (fin c)
      ∧ (m.acos 1 = 0 → m.tan 0 = 0 → m.pow 1 2 = 1 → m.pow 0 2 = 0 → m.sqrt 1 = 1 →
        sunML_k m 1 1 = 1 / (1 + 1.744 * m.pow 2.183 (-0.733))) := by
  have hk1 : ∀ d : ℚ, 0 ≤ d → ∃ b : ℚ, 0 < b
      ∧ fin d + 1.744 * m.pow (fin d + 1.183) (-0.733) = fin b := by
    intro d hd
    obtain ⟨p, hp, e⟩ := hpow (d + 1.183) (by
      have : (0 : ℚ) < 1.183 := by norm_num
      linarith)
    refine ⟨d + 1.744 * p, ?_, ?_⟩
    · have : (0 : ℚ) < 1.744 * p := mul_pos (by norm_num) hp
      linarith
    · simp only [ofScientific_eq, fin_add] at e ⊢
      rw [e, fin_mul, fin_add]
  obtain ⟨b, hb, eb⟩ := hk1 c hc
  obtain ⟨t, et⟩ := (finite_iff _).mp htan
  obtain ⟨y1, hy1, e1⟩ := hsq c
  obtain ⟨y2, hy2, e2⟩ := hsq t
  obtain ⟨q, hq, eq⟩ := hsqrt (y1 + y2) (add_nonneg hy1 hy2)
  have hk : sunML_k m cosTheta (fin c) = fin q / fin b := by
    simp only [sunML_k, et, e1, e2, fin_add, eq, eb]
    rw [if_pos ((zero_lt_fin b).mpr hb)]
  have hs : specK m cosTheta (fin c) = Dbl.abs (fin q / fin b) := by
    simp only [specK, et, e1, e2, fin_add, eq, eb]
  have hr := abs_ratio_nonneg (fin q) b ((by rw [zero_eq, fin_le]; exact hq)) hb
  refine ⟨?_, ?_, ?_⟩
  · rw [hk, hs, hr.1]
  · rw [hk]
    exact hr.2
  · intro ha ht h1 h0 hs1
    obtain ⟨b1, hb1, eb1⟩ := hk1 1 (by norm_num)
    have e3 : (1 : Dbl) + 1.183 = 2.183 := by
      simp only [one_eq, ofScientific_eq, fin_add]
      norm_num
    have e4 : (1 : Dbl) + 0 = 1 := by
      simp only [one_eq, zero_eq, fin_add]
      norm_num
    rw [← one_eq, e3] at eb1
    simp only [sunML_k, ha, ht, h1, h0, e3, e4, hs1, eb1]
    rw [if_pos ((zero_lt_fin b1).mpr hb1)]

theorem refLibm_square (x : ℚ) : ∃ y : ℚ, 0 ≤ y ∧ refLibm.pow (fin x) 2 = fin y := by
  refine ⟨x ^ 2, sq_nonneg x, ?_⟩
  show Ref.pow (fin x) (fin ((2 : ℕ) : ℚ)) = fin (x ^ 2)
  simp only [Ref.pow]
  norm_num
  exact zpow_ofNat x 2

theorem refLibm_sqrt_nonneg (x : ℚ) (hx : 0 ≤ x) :
    ∃ y : ℚ, 0 ≤ y ∧ refLibm.sqrt (fin x) = fin y := by
  refine ⟨Ref.sqrtQ x, ?_, ?_⟩
  · simp only [Ref.sqrtQ]
    positivity
  · show Ref.sqrt (fin x) = fin (Ref.sqrtQ x)
    simp only [Ref.sqrt, if_neg (not_lt.mpr hx)]

theorem den_0733 : ((-0.733 : ℚ)).den ≠ 1 := by
  have h : (-0.733 : ℚ) = -733 / 1000 := by norm_num
  rw [h]
  norm_num

theorem refLibm_pow_0733 (x : ℚ) (hx : 0 < x) :
    ∃ p : ℚ, 0 < p ∧ refLibm.pow (fin x) (-0.733) = fin p := by
  refine ⟨Ref.expQ (-0.733 * Ref.logQ x), expQ_pos _, ?_⟩
  show Ref.pow (fin x) (fin (-0.733)) = _
  exact Ref_pow_of_pos x (-0.733) hx den_0733

theorem sqrtQ_zero : Ref.sqrtQ 0 = 0 := by
  simp [Ref.sqrtQ]

theorem sqrtQ_one : Ref.sqrtQ 1 = 1 := by
  have h : Nat.sqrt (10 ^ 24) = 10 ^ 12 := by
    have e : (10 : ℕ) ^ 24 = 10 ^ 12 * 10 ^ 12 := by norm_num
    rw [e, Nat.sqrt_eq]
  simp only [Ref.sqrtQ, Rat.num_one, Int.natAbs_one, Rat.den_one, one_mul, h]
  norm_num

theorem refLibm_acos_one : refLibm.acos 1 = 0 := by
  show Ref.acos (fin ((1 : ℕ) : ℚ)) = fin ((0 : ℕ) : ℚ)
  simp only [Ref.acos, Ref.sqrt]
  norm_num [sqrtQ_zero]

theorem refLibm_tan_zero : refLibm.tan 0 = 0 := by
  show Ref.tan (fin ((0 : ℕ) : ℚ)) = fin ((0 : ℕ) : ℚ)
  simp only [Ref.tan, Ref.sin, Ref.cos]
  norm_num [fin_div]

theorem refLibm_sqrt_one : refLibm.sqrt 1 = 1 := by
  show Ref.sqrt (fin ((1 : ℕ) : ℚ)) = fin ((1 : ℕ) : ℚ)
  simp only [Ref.sqrt]
  norm_num [sqrtQ_one]

/-- C29 with the reference library at `cosTheta = 1` and `chil = 1`. -/
theorem sunML_k_formula_witness :
    (0 : ℚ) ≤ 1 ∧ (refLibm.tan (refLibm.acos 1)).Finite
      ∧ sunML_k refLibm 1 (fin 1) = specK refLibm 1 (fin 1)
      ∧ 0 ≤ sunML_k refLibm 1 (fin 1)
      ∧ sunML_k refLibm 1 1 = 1 / (1 + 1.744 * refLibm.pow 2.183 (-0.733)) :=
  have ht : (refLibm.tan (refLibm.acos 1)).Finite := by
    rw [refLibm_acos_one, refLibm_tan_zero]
    trivial
  have h := sunML_k_formula refLibm 1 1 zero_le_one ht refLibm_square
    refLibm_sqrt_nonneg refLibm_pow_0733
  ⟨zero_le_one, ht, h.1, h.2.1,
    h.2.2 refLibm_acos_one refLibm_tan_zero
      (by
        show Ref.pow (fin ((1 : ℕ) : ℚ)) (fin ((2 : ℕ) : ℚ)) = fin ((1 : ℕ) : ℚ)
        simp only [Ref.pow]
        norm_num)
      (by
        show Ref.pow (fin ((0 : ℕ) : ℚ)) (fin ((2 : ℕ) : ℚ)) = fin ((0 : ℕ) : ℚ)
        simp only [Ref.pow]
        norm_num)
      refLibm_sqrt_one⟩

/-! ## Relative humidity profile: theorems -/

theorem RHprofLoop_at (m : Libm) (RH : Dbl) (nlayers : ℤ) (a : Arr) :
    ∀ (n i : ℕ), i < n →
      RHprofLoop m RH nlayers n a i
        = RH * m.exp ((1 - RH) * (ofInt ((i : ℤ) + 1) / ofInt nlayers)) := by
  intro n
  induction n with
  | zero => intro i hi; exact absurd hi (Nat.not_lt_zero i)
  | succ n ih =>
    intro i hi
    show ((RHprofLoop m RH nlayers n a).set n
      (RH * m.exp ((1 - RH) * (ofInt ((n : ℤ) + 1) / ofInt nlayers)))) i = _
    by_cases h : i = n
    · rw [h, set_same]
    · rw [set_other _ _ _ _ h]
      exact ih i (by omega)

/-- C30: for `RH` in `[0, 1]` and `nlayers ≥ 1`, over a library whose `exp` on
`[0, 1]` is finite, non-negative and at most `1 / (1 - y)`: every value that
`RHprof` writes, `RH * exp((1 - RH) * (i+1)/nlayers)` for `0 ≤ i < nlayers`,
lies in `[0, 1]`. -/
theorem RHprof_range (m : Libm) (r : ℚ) (nlayers : ℤ) (a : Arr)
    (hr0 : 0 ≤ r) (hr1 : r ≤ 1) (hn : 1 ≤ nlayers)
    (hexp : ∀ y : ℚ, 0 ≤ y → y ≤ 1 → ∃ e : ℚ, m.exp (fin y) = fin e ∧ 0 ≤ e ∧ e * (1 - y) ≤ 1)
    (i : ℕ) (hi : (i : ℤ) < nlayers) :
    RHprof m (fin r) nlayers a i
        = fin r * m.exp ((1 - fin r) * (ofInt ((i : ℤ) + 1) / ofInt nlayers))
      ∧ 0 ≤ RHprof m (fin r) nlayers a i ∧ RHprof m (fin r) nlayers a i ≤ 1 := by
  have e1 : RHprof m (fin r) nlayers a i
      = fin r * m.exp ((1 - fin r) * (ofInt ((i : ℤ) + 1) / ofInt nlayers)) :=
    RHprofLoop_at m (fin r) nlayers a nlayers.toNat i (by omega)
  have hnq : (0 : ℚ) < (nlayers : ℚ) := by
    have : (0 : ℤ) < nlayers := by omega
    exact_mod_cast this
  have hiq : ((i : ℤ) : ℚ) + 1 ≤ (nlayers : ℚ) := by
    have : (i : ℤ) + 1 ≤ nlayers := by omega
    exact_mod_cast this
  have hi0 : (0 : ℚ) ≤ ((i : ℤ) : ℚ) + 1 := by
    have : (0 : ℤ) ≤ (i : ℤ) + 1 := by omega
    exact_mod_cast this
  have hf0 : 0 ≤ (((i : ℤ) : ℚ) + 1) / (nlayers : ℚ) := div_nonneg hi0 hnq.le
  have hf1 : (((i : ℤ) : ℚ) + 1) / (nlayers : ℚ) ≤ 1 := (div_le_one hnq).mpr hiq
  have hy0 : 0 ≤ (1 - r) * ((((i : ℤ) : ℚ) + 1) / (nlayers : ℚ)) :=
    mul_nonneg (by linarith) hf0
  have hy1 : (1 - r) * ((((i : ℤ) : ℚ) + 1) / (nlayers : ℚ)) ≤ 1 - r := by
    have : (1 - r) * ((((i : ℤ) : ℚ) + 1) / (nlayers : ℚ)) ≤ (1 - r) * 1 :=
      mul_le_mul_of_nonneg_left hf1 (by linarith)
    linarith
  obtain ⟨e, he, he0, he1⟩ := hexp _ hy0 (by linarith)
  have e2 : (1 - fin r) * (ofInt ((i : ℤ) + 1) / ofInt nlayers)
      = fin ((1 - r) * ((((i : ℤ) : ℚ) + 1) / (nlayers : ℚ))) := by
    simp only [one_eq, ofInt_eq, fin_sub, fin_div_of_ne _ _ hnq.ne.symm, fin_mul]
    push_cast
    exact Eq.refl _
  rw [e1, e2, he, fin_mul]
  refine ⟨Eq.refl _, ?_, ?_⟩
  · rw [zero_eq, fin_le]
    exact mul_nonneg hr0 he0
  · rw [fin_le_one]
    have h1 : r * e ≤ (1 - (1 - r) * ((((i : ℤ) : ℚ) + 1) / (nlayers : ℚ))) * e :=
      mul_le_mul_of_nonneg_right (by linarith) he0
    have h2 : (1 - (1 - r) * ((((i : ℤ) : ℚ) + 1) / (nlayers : ℚ))) * e
        = e * (1 - (1 - r) * ((((i : ℤ) : ℚ) + 1) / (nlayers : ℚ))) := mul_comm _ _
    linarith

theorem refLibm_exp_unit (y : ℚ) (hy0 : 0 ≤ y) (hy1 : y ≤ 1) :
    ∃ e : ℚ, refLibm.exp (fin y) = fin e ∧ 0 ≤ e ∧ e * (1 - y) ≤ 1 := by
  refine ⟨Ref.expQ y, Eq.refl _, (expQ_pos y).le, ?_⟩
  have hz0 : 0 ≤ y / 8 := by positivity
  have hz1 : y / 8 ≤ 1 / 8 := by linarith
  have ht : Ref.taylor4 (y / 8) * (1 - y / 8) ≤ 1 := by
    have e : Ref.taylor4 (y / 8) * (1 - y / 8)
        = 1 - (y / 8) ^ 2 * (1 / 2 + (y / 8) / 3 + (y / 8) ^ 2 / 8 + (y / 8) ^ 3 / 24) := by
      simp only [Ref.taylor4]
      ring
    rw [e]
    have : 0 ≤ (y / 8) ^ 2 * (1 / 2 + (y / 8) / 3 + (y / 8) ^ 2 / 8 + (y / 8) ^ 3 / 24) := by
      positivity
    linarith
  have ht0 : 0 ≤ Ref.taylor4 (y / 8) * (1 - y / 8) := by
    have h1 : 0 ≤ Ref.taylor4 (y / 8) := by
      simp only [Ref.taylor4]
      positivity
    exact mul_nonneg h1 (by linarith)
  have hb : 1 - y ≤ (1 - y / 8) ^ 8 := by
    have := one_add_mul_le_pow (show (-2 : ℚ) ≤ -(y / 8) by linarith) 8
    have e : (1 : ℚ) + ((8 : ℕ) : ℚ) * -(y / 8) = 1 - y := by
      push_cast
      ring
    rw [e] at this
    have e2 : (1 : ℚ) + -(y / 8) = 1 - y / 8 := by ring
    rw [e2] at this
    exact this
  have hp : Ref.expQ y * (1 - y / 8) ^ 8 ≤ 1 := by
    have e : Ref.expQ y * (1 - y / 8) ^ 8 = (Ref.taylor4 (y / 8) * (1 - y / 8)) ^ 8 := by
      simp only [Ref.expQ]
      ring
    rw [e]
    exact pow_le_one₀ ht0 ht
  have : Ref.expQ y * (1 - y) ≤ Ref.expQ y * (1 - y / 8) ^ 8 :=
    mul_le_mul_of_nonneg_left hb (expQ_pos y).le
  linarith

/-- C30 with the reference library: a relative humidity of 0.7 over 10 layers,
at the first entry. -/
theorem RHprof_range_witness :
    (0 : ℚ) ≤ 0.7 ∧ (0.7 : ℚ) ≤ 1 ∧ (1 : ℤ) ≤ 10 ∧ ((0 : ℕ) : ℤ) < 10
      ∧ 0 ≤ RHprof refLibm (fin 0.7) 10 (fun _ => 0) 0
      ∧ RHprof refLibm (fin 0.7) 10 (fun _ => 0) 0 ≤ 1 :=
  ⟨by norm_num, by norm_num, by decide, by decide,
    (RHprof_range refLibm 0.7 10 (fun _ => 0) (by norm_num) (by norm_num) (by decide)
      refLibm_exp_unit 0 (by decide)).2⟩

/-! ## `EvapoTrans2` and the arguments it does not read -/

theorem EvapoTrans2_env_canopy (m : Libm)
    (Rad Iave Airtemperature RH WindSpeed LeafAreaIndex CanopyHeight stomatacond leafw : Dbl)
    (LeafAreaIndex2 CanopyHeight2 : Dbl) :
    EvapoTrans2_env m Rad Iave Airtemperature RH WindSpeed LeafAreaIndex CanopyHeight
        stomatacond leafw
      = EvapoTrans2_env m Rad Iave Airtemperature RH WindSpeed LeafAreaIndex2 CanopyHeight2
        stomatacond leafw :=
  Eq.refl _

/-- C36: the result of `EvapoTrans2` (the record of `TransR`, `EPenman`,
`EPriestly`, `Deltat` and `LayerCond`, or the error) does not depend on
`CanopyHeight` and `LeafAreaIndex`: two calls that differ only in these two
arguments return the same. -/
theorem EvapoTrans2_ignores_canopy (m : Libm)
    (Rad Iave Airtemperature RH WindSpeed LeafAreaIndex CanopyHeight stomatacond leafw : Dbl)
    (eteq : ℤ) (LeafAreaIndex2 CanopyHeight2 : Dbl) :
    EvapoTrans2 m Rad Iave Airtemperature RH WindSpeed LeafAreaIndex CanopyHeight
        stomatacond leafw eteq
      = EvapoTrans2 m Rad Iave Airtemperature RH WindSpeed LeafAreaIndex2 CanopyHeight2
        stomatacond leafw eteq := by
  simp only [EvapoTrans2]
  rw [EvapoTrans2_env_canopy m Rad Iave Airtemperature RH WindSpeed LeafAreaIndex CanopyHeight
    stomatacond leafw LeafAreaIndex2 CanopyHeight2]

/-! ## The two soil tables -/

theorem soil_sand_differs : (0.52 : Dbl) ≠ 0.42 := by
  intro h
  simp only [ofScientific_eq] at h
  have h2 := fin.inj h
  norm_num at h2

theorem soil_row_sandy_clay_loam : soilTchoose 5 = soil_parameters (specSoilType 5) := by
  have e : soilTchoose 5 = ⟨0.13, 0.27, 0.60, -2.8, 4, 1.2e-4, 0.48, 0.26, 0.15, 1.39⟩ :=
    Eq.refl _
  have t : soil_parameters (specSoilType 5)
      = ⟨0.13, 0.27, 0.60, -2.8, 4.0, 1.2e-4, 0.48, 0.26, 0.15, 1.39⟩ := Eq.refl _
  rw [e, t]
  simp only [ofScientific_eq, ofNat_eq, soilText_str.mk.injEq, fin.injEq]
  norm_num

theorem soil_row_sandy_clay : soilTchoose 8 = soil_parameters (specSoilType 8) := by
  have e : soilTchoose 8 = ⟨0.07, 0.40, 0.53, -2.9, 6, 3.3e-5, 0.51, 0.34, 0.24, 1.30⟩ :=
    Eq.refl _
  have t : soil_parameters (specSoilType 8)
      = ⟨0.07, 0.40, 0.53, -2.9, 6.0, 3.3e-5, 0.51, 0.34, 0.24, 1.30⟩ := Eq.refl _
  rw [e, t]
  simp only [ofScientific_eq, ofNat_eq, soilText_str.mk.injEq, fin.injEq]
  norm_num

theorem soil_row_clay : soilTchoose 10 = soil_parameters (specSoilType 10) := by
  have e : soilTchoose 10 = ⟨0.20, 0.60, 0.20, -3.7, 7.6, 1.7e-5, 0.53, 0.4, 0.27, 1.19⟩ :=
    Eq.refl _
  have t : soil_parameters (specSoilType 10)
      = ⟨0.20, 0.60, 0.20, -3.7, 7.6, 1.7e-5, 0.53, 0.40, 0.27, 1.19⟩ := Eq.refl _
  rw [e, t]
  simp only [ofScientific_eq, ofNat_eq, soilText_str.mk.injEq, fin.injEq]
  norm_num

/-- C31: the lookup `soilTchoose` at the indices 0 to 10, against the row of
`soil_parameters` for the enumerator with that index.  The ten rows other than
loam agree in all ten constants.  The row of loam (index 3) agrees in nine
constants and differs in `sand`: `soilTchoose` holds 0.52, the table 0.42. -/
theorem soilTchoose_against_table :
    soilTchoose 0 = soil_parameters (specSoilType 0)
    ∧ soilTchoose 1 = soil_parameters (specSoilType 1)
    ∧ soilTchoose 2 = soil_parameters (specSoilType 2)
    ∧ soilTchoose 4 = soil_parameters (specSoilType 4)
    ∧ soilTchoose 5 = soil_parameters (specSoilType 5)
    ∧ soilTchoose 6 = soil_parameters (specSoilType 6)
    ∧ soilTchoose 7 = soil_parameters (specSoilType 7)
    ∧ soilTchoose 8 = soil_parameters (specSoilType 8)
    ∧ soilTchoose 9 = soil_parameters (specSoilType 9)
    ∧ soilTchoose 10 = soil_parameters (specSoilType 10)
    ∧ specSoilType 3 = SoilType.loam
    ∧ (soilTchoose 3).sand = 0.52
    ∧ (soil_parameters (specSoilType 3)).sand = 0.42
    ∧ soilTchoose 3 = { soil_parameters (specSoilType 3) with sand := 0.52 }
    ∧ soilTchoose 3 ≠ soil_parameters (specSoilType 3) :=
  ⟨Eq.refl _, Eq.refl _, Eq.refl _, Eq.refl _, soil_row_sandy_clay_loam, Eq.refl _, Eq.refl _,
    soil_row_sandy_clay, Eq.refl _, soil_row_clay, Eq.refl _, Eq.refl _, Eq.refl _, Eq.refl _,
    fun h => soil_sand_differs (congrArg soilText_str.sand h)⟩

/-! ## Water stress switched off (`wsFun = 3`) -/

theorem one_not_le_zero : ¬ ((1 : Dbl) ≤ 0) := by
  rw [one_eq, zero_eq, fin_le]
  norm_num

theorem zero_point_eq : (0.0 : Dbl) = fin 0 := by
  rw [ofScientific_eq]
  norm_num

theorem one_not_lt_one : ¬ ((1 : Dbl) < 1) := by
  rw [one_eq, fin_lt]
  norm_num

theorem watstr_locals_no_stress (m : Libm)
    (precipit evapo cws soildepth fieldc wiltp phi1 phi2 : Dbl) (soiltype : ℤ) :
    (watstr_locals m precipit evapo cws soildepth fieldc wiltp phi1 phi2 soiltype 3).wsPhoto = 1
    ∧ (watstr_locals m precipit evapo cws soildepth fieldc wiltp phi1 phi2 soiltype 3).wsSpleaf
      = 1 := by
  have h0 : ¬ ((3 : ℤ) = 0) := by decide
  have h1 : ¬ ((3 : ℤ) = 1) := by decide
  have h2 : ¬ ((3 : ℤ) = 2) := by decide
  have h3 : (3 : ℤ) = 3 := Eq.refl _
  simp only [watstr_locals, if_neg h0, if_neg h1, if_neg h2, if_pos h3, if_true, if_false,
    if_neg one_not_le_zero, if_neg one_not_lt_one, and_self]

theorem soilStep_no_stress (m : Libm) (transp : Dbl) (depths : Arr)
    (fieldc wiltp phi1 phi2 : Dbl) (soTexS : soilText_str) (layers : ℤ)
    (rootDB LAI k AirTemp IRad winds RelH : Dbl) (hydrDist : ℤ) (rsec waterIn : Dbl)
    (root_distribution : Arr) (i : ℕ) (s : SoilState) :
    (soilStep m transp depths fieldc wiltp phi1 phi2 soTexS 3 layers rootDB LAI k AirTemp
      IRad winds RelH hydrDist rsec waterIn root_distribution i s).wsPhotoCol = s.wsPhotoCol + 1
    ∧ (soilStep m transp depths fieldc wiltp phi1 phi2 soTexS 3 layers rootDB LAI k AirTemp
      IRad winds RelH hydrDist rsec waterIn root_distribution i s).wsSpleafCol
      = s.wsSpleafCol + 1 := by
  have h0 : ¬ ((3 : ℤ) = 0) := by decide
  have h1 : ¬ ((3 : ℤ) = 1) := by decide
  have h2 : ¬ ((3 : ℤ) = 2) := by decide
  have h3 : (3 : ℤ) = 3 := Eq.refl _
  simp only [soilStep, if_neg h0, if_neg h1, if_neg h2, if_pos h3, if_true, if_false,
    if_neg one_not_le_zero]
  constructor <;> split_ifs <;> exact Eq.refl _

theorem soilLoop_stress_sums (step : ℕ → SoilState → SoilState)
    (h : ∀ (j : ℕ) (s : SoilState), (step j s).wsPhotoCol = s.wsPhotoCol + 1
      ∧ (step j s).wsSpleafCol = s.wsSpleafCol + 1) :
    ∀ (n : ℕ) (s : SoilState) (p q : ℚ), s.wsPhotoCol = fin p → s.wsSpleafCol = fin q →
      (soilLoop step n s).wsPhotoCol = fin (p + n)
      ∧ (soilLoop step n s).wsSpleafCol = fin (q + n) := by
  intro n
  induction n with
  | zero =>
    intro s p q hp hq
    simp only [soilLoop, Nat.cast_zero, add_zero]
    exact ⟨hp, hq⟩
  | succ n ih =>
    intro s p q hp hq
    have e := ih (step n s) (p + 1) (q + 1)
      (by rw [(h n s).1, hp, one_eq, fin_add]) (by rw [(h n s).2, hq, one_eq, fin_add])
    have c : ((n + 1 : ℕ) : ℚ) = 1 + n := by push_cast; ring
    rw [c, ← add_assoc, ← add_assoc]
    exact e

/-- C40: with `wsFun = 3` both stress coefficients are exactly 1.  `watstr`
returns `rcoefPhoto = 1` and `rcoefSpleaf = 1` for every other argument, and
`soilML` with at least one layer returns `rcoefPhoto = 1` and `rcoefSpleaf = 1`
for every water content, precipitation and demand (and every other argument). -/
theorem no_stress_coefficients (m : Libm)
    (precipitW evapo cwsW soildepthW fieldcW wiltpW phi1W phi2W : Dbl) (soiltype : ℤ)
    (precipit transp : Dbl) (cws : Arr)
    (soildepth : Dbl) (depths : Arr) (fieldc wiltp phi1 phi2 : Dbl) (soTexS : soilText_str)
    (layers : ℤ) (rootDB LAI k AirTemp IRad winds RelH : Dbl) (hydrDist : ℤ)
    (rfl rsec rsdf : Dbl) (hl : 1 ≤ layers) :
    (watstr m precipitW evapo cwsW soildepthW fieldcW wiltpW phi1W phi2W soiltype 3).rcoefPhoto
      = 1
    ∧ (watstr m precipitW evapo cwsW soildepthW fieldcW wiltpW phi1W phi2W soiltype
      3).rcoefSpleaf = 1
    ∧ (soilML m precipit transp cws soildepth depths fieldc wiltp phi1 phi2 soTexS 3 layers
      rootDB LAI k AirTemp IRad winds RelH hydrDist rfl rsec rsdf).rcoefPhoto = 1
    ∧ (soilML m precipit transp cws soildepth depths fieldc wiltp phi1 phi2 soTexS 3 layers
      rootDB LAI k AirTemp IRad winds RelH hydrDist rfl rsec rsdf).rcoefSpleaf = 1 := by
  have w := watstr_locals_no_stress m precipitW evapo cwsW soildepthW fieldcW wiltpW phi1W phi2W
    soiltype
  have e := soilLoop_stress_sums _
    (soilStep_no_stress m transp depths (if fieldc < 0 then soTexS.fieldc else fieldc)
      (if wiltp < 0 then soTexS.wiltp else wiltp) phi1 phi2 soTexS layers rootDB LAI k AirTemp
      IRad winds RelH hydrDist rsec (precipit * 1e-3)
      (rootDist m layers (if soildepth < rootDB * rsdf then soildepth else rootDB * rsdf)
        depths rfl))
    layers.toNat (soilInit cws) 0 0 zero_point_eq zero_point_eq
  have c : ((layers.toNat : ℕ) : ℚ) = (layers : ℚ) := by
    have c1 : ((layers.toNat : ℕ) : ℤ) = layers := Int.toNat_of_nonneg (by omega)
    exact_mod_cast c1
  have hne : (layers : ℚ) ≠ 0 := by
    have : (1 : ℚ) ≤ (layers : ℚ) := by exact_mod_cast hl
    intro h0
    rw [h0] at this
    norm_num at this
  have d : fin (0 + ((layers.toNat : ℕ) : ℚ)) / ofInt layers = 1 := by
    rw [c, zero_add, one_eq]
    show fin (layers : ℚ) / fin (layers : ℚ) = fin 1
    rw [fin_div_of_ne _ _ hne, div_self hne]
  refine ⟨w.1, w.2, ?_, ?_⟩
  · show (soilML_final m precipit transp cws soildepth depths fieldc wiltp phi1 phi2 soTexS 3
      layers rootDB LAI k AirTemp IRad winds RelH hydrDist rfl rsec rsdf).wsPhotoCol
      / ofInt layers = 1
    simp only [soilML_final]
    rw [e.1]
    exact d
  · show (soilML_final m precipit transp cws soildepth depths fieldc wiltp phi1 phi2 soTexS 3
      layers rootDB LAI k AirTemp IRad winds RelH hydrDist rfl rsec rsdf).wsSpleafCol
      / ofInt layers = 1
    simp only [soilML_final]
    rw [e.2]
    exact d

/-- C40, for the loam of `soilTchoose` with `wsFun = 3`: `watstr` on a dry
profile under a demand of 5, and `soilML` on two layers with hydraulic
redistribution on, return both coefficients equal to 1. -/
theorem no_stress_coefficients_witness :
    (watstr refLibm 0 5 0.13 1 0.27 0.12 0.01 10 3 3).rcoefPhoto = 1
    ∧ (watstr refLibm 0 5 0.13 1 0.27 0.12 0.01 10 3 3).rcoefSpleaf = 1
    ∧ (soilML refLibm 2 1 (fun _ => 0.13) 1 unevenDepths 0.27 0.12 0.01 10 (soilTchoose 3) 3 2
      1 3 0.68 20 1000 2 70 1 0.2 0.2 0.44).rcoefPhoto = 1
    ∧ (soilML refLibm 2 1 (fun _ => 0.13) 1 unevenDepths 0.27 0.12 0.01 10 (soilTchoose 3) 3 2
      1 3 0.68 20 1000 2 70 1 0.2 0.2 0.44).rcoefSpleaf = 1 :=
  no_stress_coefficients refLibm 0 5 0.13 1 0.27 0.12 0.01 10 3 2 1 (fun _ => 0.13) 1
    unevenDepths 0.27 0.12 0.01 10 (soilTchoose 3) 2 1 3 0.68 20 1000 2 70 1 0.2 0.2 0.44
    (by decide)

/-! ## Nitrogen leaching of `soilML` -/

theorem dbl_lt_of_lt_of_le (a b c : Dbl) (h1 : a < b) (h2 : b ≤ c) : a < c := by
  cases a <;> cases b <;> cases c <;>
    first
    | exact (fin_lt _ _).2 (lt_of_lt_of_le ((fin_lt _ _).1 h1) ((fin_le _ _).1 h2))
    | exact trivial
    | exact h1.elim
    | exact h2.elim

theorem sel_dbp_coef_first (coefs TherPrds : Arr) (TherTime : Dbl) :
    (TherTime < TherPrds 0 →
      sel_dbp_coef coefs TherPrds TherTime = specDbpBlock coefs 0 0)
    ∧ (¬ TherTime < TherPrds 0 → TherTime < TherPrds 1 →
      sel_dbp_coef coefs TherPrds TherTime = specDbpBlock coefs 1 0)
    ∧ (¬ TherTime < TherPrds 0 → ¬ TherTime < TherPrds 1 → TherTime < TherPrds 2 →
      sel_dbp_coef coefs TherPrds TherTime = specDbpBlock coefs 2 0)
    ∧ (¬ TherTime < TherPrds 0 → ¬ TherTime < TherPrds 1 → ¬ TherTime < TherPrds 2 →
      TherTime < TherPrds 3 →
      sel_dbp_coef coefs TherPrds TherTime = specDbpBlock coefs 3 0)
    ∧ (¬ TherTime < TherPrds 0 → ¬ TherTime < TherPrds 1 → ¬ TherTime < TherPrds 2 →
      ¬ TherTime < TherPrds 3 → TherTime < TherPrds 4 →
      sel_dbp_coef coefs TherPrds TherTime = specDbpBlock coefs 4 0)
    ∧ (¬ TherTime < TherPrds 0 → ¬ TherTime < TherPrds 1 → ¬ TherTime < TherPrds 2 →
      ¬ TherTime < TherPrds 3 → ¬ TherTime < TherPrds 4 →
      sel_dbp_coef coefs TherPrds TherTime = specDbpBlock coefs 5 (coefs 24)) := by
  refine ⟨?_, ?_, ?_, ?_, ?_, ?_⟩
  · intro h0
    simp only [sel_dbp_coef, specDbpBlock, if_pos h0, zero_point_eq, zero_eq]
  · intro h0 h1
    simp only [sel_dbp_coef, specDbpBlock, if_neg h0, if_pos h1, zero_point_eq, zero_eq]
  · intro h0 h1 h2
    simp only [sel_dbp_coef, specDbpBlock, if_neg h0, if_neg h1, if_pos h2, zero_point_eq,
      zero_eq]
  · intro h0 h1 h2 h3
    simp only [sel_dbp_coef, specDbpBlock, if_neg h0, if_neg h1, if_neg h2, if_pos h3,
      zero_point_eq, zero_eq]
  · intro h0 h1 h2 h3 h4
    simp only [sel_dbp_coef, specDbpBlock, if_neg h0, if_neg h1, if_neg h2, if_neg h3,
      if_pos h4, zero_point_eq, zero_eq]
  · intro h0 h1 h2 h3 h4
    simp only [sel_dbp_coef, specDbpBlock, if_neg h0, if_neg h1, if_neg h2, if_neg h3,
      if_neg h4]

/-- C33 (amended): `sel_dbp_coef` selects the coefficient block of the first
thermal period `p` in 0..4 with `TherTime < TherPrds[p]` (`coefs[4p .. 4p+3]` go
to `kStem`, `kLeaf`, `kRoot`, `kRhiz`) and the sixth block `coefs[20 .. 23]` when
there is none; `kGrain` is 0 whenever `TherTime < TherPrds[p]` for some `p` in
0..4, in particular whenever `TherTime < TherPrds[4]`, and is `coefs[24]` when
`TherTime` is below none of `TherPrds[0 .. 4]`. -/
theorem sel_dbp_coef_blocks (coefs TherPrds : Arr) (TherTime : Dbl) :
    (∀ p : ℕ, p ≤ 4 → TherTime < TherPrds p → (∀ j : ℕ, j < p → ¬ TherTime < TherPrds j) →
      sel_dbp_coef coefs TherPrds TherTime = specDbpBlock coefs p 0)
    ∧ ((∀ j : ℕ, j ≤ 4 → ¬ TherTime < TherPrds j) →
      sel_dbp_coef coefs TherPrds TherTime = specDbpBlock coefs 5 (coefs 24))
    ∧ ((∃ p : ℕ, p ≤ 4 ∧ TherTime < TherPrds p) →
      (sel_dbp_coef coefs TherPrds TherTime).kGrain = 0)
    ∧ (TherTime < TherPrds 4 → (sel_dbp_coef coefs TherPrds TherTime).kGrain = 0)
    ∧ ((∀ j : ℕ, j ≤ 4 → ¬ TherTime < TherPrds j) →
      (sel_dbp_coef coefs TherPrds TherTime).kGrain = coefs 24) := by
  have f := sel_dbp_coef_first coefs TherPrds TherTime
  have first : ∀ p : ℕ, p ≤ 4 → TherTime < TherPrds p →
      (∀ j : ℕ, j < p → ¬ TherTime < TherPrds j) →
      sel_dbp_coef coefs TherPrds TherTime = specDbpBlock coefs p 0 := by
    intro p hp hlt hj
    interval_cases p
    · exact f.1 hlt
    · exact f.2.1 (hj 0 (by norm_num)) hlt
    · exact f.2.2.1 (hj 0 (by norm_num)) (hj 1 (by norm_num)) hlt
    · exact f.2.2.2.1 (hj 0 (by norm_num)) (hj 1 (by norm_num)) (hj 2 (by norm_num)) hlt
    · exact f.2.2.2.2.1 (hj 0 (by norm_num)) (hj 1 (by norm_num)) (hj 2 (by norm_num))
        (hj 3 (by norm_num)) hlt
  have last : (∀ j : ℕ, j ≤ 4 → ¬ TherTime < TherPrds j) →
      sel_dbp_coef coefs TherPrds TherTime = specDbpBlock coefs 5 (coefs 24) := by
    intro hj
    exact f.2.2.2.2.2 (hj 0 (by norm_num)) (hj 1 (by norm_num)) (hj 2 (by norm_num))
      (hj 3 (by norm_num)) (hj 4 (by norm_num))
  have some : (∃ p : ℕ, p ≤ 4 ∧ TherTime < TherPrds p) →
      (sel_dbp_coef coefs TherPrds TherTime).kGrain = 0 := by
    intro hex
    have hdec : ∃ p : ℕ, (p ≤ 4 ∧ TherTime < TherPrds p) := hex
    let q := Nat.find hdec
    have hq : q ≤ 4 ∧ TherTime < TherPrds q := Nat.find_spec hdec
    have hmin : ∀ j : ℕ, j < q → ¬ TherTime < TherPrds j := by
      intro j hjq hlt
      exact Nat.find_min hdec hjq ⟨le_trans (le_of_lt hjq) hq.1, hlt⟩
    rw [first q hq.1 hq.2 hmin]
    exact Eq.refl _
  refine ⟨first, last, some, fun h => some ⟨4, le_refl _, h⟩, ?_⟩
  intro hj
  rw [last hj]
  exact Eq.refl _

/-- C33 (amended), for the thermal periods 100, 200, ..., 600 and
`coefs[i] = i`: at a thermal time of 250 the third block is selected,
`kStem = 8`, `kLeaf = 9`, `kRoot = 10`, `kRhiz = 11` and `kGrain = 0`. -/
theorem sel_dbp_coef_blocks_witness :
    sel_dbp_coef indexCoefs orderedPrds 250 = specDbpBlock indexCoefs 2 0
    ∧ specDbpBlock indexCoefs 2 0
      = { kStem := 8, kLeaf := 9, kRoot := 10, kRhiz := 11, kGrain := 0 } := by
  refine ⟨(sel_dbp_coef_blocks indexCoefs orderedPrds 250).1 2 (by norm_num) ?_ ?_, ?_⟩
  · simp only [orderedPrds, ofInt, ofNat_eq, fin_lt]
    norm_num
  · intro j hj
    interval_cases j
    · simp only [orderedPrds, ofInt, ofNat_eq, fin_lt]
      norm_num
    · simp only [orderedPrds, ofInt, ofNat_eq, fin_lt]
      norm_num
  · simp only [specDbpBlock, indexCoefs, ofInt, ofNat_eq, zero_eq, dbp_str.mk.injEq, fin.injEq]
    norm_num

/-- C33 (counterexample): for the thermal periods 100, 0, 0, 0, 0, 0 and a
thermal time of 50, `TherTime < TherPrds[4]` is false, yet the first block is
selected and `kGrain` is 0, not `coefs[24]` (which is 24 for `coefs[i] = i`). -/
theorem sel_dbp_coef_kGrain_unordered :
    ¬ ((50 : Dbl) < unorderedPrds 4)
    ∧ (sel_dbp_coef indexCoefs unorderedPrds 50).kGrain = 0
    ∧ indexCoefs 24 = 24
    ∧ (sel_dbp_coef indexCoefs unorderedPrds 50).kGrain ≠ indexCoefs 24 := by
  have h0 : (50 : Dbl) < unorderedPrds 0 := by
    simp only [unorderedPrds, if_true, ofNat_eq, fin_lt]
    norm_num
  have e : (sel_dbp_coef indexCoefs unorderedPrds 50).kGrain = 0 := by
    rw [(sel_dbp_coef_first indexCoefs unorderedPrds 50).1 h0]
    exact Eq.refl _
  have c : indexCoefs 24 = 24 := by
    simp only [indexCoefs, ofInt, ofNat_eq]
    norm_num
  refine ⟨?_, e, c, ?_⟩
  · have h4 : unorderedPrds 4 = 0 := Eq.refl _
    rw [h4, ofNat_eq, zero_eq, fin_lt]
    norm_num
  · rw [e, c, zero_eq, ofNat_eq]
    intro h
    have h2 := fin.inj h
    norm_num at h2

/-- For thermal periods in non-decreasing order `kGrain` is 0 whenever
`TherTime < TherPrds[4]` and `coefs[24]` otherwise. -/
theorem sel_dbp_coef_kGrain_ordered (coefs TherPrds : Arr) (TherTime : Dbl)
    (h01 : TherPrds 0 ≤ TherPrds 1) (h12 : TherPrds 1 ≤ TherPrds 2)
    (h23 : TherPrds 2 ≤ TherPrds 3) (h34 : TherPrds 3 ≤ TherPrds 4) :
    (sel_dbp_coef coefs TherPrds TherTime).kGrain
      = if TherTime < TherPrds 4 then 0 else coefs 24 := by
  have f := sel_dbp_coef_first coefs TherPrds TherTime
  by_cases h4 : TherTime < TherPrds 4
  · rw [if_pos h4]
    by_cases h0 : TherTime < TherPrds 0
    · rw [f.1 h0]; exact Eq.refl _
    by_cases h1 : TherTime < TherPrds 1
    · rw [f.2.1 h0 h1]; exact Eq.refl _
    by_cases h2 : TherTime < TherPrds 2
    · rw [f.2.2.1 h0 h1 h2]; exact Eq.refl _
    by_cases h3 : TherTime < TherPrds 3
    · rw [f.2.2.2.1 h0 h1 h2 h3]; exact Eq.refl _
    rw [f.2.2.2.2.1 h0 h1 h2 h3 h4]; exact Eq.refl _
  · rw [if_neg h4]
    have h3 : ¬ TherTime < TherPrds 3 := fun h => h4 (dbl_lt_of_lt_of_le _ _ _ h h34)
    have h2 : ¬ TherTime < TherPrds 2 := fun h => h3 (dbl_lt_of_lt_of_le _ _ _ h h23)
    have h1 : ¬ TherTime < TherPrds 1 := fun h => h2 (dbl_lt_of_lt_of_le _ _ _ h h12)
    have h0 : ¬ TherTime < TherPrds 0 := fun h => h1 (dbl_lt_of_lt_of_le _ _ _ h h01)
    rw [f.2.2.2.2.2 h0 h1 h2 h3 h4]
    exact Eq.refl _

/-! ## Layer thickness in `rootDist` and in `soilML` -/

theorem rootDistCum_adds_layerDepth (rootDepth : Dbl) (depthsp : Arr) (n : ℕ) :
    (rootDistCum rootDepth depthsp (n + 1)).1
      = (rootDistCum rootDepth depthsp n).1 + rootDist_layerDepth depthsp n :=
  Eq.refl _

theorem rootDistCum_depth (rootDepth : Dbl) (depthsp : Arr) (d : ℕ → ℚ)
    (hd : ∀ i : ℕ, depthsp i = fin (d i)) (n : ℕ) :
    (rootDistCum rootDepth depthsp (n + 1)).1 = fin (d 1 + d n - d 0) := by
  induction n with
  | zero =>
    rw [rootDistCum_adds_layerDepth]
    simp only [rootDistCum, rootDist_layerDepth, if_true, hd, zero_point_eq, fin_add]
    congr 1
    ring
  | succ n ih =>
    rw [rootDistCum_adds_layerDepth, ih]
    have e : n + 1 ≠ 0 := Nat.succ_ne_zero n
    simp only [rootDist_layerDepth, if_neg e, Nat.add_sub_cancel, hd, fin_sub, fin_add]
    congr 1
    ring

/-- An iteration of the layer loop of `soilML` reads the array `depths` only
through the thickness `depths[i+1] - depths[i]` of its layer. -/
theorem soilStep_reads_layerDepth (m : Libm) (transp : Dbl) (depths depths2 : Arr)
    (fieldc wiltp phi1 phi2 : Dbl) (soTexS : soilText_str) (wsFun layers : ℤ)
    (rootDB LAI k AirTemp IRad winds RelH : Dbl) (hydrDist : ℤ) (rsec waterIn : Dbl)
    (root_distribution : Arr) (i : ℕ) (s : SoilState)
    (h : soilML_layerDepth depths i = soilML_layerDepth depths2 i) :
    soilStep m transp depths fieldc wiltp phi1 phi2 soTexS wsFun layers rootDB LAI k AirTemp
        IRad winds RelH hydrDist rsec waterIn root_distribution i s
      = soilStep m transp depths2 fieldc wiltp phi1 phi2 soTexS wsFun layers rootDB LAI k AirTemp
        IRad winds RelH hydrDist rsec waterIn root_distribution i s := by
  simp only [soilML_layerDepth] at h
  simp only [soilStep, h]

/-- C35: the thickness `rootDist` uses, for depths that are numbers with
`depths[0] = 0`.  At layer 0 it is `depths[1]`, the thickness `soilML` uses.  At
a layer `n + 1` it is `depths[n+1] - depths[n]`, the thickness `soilML` uses
at layer `n`, not `depths[n+2] - depths[n+1]`; so the cumulative depth compared
with the rooting depth at layer `n + 1` is `depths[1] + depths[n+1]`, which is
`depths[n+2]` only when layer `n + 1` is as thick as layer 0. -/
theorem rootDist_layer_offset (rootDepth : Dbl) (depthsp : Arr) (d : ℕ → ℚ)
    (hd : ∀ i : ℕ, depthsp i = fin (d i)) (h0 : d 0 = 0) (n : ℕ) :
    rootDist_layerDepth depthsp 0 = soilML_layerDepth depthsp 0
    ∧ (rootDistCum rootDepth depthsp 1).1 = depthsp 1
    ∧ rootDist_layerDepth depthsp (n + 1) = soilML_layerDepth depthsp n
    ∧ (rootDistCum rootDepth depthsp (n + 2)).1 = fin (d 1 + d (n + 1))
    ∧ ((rootDistCum rootDepth depthsp (n + 2)).1 = depthsp (n + 2)
      ↔ d (n + 2) - d (n + 1) = d 1) := by
  have c := rootDistCum_depth rootDepth depthsp d hd (n + 1)
  rw [h0, sub_zero] at c
  have c0 := rootDistCum_depth rootDepth depthsp d hd 0
  rw [h0, sub_zero, add_zero] at c0
  refine ⟨?_, ?_, ?_, c, ?_⟩
  · simp only [rootDist_layerDepth, soilML_layerDepth, if_true, hd, fin_sub, h0, sub_zero,
      zero_add]
  · rw [hd]
    exact c0
  · have e : n + 1 ≠ 0 := Nat.succ_ne_zero n
    simp only [rootDist_layerDepth, soilML_layerDepth, if_neg e, Nat.add_sub_cancel]
  · rw [c, hd]
    constructor
    · intro h
      have h2 := fin.inj h
      linarith
    · intro h
      congr 1
      linarith

theorem unevenDepths_values :
    ∀ i : ℕ, unevenDepths i = fin ((fun j : ℕ => if j = 0 then (0 : ℚ) else if j = 1 then 0.2
      else 1.0) i) := by
  intro i
  by_cases h0 : i = 0
  · subst h0
    simp only [unevenDepths, if_true, zero_eq]
  · by_cases h1 : i = 1
    · subst h1
      simp only [unevenDepths, if_neg h0, if_true, ofScientific_eq]
    · simp only [unevenDepths, if_neg h0, if_neg h1, ofScientific_eq]

/-- C35, for the depths 0, 0.2, 1.0 and a rooting depth of 0.5: at layer 1
`rootDist` adds the thickness 0.2 of layer 0 where `soilML` uses 0.8, so the
cumulative depth it compares with the rooting depth is 0.4, not
`depths[2] = 1.0`, and the count `CumRootDist` is raised to 3 although the
roots end inside layer 1. -/
theorem rootDist_layer_offset_witness :
    rootDist_layerDepth unevenDepths 1 = soilML_layerDepth unevenDepths 0
    ∧ soilML_layerDepth unevenDepths 0 = fin 0.2
    ∧ soilML_layerDepth unevenDepths 1 = fin 0.8
    ∧ (rootDistCum 0.5 unevenDepths 2).1 = fin 0.4
    ∧ unevenDepths 2 = fin 1
    ∧ (rootDistCum 0.5 unevenDepths 2).1 ≠ unevenDepths 2
    ∧ (rootDistCum 0.5 unevenDepths 2).2 = fin 3 := by
  have t := rootDist_layer_offset 0.5 unevenDepths _ unevenDepths_values (Eq.refl _) 0
  have c : (rootDistCum 0.5 unevenDepths 2).1 = fin 0.4 := by
    rw [t.2.2.2.1]
    norm_num
  have u2 : unevenDepths 2 = fin 1 := by
    simp only [unevenDepths, ofScientific_eq]
    norm_num
  refine ⟨t.2.2.1, ?_, ?_, c, u2, ?_, ?_⟩
  · simp only [soilML_layerDepth, unevenDepths, ofScientific_eq, zero_eq, fin_sub]
    norm_num
  · simp only [soilML_layerDepth, unevenDepths, ofScientific_eq, zero_eq, fin_sub]
    norm_num
  · rw [c, u2]
    intro h
    have h2 := fin.inj h
    norm_num at h2
  · simp only [rootDistCum, unevenDepths, ofScientific_eq, zero_eq, one_eq, fin_sub, fin_add,
      fin_lt]
    norm_num

set_option maxRecDepth 100000 in
set_option maxHeartbeats 4000000 in
/-- The fraction of the roots that `rootDist` puts in layer 0 for the depths 0,
0.2, 1.0, a rooting depth of 0.5 and `rfl = 0.2`: 10/13, from the Poisson mean
`3 * 0.2`.  The count 2 of the thicknesses of `soilML` gives the mean `2 * 0.2`
and the fraction 5/6. -/
theorem rootDist_uneven_layers :
    rootDist refLibm 2 0.5 unevenDepths 0.2 0 = fin (10 / 13) := by
  simp only [rootDist, rootDistCum, rootDistCa, rootDistRaw, refLibm, Ref.dpois, ofInt_eq,
    unevenDepths, ofScientific_eq, ofNat_eq, zero_eq, one_eq, fin_add, fin_sub, fin_mul, fin_lt]
  have h2 : Int.toNat 2 = 2 := Eq.refl _
  norm_num [Ref.expQ, Ref.taylor4, fin_div, fin_add, fin_lt, fin_mul, h2, Nat.factorial]

/-! ## A first iteration of `c3photoC` that assigns no `Vc` -/

set_option maxRecDepth 100000 in
set_option maxHeartbeats 4000000 in
theorem idleLeaf_first_rates :
    c3Ac (c3Env refLibm 0 25 0.7 0 180 1 0.08 5 380 210 0.7 1 0 4.5 5.25)
        (c3Init.Ci_pa / atmospheric_pressure) = fin 0
    ∧ c3Aj (c3Env refLibm 0 25 0.7 0 180 1 0.08 5 380 210 0.7 1 0 4.5 5.25)
        (c3Init.Ci_pa / atmospheric_pressure) = fin 0
    ∧ c3Ap (c3Env refLibm 0 25 0.7 0 180 1 0.08 5 380 210 0.7 1 0 4.5 5.25)
        (c3Init.Ci_pa / atmospheric_pressure) = fin 0 := by
  simp only [c3Ac, c3Aj, c3Ap, c3Init, maximum_tpu_rate,
    c3Env, arrhenius_exponent, solo, refLibm, Ref.exp, Ref.pow, Ref.sqrt, atmospheric_pressure,
    ofNat_eq, ofScientific_eq, zero_eq, one_eq, fin_add, fin_mul, fin_sub, fin_lt, fin_le]
  norm_num [Ref.sqrtQ, fin_div, signedInf, Ref.expQ, Ref.taylor4]

/-- For a leaf with `Vcmax0 = 0` in the dark (`Qp = 0`, 25 degrees, `Ca = 380`):
in the first iteration `Ci = 0` and the three rates are all 0, so no branch of
the chain assigns `Vc`, which keeps the value it has on entry to the loop. -/
theorem idleLeaf_Vc_unassigned :
    (c3Step openStomata (c3Env refLibm 0 25 0.7 0 180 1 0.08 5 380 210 0.7 1 0 4.5 5.25)
      c3Init).Vc = c3Init.Vc := by
  have r := idleLeaf_first_rates
  rw [c3Step_Vc]
  apply selectVc_no_strict_minimum
  · rw [r.1, r.2.1]
    exact fun h => lt_irrefl (0 : ℚ) ((fin_lt _ _).1 h.1)
  · rw [r.1, r.2.1]
    exact fun h => lt_irrefl (0 : ℚ) ((fin_lt _ _).1 h.1)
  · rw [r.1, r.2.2]
    exact fun h => lt_irrefl (0 : ℚ) ((fin_lt _ _).1 h.1)

/-! ## Range of the cosine of the zenith angle -/

theorem radians_per_degree : M_PI / 180 = fin (3.14159265358979323846 / 180) := by
  simp only [M_PI, ofScientific_eq, ofNat_eq]
  rw [fin_div_of_ne _ _ (by norm_num)]

theorem cos_zenith_angle_value (m : Libm) (P : ℚ → ℚ → Prop) (l : ℚ) (doy hr : ℤ)
    (htrig : ∀ x : ℚ, ∃ s c : ℚ, m.sin (fin x) = fin s ∧ m.cos (fin x) = fin c ∧ P s c) :
    ∃ sd cd sp cp st ct : ℚ, P sd cd ∧ P sp cp ∧ P st ct
      ∧ cos_zenith_angle m (fin l) doy hr = fin (sd * sp + cd * cp * ct) := by
  have hw : ∃ w : ℚ, 360.0 * (ofInt (doy + 10) / 365.0) * (M_PI / 180) = fin w := by
    rw [radians_per_degree]
    simp only [ofInt_eq, ofScientific_eq, fin_mul]
    rw [fin_div_of_ne _ _ (by norm_num)]
    exact ⟨_, Eq.refl _⟩
  obtain ⟨w, hw⟩ := hw
  obtain ⟨sw, cw, -, hcw, -⟩ := htrig w
  have hdel : ∃ dl : ℚ, (-(23.5 * (M_PI / 180))) * m.cos (fin w) = fin dl := by
    rw [radians_per_degree, hcw]
    simp only [ofScientific_eq, fin_mul, fin_neg]
    exact ⟨_, Eq.refl _⟩
  obtain ⟨dl, hdl⟩ := hdel
  have hphi : ∃ ph : ℚ, fin l * (M_PI / 180) = fin ph := by
    rw [radians_per_degree, fin_mul]
    exact ⟨_, Eq.refl _⟩
  obtain ⟨ph, hph⟩ := hphi
  have htau : ∃ ta : ℚ, ofInt (hr - 12) * (15 * (M_PI / 180)) = fin ta := by
    rw [radians_per_degree]
    simp only [ofInt_eq, ofNat_eq, fin_mul]
    exact ⟨_, Eq.refl _⟩
  obtain ⟨ta, hta⟩ := htau
  obtain ⟨sd, cd, hsd, hcd, pd⟩ := htrig dl
  obtain ⟨sp, cp, hsp, hcp, pp⟩ := htrig ph
  obtain ⟨st, ct, -, hct, pt⟩ := htrig ta
  refine ⟨sd, cd, sp, cp, st, ct, pd, pp, pt, ?_⟩
  simp only [cos_zenith_angle, hw, hdl, hph, hta, hsd, hcd, hsp, hcp, hct, fin_mul, fin_add]

theorem zenith_unit_bound (sd cd sp cp st ct : ℚ) (hd : sd ^ 2 + cd ^ 2 ≤ 1)
    (hp : sp ^ 2 + cp ^ 2 ≤ 1) (ht : st ^ 2 + ct ^ 2 ≤ 1) :
    -1 ≤ sd * sp + cd * cp * ct ∧ sd * sp + cd * cp * ct ≤ 1 := by
  have hct : ct ^ 2 ≤ 1 := by nlinarith [sq_nonneg st]
  have h1 : (sd * sp + cd * (cp * ct)) ^ 2 ≤ (sd ^ 2 + cd ^ 2) * (sp ^ 2 + (cp * ct) ^ 2) := by
    nlinarith [sq_nonneg (sd * (cp * ct) - cd * sp)]
  have h2 : sp ^ 2 + (cp * ct) ^ 2 ≤ 1 := by
    have : (cp * ct) ^ 2 ≤ cp ^ 2 := by
      rw [mul_pow]
      nlinarith [sq_nonneg cp]
    linarith
  have h3 : (sd ^ 2 + cd ^ 2) * (sp ^ 2 + (cp * ct) ^ 2) ≤ 1 := by
    have a0 : 0 ≤ sd ^ 2 + cd ^ 2 := by positivity
    have b0 : 0 ≤ sp ^ 2 + (cp * ct) ^ 2 := by positivity
    nlinarith
  have h4 : (sd * sp + cd * cp * ct) ^ 2 ≤ 1 := by
    have e : sd * sp + cd * cp * ct = sd * sp + cd * (cp * ct) := by ring
    rw [e]
    linarith
  constructor <;> nlinarith

/-- In exact arithmetic, for a latitude that is a number and over a library
whose sine and cosine of a number are numbers on the unit disc
(`sin x ^ 2 + cos x ^ 2 ≤ 1`), the formula of `cos_zenith_angle` gives a value
in `[-1, 1]`, and a positive value passes the test `cosTheta ≤ 1` of `sunML`.
The products and the sum are exact here; the rounded evaluation is
`cos_zenith_angle_rn`. -/
theorem cos_zenith_angle_exact_range (m : Libm) (l : ℚ) (day_of_year hour_of_day : ℤ)
    (htrig : ∀ x : ℚ, ∃ s c : ℚ, m.sin (fin x) = fin s ∧ m.cos (fin x) = fin c
      ∧ s ^ 2 + c ^ 2 ≤ 1) :
    -1 ≤ cos_zenith_angle m (fin l) day_of_year hour_of_day
    ∧ cos_zenith_angle m (fin l) day_of_year hour_of_day ≤ 1
    ∧ (0 < cos_zenith_angle m (fin l) day_of_year hour_of_day →
      ¬ (1 < cos_zenith_angle m (fin l) day_of_year hour_of_day
        ∨ cos_zenith_angle m (fin l) day_of_year hour_of_day ≤ 0)
      ∧ ∀ (Idir Idiff LAI : Dbl) (nlayers : ℤ) (kd chil heightf : Dbl),
        1 ≤ nlayers → nlayers ≤ 200 →
        ∃ p, sunML m Idir Idiff LAI nlayers
          (cos_zenith_angle m (fin l) day_of_year hour_of_day) kd chil heightf
          = Except.ok p) := by
  obtain ⟨sd, cd, sp, cp, st, ct, pd, pp, pt, e⟩ :=
    cos_zenith_angle_value m (fun s c => s ^ 2 + c ^ 2 ≤ 1) l day_of_year hour_of_day htrig
  have b := zenith_unit_bound sd cd sp cp st ct pd pp pt
  rw [e]
  have hle : fin (sd * sp + cd * cp * ct) ≤ 1 := (fin_le_one _).2 b.2
  refine ⟨?_, hle, ?_⟩
  · show fin (-1) ≤ fin (sd * sp + cd * cp * ct)
    exact (fin_le _ _).2 b.1
  · intro hpos
    refine ⟨?_, ?_⟩
    · rintro (h | h)
      · exact absurd b.2 (not_le.mpr ((fin_lt _ _).1 (by rw [one_eq] at h; exact h)))
      · exact absurd ((zero_lt_fin _).1 hpos)
          (not_lt.mpr ((fin_le _ _).1 (by rw [zero_eq] at h; exact h)))
    · intro Idir Idiff LAI nlayers kd chil heightf h1 h2
      exact ⟨_, sunML_eq_ok m Idir Idiff LAI nlayers _ kd chil heightf h1 h2 hpos hle⟩

/-! ## Irradiance fractions of `lightME` -/

theorem pressure_ratio_over (c : ℚ) (hc : 0 < c) : (1e5 : Dbl) / 1e5 / fin c = fin (1 / c) := by
  simp only [ofScientific_eq]
  rw [fin_div_of_ne _ _ (by norm_num), fin_div_of_ne _ _ (ne_of_gt hc)]
  congr 1
  norm_num

theorem lightME_at (m : Libm) (latitude : Dbl) (doy hr : ℤ) (c : ℚ)
    (hc : cos_zenith_angle m latitude doy hr = fin c)
    (hpow : ∀ y : ℚ, 0 < y → ∃ p : ℚ, 0 ≤ p ∧ p ≤ 1 ∧ m.pow 0.85 (fin y) = fin p) :
    ∃ a b : ℚ, (lightME m latitude doy hr).direct_irradiance_fraction = fin a
      ∧ (lightME m latitude doy hr).diffuse_irradiance_fraction = fin b
      ∧ 0 ≤ a ∧ 0 ≤ b ∧ a + b = 1 ∧ (c ≤ 0 → a = 0 ∧ b = 1) := by
  by_cases h : c ≤ 0
  · have h2 : fin c ≤ fin 0 := (fin_le _ _).2 h
    refine ⟨0, 1, ?_, ?_, le_refl _, zero_le_one, by norm_num, fun _ => ⟨Eq.refl _, Eq.refl _⟩⟩
    · simp only [lightME, hc, zero_eq, one_eq, if_pos h2, fin_add]
      rw [fin_div_of_ne _ _ (by norm_num)]
      congr 1
      norm_num
    · simp only [lightME, hc, zero_eq, one_eq, if_pos h2, fin_add]
      rw [fin_div_of_ne _ _ (by norm_num)]
      congr 1
      norm_num
  · have hpos : 0 < c := not_le.mp h
    obtain ⟨p, hp0, hp1, hpw⟩ := hpow (1 / c) (by positivity)
    have hd : 0 ≤ 0.3 * (1 - p) * c := by
      have : 0 ≤ 1 - p := by linarith
      positivity
    have hS : 0 < p + 0.3 * (1 - p) * c := by
      rcases eq_or_lt_of_le hp0 with h0 | h0
      · rw [← h0]
        norm_num
        exact hpos
      · linarith
    have h2 : ¬ (fin c ≤ (0 : Dbl)) := by rw [zero_eq]; exact h
    have eD : (lightME m latitude doy hr).direct_irradiance_fraction
        = fin (p / (p + 0.3 * (1 - p) * c)) := by
      simp only [lightME, hc, if_neg h2]
      rw [pressure_ratio_over c hpos, hpw]
      simp only [ofScientific_eq, one_eq, fin_sub, fin_mul, fin_add]
      rw [fin_div_of_ne _ _ (ne_of_gt hS)]
    have eF : (lightME m latitude doy hr).diffuse_irradiance_fraction
        = fin (0.3 * (1 - p) * c / (p + 0.3 * (1 - p) * c)) := by
      simp only [lightME, hc, if_neg h2]
      rw [pressure_ratio_over c hpos, hpw]
      simp only [ofScientific_eq, one_eq, fin_sub, fin_mul, fin_add]
      rw [fin_div_of_ne _ _ (ne_of_gt hS)]
    refine ⟨_, _, eD, eF, div_nonneg hp0 (le_of_lt hS), div_nonneg hd (le_of_lt hS), ?_,
      fun hle => absurd hle h⟩
    rw [← add_div, div_self (ne_of_gt hS)]

/-- C38: for every latitude that is a number, every day of year and every
hour, over a library whose sine and cosine of a number are numbers and whose
`pow(0.85, y)` is a number in `[0, 1]` for a positive `y`: the direct and the
diffuse irradiance fraction that `lightME` returns are both in `[0, 1]` and sum
to 1, and they are exactly 0 and 1 when the cosine of the zenith angle is not
positive. -/
theorem lightME_fractions (m : Libm) (l : ℚ) (day_of_year hour_of_day : ℤ)
    (htrig : ∀ x : ℚ, (m.sin (fin x)).Finite ∧ (m.cos (fin x)).Finite)
    (hpow : ∀ y : ℚ, 0 < y → ∃ p : ℚ, 0 ≤ p ∧ p ≤ 1 ∧ m.pow 0.85 (fin y) = fin p) :
    0 ≤ (lightME m (fin l) day_of_year hour_of_day).direct_irradiance_fraction
    ∧ (lightME m (fin l) day_of_year hour_of_day).direct_irradiance_fraction ≤ 1
    ∧ 0 ≤ (lightME m (fin l) day_of_year hour_of_day).diffuse_irradiance_fraction
    ∧ (lightME m (fin l) day_of_year hour_of_day).diffuse_irradiance_fraction ≤ 1
    ∧ (lightME m (fin l) day_of_year hour_of_day).direct_irradiance_fraction
        + (lightME m (fin l) day_of_year hour_of_day).diffuse_irradiance_fraction = 1
    ∧ (cos_zenith_angle m (fin l) day_of_year hour_of_day ≤ 0 →
      (lightME m (fin l) day_of_year hour_of_day).direct_irradiance_fraction = 0
      ∧ (lightME m (fin l) day_of_year hour_of_day).diffuse_irradiance_fraction = 1) := by
  have ht : ∀ x : ℚ, ∃ s c : ℚ, m.sin (fin x) = fin s ∧ m.cos (fin x) = fin c ∧ True := by
    intro x
    obtain ⟨s, hs⟩ := (finite_iff _).1 (htrig x).1
    obtain ⟨c, hc⟩ := (finite_iff _).1 (htrig x).2
    exact ⟨s, c, hs, hc, trivial⟩
  obtain ⟨sd, cd, sp, cp, st, ct, -, -, -, e⟩ :=
    cos_zenith_angle_value m (fun _ _ => True) l day_of_year hour_of_day ht
  obtain ⟨a, b, ha, hb, a0, b0, hab, hz⟩ :=
    lightME_at m (fin l) day_of_year hour_of_day _ e hpow
  rw [ha, hb, e]
  have a1 : a ≤ 1 := by linarith
  have b1 : b ≤ 1 := by linarith
  refine ⟨?_, (fin_le_one _).2 a1, ?_, (fin_le_one _).2 b1, ?_, ?_⟩
  · rw [zero_eq]; exact (fin_le _ _).2 a0
  · rw [zero_eq]; exact (fin_le _ _).2 b0
  · rw [fin_add, hab, one_eq]
  · intro hle
    have hle2 : sd * sp + cd * cp * ct ≤ 0 := by
      rw [zero_eq] at hle
      exact (fin_le _ _).1 hle
    rw [(hz hle2).1, (hz hle2).2, zero_eq, one_eq]
    exact ⟨Eq.refl _, Eq.refl _⟩

theorem taylor4_ge_one (x : ℚ) (h : 0 ≤ x) : 1 ≤ Ref.taylor4 x := by
  unfold Ref.taylor4
  have h2 : 0 ≤ x ^ 2 / 2 := by positivity
  have h3 : 0 ≤ x ^ 3 / 6 := by positivity
  have h4 : 0 ≤ x ^ 4 / 24 := by positivity
  linarith

theorem expQ_ge_one (x : ℚ) (h : 0 ≤ x) : 1 ≤ Ref.expQ x := by
  unfold Ref.expQ
  exact one_le_pow₀ (taylor4_ge_one _ (by positivity))

theorem expSym_unit (x : ℚ) (h : x < 0) : 0 ≤ Ref.expSym x ∧ Ref.expSym x ≤ 1 := by
  have e : 1 ≤ Ref.expQ (-x) := expQ_ge_one _ (by linarith)
  have p : 0 < Ref.expQ (-x) := by linarith
  simp only [Ref.expSym, if_pos h]
  exact ⟨by positivity, by rw [div_le_one p]; exact e⟩

theorem lnQ_transmittance : Ref.lnQ 0.85 < 0 := by
  norm_num [Ref.lnQ, Ref.halve, Ref.logQ]

theorem circleLibm_pow_unit (y : ℚ) (hy : 0 < y) :
    ∃ p : ℚ, 0 ≤ p ∧ p ≤ 1 ∧ circleLibm.pow 0.85 (fin y) = fin p := by
  have hx : y * Ref.lnQ 0.85 < 0 := mul_neg_of_pos_of_neg hy lnQ_transmittance
  have hb : (0 : ℚ) < 0.85 := by norm_num
  refine ⟨Ref.expSym (y * Ref.lnQ 0.85), (expSym_unit _ hx).1, (expSym_unit _ hx).2, ?_⟩
  show Ref.powLn (fin 0.85) (fin y) = _
  simp only [Ref.powLn, if_pos hb]

theorem circleLibm_finite (x : ℚ) :
    (circleLibm.sin (fin x)).Finite ∧ (circleLibm.cos (fin x)).Finite :=
  ⟨trivial, trivial⟩

/-- C38, for latitude 40 degrees, day of year 172 and hour 12, over the
library instance `circleLibm`: the two fractions are in `[0, 1]` and sum to 1. -/
theorem lightME_fractions_witness :
    0 ≤ (lightME circleLibm (fin 40) 172 12).direct_irradiance_fraction
    ∧ (lightME circleLibm (fin 40) 172 12).direct_irradiance_fraction ≤ 1
    ∧ 0 ≤ (lightME circleLibm (fin 40) 172 12).diffuse_irradiance_fraction
    ∧ (lightME circleLibm (fin 40) 172 12).diffuse_irradiance_fraction ≤ 1
    ∧ (lightME circleLibm (fin 40) 172 12).direct_irradiance_fraction
        + (lightME circleLibm (fin 40) 172 12).diffuse_irradiance_fraction = 1 :=
  ⟨(lightME_fractions circleLibm 40 172 12 circleLibm_finite circleLibm_pow_unit).1,
    (lightME_fractions circleLibm 40 172 12 circleLibm_finite circleLibm_pow_unit).2.1,
    (lightME_fractions circleLibm 40 172 12 circleLibm_finite circleLibm_pow_unit).2.2.1,
    (lightME_fractions circleLibm 40 172 12 circleLibm_finite circleLibm_pow_unit).2.2.2.1,
    (lightME_fractions circleLibm 40 172 12 circleLibm_finite circleLibm_pow_unit).2.2.2.2.1⟩

/-! ## The error branches of `EvapoTrans` after the humidity check -/

theorem fmax_floor_cases (a : ℚ) (x : Dbl) :
    (∃ w : ℚ, a ≤ w ∧ fmax (fin a) x = fin w) ∨ fmax (fin a) x = pinf := by
  cases x with
  | nan => exact Or.inl ⟨a, le_refl _, Eq.refl _⟩
  | pinf => exact Or.inr (Eq.refl _)
  | ninf => exact Or.inl ⟨a, le_refl _, Eq.refl _⟩
  | fin q =>
    by_cases h : a < q
    · exact Or.inl ⟨q, le_of_lt h, by simp only [fmax, fin_lt, if_pos h]⟩
    · exact Or.inl ⟨a, le_refl _, by simp only [fmax, fin_lt, if_neg h]⟩

theorem fmax_floor_le (a b : ℚ) (hab : a ≤ b) (x : Dbl) (hx : x ≤ fin b) :
    ∃ w : ℚ, a ≤ w ∧ w ≤ b ∧ fmax (fin a) x = fin w := by
  cases x with
  | nan => exact absurd hx (fun h => h)
  | pinf => exact absurd hx (fun h => h)
  | ninf => exact ⟨a, le_refl _, hab, Eq.refl _⟩
  | fin q =>
    by_cases h : a < q
    · exact ⟨q, le_of_lt h, (fin_le _ _).1 hx, by simp only [fmax, fin_lt, if_pos h]⟩
    · exact ⟨a, le_refl _, hab, by simp only [fmax, fin_lt, if_neg h]⟩

theorem SWVC_not_negative (m : Libm) (airTemp : Dbl)
    (hexp : ∀ x : Dbl, m.exp x = nan ∨ 0 ≤ m.exp x) :
    ¬ (TempToSWVC m airTemp * 1e-3 < 0) := by
  simp only [TempToSWVC]
  rcases hexp ((18.678 - airTemp / 234.5) * airTemp / (257.14 + airTemp)) with h | h
  · rw [h]
    exact fun h2 => h2
  · generalize m.exp ((18.678 - airTemp / 234.5) * airTemp / (257.14 + airTemp)) = E at h
    cases E with
    | nan => exact fun h2 => h2
    | ninf => exact absurd h (fun h2 => h2)
    | pinf =>
      simp only [ofScientific_eq, zero_eq, fin_mul_pinf, signedInf]
      norm_num
      simp only [pinf_mul_fin, signedInf]
      norm_num
    | fin e =>
      have he : 0 ≤ e := by
        rw [zero_eq] at h
        exact (fin_le _ _).1 h
      simp only [ofScientific_eq, zero_eq, fin_mul, fin_lt, not_lt]
      positivity

theorem SWVP_never_negative (m : Libm) (airTemp : Dbl)
    (hexp : ∀ x : Dbl, m.exp x = nan ∨ 0 ≤ m.exp x) :
    TempToSWVC m airTemp = nan ∨ 0 ≤ TempToSWVC m airTemp := by
  simp only [TempToSWVC]
  rcases hexp ((18.678 - airTemp / 234.5) * airTemp / (257.14 + airTemp)) with h | h
  · rw [h]
    exact Or.inl (Eq.refl _)
  · generalize m.exp ((18.678 - airTemp / 234.5) * airTemp / (257.14 + airTemp)) = E at h
    cases E with
    | nan => exact Or.inl (Eq.refl _)
    | ninf => exact absurd h (fun h2 => h2)
    | pinf =>
      right
      simp only [ofScientific_eq, zero_eq, fin_mul_pinf, signedInf]
      norm_num
    | fin e =>
      right
      have he : 0 ≤ e := by
        rw [zero_eq] at h
        exact (fin_le _ _).1 h
      simp only [ofScientific_eq, zero_eq, fin_mul, fin_le]
      positivity

theorem ga_log_arguments (h : ℚ) (h1 : 0.1 ≤ h) (h2 : h ≤ 6.4) :
    (5 + 0.026 * fin h - 0.77 * fin h) / (0.026 * fin h)
        = fin ((5 + 0.026 * h - 0.77 * h) / (0.026 * h))
      ∧ (5 + 0.13 * fin h - 0.77 * fin h) / (0.13 * fin h)
        = fin ((5 + 0.13 * h - 0.77 * h) / (0.13 * h))
      ∧ 1 < (5 + 0.026 * h - 0.77 * h) / (0.026 * h)
      ∧ 1 < (5 + 0.13 * h - 0.77 * h) / (0.13 * h) := by
  have hp : 0 < h := by linarith
  have z1 : (0.026 : ℚ) * h ≠ 0 := by positivity
  have z2 : (0.13 : ℚ) * h ≠ 0 := by positivity
  refine ⟨?_, ?_, ?_, ?_⟩
  · simp only [ofNat_eq, ofScientific_eq, fin_mul, fin_add, fin_sub]
    rw [fin_div_of_ne _ _ z1]
  · simp only [ofNat_eq, ofScientific_eq, fin_mul, fin_add, fin_sub]
    rw [fin_div_of_ne _ _ z2]
  · rw [lt_div_iff₀ (by positivity)]
    linarith
  · rw [lt_div_iff₀ (by positivity)]
    linarith

theorem ga_positive (m : Libm) (WindSpeed CanopyHeight : Dbl) (hCH : CanopyHeight ≤ 6.4)
    (hlog : ∀ q : ℚ, 1 < q → ∃ l : ℚ, 0 < l ∧ m.log (fin q) = fin l)
    (hpow : ∃ k : ℚ, 0 < k ∧ m.pow 0.41 2 = fin k) :
    ∃ h : ℚ, fmax 0.1 CanopyHeight = fin h
      ∧ 0 < m.log ((5 + 0.026 * fin h - 0.77 * fin h) / (0.026 * fin h))
      ∧ 0 < m.log ((5 + 0.13 * fin h - 0.77 * fin h) / (0.13 * fin h))
      ∧ 0 < EvapoTrans_ga m (fmax 0.5 WindSpeed) (fmax 0.1 CanopyHeight) := by
  obtain ⟨h, h1, h2, eh⟩ := fmax_floor_le 0.1 6.4 (by norm_num) CanopyHeight hCH
  obtain ⟨a1, a2, b1, b2⟩ := ga_log_arguments h h1 h2
  obtain ⟨l1, p1, e1⟩ := hlog _ b1
  obtain ⟨l2, p2, e2⟩ := hlog _ b2
  obtain ⟨k, pk, ek⟩ := hpow
  have eh2 : fmax 0.1 CanopyHeight = fin h := eh
  have hl : l1 * l2 ≠ 0 := by positivity
  refine ⟨h, eh2, ?_, ?_, ?_⟩
  · rw [a1, e1]
    exact (zero_lt_fin _).2 p1
  · rw [a2, e2]
    exact (zero_lt_fin _).2 p2
  · simp only [EvapoTrans_ga]
    rw [eh2, a1, a2, e1, e2, ek, fin_mul]
    have hW : (∃ w : ℚ, 0.5 ≤ w ∧ fmax 0.5 WindSpeed = fin w) ∨ fmax 0.5 WindSpeed = pinf :=
      fmax_floor_cases 0.5 WindSpeed
    rcases hW with ⟨w, hw, ew⟩ | ew
    · rw [ew, fin_mul, fin_div_of_ne _ _ hl, zero_lt_fin]
      have : 0 < w := by linarith
      positivity
    · rw [ew, fin_mul_pinf]
      simp only [signedInf, if_pos pk]
      show (0 : Dbl) < Dbl.div pinf (fin (l1 * l2))
      have hle : (0 : ℚ) ≤ l1 * l2 := by positivity
      simp only [Dbl.div, if_pos hle]
      exact trivial

/-- C37 (amended): for every input of `EvapoTrans` with `RH ≤ 1` and a canopy
height of at most 6.4, over a library whose `exp` is never negative, whose
`log` is a positive number above 1 and whose `pow(0.41, 2)` is a positive
number: neither the `SWVC < 0` nor the `ga is less than zero` error branch is
reached and `EvapoTrans` returns a result.  The saturation vapour pressure
`6.1121 * exp(...)` is never negative (it can be 0); the two logarithm factors
of `ga` are both positive, so `ga > 0`. -/
theorem EvapoTrans_late_errors_unreachable (m : Libm)
    (c4photoC_Gs : Dbl → Dbl → Dbl → Dbl → Dbl → Dbl → Dbl → Dbl → Dbl → Dbl → Dbl → Dbl → Dbl →
      ℤ → Dbl → Dbl → Dbl)
    (Rad Itot airTemp RH WindSpeed LeafAreaIndex CanopyHeight StomataWS : Dbl) (ws : ℤ)
    (vmax2 alpha2 kparm theta beta Rd2 b02 b12 upperT lowerT Catm : Dbl)
    (hRH : RH ≤ 1) (hCH : CanopyHeight ≤ 6.4)
    (hexp : ∀ x : Dbl, m.exp x = nan ∨ 0 ≤ m.exp x)
    (hlog : ∀ q : ℚ, 1 < q → ∃ l : ℚ, 0 < l ∧ m.log (fin q) = fin l)
    (hpow : ∃ k : ℚ, 0 < k ∧ m.pow 0.41 2 = fin k) :
    ¬ (TempToSWVC m airTemp * 1e-3 < 0)
    ∧ ¬ (EvapoTrans_ga m (fmax 0.5 WindSpeed) (fmax 0.1 CanopyHeight) < 0)
    ∧ (∃ r, EvapoTrans m c4photoC_Gs Rad Itot airTemp RH WindSpeed LeafAreaIndex CanopyHeight
        StomataWS ws vmax2 alpha2 kparm theta beta Rd2 b02 b12 upperT lowerT Catm = .ok r)
    ∧ (TempToSWVC m airTemp = nan ∨ 0 ≤ TempToSWVC m airTemp)
    ∧ (∃ h : ℚ, fmax 0.1 CanopyHeight = fin h
      ∧ 0 < m.log ((5 + 0.026 * fin h - 0.77 * fin h) / (0.026 * fin h))
      ∧ 0 < m.log ((5 + 0.13 * fin h - 0.77 * fin h) / (0.13 * fin h)))
    ∧ 0 < EvapoTrans_ga m (fmax 0.5 WindSpeed) (fmax 0.1 CanopyHeight) := by
  obtain ⟨h, eh, g1, g2, gpos⟩ := ga_positive m WindSpeed CanopyHeight hCH hlog hpow
  have c1 : ¬ (100 < RH * 100) := by
    rw [humidity_check_iff]
    exact fun hlt => dbl_not_le_of_lt _ _ hlt hRH
  have c2 := SWVC_not_negative m airTemp hexp
  have c3 : ¬ (EvapoTrans_ga m (fmax 0.5 WindSpeed) (fmax 0.1 CanopyHeight) < 0) :=
    dbl_lt_asymm _ _ gpos
  exact ⟨c2, c3, ⟨_, EvapoTrans_of_checks m c4photoC_Gs Rad Itot airTemp RH WindSpeed
    LeafAreaIndex CanopyHeight StomataWS ws vmax2 alpha2 kparm theta beta Rd2 b02 b12 upperT
    lowerT Catm c1 c2 c3⟩, SWVP_never_negative m airTemp hexp, ⟨h, eh, g1, g2⟩, gpos⟩

theorem halve_gt_one (n : ℕ) : ∀ x : ℚ, 1 < x → 1 < (Ref.halve n x).1 := by
  induction n with
  | zero => intro x hx; exact hx
  | succ n ih =>
    intro x hx
    by_cases h : 2 < x
    · simp only [Ref.halve, if_pos h]
      exact ih (x / 2) (by linarith)
    · simp only [Ref.halve, if_neg h]
      exact hx

theorem logQ_pos (y : ℚ) (hy : 1 < y) : 0 < Ref.logQ y := by
  have hz : 0 < (y - 1) / (y + 1) := div_pos (by linarith) (by linarith)
  simp only [Ref.logQ]
  positivity

theorem lnQ_pos (x : ℚ) (hx : 1 < x) : 0 < Ref.lnQ x := by
  have h1 : 1 ≤ x := le_of_lt hx
  simp only [Ref.lnQ, if_pos h1]
  have a : 0 < Ref.logQ (Ref.halve 64 x).1 := logQ_pos _ (halve_gt_one 64 x hx)
  have b : 0 < Ref.logQ 2 := logQ_pos 2 (by norm_num)
  have c : (0 : ℚ) ≤ ((Ref.halve 64 x).2 : ℚ) := Nat.cast_nonneg _
  have d : 0 ≤ ((Ref.halve 64 x).2 : ℚ) * Ref.logQ 2 := mul_nonneg c (le_of_lt b)
  linarith

theorem refLibm_exp_sign (x : Dbl) : refLibm.exp x = nan ∨ 0 ≤ refLibm.exp x := by
  cases x with
  | nan => exact Or.inl (Eq.refl _)
  | pinf => exact Or.inr trivial
  | ninf => exact Or.inr (by show (0 : Dbl) ≤ fin 0; rw [zero_eq]; exact le_refl (0 : ℚ))
  | fin q =>
    right
    show (0 : Dbl) ≤ fin (Ref.expQ q)
    rw [zero_eq]
    exact (fin_le _ _).2 (le_of_lt (expQ_pos q))

theorem refLibm_log_pos (q : ℚ) (hq : 1 < q) :
    ∃ l : ℚ, 0 < l ∧ refLibm.log (fin q) = fin l :=
  ⟨Ref.lnQ q, lnQ_pos q hq, Ref_log_of_pos q (by linarith)⟩

theorem refLibm_pow_kappa : ∃ k : ℚ, 0 < k ∧ refLibm.pow 0.41 2 = fin k := by
  refine ⟨0.41 ^ 2, by norm_num, ?_⟩
  simp only [refLibm, Ref.pow, ofScientific_eq, ofNat_eq]
  norm_num

/-- C37 (amended), for an air temperature of 25 degrees, `RH = 0.7`, a wind
speed of 2 and a canopy height of 1, over the reference library: neither check
fails and `EvapoTrans` returns a result. -/
theorem EvapoTrans_late_errors_unreachable_witness :
    ¬ (TempToSWVC refLibm 25 * 1e-3 < 0)
    ∧ ¬ (EvapoTrans_ga refLibm (fmax 0.5 2) (fmax 0.1 1) < 0)
    ∧ (∃ r, EvapoTrans refLibm (fun _ _ _ _ _ _ _ _ _ _ _ _ _ _ _ _ => 10)
        500 500 25 0.7 2 3 1 1 0 39 0.04 0.7 0.83 0.93 0.8 0.08 3 37.5 3 380 = .ok r) := by
  have hRH : (0.7 : Dbl) ≤ 1 := by
    rw [ofScientific_eq, fin_le_one]
    norm_num
  have hCH : (1 : Dbl) ≤ 6.4 := by
    rw [one_eq, ofScientific_eq, fin_le]
    norm_num
  have t := EvapoTrans_late_errors_unreachable refLibm (fun _ _ _ _ _ _ _ _ _ _ _ _ _ _ _ _ => 10)
    500 500 25 0.7 2 3 1 1 0 39 0.04 0.7 0.83 0.93 0.8 0.08 3 37.5 3 380 hRH hCH
    refLibm_exp_sign refLibm_log_pos refLibm_pow_kappa
  exact ⟨t.1, t.2.1, t.2.2.1⟩

/-- C37 (counterexample): at an air temperature of -257.14 the divisor
`257.14 + Temp` of the exponent is 0, the exponent is minus infinity, `exp`
gives 0 and the saturation vapour pressure `6.1121 * exp(...)` is 0, not
strictly positive. -/
theorem SWVP_zero_at_pole :
    TempToSWVC refLibm (-257.14) = 0 ∧ ¬ (0 < TempToSWVC refLibm (-257.14)) := by
  have e : TempToSWVC refLibm (-257.14) = 0 := by
    simp only [TempToSWVC, ofScientific_eq, fin_neg, fin_mul, fin_sub, fin_add, zero_eq]
    norm_num [fin_div, signedInf, refLibm, Ref.exp]
  refine ⟨e, ?_⟩
  rw [e]
  exact dbl_lt_irrefl 0

/-! ## Soil water potential of `watstr` -/

theorem rootDistRaw_nonneg (m : Libm) (c r : ℚ) (hc : 1 ≤ c) (hr : 0 < r)
    (hdpois : ∀ (n : ℕ) (l : ℚ), 0 < l →
      ∃ q : ℚ, 0 ≤ q ∧ m.dpois (ofInt ((n : ℤ) + 1)) (fin l) = fin q)
    (j : ℕ) :
    ∃ a : ℚ, 0 ≤ a ∧ rootDistRaw m (fin c) (fin r) j = fin a := by
  have hl : 0 < c * r := mul_pos (by linarith) hr
  obtain ⟨q, hq, hd⟩ := hdpois j (c * r) hl
  by_cases h : ofInt (j : ℤ) < fin c
  · refine ⟨q, hq, ?_⟩
    simp only [rootDistRaw, if_pos h, fin_mul]
    exact hd
  · exact ⟨0, le_refl _, by simp only [rootDistRaw, if_neg h, zero_eq]⟩

theorem rootDist_partial_sums (m : Libm) (c r : ℚ) (hc : 1 ≤ c) (hr : 0 < r)
    (hdpois : ∀ (n : ℕ) (l : ℚ), 0 < l →
      ∃ q : ℚ, 0 ≤ q ∧ m.dpois (ofInt ((n : ℤ) + 1)) (fin l) = fin q)
    (N : ℕ) (T : ℚ) (hT : T ≠ 0) (n : ℕ) (hn : n ≤ N) :
    ∃ S : ℚ, 0 ≤ S ∧ rootDistCa m (fin c) (fin r) n = fin S
      ∧ (S = 0 → ∀ k : ℕ, k < n → rootDistRaw m (fin c) (fin r) k = fin 0)
      ∧ sumFirst (fun k => if k < N then rootDistRaw m (fin c) (fin r) k / fin T else 0) n
        = fin (S / T) := by
  induction n with
  | zero =>
    refine ⟨0, le_refl _, ?_, fun _ k hk => absurd hk (Nat.not_lt_zero k), ?_⟩
    · simp only [rootDistCa, ofScientific_eq]; norm_num
    · simp only [sumFirst, zero_eq]; norm_num
  | succ n ih =>
    obtain ⟨S, hS0, hca, hzero, hsum⟩ := ih (by omega)
    obtain ⟨a, ha0, ha⟩ := rootDistRaw_nonneg m c r hc hr hdpois n
    refine ⟨S + a, by linarith, rootDistCa_succ m _ _ n S a hca ha, ?_, ?_⟩
    · intro hSa k hk
      have hS : S = 0 := by linarith
      have ha2 : a = 0 := by linarith
      rcases Nat.lt_succ_iff_lt_or_eq.mp hk with h | h
      · exact hzero hS k h
      · rw [h, ha, ha2]
    · have hlt : n < N := by omega
      simp only [sumFirst, hsum, if_pos hlt, ha, fin_div_of_ne _ _ hT, fin_add]
      congr 1
      ring

/-- C19 (amended): for every layer count and every Poisson factor `rfl > 0`
that is a number, over a library whose Poisson density `dpois` at a positive
mean is a number that is not negative (it can be 0): either the sum `ca` of the
Poisson terms is positive and the fractions `rootDist` returns for the layers
`0 .. layer-1` sum to 1, or `ca` is 0 and every one of these fractions is NaN,
whatever the depths and the rooting depth are. -/
theorem rootDist_sum_one_or_nan (m : Libm) (layer : ℤ) (rootDepth : Dbl) (depthsp : Arr)
    (rfl : Dbl) (hfin : rfl.Finite) (hrfl : 0 < rfl)
    (hdpois : ∀ (n : ℕ) (l : ℚ), 0 < l →
      ∃ q : ℚ, 0 ≤ q ∧ m.dpois (ofInt ((n : ℤ) + 1)) (fin l) = fin q) :
    (0 < rootDistCa m (rootDistCum rootDepth depthsp layer.toNat).2 rfl layer.toNat
        ∧ sumFirst (rootDist m layer rootDepth depthsp rfl) layer.toNat = 1)
      ∨ (rootDistCa m (rootDistCum rootDepth depthsp layer.toNat).2 rfl layer.toNat = 0
        ∧ ∀ k : ℕ, k < layer.toNat → rootDist m layer rootDepth depthsp rfl k = nan) := by
  obtain ⟨r, hr⟩ := (finite_iff rfl).mp hfin
  subst hr
  have hr0 : 0 < r := (zero_lt_fin r).mp hrfl
  obtain ⟨c, hc, hC⟩ := rootDistCum_count rootDepth depthsp layer.toNat
  obtain ⟨S, hS0, hca, hzero, _⟩ :=
    rootDist_partial_sums m c r hc hr0 hdpois layer.toNat 1 one_ne_zero layer.toNat (le_refl _)
  rw [hC, hca]
  by_cases hS : S = 0
  · right
    refine ⟨by rw [hS, zero_eq], ?_⟩
    intro k hk
    simp only [rootDist, hC, hca, if_pos hk, hzero hS k hk, hS]
    exact Eq.refl _
  · left
    have hpos : 0 < S := lt_of_le_of_ne hS0 (Ne.symm hS)
    refine ⟨(zero_lt_fin _).2 hpos, ?_⟩
    obtain ⟨S2, _, hca2, _, hsum⟩ :=
      rootDist_partial_sums m c r hc hr0 hdpois layer.toNat S hS layer.toNat (le_refl _)
    have hSS : S2 = S := by
      rw [hca] at hca2
      injection hca2 with h
      exact h.symm
    subst hSS
    simp only [rootDist, hC, hca]
    rw [hsum, div_self hS, one_eq]

theorem refLibm_dpois_nonneg (n : ℕ) (l : ℚ) (hl : 0 < l) :
    ∃ q : ℚ, 0 ≤ q ∧ refLibm.dpois (ofInt ((n : ℤ) + 1)) (fin l) = fin q := by
  have h1 : ¬ l < 0 := not_lt.mpr (le_of_lt hl)
  have h2 : ¬ (((((n : ℤ) + 1 : ℤ) : ℚ) < 0) ∨ ((((n : ℤ) + 1 : ℤ) : ℚ)).den ≠ 1) := by
    rw [not_or]
    refine ⟨?_, ?_⟩
    · have : (0 : ℚ) ≤ (((n : ℤ) + 1 : ℤ) : ℚ) := by positivity
      exact not_lt.mpr this
    · simp only [Rat.intCast_den, ne_eq, not_true_eq_false, not_false_eq_true]
  have h3 : refLibm.dpois (ofInt ((n : ℤ) + 1)) (fin l)
      = fin (l ^ ((((n : ℤ) + 1 : ℤ) : ℚ)).num.toNat * Ref.expQ (-l)
        / ((((((n : ℤ) + 1 : ℤ) : ℚ)).num.toNat.factorial : ℕ) : ℚ)) := by
    simp only [refLibm, ofInt, Ref.dpois, if_neg h1, if_neg h2]
  refine ⟨_, ?_, h3⟩
  have := expQ_pos (-l)
  positivity

set_option maxRecDepth 100000 in
set_option maxHeartbeats 4000000 in
theorem rootDist_three_layers_ca :
    0 < rootDistCa refLibm (rootDistCum 0.7 (fun i => fin (3 * i / 10)) (3 : ℤ).toNat).2 0.2
      (3 : ℤ).toNat := by
  have h3 : Int.toNat 3 = 3 := Eq.refl _
  have h2 : Int.toNat 2 = 2 := Eq.refl _
  simp only [h3, rootDistCum, rootDistCa, refLibm, Ref.dpois, ofInt_eq,
    ofScientific_eq, ofNat_eq, zero_eq, one_eq, fin_add, fin_sub, fin_mul, fin_lt]
  norm_num [Ref.expQ, Ref.taylor4, fin_div, fin_add, fin_lt, fin_mul, h2, h3, Nat.factorial]

/-- C19 (amended) for three layers of 0.3 m, a rooting depth of 0.7 m and
`rfl = 0.2`, with the reference library functions: the sum of the Poisson terms
is positive and the three fractions sum to 1. -/
theorem rootDist_sum_one_or_nan_witness :
    (1 : ℤ) ≤ 3 ∧ (0.2 : Dbl).Finite ∧ (0 : Dbl) < 0.2
      ∧ sumFirst (rootDist refLibm 3 0.7 (fun i => fin (3 * i / 10)) 0.2) (3 : ℤ).toNat = 1 := by
  have hr : (0 : Dbl) < 0.2 := by simp only [zero_eq, ofScientific_eq, fin_lt]; norm_num
  refine ⟨by decide, trivial, hr, ?_⟩
  rcases rootDist_sum_one_or_nan refLibm 3 0.7 (fun i => fin (3 * i / 10)) 0.2
    trivial hr refLibm_dpois_nonneg with h | h
  · exact h.2
  · have hp := rootDist_three_layers_ca
    rw [h.1] at hp
    exact absurd hp (dbl_lt_irrefl 0)

set_option maxRecDepth 1000000 in
set_option maxHeartbeats 4000000 in
theorem dpois_underflow : (800 : ℚ) * Ref.expFine (-800) < 1 / 2 ^ 1075 := by
  have t : (2 : ℚ) ^ 17 ≤ Ref.taylor4 (-(-800) / 1024) ^ 16 := by
    norm_num [Ref.taylor4]
  have t0 : (0 : ℚ) < Ref.taylor4 (-(-800) / 1024) ^ 16 := lt_of_lt_of_le (by norm_num) t
  have e : Ref.taylor4 (-(-800) / 1024) ^ 1024 = (Ref.taylor4 (-(-800) / 1024) ^ 16) ^ 64 := by
    rw [← pow_mul]
  have p : ((2 : ℚ) ^ 17) ^ 64 ≤ (Ref.taylor4 (-(-800) / 1024) ^ 16) ^ 64 :=
    pow_le_pow_left₀ (by norm_num) t 64
  have big : (800 : ℚ) * 2 ^ 1075 < ((2 : ℚ) ^ 17) ^ 64 := by norm_num
  have pos : (0 : ℚ) < (Ref.taylor4 (-(-800) / 1024) ^ 16) ^ 64 := pow_pos t0 64
  simp only [Ref.expFine]
  rw [e, mul_one_div, div_lt_div_iff₀ pos (by positivity)]
  calc (800 : ℚ) * 2 ^ 1075 < ((2 : ℚ) ^ 17) ^ 64 := big
    _ ≤ (Ref.taylor4 (-(-800) / 1024) ^ 16) ^ 64 := p
    _ = 1 * (Ref.taylor4 (-(-800) / 1024) ^ 16) ^ 64 := (one_mul _).symm

/-- C19 (counterexample): for one layer and `rfl = 800`, over a library whose
`dpois` underflows as a `double` does, the only Poisson term `dpois(1, 800)` is
0, so `ca = 0` and the fraction returned for the layer is `0 / 0`, NaN: the
fractions do not sum to 1. -/
theorem rootDist_underflow_nan :
    underflowLibm.dpois 1 800 = 0
    ∧ rootDist underflowLibm 1 0.5 (fun i => fin i) 800 0 = nan
    ∧ sumFirst (rootDist underflowLibm 1 0.5 (fun i => fin i) 800) (1 : ℤ).toNat ≠ 1 := by
  have hu := dpois_underflow
  have d : underflowLibm.dpois 1 800 = 0 := by
    have f : Ref.flush (800 * Ref.expFine (-800)) = 0 := by
      simp only [Ref.flush, if_pos hu]
    simp only [underflowLibm, Ref.dpoisFlush, one_eq, ofNat_eq, zero_eq]
    norm_num [f]
  have d2 : underflowLibm.dpois (ofInt ((0 : ℕ) + 1)) (1.0 * 800) = fin 0 := by
    have a1 : ofInt ((0 : ℕ) + 1) = (1 : Dbl) := by
      simp only [ofInt_eq, one_eq]
      norm_num
    have a2 : (1.0 : Dbl) * 800 = 800 := by
      simp only [ofScientific_eq, ofNat_eq, fin_mul]
      norm_num
    rw [a1, a2, d, zero_eq]
  have h1 : Int.toNat 1 = 1 := Eq.refl _
  have c : (rootDistCum 0.5 (fun i => fin i) 1).2 = 1.0 := by
    simp only [rootDistCum, ofScientific_eq, zero_eq, one_eq, fin_add, fin_lt]
    norm_num
  have lt0 : ofInt ((0 : ℕ) : ℤ) < (1.0 : Dbl) := by
    simp only [ofInt_eq, ofScientific_eq, fin_lt]
    norm_num
  have r : rootDist underflowLibm 1 0.5 (fun i => fin i) 800 0 = nan := by
    simp only [rootDist, h1, c, rootDistCa, rootDistRaw, if_pos lt0, Nat.lt_one_iff, if_true]
    rw [d2, zero_point_eq, fin_add, add_zero]
    exact Eq.refl _
  refine ⟨d, r, ?_⟩
  simp only [h1, sumFirst, r]
  intro h
  simp at h

/-! ## `cos_zenith_angle` in `double` arithmetic -/

theorem roundEven_eq (x : ℚ) (n : ℤ) (h1 : (n : ℚ) - 1 / 2 < x) (h2 : x < n + 1 / 2) :
    roundEven x = n := by
  by_cases h : (n : ℚ) ≤ x
  · have hf : ⌊x⌋ = n := by
      rw [Int.floor_eq_iff]
      exact ⟨h, by linarith⟩
    have hlt : x - ((n : ℤ) : ℚ) < 1 / 2 := by linarith
    unfold roundEven
    rw [hf, if_pos hlt]
  · have h' : x < n := not_le.mp h
    have hf : ⌊x⌋ = n - 1 := by
      rw [Int.floor_eq_iff]
      push_cast
      exact ⟨by linarith, by linarith⟩
    have hge : ¬ (x - ((n - 1 : ℤ) : ℚ) < 1 / 2) := by
      push_cast; linarith
    have hgt : 1 / 2 < x - ((n - 1 : ℤ) : ℚ) := by
      push_cast; linarith
    unfold roundEven
    rw [hf, if_neg hge, if_pos hgt]
    ring

theorem log2_eq (q : ℚ) (k : ℤ) (h1 : (2 : ℚ) ^ k ≤ q) (h2 : q < (2 : ℚ) ^ (k + 1)) :
    Int.log 2 q = k := by
  have hq : 0 < q := lt_of_lt_of_le (by positivity) h1
  have a : k ≤ Int.log 2 q := by
    have := (Int.zpow_le_iff_le_log (b := 2) (by norm_num) hq (x := k)).1 (by exact_mod_cast h1)
    exact this
  have b : Int.log 2 q < k + 1 := by
    have := (Int.lt_zpow_iff_log_lt (b := 2) (by norm_num) hq (x := k + 1)).1
      (by exact_mod_cast h2)
    exact this
  omega

theorem rnPos_eq (q : ℚ) (n e : ℤ) (hlo : (2 : ℚ) ^ (e + 52) ≤ q)
    (hhi : q < (2 : ℚ) ^ (e + 52 + 1))
    (h1 : ((n : ℚ) - 1 / 2) * 2 ^ e < q) (h2 : q < ((n : ℚ) + 1 / 2) * 2 ^ e) :
    rnPos q = dbl n e := by
  have hl : Int.log 2 q = e + 52 := log2_eq q (e + 52) hlo hhi
  have he : Int.log 2 q - 52 = e := by omega
  have hp : (0 : ℚ) < 2 ^ e := by positivity
  have hr : roundEven (q / 2 ^ e) = n := by
    apply roundEven_eq
    · rw [lt_div_iff₀ hp]; exact h1
    · rw [div_lt_iff₀ hp]; exact h2
  simp only [rnPos, he, hr]

theorem rn_eq_pos (q : ℚ) (n e : ℤ)
    (h : (2 : ℚ) ^ (e + 52) ≤ q ∧ q < (2 : ℚ) ^ (e + 52 + 1)
      ∧ ((n : ℚ) - 1 / 2) * 2 ^ e < q ∧ q < ((n : ℚ) + 1 / 2) * 2 ^ e) :
    rn q = dbl n e := by
  have hq : 0 < q := lt_of_lt_of_le (by positivity) h.1
  simp only [rn, if_neg (ne_of_gt hq), if_pos hq]
  exact rnPos_eq q n e h.1 h.2.1 h.2.2.1 h.2.2.2

theorem rn_eq_neg (q : ℚ) (n e : ℤ)
    (h : (2 : ℚ) ^ (e + 52) ≤ -q ∧ -q < (2 : ℚ) ^ (e + 52 + 1)
      ∧ ((n : ℚ) - 1 / 2) * 2 ^ e < -q ∧ -q < ((n : ℚ) + 1 / 2) * 2 ^ e) :
    rn q = dbl (-n) e := by
  have hq : 0 < -q := lt_of_lt_of_le (by positivity) h.1
  have hq2 : q < 0 := by linarith
  simp only [rn, if_neg (ne_of_lt hq2), if_neg (not_lt.mpr (le_of_lt hq2))]
  rw [rnPos_eq (-q) n e h.1 h.2.1 h.2.2.1 h.2.2.2]
  simp only [dbl]
  push_cast
  ring

theorem rn_zero : rn 0 = 0 := by
  simp only [rn, if_true]

theorem zenith_lat : rn (-2.120913) = dbl (-4775871498242620) (-51) := by
  apply rn_eq_neg _ 4775871498242620 (-51)
  norm_num [dbl]

theorem zenith_pi : rn 3.14159265358979323846 = dbl 7074237752028440 (-51) := by
  apply rn_eq_pos
  norm_num [dbl]

theorem zenith_rpd : rn (dbl 7074237752028440 (-51) / 180) = dbl 5030569068109113 (-58) := by
  apply rn_eq_pos
  norm_num [dbl]

theorem zenith_rrh : rn (15 * dbl 5030569068109113 (-58)) = dbl 4716158501352293 (-54) := by
  apply rn_eq_pos
  norm_num [dbl]

theorem zenith_tilt : rn (23.5 * dbl 5030569068109113 (-58)) = dbl 7388648318785260 (-54) := by
  apply rn_eq_pos
  norm_num [dbl]

theorem zenith_phi :
    rn (dbl (-4775871498242620) (-51) * dbl 5030569068109113 (-58))
      = dbl (-5334699666975251) (-57) := by
  apply rn_eq_neg _ 5334699666975251 (-57)
  norm_num [dbl]

theorem zenith_year : rn (((269 + 10 : ℤ) : ℚ) / 365.0) = dbl 6884955046774621 (-53) := by
  apply rn_eq_pos
  norm_num [dbl]

theorem zenith_turn : rn (360.0 * dbl 6884955046774621 (-53)) = dbl 4840984017263405 (-44) := by
  apply rn_eq_pos
  norm_num [dbl]

theorem zenith_omega :
    rn (dbl 4840984017263405 (-44) * dbl 5030569068109113 (-58))
      = dbl 5407431048810780 (-50) := by
  apply rn_eq_pos
  norm_num [dbl]

set_option maxRecDepth 1000000 in
set_option maxHeartbeats 4000000 in
theorem zenith_cos_omega : Ref.cosCR (dbl 5407431048810780 (-50)) = dbl 6503313876886115 (-56) := by
  unfold Ref.cosCR
  apply rn_eq_pos
  norm_num [dbl, Ref.cosHorner]

theorem zenith_delta :
    rn (-dbl 7388648318785260 (-54) * dbl 6503313876886115 (-56))
      = dbl (-5334699253788094) (-57) := by
  apply rn_eq_neg _ 5334699253788094 (-57)
  norm_num [dbl]

set_option maxRecDepth 1000000 in
set_option maxHeartbeats 4000000 in
theorem zenith_sin_delta :
    Ref.sinCR (dbl (-5334699253788094) (-57))
      = dbl (-5333481023727152) (-57) := by
  unfold Ref.sinCR
  apply rn_eq_neg _ 5333481023727152 (-57)
  norm_num [dbl, Ref.sinHorner]

set_option maxRecDepth 1000000 in
set_option maxHeartbeats 4000000 in
theorem zenith_sin_phi :
    Ref.sinCR (dbl (-5334699666975251) (-57))
      = dbl (-5333481436631257) (-57) := by
  unfold Ref.sinCR
  apply rn_eq_neg _ 5333481436631257 (-57)
  norm_num [dbl, Ref.sinHorner]

set_option maxRecDepth 1000000 in
set_option maxHeartbeats 4000000 in
theorem zenith_cos_delta :
    Ref.cosCR (dbl (-5334699253788094) (-57))
      = dbl 9001028893945623 (-53) := by
  unfold Ref.cosCR
  apply rn_eq_pos
  norm_num [dbl, Ref.cosHorner]

set_option maxRecDepth 1000000 in
set_option maxHeartbeats 4000000 in
theorem zenith_cos_phi :
    Ref.cosCR (dbl (-5334699666975251) (-57))
      = dbl 9001028892989909 (-53) := by
  unfold Ref.cosCR
  apply rn_eq_pos
  norm_num [dbl, Ref.cosHorner]

theorem zenith_first :
    rn (dbl (-5333481023727152) (-57) * dbl (-5333481436631257) (-57))
      = dbl 6316285723933798 (-62) := by
  apply rn_eq_pos
  norm_num [dbl]

theorem zenith_second :
    rn (dbl 9001028893945623 (-53) * dbl 9001028892989909 (-53))
      = dbl 8994862759186435 (-53) := by
  apply rn_eq_pos
  norm_num [dbl]

theorem zenith_third :
    rn (dbl 8994862759186435 (-53) * dbl 4503599627370496 (-52))
      = dbl 8994862759186435 (-53) := by
  apply rn_eq_pos
  norm_num [dbl]

theorem zenith_sum :
    rn (dbl 6316285723933798 (-62) + dbl 8994862759186435 (-53))
      = dbl 4503599627370497 (-52) := by
  apply rn_eq_pos
  norm_num [dbl]

theorem zenith_tau : rn (((12 - 12 : ℤ) : ℚ) * dbl 4716158501352293 (-54)) = 0 := by
  have h : ((12 - 12 : ℤ) : ℚ) * dbl 4716158501352293 (-54) = 0 := by norm_num
  rw [h, rn_zero]

set_option maxRecDepth 1000000 in
theorem zenith_cos_tau : Ref.cosCR 0 = dbl 4503599627370496 (-52) := by
  unfold Ref.cosCR
  apply rn_eq_pos
  norm_num [dbl, Ref.cosHorner]

theorem zenith_value :
    cos_zenith_angle_rn Ref.sinCR Ref.cosCR (dbl (-4775871498242620) (-51)) 269 12
      = dbl 4503599627370497 (-52) := by
  unfold cos_zenith_angle_rn
  simp only []
  rw [zenith_pi, zenith_rpd, zenith_rrh, zenith_tilt, zenith_phi, zenith_year, zenith_turn,
    zenith_omega, zenith_cos_omega, zenith_delta, zenith_tau, zenith_cos_tau, zenith_sin_delta,
    zenith_sin_phi, zenith_cos_delta, zenith_cos_phi, zenith_first, zenith_second, zenith_third,
    zenith_sum]

/-- C39 (code defect): the call `cos_zenith_angle(-2.120913, 269, 12)` in
`double` arithmetic, with every operation rounded to nearest and the sine and
cosine of the library correctly rounded.  The latitude is close to the solar
declination of day 269, so at noon the exact value is just below 1; the rounded
sum `sin(delta) * sin(phi) + cos(delta) * cos(phi) * cos(tau)` is
`1 + 2 ^ (-52)` (1.0000000000000002), above 1, and `sunML` called with this
`cosTheta` throws `out_of_range`. -/
theorem cos_zenith_angle_rn_above_one :
    rn (-2.120913) = dbl (-4775871498242620) (-51)
    ∧ cos_zenith_angle_rn Ref.sinCR Ref.cosCR (rn (-2.120913)) 269 12 = 1 + 1 / 2 ^ 52
    ∧ (1 : Dbl) < fin (cos_zenith_angle_rn Ref.sinCR Ref.cosCR (rn (-2.120913)) 269 12)
    ∧ sunML refLibm 1000 200 3 10
        (fin (cos_zenith_angle_rn Ref.sinCR Ref.cosCR (rn (-2.120913)) 269 12)) 0.7 1 3
      = Except.error
        (Exception.out_of_range "cosTheta must be positive but no more than 1.") := by
  have v : cos_zenith_angle_rn Ref.sinCR Ref.cosCR (rn (-2.120913)) 269 12
      = 1 + 1 / 2 ^ 52 := by
    rw [zenith_lat, zenith_value]
    norm_num [dbl]
  have g : (1 : Dbl)
      < fin (cos_zenith_angle_rn Ref.sinCR Ref.cosCR (rn (-2.120913)) 269 12) := by
    rw [v, one_eq, fin_lt]
    norm_num
  have hn : ¬ ((10 : ℤ) < 1 ∨ MAXLAY < 10) := by
    simp only [MAXLAY]
    norm_num
  refine ⟨zenith_lat, v, g, ?_⟩
  simp only [sunML, if_neg hn, if_pos (Or.inl g)]

end BioCro
